import Mathlib

/-!
# Frame orchestration of `Application` (VulkanTutorial)

A shallow embedding of the swapchain selection functions, of the start-up, of the
swapchain recreation and of the per-frame protocol of `src/src/Application.cpp`, of the
descriptor sets of `src/src/ParticleRenderer.cpp` and of the vertex deduplication of
`src/src/MeshRenderer.cpp`.  Calls into Vulkan and GLFW are recorded as events; what
those calls return is supplied by an explicit environment.
-/

set_option linter.unusedTactic false
set_option linter.unreachableTactic false

namespace VulkanTutorial

/-! ## Machine integers -/

/-- The value `std::numeric_limits<uint32_t>::max()`. -/
def UINT32_MAX : Nat := 4294967295

/-- The conversion `static_cast<uint32_t>(x)` of a C++ `int`. -/
def toUint32 (x : Int) : Nat := (x % 4294967296).toNat

/-- The function `std::clamp(v, lo, hi)`: `(v < lo) ? lo : (hi < v) ? hi : v`. -/
def clamp (v lo hi : Nat) : Nat :=
  if v < lo then lo else if hi < v then hi else v

/-! ## Surface capabilities -/

/-- The Vulkan record `VkExtent2D` (two `uint32_t`). -/
structure VkExtent2D where
  width : Nat
  height : Nat
deriving DecidableEq, Repr

/-- The fields of `VkSurfaceCapabilitiesKHR` read by `Application` (all `uint32_t`). -/
structure VkSurfaceCapabilitiesKHR where
  minImageCount : Nat
  maxImageCount : Nat
  currentExtent : VkExtent2D
  minImageExtent : VkExtent2D
  maxImageExtent : VkExtent2D
deriving DecidableEq, Repr

/-- The local `imageCount` of `Application::createSwapChain`
(the value stored in `createInfo.minImageCount`). -/
def imageCount (capabilities : VkSurfaceCapabilitiesKHR) : Nat :=
  let imageCount := (capabilities.minImageCount + 1) % 4294967296
  if capabilities.maxImageCount > 0 ∧ imageCount > capabilities.maxImageCount then
    capabilities.maxImageCount
  else
    imageCount

/-- The function `Application::chooseSwapExtent`; `width` and `height` are what
`glfwGetFramebufferSize` reports. -/
def chooseSwapExtent (capabilities : VkSurfaceCapabilitiesKHR) (width height : Int) :
    VkExtent2D :=
  if capabilities.currentExtent.width ≠ UINT32_MAX then
    capabilities.currentExtent
  else
    let actualExtent : VkExtent2D := ⟨toUint32 width, toUint32 height⟩
    let actualExtent : VkExtent2D :=
      { actualExtent with
        width := clamp actualExtent.width capabilities.minImageExtent.width
          capabilities.maxImageExtent.width }
    let actualExtent : VkExtent2D :=
      { actualExtent with
        height := clamp actualExtent.height capabilities.minImageExtent.height
          capabilities.maxImageExtent.height }
    actualExtent

/-! ## Result codes and handles -/

/-- The C enum `VkResult`, by its signed 32-bit value. -/
abbrev VkResult := Int

def VK_SUCCESS : VkResult := 0
def VK_NOT_READY : VkResult := 1
def VK_TIMEOUT : VkResult := 2
def VK_ERROR_OUT_OF_HOST_MEMORY : VkResult := -1
def VK_ERROR_OUT_OF_DEVICE_MEMORY : VkResult := -2
def VK_ERROR_DEVICE_LOST : VkResult := -4
def VK_ERROR_SURFACE_LOST_KHR : VkResult := -1000000000
def VK_SUBOPTIMAL_KHR : VkResult := 1000001003
def VK_ERROR_OUT_OF_DATE_KHR : VkResult := -1000001004

/-- The constant `Application::MAX_FRAMES_IN_FLIGHT`. -/
def MAX_FRAMES_IN_FLIGHT : Nat := 2

/-- An object handle returned by a Vulkan creation call. -/
abbrev Handle := Nat

/-- A fence, named by the vector of `Application` that holds it and its slot. -/
inductive VkFence where
  | VK_NULL_HANDLE
  | inFlightFences (slot : Nat)
  | computeInFlightFences (slot : Nat)
deriving DecidableEq, Repr

/-- A semaphore, named by the vector of `Application` that holds it and its slot. -/
inductive VkSemaphore where
  | imageAvailableSemaphores (slot : Nat)
  | renderFinishedSemaphores (slot : Nat)
  | computeFinishedSemaphores (slot : Nat)
deriving DecidableEq, Repr

/-- A command buffer: an entry of `commandBuffers` or of `computeCommandBuffers`, or a
one-shot buffer allocated by `beginSingleTimeCommands`. -/
inductive VkCommandBuffer where
  | commandBuffers (slot : Nat)
  | computeCommandBuffers (slot : Nat)
  | singleTime (handle : Handle)
deriving DecidableEq, Repr

/-- The pipeline stages named in `Application` and in the renderers' constructors. -/
inductive VkPipelineStageFlagBits where
  | VK_PIPELINE_STAGE_NONE
  | VK_PIPELINE_STAGE_TOP_OF_PIPE_BIT
  | VK_PIPELINE_STAGE_VERTEX_INPUT_BIT
  | VK_PIPELINE_STAGE_FRAGMENT_SHADER_BIT
  | VK_PIPELINE_STAGE_EARLY_FRAGMENT_TESTS_BIT
  | VK_PIPELINE_STAGE_COLOR_ATTACHMENT_OUTPUT_BIT
  | VK_PIPELINE_STAGE_TRANSFER_BIT
deriving DecidableEq, Repr

/-- The enum `VkFormat`, by its value. -/
abbrev VkFormat := Nat

def VK_FORMAT_UNDEFINED : VkFormat := 0
def VK_FORMAT_B8G8R8A8_UNORM : VkFormat := 44
def VK_FORMAT_B8G8R8A8_SRGB : VkFormat := 50
def VK_FORMAT_D32_SFLOAT : VkFormat := 126
def VK_FORMAT_D24_UNORM_S8_UINT : VkFormat := 129
def VK_FORMAT_D32_SFLOAT_S8_UINT : VkFormat := 130

/-- The enum `VkColorSpaceKHR`, by its value. -/
abbrev VkColorSpaceKHR := Nat

def VK_COLOR_SPACE_SRGB_NONLINEAR_KHR : VkColorSpaceKHR := 0

/-- The enum `VkPresentModeKHR`, by its value. -/
abbrev VkPresentModeKHR := Nat

def VK_PRESENT_MODE_IMMEDIATE_KHR : VkPresentModeKHR := 0
def VK_PRESENT_MODE_MAILBOX_KHR : VkPresentModeKHR := 1
def VK_PRESENT_MODE_FIFO_KHR : VkPresentModeKHR := 2
def VK_PRESENT_MODE_FIFO_RELAXED_KHR : VkPresentModeKHR := 3

/-- The record `VkSurfaceFormatKHR`. -/
structure VkSurfaceFormatKHR where
  format : VkFormat
  colorSpace : VkColorSpaceKHR
deriving DecidableEq, Repr

/-- The record `SwapChainSupportDetails` of `Application.h`. -/
structure SwapChainSupportDetails where
  capabilities : VkSurfaceCapabilitiesKHR
  formats : List VkSurfaceFormatKHR
  presentModes : List VkPresentModeKHR
deriving DecidableEq, Repr

/-- The function `Application::chooseSwapChainSurfaceFormat`; `none` stands for the
out-of-range read `availableFormats[0]` of an empty vector. -/
def chooseSwapChainSurfaceFormat (availableFormats : List VkSurfaceFormatKHR) :
    Option VkSurfaceFormatKHR :=
  match availableFormats.find? (fun availableFormat =>
      availableFormat.format = VK_FORMAT_B8G8R8A8_SRGB ∧
        availableFormat.colorSpace = VK_COLOR_SPACE_SRGB_NONLINEAR_KHR) with
  | some availableFormat => some availableFormat
  | none => availableFormats[0]?

/-- The function `Application::chooseSwapChainPresentMode`. -/
def chooseSwapChainPresentMode (availablePresentModes : List VkPresentModeKHR) :
    VkPresentModeKHR :=
  match availablePresentModes.find? (fun availablePresentMode =>
      availablePresentMode = VK_PRESENT_MODE_MAILBOX_KHR) with
  | some availablePresentMode => availablePresentMode
  | none => VK_PRESENT_MODE_FIFO_KHR

/-! ## The renderers -/

/-- The two renderer objects owned by `Application`. -/
inductive Renderer where
  | meshDrawer
  | particleDrawer
deriving DecidableEq, Repr

/-- The field `Renderer::needCompute`: `false` by default (`Renderer.h`), set to `true`
by the constructor of `ParticleRenderer`. -/
def Renderer.needCompute : Renderer → Bool
  | .meshDrawer => false
  | .particleDrawer => true

/-- The field `Renderer::graphicsWaitComputeStage`: `VK_PIPELINE_STAGE_NONE` by default,
set to `VK_PIPELINE_STAGE_VERTEX_INPUT_BIT` by the constructor of `ParticleRenderer`. -/
def Renderer.graphicsWaitComputeStage : Renderer → VkPipelineStageFlagBits
  | .meshDrawer => .VK_PIPELINE_STAGE_NONE
  | .particleDrawer => .VK_PIPELINE_STAGE_VERTEX_INPUT_BIT

/-- The table `Application::Renderers`. -/
def Renderers : List String := ["Mesh", "Particle"]

/-! ## Recorded calls -/

/-- The enum `VkImageLayout`, by its value. -/
abbrev VkImageLayout := Nat

def VK_IMAGE_LAYOUT_UNDEFINED : VkImageLayout := 0
def VK_IMAGE_LAYOUT_COLOR_ATTACHMENT_OPTIMAL : VkImageLayout := 2
def VK_IMAGE_LAYOUT_DEPTH_STENCIL_ATTACHMENT_OPTIMAL : VkImageLayout := 3
def VK_IMAGE_LAYOUT_SHADER_READ_ONLY_OPTIMAL : VkImageLayout := 5
def VK_IMAGE_LAYOUT_TRANSFER_DST_OPTIMAL : VkImageLayout := 7
def VK_IMAGE_LAYOUT_PRESENT_SRC_KHR : VkImageLayout := 1000001002

def VK_IMAGE_ASPECT_COLOR_BIT : Nat := 1
def VK_IMAGE_ASPECT_DEPTH_BIT : Nat := 2
def VK_IMAGE_ASPECT_STENCIL_BIT : Nat := 4

def VK_IMAGE_USAGE_COLOR_ATTACHMENT_BIT : Nat := 16
def VK_IMAGE_USAGE_DEPTH_STENCIL_ATTACHMENT_BIT : Nat := 32
def VK_IMAGE_USAGE_TRANSIENT_ATTACHMENT_BIT : Nat := 64

def VK_MEMORY_PROPERTY_DEVICE_LOCAL_BIT : Nat := 1

def VK_FORMAT_FEATURE_DEPTH_STENCIL_ATTACHMENT_BIT : Nat := 512

def VK_FENCE_CREATE_SIGNALED_BIT : Nat := 1

/-- The enum `VkImageTiling`. -/
inductive VkImageTiling where
  | VK_IMAGE_TILING_OPTIMAL
  | VK_IMAGE_TILING_LINEAR
deriving DecidableEq, Repr

/-- The record `VkFormatProperties`: the two feature masks `Application` reads. -/
structure VkFormatProperties where
  linearTilingFeatures : Nat
  optimalTilingFeatures : Nat
deriving DecidableEq, Repr

/-- The fields of `VkSubmitInfo` that `Application` fills in. -/
structure VkSubmitInfo where
  waitSemaphores : List VkSemaphore
  waitDstStageMask : List VkPipelineStageFlagBits
  commandBuffers : List VkCommandBuffer
  signalSemaphores : List VkSemaphore
deriving DecidableEq, Repr

/-- The fields of `VkPresentInfoKHR` that `Application::drawFrame` fills in. -/
structure VkPresentInfoKHR where
  waitSemaphores : List VkSemaphore
  swapchains : List Handle
  imageIndices : List Nat
deriving DecidableEq, Repr

/-- The fields of `VkSwapchainCreateInfoKHR` that `createSwapChain` computes from the
surface query. -/
structure VkSwapchainCreateInfoKHR where
  minImageCount : Nat
  imageFormat : VkFormat
  imageColorSpace : VkColorSpaceKHR
  imageExtent : VkExtent2D
  presentMode : VkPresentModeKHR
  oldSwapchain : Handle
deriving DecidableEq, Repr

/-- The fields of `VkImageCreateInfo` that `createImage` takes from its arguments. -/
structure VkImageCreateInfo where
  width : Nat
  height : Nat
  mipLevels : Nat
  format : VkFormat
  tiling : VkImageTiling
  usage : Nat
  samples : Nat
deriving DecidableEq, Repr

/-- The fields of `VkImageViewCreateInfo` that `createImageView` takes from its arguments. -/
structure VkImageViewCreateInfo where
  image : Handle
  format : VkFormat
  aspectMask : Nat
  levelCount : Nat
deriving DecidableEq, Repr

/-- The fields of `VkFramebufferCreateInfo` filled in by `createFramebuffers`. -/
structure VkFramebufferCreateInfo where
  renderPass : Handle
  attachments : List Handle
  width : Nat
  height : Nat
deriving DecidableEq, Repr

/-- The attachment formats and the subpass attachment indices given to
`vkCreateRenderPass` by `createRenderPass`. -/
structure VkRenderPassCreateInfo where
  attachments : List VkFormat
  colorAttachment : Nat
  depthStencilAttachment : Nat
  resolveAttachment : Nat
deriving DecidableEq, Repr

/-- The image memory barrier recorded by `transitionImageLayout`. -/
structure VkImageMemoryBarrier where
  image : Handle
  oldLayout : VkImageLayout
  newLayout : VkImageLayout
  aspectMask : Nat
  levelCount : Nat
deriving DecidableEq, Repr

/-- A call that `Application` makes into Vulkan, GLFW, ImGui or a renderer, or to its own
`recreateSwapChain`.  A creation call is recorded when it succeeds, with the handle it
hands back; every other call is recorded when it is issued, whatever it returns. -/
inductive Call where
  | recreateSwapChain
  | glfwGetFramebufferSize (width height : Int)
  | glfwWaitEvents
  | vkDeviceWaitIdle
  | vkWaitForFences (fence : VkFence)
  | vkResetFences (fence : VkFence)
  | vkAcquireNextImageKHR (swapchain : Handle) (semaphore : VkSemaphore)
  | ImGui_NewFrame
  | ImGui_Render
  | Renderer_update (renderer : Renderer) (frameNum : Nat)
  | Renderer_compute (renderer : Renderer) (commandBuffer : VkCommandBuffer) (frameNum : Nat)
  | Renderer_render (renderer : Renderer) (commandBuffer : VkCommandBuffer) (frameNum : Nat)
  | Renderer_createPipeline (renderer : Renderer)
  | ImGui_ImplVulkan_RenderDrawData (commandBuffer : VkCommandBuffer)
  | vkAllocateCommandBuffers (commandBuffer : VkCommandBuffer)
  | vkFreeCommandBuffers (commandBuffer : VkCommandBuffer)
  | vkResetCommandBuffer (commandBuffer : VkCommandBuffer)
  | vkBeginCommandBuffer (commandBuffer : VkCommandBuffer)
  | vkEndCommandBuffer (commandBuffer : VkCommandBuffer)
  | vkCmdBeginRenderPass (commandBuffer : VkCommandBuffer) (renderPass framebuffer : Handle)
      (renderArea : VkExtent2D)
  | vkCmdEndRenderPass (commandBuffer : VkCommandBuffer)
  | vkCmdPipelineBarrier (commandBuffer : VkCommandBuffer)
      (srcStageMask dstStageMask : VkPipelineStageFlagBits) (barrier : VkImageMemoryBarrier)
  | vkQueueSubmit (submitInfo : VkSubmitInfo) (fence : VkFence)
  | vkQueuePresentKHR (presentInfo : VkPresentInfoKHR)
  | vkCreateSwapchainKHR (createInfo : VkSwapchainCreateInfoKHR) (swapChain : Handle)
  | vkGetSwapchainImagesKHR (swapChain : Handle) (images : List Handle)
  | vkDestroySwapchainKHR (swapChain : Handle)
  | vkCreateImage (createInfo : VkImageCreateInfo) (image : Handle)
  | vkDestroyImage (image : Handle)
  | vkAllocateMemory (memoryTypeIndex : Nat) (memory : Handle)
  | vkBindImageMemory (image memory : Handle)
  | vkFreeMemory (memory : Handle)
  | vkCreateImageView (createInfo : VkImageViewCreateInfo) (imageView : Handle)
  | vkDestroyImageView (imageView : Handle)
  | vkCreateRenderPass (createInfo : VkRenderPassCreateInfo) (renderPass : Handle)
  | vkCreateFramebuffer (createInfo : VkFramebufferCreateInfo) (framebuffer : Handle)
  | vkDestroyFramebuffer (framebuffer : Handle)
  | vkCreateSemaphore (flags : Nat) (semaphore : VkSemaphore)
  | vkCreateFence (flags : Nat) (fence : VkFence)
  | glfwPollEvents
  | vkDestroyRenderPass (renderPass : Handle)
deriving DecidableEq, Repr

/-! ## Program state and execution -/

/-- The fields of `Application` that the swapchain code and `drawFrame` read or write. -/
structure Application where
  currentFrame : Nat
  rendererIndex : Nat
  framebufferResized : Bool
  msaaSamples : Nat
  swapChain : Handle
  swapChainImageFormat : VkFormat
  swapChainExtent : VkExtent2D
  swapChainImages : List Handle
  swapChainImageViews : List Handle
  swapChainFramebuffers : List Handle
  renderPass : Handle
  colorImage : Handle
  colorImageMemory : Handle
  colorImageView : Handle
  depthImage : Handle
  depthImageMemory : Handle
  depthImageView : Handle
deriving DecidableEq, Repr

/-- The ways a function stops without returning: a C++ exception, a call to
`glfwWaitEvents` that never comes back, or an out-of-range vector read. -/
inductive Stop where
  | threw (what : String)
  | blocked
  | undefined
deriving DecidableEq, Repr

/-- What running a function gives: its return value, or how it stopped. -/
inductive Outcome (α : Type) where
  | ok (value : α)
  | stop (how : Stop)
deriving DecidableEq, Repr

/-- The program state, the calls made so far (oldest first) and the next fresh handle. -/
structure World where
  app : Application
  trace : List Call
  nextHandle : Handle
deriving DecidableEq, Repr

/-- A member function of `Application`: it runs on a world and leaves an outcome and a
world; the world is kept when the function stops. -/
def Exec (α : Type) : Type := World → Outcome α × World

/-- Sequencing of two steps; a stop ends the sequence. -/
def Exec.bind {α β : Type} (m : Exec α) (f : α → Exec β) : Exec β := fun w =>
  match m w with
  | (.ok a, w') => f a w'
  | (.stop s, w') => (.stop s, w')

instance : Monad Exec where
  pure a := fun w => (.ok a, w)
  bind := Exec.bind

/-- Record a call. -/
def call (c : Call) : Exec Unit := fun w => (.ok (), { w with trace := w.trace ++ [c] })

/-- The statement `throw std::runtime_error(what)`. -/
def runtime_error {α : Type} (what : String) : Exec α := fun w => (.stop (.threw what), w)

/-- The statement `throw std::invalid_argument(what)`. -/
def invalid_argument {α : Type} (what : String) : Exec α := fun w => (.stop (.threw what), w)

/-- A call that never returns. -/
def blockForever {α : Type} : Exec α := fun w => (.stop .blocked, w)

/-- An out-of-range read of a vector. -/
def outOfRange {α : Type} : Exec α := fun w => (.stop .undefined, w)

/-- Read the fields of `this`. -/
def getApp : Exec Application := fun w => (.ok w.app, w)

/-- Assign to fields of `this`. -/
def modifyApp (f : Application → Application) : Exec Unit := fun w =>
  (.ok (), { w with app := f w.app })

/-- The handle written by a successful creation call: a fresh one. -/
def freshHandle : Exec Handle := fun w => (.ok w.nextHandle, { w with nextHandle := w.nextHandle + 1 })

/-- The handles written by `vkGetSwapchainImagesKHR`: `n` fresh ones. -/
def freshHandles (n : Nat) : Exec (List Handle) := fun w =>
  (.ok ((List.range n).map (fun i => w.nextHandle + i)), { w with nextHandle := w.nextHandle + n })

/-- A `for` loop over the elements of a list. -/
def forEach {ι : Type} : List ι → (ι → Exec Unit) → Exec Unit
  | [], _ => pure ()
  | i :: rest, body => do
    body i
    forEach rest body

/-- The vector operation `v.resize(n)`: keeps the first `n` entries and fills up with
null handles. -/
def resize (v : List Handle) (n : Nat) : List Handle :=
  v.take n ++ List.replicate (n - v.length) 0

/-- The value of a read that is out of range when there is none. -/
def inRange {α : Type} : Option α → Exec α
  | some x => pure x
  | none => outOfRange

/-- The read `v[i]` of a vector. -/
def index {α : Type} (v : List α) (i : Nat) : Exec α :=
  inRange v[i]?

/-- The function `Application::getRenderer`. -/
def getRenderer (app : Application) : Renderer :=
  if Renderers[app.rendererIndex]? = some "Mesh" then .meshDrawer else .particleDrawer

/-! ## What Vulkan and GLFW answer -/

/-- One return of `glfwWaitEvents` inside `recreateSwapChain`: whether GLFW ran
`framebufferResizeCallback` while waiting, and the size `glfwGetFramebufferSize`
reports next. -/
structure WaitEvents where
  framebufferResizeCallback : Bool
  width : Int
  height : Int
deriving DecidableEq, Repr

/-- The answers to the calls of one `createImage`. -/
structure CreateImageEnv where
  vkCreateImage : VkResult
  memoryTypeBits : Nat
  vkAllocateMemory : VkResult
deriving DecidableEq, Repr

/-- The answers to the calls of one `recreateSwapChain`.  `waitEvents` lists the returns
of `glfwWaitEvents` in order; after the last one the call does not return again. -/
structure RecreateEnv where
  width : Int
  height : Int
  waitEvents : List WaitEvents
  supportDetails : SwapChainSupportDetails
  extentWidth : Int
  extentHeight : Int
  vkCreateSwapchainKHR : VkResult
  swapChainImageCount : Nat
  vkCreateImageView : Nat → VkResult
  memoryTypes : List Nat
  formatProperties : VkFormat → VkFormatProperties
  colorImage : CreateImageEnv
  colorImageView : VkResult
  depthImage : CreateImageEnv
  depthImageView : VkResult
  vkAllocateCommandBuffers : VkResult
  singleTimeSubmit : VkResult
  vkCreateRenderPass : VkResult
  createPipeline : Option String
  vkCreateFramebuffer : Nat → VkResult

/-- The answers of ImGui during one `updateData`. -/
structure UpdateEnv where
  BeginCombo : Bool
  Selectable : Nat → Bool

/-- The answers to the calls of one `drawFrame`. -/
structure DrawFrameEnv where
  vkAcquireNextImageKHR : VkResult
  imageIndex : Nat
  updateData : UpdateEnv
  computeEndCommandBuffer : VkResult
  computeQueueSubmit : VkResult
  vkBeginCommandBuffer : VkResult
  vkEndCommandBuffer : VkResult
  vkQueueSubmit : VkResult
  vkQueuePresentKHR : VkResult
  recreateSwapChain : RecreateEnv

/-! ## Swapchain and attachments -/

/-- The conversion of a `uint32_t` to `int`. -/
def toInt (x : Nat) : Int :=
  if x % 4294967296 < 2147483648 then (x % 4294967296 : Nat) else (x % 4294967296 : Nat) - 4294967296

/-- The function `Application::cleanupSwapChain`. -/
def cleanupSwapChain : Exec Unit := do
  let app ← getApp
  call (.vkDestroyImageView app.colorImageView)
  call (.vkDestroyImage app.colorImage)
  call (.vkFreeMemory app.colorImageMemory)
  call (.vkDestroyImageView app.depthImageView)
  call (.vkDestroyImage app.depthImage)
  call (.vkFreeMemory app.depthImageMemory)
  forEach app.swapChainFramebuffers fun swapChainFramebuffer =>
    call (.vkDestroyFramebuffer swapChainFramebuffer)
  forEach (List.range app.swapChainImages.length) fun i => do
    let imageView ← index app.swapChainImageViews i
    call (.vkDestroyImageView imageView)
  call (.vkDestroySwapchainKHR app.swapChain)

/-- The function `Application::createSwapChain`. -/
def createSwapChain (env : RecreateEnv) (oldSwapChain : Handle := 0) : Exec Unit := do
  let supportDetails := env.supportDetails
  let surfaceFormat ← inRange (chooseSwapChainSurfaceFormat supportDetails.formats)
  let presentMode := chooseSwapChainPresentMode supportDetails.presentModes
  let swapExtent := chooseSwapExtent supportDetails.capabilities env.extentWidth env.extentHeight
  let createInfo : VkSwapchainCreateInfoKHR :=
    { minImageCount := imageCount supportDetails.capabilities
      imageFormat := surfaceFormat.format
      imageColorSpace := surfaceFormat.colorSpace
      imageExtent := swapExtent
      presentMode := presentMode
      oldSwapchain := oldSwapChain }
  if env.vkCreateSwapchainKHR ≠ VK_SUCCESS then
    runtime_error "failed to create swap chain!"
  let swapChain ← freshHandle
  call (.vkCreateSwapchainKHR createInfo swapChain)
  modifyApp fun app => { app with swapChain := swapChain }
  let images ← freshHandles env.swapChainImageCount
  call (.vkGetSwapchainImagesKHR swapChain images)
  modifyApp fun app => { app with swapChainImages := images }
  modifyApp fun app =>
    { app with swapChainImageFormat := surfaceFormat.format, swapChainExtent := swapExtent }

/-- The function `Application::createImageView`; `result` is what `vkCreateImageView`
returns. -/
def createImageView (result : VkResult) (image : Handle) (format : VkFormat)
    (aspectFlags mips : Nat) : Exec Handle := do
  if result ≠ VK_SUCCESS then
    runtime_error "failed to create image view!"
  let imageView ← freshHandle
  call (.vkCreateImageView ⟨image, format, aspectFlags, mips⟩ imageView)
  pure imageView

/-- The function `Application::createSwapChainImageViews`. -/
def createSwapChainImageViews (env : RecreateEnv) : Exec Unit := do
  let app ← getApp
  modifyApp fun app =>
    { app with swapChainImageViews := resize app.swapChainImageViews app.swapChainImages.length }
  forEach (List.range app.swapChainImages.length) fun i => do
    let image ← index app.swapChainImages i
    let imageView ← createImageView (env.vkCreateImageView i) image app.swapChainImageFormat
      VK_IMAGE_ASPECT_COLOR_BIT 1
    modifyApp fun app => { app with swapChainImageViews := app.swapChainImageViews.set i imageView }

/-- The loop of `Application::findMemoryTypeIndex` from index `i` on. -/
def findMemoryTypeIndexFrom (typeBitsFilter propertyFlags : Nat) : List Nat → Nat → Exec Nat
  | [], _ => runtime_error "failed to find suitable memory type!"
  | memoryType :: rest, i =>
    if typeBitsFilter &&& (1 <<< i) ≠ 0 ∧ propertyFlags &&& memoryType = propertyFlags then
      pure i
    else
      findMemoryTypeIndexFrom typeBitsFilter propertyFlags rest (i + 1)

/-- The function `Application::findMemoryTypeIndex`; `memoryTypes` lists the property
flags of the memory types of the physical device. -/
def findMemoryTypeIndex (memoryTypes : List Nat) (typeBitsFilter propertyFlags : Nat) :
    Exec Nat :=
  findMemoryTypeIndexFrom typeBitsFilter propertyFlags memoryTypes 0

/-- The function `Application::createImage`; it returns `image` and `imageMemory`. -/
def createImage (memoryTypes : List Nat) (env : CreateImageEnv) (width height : Int)
    (mips numSamples : Nat) (format : VkFormat) (tiling : VkImageTiling)
    (usage memoryPropertyFlags : Nat) : Exec (Handle × Handle) := do
  let imageCreateInfo : VkImageCreateInfo :=
    { width := toUint32 width
      height := toUint32 height
      mipLevels := mips
      format := format
      tiling := tiling
      usage := usage
      samples := numSamples }
  if env.vkCreateImage ≠ VK_SUCCESS then
    runtime_error "failed to create image!"
  let image ← freshHandle
  call (.vkCreateImage imageCreateInfo image)
  let memoryTypeIndex ← findMemoryTypeIndex memoryTypes env.memoryTypeBits memoryPropertyFlags
  if env.vkAllocateMemory ≠ VK_SUCCESS then
    runtime_error "failed to allocate image memory!"
  let imageMemory ← freshHandle
  call (.vkAllocateMemory memoryTypeIndex imageMemory)
  call (.vkBindImageMemory image imageMemory)
  pure (image, imageMemory)

/-- The function `Application::createColorResources`. -/
def createColorResources (env : RecreateEnv) : Exec Unit := do
  let app ← getApp
  let (colorImage, colorImageMemory) ← createImage env.memoryTypes env.colorImage
    (toInt app.swapChainExtent.width) (toInt app.swapChainExtent.height) 1 app.msaaSamples
    app.swapChainImageFormat .VK_IMAGE_TILING_OPTIMAL
    (VK_IMAGE_USAGE_TRANSIENT_ATTACHMENT_BIT ||| VK_IMAGE_USAGE_COLOR_ATTACHMENT_BIT)
    VK_MEMORY_PROPERTY_DEVICE_LOCAL_BIT
  modifyApp fun app => { app with colorImage := colorImage, colorImageMemory := colorImageMemory }
  let colorImageView ← createImageView env.colorImageView colorImage app.swapChainImageFormat
    VK_IMAGE_ASPECT_COLOR_BIT 1
  modifyApp fun app => { app with colorImageView := colorImageView }

/-- The function `Application::findSupportedFormat`. -/
def findSupportedFormat (formatProperties : VkFormat → VkFormatProperties) :
    List VkFormat → VkImageTiling → Nat → Exec VkFormat
  | [], _, _ => runtime_error "failed to find supported format!"
  | format :: candidates, tiling, features =>
    if tiling = .VK_IMAGE_TILING_LINEAR ∧
        (formatProperties format).linearTilingFeatures &&& features = features then
      pure format
    else if tiling = .VK_IMAGE_TILING_OPTIMAL ∧
        (formatProperties format).optimalTilingFeatures &&& features = features then
      pure format
    else
      findSupportedFormat formatProperties candidates tiling features

/-- The function `Application::findDepthFormat`. -/
def findDepthFormat (formatProperties : VkFormat → VkFormatProperties) : Exec VkFormat :=
  findSupportedFormat formatProperties
    [VK_FORMAT_D32_SFLOAT, VK_FORMAT_D32_SFLOAT_S8_UINT, VK_FORMAT_D24_UNORM_S8_UINT]
    .VK_IMAGE_TILING_OPTIMAL VK_FORMAT_FEATURE_DEPTH_STENCIL_ATTACHMENT_BIT

/-- The function `Application::hasStencilComponent`. -/
def hasStencilComponent (format : VkFormat) : Bool :=
  format = VK_FORMAT_D32_SFLOAT_S8_UINT ∨ format = VK_FORMAT_D24_UNORM_S8_UINT

/-- The function `Application::beginSingleTimeCommands`; `result` is what
`vkAllocateCommandBuffers` returns. -/
def beginSingleTimeCommands (result : VkResult) : Exec VkCommandBuffer := do
  if result ≠ VK_SUCCESS then
    runtime_error "failed to allocate command buffer!"
  let commandBuffer := VkCommandBuffer.singleTime (← freshHandle)
  call (.vkAllocateCommandBuffers commandBuffer)
  call (.vkBeginCommandBuffer commandBuffer)
  pure commandBuffer

/-- The function `Application::endSingleTimeCommands`; `result` is what `vkQueueSubmit`
returns. -/
def endSingleTimeCommands (result : VkResult) (commandBuffer : VkCommandBuffer) :
    Exec Unit := do
  call (.vkEndCommandBuffer commandBuffer)
  call (.vkQueueSubmit ⟨[], [], [commandBuffer], []⟩ .VK_NULL_HANDLE)
  if result ≠ VK_SUCCESS then
    runtime_error "failed to submit singleTime command buffer!"
  call .vkDeviceWaitIdle
  call (.vkFreeCommandBuffers commandBuffer)

/-- The stage masks chosen by `Application::transitionImageLayout` for a pair of layouts;
`none` is the branch that throws. -/
def transitionStages (oldLayout newLayout : VkImageLayout) :
    Option (VkPipelineStageFlagBits × VkPipelineStageFlagBits) :=
  if oldLayout = VK_IMAGE_LAYOUT_UNDEFINED ∧ newLayout = VK_IMAGE_LAYOUT_TRANSFER_DST_OPTIMAL then
    some (.VK_PIPELINE_STAGE_TOP_OF_PIPE_BIT, .VK_PIPELINE_STAGE_TRANSFER_BIT)
  else if oldLayout = VK_IMAGE_LAYOUT_TRANSFER_DST_OPTIMAL ∧
      newLayout = VK_IMAGE_LAYOUT_SHADER_READ_ONLY_OPTIMAL then
    some (.VK_PIPELINE_STAGE_TRANSFER_BIT, .VK_PIPELINE_STAGE_FRAGMENT_SHADER_BIT)
  else if oldLayout = VK_IMAGE_LAYOUT_UNDEFINED ∧
      newLayout = VK_IMAGE_LAYOUT_DEPTH_STENCIL_ATTACHMENT_OPTIMAL then
    some (.VK_PIPELINE_STAGE_TOP_OF_PIPE_BIT, .VK_PIPELINE_STAGE_EARLY_FRAGMENT_TESTS_BIT)
  else
    none

/-- The function `Application::transitionImageLayout`. -/
def transitionImageLayout (allocateResult submitResult : VkResult) (image : Handle)
    (format : VkFormat) (oldLayout newLayout : VkImageLayout) (mips : Nat) : Exec Unit := do
  let commandBuffer ← beginSingleTimeCommands allocateResult
  match transitionStages oldLayout newLayout with
  | none => invalid_argument "unsupported layout transition!"
  | some (srcStageMask, dstStageMask) =>
    let aspectMask :=
      if newLayout = VK_IMAGE_LAYOUT_DEPTH_STENCIL_ATTACHMENT_OPTIMAL then
        if hasStencilComponent format then
          VK_IMAGE_ASPECT_DEPTH_BIT ||| VK_IMAGE_ASPECT_STENCIL_BIT
        else
          VK_IMAGE_ASPECT_DEPTH_BIT
      else
        VK_IMAGE_ASPECT_COLOR_BIT
    call (.vkCmdPipelineBarrier commandBuffer srcStageMask dstStageMask
      ⟨image, oldLayout, newLayout, aspectMask, mips⟩)
    endSingleTimeCommands submitResult commandBuffer

/-- The function `Application::createDepthResources`. -/
def createDepthResources (env : RecreateEnv) : Exec Unit := do
  let app ← getApp
  let depthFormat ← findDepthFormat env.formatProperties
  let (depthImage, depthImageMemory) ← createImage env.memoryTypes env.depthImage
    (toInt app.swapChainExtent.width) (toInt app.swapChainExtent.height) 1 app.msaaSamples
    depthFormat .VK_IMAGE_TILING_OPTIMAL VK_IMAGE_USAGE_DEPTH_STENCIL_ATTACHMENT_BIT
    VK_MEMORY_PROPERTY_DEVICE_LOCAL_BIT
  modifyApp fun app => { app with depthImage := depthImage, depthImageMemory := depthImageMemory }
  let depthImageView ← createImageView env.depthImageView depthImage depthFormat
    VK_IMAGE_ASPECT_DEPTH_BIT 1
  modifyApp fun app => { app with depthImageView := depthImageView }
  transitionImageLayout env.vkAllocateCommandBuffers env.singleTimeSubmit depthImage depthFormat
    VK_IMAGE_LAYOUT_UNDEFINED VK_IMAGE_LAYOUT_DEPTH_STENCIL_ATTACHMENT_OPTIMAL 1

/-- The function `Application::createRenderPass`. -/
def createRenderPass (env : RecreateEnv) : Exec Unit := do
  let app ← getApp
  let depthFormat ← findDepthFormat env.formatProperties
  let renderPassCreateInfo : VkRenderPassCreateInfo :=
    { attachments := [app.swapChainImageFormat, depthFormat, app.swapChainImageFormat]
      colorAttachment := 0
      depthStencilAttachment := 1
      resolveAttachment := 2 }
  if env.vkCreateRenderPass ≠ VK_SUCCESS then
    runtime_error "failed to create render pass!"
  let renderPass ← freshHandle
  call (.vkCreateRenderPass renderPassCreateInfo renderPass)
  modifyApp fun app => { app with renderPass := renderPass }

/-- The function `Application::createFramebuffers`. -/
def createFramebuffers (env : RecreateEnv) : Exec Unit := do
  let app ← getApp
  modifyApp fun app =>
    { app with
      swapChainFramebuffers := resize app.swapChainFramebuffers app.swapChainImageViews.length }
  forEach (List.range app.swapChainImageViews.length) fun i => do
    let imageView ← index app.swapChainImageViews i
    let framebufferCreateInfo : VkFramebufferCreateInfo :=
      { renderPass := app.renderPass
        attachments := [app.colorImageView, app.depthImageView, imageView]
        width := app.swapChainExtent.width
        height := app.swapChainExtent.height }
    if env.vkCreateFramebuffer i ≠ VK_SUCCESS then
      runtime_error "failed to create frame buffer!"
    let framebuffer ← freshHandle
    call (.vkCreateFramebuffer framebufferCreateInfo framebuffer)
    modifyApp fun app =>
      { app with swapChainFramebuffers := app.swapChainFramebuffers.set i framebuffer }

/-- The call `getRenderer()->createPipeline()`; `result` is the exception it throws,
if any. -/
def createPipeline (result : Option String) : Exec Unit := do
  let app ← getApp
  call (.Renderer_createPipeline (getRenderer app))
  match result with
  | some what => runtime_error what
  | none => pure ()

/-- The `while` loop of `Application::recreateSwapChain`. -/
def waitForFramebuffer : List WaitEvents → Int → Int → Exec Unit
  | waitEvents, width, height =>
    if width = 0 ∨ height = 0 then
      match waitEvents with
      | [] => do
        call .glfwWaitEvents
        blockForever
      | event :: rest => do
        call .glfwWaitEvents
        if event.framebufferResizeCallback then
          modifyApp fun app => { app with framebufferResized := true }
        call (.glfwGetFramebufferSize event.width event.height)
        waitForFramebuffer rest event.width event.height
    else
      pure ()

/-- The function `Application::recreateSwapChain`. -/
def recreateSwapChain (env : RecreateEnv) : Exec Unit := do
  call .recreateSwapChain
  call (.glfwGetFramebufferSize env.width env.height)
  waitForFramebuffer env.waitEvents env.width env.height
  call .vkDeviceWaitIdle
  cleanupSwapChain
  let oldSwapChainImageFormat := (← getApp).swapChainImageFormat
  createSwapChain env
  createSwapChainImageViews env
  createColorResources env
  createDepthResources env
  if oldSwapChainImageFormat ≠ (← getApp).swapChainImageFormat then
    createRenderPass env
    createPipeline env.createPipeline
  createFramebuffers env

/-! ## The frame -/

/-- The combo box of `Application::updateData`: when the combo is open, every entry `n`
that is clicked assigns `rendererIndex = n`, in the order of the table. -/
def selectRenderer (env : UpdateEnv) (rendererIndex : Nat) : Nat :=
  if env.BeginCombo then
    (List.range Renderers.length).foldl
      (fun rendererIndex n => if env.Selectable n then n else rendererIndex) rendererIndex
  else
    rendererIndex

/-- The function `Application::updateData`: the ImGui combo may select another renderer,
then the selected renderer is updated.  The elapsed time handed to `update` is a `float`
and is left out. -/
def updateData (env : UpdateEnv) : Exec Unit := do
  call .ImGui_NewFrame
  modifyApp fun app => { app with rendererIndex := selectRenderer env app.rendererIndex }
  call .ImGui_Render
  let app ← getApp
  call (.Renderer_update (getRenderer app) app.currentFrame)

/-- The function `Application::recordCommandBuffer`. -/
def recordCommandBuffer (env : DrawFrameEnv) (currCommandBuffer : VkCommandBuffer)
    (imageIndex : Nat) : Exec Unit := do
  call (.vkBeginCommandBuffer currCommandBuffer)
  if env.vkBeginCommandBuffer ≠ VK_SUCCESS then
    runtime_error "failed to begin recording command buffer!"
  let app ← getApp
  let framebuffer ← index app.swapChainFramebuffers imageIndex
  call (.vkCmdBeginRenderPass currCommandBuffer app.renderPass framebuffer app.swapChainExtent)
  call (.Renderer_render (getRenderer app) currCommandBuffer app.currentFrame)
  call (.ImGui_ImplVulkan_RenderDrawData currCommandBuffer)
  call (.vkCmdEndRenderPass currCommandBuffer)
  call (.vkEndCommandBuffer currCommandBuffer)
  if env.vkEndCommandBuffer ≠ VK_SUCCESS then
    runtime_error "failed to record command buffer!"

/-- The function `Application::recordComputeCommandBuffer`. -/
def recordComputeCommandBuffer (env : DrawFrameEnv) (currCommandBuffer : VkCommandBuffer) :
    Exec Unit := do
  call (.vkBeginCommandBuffer currCommandBuffer)
  let app ← getApp
  call (.Renderer_compute (getRenderer app) (.computeCommandBuffers app.currentFrame)
    app.currentFrame)
  call (.vkEndCommandBuffer currCommandBuffer)
  if env.computeEndCommandBuffer ≠ VK_SUCCESS then
    runtime_error "failed to record compute command buffer!"

/-- The function `Application::drawFrame`. -/
def drawFrame (env : DrawFrameEnv) : Exec Unit := do
  let app ← getApp
  call (.vkWaitForFences (.inFlightFences app.currentFrame))
  let imageIndex := env.imageIndex
  call (.vkAcquireNextImageKHR app.swapChain (.imageAvailableSemaphores app.currentFrame))
  let result := env.vkAcquireNextImageKHR
  if result = VK_ERROR_OUT_OF_DATE_KHR then
    recreateSwapChain env.recreateSwapChain
    return
  else if result ≠ VK_SUCCESS ∧ result ≠ VK_SUBOPTIMAL_KHR then
    runtime_error "failed to acquire swap chain image!"
  updateData env.updateData
  let app ← getApp
  if (getRenderer app).needCompute then
    call (.vkWaitForFences (.computeInFlightFences app.currentFrame))
    call (.vkResetFences (.computeInFlightFences app.currentFrame))
    call (.vkResetCommandBuffer (.computeCommandBuffers app.currentFrame))
    recordComputeCommandBuffer env (.computeCommandBuffers app.currentFrame)
    let computeSubmitInfo : VkSubmitInfo :=
      { waitSemaphores := []
        waitDstStageMask := []
        commandBuffers := [.computeCommandBuffers app.currentFrame]
        signalSemaphores := [.computeFinishedSemaphores app.currentFrame] }
    call (.vkQueueSubmit computeSubmitInfo (.computeInFlightFences app.currentFrame))
    if env.computeQueueSubmit ≠ VK_SUCCESS then
      runtime_error "failed to submit compute command buffer!"
  let app ← getApp
  call (.vkResetFences (.inFlightFences app.currentFrame))
  call (.vkResetCommandBuffer (.commandBuffers app.currentFrame))
  recordCommandBuffer env (.commandBuffers app.currentFrame) imageIndex
  let app ← getApp
  let waitSemaphores : List VkSemaphore := [.imageAvailableSemaphores app.currentFrame]
  let waitStages : List VkPipelineStageFlagBits := [.VK_PIPELINE_STAGE_COLOR_ATTACHMENT_OUTPUT_BIT]
  let (waitSemaphores, waitStages) :=
    if (getRenderer app).needCompute then
      (waitSemaphores ++ [.computeFinishedSemaphores app.currentFrame],
        waitStages ++ [(getRenderer app).graphicsWaitComputeStage])
    else
      (waitSemaphores, waitStages)
  let signalSemaphores : List VkSemaphore := [.renderFinishedSemaphores app.currentFrame]
  let submitInfo : VkSubmitInfo :=
    { waitSemaphores := waitSemaphores
      waitDstStageMask := waitStages
      commandBuffers := [.commandBuffers app.currentFrame]
      signalSemaphores := signalSemaphores }
  call (.vkQueueSubmit submitInfo (.inFlightFences app.currentFrame))
  if env.vkQueueSubmit ≠ VK_SUCCESS then
    runtime_error "failed to submit render command buffer!"
  let presentInfo : VkPresentInfoKHR :=
    { waitSemaphores := signalSemaphores
      swapchains := [app.swapChain]
      imageIndices := [imageIndex] }
  call (.vkQueuePresentKHR presentInfo)
  let result := env.vkQueuePresentKHR
  if result = VK_ERROR_OUT_OF_DATE_KHR ∨ result = VK_SUBOPTIMAL_KHR
      ∨ (← getApp).framebufferResized then
    modifyApp fun app => { app with framebufferResized := false }
    recreateSwapChain env.recreateSwapChain
  else if result ≠ VK_SUCCESS then
    runtime_error "failed to present swap chain image!"
  modifyApp fun app =>
    { app with currentFrame := (app.currentFrame + 1) % 4294967296 % MAX_FRAMES_IN_FLIGHT }

/-! ## Synchronisation objects and the main loop -/

/-- What the creation calls of `createSyncObjects` return for slot `i`, one field for each
vector filled. -/
structure SyncObjectsEnv where
  imageAvailableSemaphores : Nat → VkResult
  renderFinishedSemaphores : Nat → VkResult
  inFlightFences : Nat → VkResult
  computeFinishedSemaphores : Nat → VkResult
  computeInFlightFences : Nat → VkResult

/-- The function `Application::createSyncObjects`.  The five vectors are resized to
`MAX_FRAMES_IN_FLIGHT` and entry `i` of each is filled by a creation call; `||` makes the
calls one after the other and stops at the first that fails.  `semaphoreCreateInfo` is
zero-initialised (flags 0, no type extension: a binary semaphore) and `fenceCreateInfo`
carries `VK_FENCE_CREATE_SIGNALED_BIT`. -/
def createSyncObjects (env : SyncObjectsEnv) : Exec Unit := do
  let semaphoreCreateInfo : Nat := 0
  let fenceCreateInfo : Nat := VK_FENCE_CREATE_SIGNALED_BIT
  forEach (List.range MAX_FRAMES_IN_FLIGHT) fun i => do
    if env.imageAvailableSemaphores i ≠ VK_SUCCESS then
      runtime_error ("failed to create semaphores and fence! " ++ toString i)
    call (.vkCreateSemaphore semaphoreCreateInfo (.imageAvailableSemaphores i))
    if env.renderFinishedSemaphores i ≠ VK_SUCCESS then
      runtime_error ("failed to create semaphores and fence! " ++ toString i)
    call (.vkCreateSemaphore semaphoreCreateInfo (.renderFinishedSemaphores i))
    if env.inFlightFences i ≠ VK_SUCCESS then
      runtime_error ("failed to create semaphores and fence! " ++ toString i)
    call (.vkCreateFence fenceCreateInfo (.inFlightFences i))
    if env.computeFinishedSemaphores i ≠ VK_SUCCESS then
      runtime_error ("failed to create compute semaphores and fence! " ++ toString i)
    call (.vkCreateSemaphore semaphoreCreateInfo (.computeFinishedSemaphores i))
    if env.computeInFlightFences i ≠ VK_SUCCESS then
      runtime_error ("failed to create compute semaphores and fence! " ++ toString i)
    call (.vkCreateFence fenceCreateInfo (.computeInFlightFences i))

/-- One iteration of the loop of `Application::mainLoop`: whether `glfwPollEvents` runs
`framebufferResizeCallback`, and what the calls of the frame return. -/
structure LoopEnv where
  framebufferResizeCallback : Bool
  drawFrame : DrawFrameEnv

/-- The function `Application::framebufferResizeCallback`. -/
def framebufferResizeCallback : Exec Unit :=
  modifyApp fun app => { app with framebufferResized := true }

/-- The body of the `while` loop of `Application::mainLoop`. -/
def mainLoopBody (env : LoopEnv) : Exec Unit := do
  call .glfwPollEvents
  if env.framebufferResizeCallback then
    framebufferResizeCallback
  drawFrame env.drawFrame

/-- The function `Application::mainLoop`; `iterations` has one entry for each time
`glfwWindowShouldClose` returns false. -/
def mainLoop : List LoopEnv → Exec Unit
  | [] => call .vkDeviceWaitIdle
  | iteration :: rest => do
    mainLoopBody iteration
    mainLoop rest

/-! ## Start-up -/

/-- The answers to the calls of `initVulkan`.  For each function of `initVulkan` that is
not embedded here the record says which exception it throws, if any; these functions
write none of the fields of `Application` kept in the model, apart from
`pickPhysicalDevice`, which stores the result of `getMaxUsableSampleCount`, and their
calls are not recorded. -/
structure InitVulkanEnv where
  createInstance : Option String
  setupDebugMessenger : Option String
  createSurface : Option String
  pickPhysicalDevice : Option String
  getMaxUsableSampleCount : Nat
  createLogicalDevice : Option String
  swapChain : RecreateEnv
  createCommandPool : Option String
  createCommandBuffer : Option String
  createSyncObjects : SyncObjectsEnv
  createDescriptorPool : Option String
  meshDrawerInit : Option String
  particleDrawerInit : Option String

/-- A function that is not embedded: it throws `result`, if any, and otherwise returns. -/
def otherFunction (result : Option String) : Exec Unit :=
  match result with
  | some what => runtime_error what
  | none => pure ()

/-- The function `Application::pickPhysicalDevice`, as far as it writes `msaaSamples`. -/
def pickPhysicalDevice (env : InitVulkanEnv) : Exec Unit := do
  otherFunction env.pickPhysicalDevice
  modifyApp fun app => { app with msaaSamples := env.getMaxUsableSampleCount }

/-- The function `Application::initVulkan`. -/
def initVulkan (env : InitVulkanEnv) : Exec Unit := do
  otherFunction env.createInstance
  otherFunction env.setupDebugMessenger
  otherFunction env.createSurface
  pickPhysicalDevice env
  otherFunction env.createLogicalDevice
  createSwapChain env.swapChain
  createSwapChainImageViews env.swapChain
  otherFunction env.createCommandPool
  otherFunction env.createCommandBuffer
  createSyncObjects env.createSyncObjects
  otherFunction env.createDescriptorPool
  createRenderPass env.swapChain
  createColorResources env.swapChain
  createDepthResources env.swapChain
  createFramebuffers env.swapChain
  otherFunction env.meshDrawerInit
  otherFunction env.particleDrawerInit

/-- The function `Application::cleanup`, as far as it releases the objects kept in the
model: the swapchain with its attachments, and the render pass.  Its other calls (the
shutdown of the renderers and of ImGui, the destruction of the descriptor pool, of the
synchronisation objects, of the command pools, of the device, surface, instance and
window) are not recorded. -/
def cleanup : Exec Unit := do
  cleanupSwapChain
  call (.vkDestroyRenderPass (← getApp).renderPass)

/-! ## The calls of one frame, in the order of the specification -/

/-- Step 1 and 2: the wait on the slot's `inFlight` fence and the acquire;
`app` is the state on entry. -/
def acquireCalls (app : Application) : List Call :=
  [.vkWaitForFences (.inFlightFences app.currentFrame),
    .vkAcquireNextImageKHR app.swapChain (.imageAvailableSemaphores app.currentFrame)]

/-- Step 3: the update of the selected renderer; `app` is the state after the renderer
selection. -/
def updateCalls (app : Application) : List Call :=
  [.ImGui_NewFrame, .ImGui_Render, .Renderer_update (getRenderer app) app.currentFrame]

/-- The submission of the compute command buffer of the current slot. -/
def computeSubmitInfo (app : Application) : VkSubmitInfo :=
  { waitSemaphores := []
    waitDstStageMask := []
    commandBuffers := [.computeCommandBuffers app.currentFrame]
    signalSemaphores := [.computeFinishedSemaphores app.currentFrame] }

/-- Step 4: the compute phase. -/
def computeCalls (app : Application) : List Call :=
  [.vkWaitForFences (.computeInFlightFences app.currentFrame),
    .vkResetFences (.computeInFlightFences app.currentFrame),
    .vkResetCommandBuffer (.computeCommandBuffers app.currentFrame),
    .vkBeginCommandBuffer (.computeCommandBuffers app.currentFrame),
    .Renderer_compute (getRenderer app) (.computeCommandBuffers app.currentFrame) app.currentFrame,
    .vkEndCommandBuffer (.computeCommandBuffers app.currentFrame),
    .vkQueueSubmit (computeSubmitInfo app) (.computeInFlightFences app.currentFrame)]

/-- The submission of the graphics command buffer of the current slot. -/
def graphicsSubmitInfo (app : Application) : VkSubmitInfo :=
  { waitSemaphores :=
      if (getRenderer app).needCompute then
        [.imageAvailableSemaphores app.currentFrame, .computeFinishedSemaphores app.currentFrame]
      else
        [.imageAvailableSemaphores app.currentFrame]
    waitDstStageMask :=
      if (getRenderer app).needCompute then
        [.VK_PIPELINE_STAGE_COLOR_ATTACHMENT_OUTPUT_BIT, (getRenderer app).graphicsWaitComputeStage]
      else
        [.VK_PIPELINE_STAGE_COLOR_ATTACHMENT_OUTPUT_BIT]
    commandBuffers := [.commandBuffers app.currentFrame]
    signalSemaphores := [.renderFinishedSemaphores app.currentFrame] }

/-- Step 5: the graphics phase, recording into `framebuffer`. -/
def graphicsCalls (app : Application) (framebuffer : Handle) : List Call :=
  [.vkResetFences (.inFlightFences app.currentFrame),
    .vkResetCommandBuffer (.commandBuffers app.currentFrame),
    .vkBeginCommandBuffer (.commandBuffers app.currentFrame),
    .vkCmdBeginRenderPass (.commandBuffers app.currentFrame) app.renderPass framebuffer
      app.swapChainExtent,
    .Renderer_render (getRenderer app) (.commandBuffers app.currentFrame) app.currentFrame,
    .ImGui_ImplVulkan_RenderDrawData (.commandBuffers app.currentFrame),
    .vkCmdEndRenderPass (.commandBuffers app.currentFrame),
    .vkEndCommandBuffer (.commandBuffers app.currentFrame),
    .vkQueueSubmit (graphicsSubmitInfo app) (.inFlightFences app.currentFrame)]

/-- Step 6: the present request for image `imageIndex`. -/
def presentCall (app : Application) (imageIndex : Nat) : Call :=
  .vkQueuePresentKHR
    { waitSemaphores := [.renderFinishedSemaphores app.currentFrame]
      swapchains := [app.swapChain]
      imageIndices := [imageIndex] }

/-- Steps 1 to 5 of a frame in order; the compute phase is there when the selected
renderer needs it. -/
def workCalls (app : Application) (framebuffer : Handle) : List Call :=
  acquireCalls app ++ updateCalls app ++
    (if (getRenderer app).needCompute then computeCalls app else []) ++
    graphicsCalls app framebuffer

/-- Steps 1 to 6 of a frame in order. -/
def frameCalls (app : Application) (imageIndex : Nat) (framebuffer : Handle) : List Call :=
  workCalls app framebuffer ++ [presentCall app imageIndex]

/-- The program state after `updateData`. -/
def updated (env : DrawFrameEnv) (app : Application) : Application :=
  { app with rendererIndex := selectRenderer env.updateData app.rendererIndex }

/-- The framebuffer `swapChainFramebuffers[imageIndex]` of the frame (null when out of
range). -/
def frameBuffer (env : DrawFrameEnv) (app : Application) : Handle :=
  app.swapChainFramebuffers.getD env.imageIndex 0

/-- The acquire lets the frame go on: it returns success or suboptimal. -/
def acquireProceeds (env : DrawFrameEnv) : Prop :=
  env.vkAcquireNextImageKHR = VK_SUCCESS ∨ env.vkAcquireNextImageKHR = VK_SUBOPTIMAL_KHR

instance (env : DrawFrameEnv) : Decidable (acquireProceeds env) := by
  unfold acquireProceeds
  infer_instance

/-- No call between the acquire and the present fails: recording and submission of the
compute command buffer (when the selected renderer needs compute), recording of the
graphics command buffer into an existing framebuffer, and the graphics submission. -/
def workSucceeds (env : DrawFrameEnv) (app : Application) : Prop :=
  ((getRenderer (updated env app)).needCompute = true →
      env.computeEndCommandBuffer = VK_SUCCESS ∧ env.computeQueueSubmit = VK_SUCCESS) ∧
    env.vkBeginCommandBuffer = VK_SUCCESS ∧
    env.imageIndex < app.swapChainFramebuffers.length ∧
    env.vkEndCommandBuffer = VK_SUCCESS ∧
    env.vkQueueSubmit = VK_SUCCESS

instance (env : DrawFrameEnv) (app : Application) : Decidable (workSucceeds env app) := by
  unfold workSucceeds
  infer_instance

/-- Step 7: the advance of the frame index. -/
def advance (app : Application) : Application :=
  { app with currentFrame := (app.currentFrame + 1) % 4294967296 % MAX_FRAMES_IN_FLIGHT }

/-- The end of `drawFrame` after a recreation that follows the present: the frame index
advances when `recreateSwapChain` has returned. -/
def thenAdvance (r : Outcome Unit × World) : Outcome Unit × World :=
  match r with
  | (.ok _, w) => (.ok (), { w with app := advance w.app })
  | (.stop s, w) => (.stop s, w)

/-- The calls that occur inside `recreateSwapChain`: GLFW polling, device waits, creation
and destruction of swapchain resources, the renderer's pipeline rebuild, and the recording
and submission of a one-shot command buffer. -/
def Call.inRecreate : Call → Bool
  | .glfwGetFramebufferSize _ _ => true
  | .glfwWaitEvents => true
  | .vkDeviceWaitIdle => true
  | .Renderer_createPipeline _ => true
  | .vkAllocateCommandBuffers (.singleTime _) => true
  | .vkFreeCommandBuffers (.singleTime _) => true
  | .vkBeginCommandBuffer (.singleTime _) => true
  | .vkEndCommandBuffer (.singleTime _) => true
  | .vkCmdPipelineBarrier (.singleTime _) _ _ _ => true
  | .vkQueueSubmit ⟨[], [], [.singleTime _], []⟩ .VK_NULL_HANDLE => true
  | .vkCreateSwapchainKHR _ _ => true
  | .vkGetSwapchainImagesKHR _ _ => true
  | .vkDestroySwapchainKHR _ => true
  | .vkCreateImage _ _ => true
  | .vkDestroyImage _ => true
  | .vkAllocateMemory _ _ => true
  | .vkBindImageMemory _ _ => true
  | .vkFreeMemory _ => true
  | .vkCreateImageView _ _ => true
  | .vkDestroyImageView _ => true
  | .vkCreateRenderPass _ _ => true
  | .vkCreateFramebuffer _ _ => true
  | .vkDestroyFramebuffer _ => true
  | _ => false

/-- Every call of a list satisfies `ok before c`, where `before` lists the calls made
earlier: `before` at the head of the list, then growing call by call. -/
def EachAfter (ok : List Call → Call → Prop) : List Call → List Call → Prop
  | _, [] => True
  | before, c :: rest => ok before c ∧ EachAfter ok (before ++ [c]) rest

/-- A function that only makes calls satisfying `P` and leaves the observation `K` of the
program state as it found it, whether it returns or stops. -/
structure Quiet {α β : Type} (P : Call → Prop) (K : Application → β) (m : Exec α) : Prop where
  run : ∀ w, ∃ cs, (m w).2.trace = w.trace ++ cs ∧ (∀ c ∈ cs, P c) ∧ K (m w).2.app = K w.app

/-- The frame index and the renderer selection. -/
def frameKey (app : Application) : Nat × Nat := (app.currentFrame, app.rendererIndex)

/-- The frame index, the renderer selection and the resize flag. -/
def resizeKey (app : Application) : Nat × Nat × Bool :=
  (app.currentFrame, app.rendererIndex, app.framebufferResized)

/-- The slot of the vector that a fence is read from. -/
def VkFence.slots : VkFence → List Nat
  | .VK_NULL_HANDLE => []
  | .inFlightFences slot => [slot]
  | .computeInFlightFences slot => [slot]

/-- The slot of the vector that a semaphore is read from. -/
def VkSemaphore.slots : VkSemaphore → List Nat
  | .imageAvailableSemaphores slot => [slot]
  | .renderFinishedSemaphores slot => [slot]
  | .computeFinishedSemaphores slot => [slot]

/-- The slot of the vector that a command buffer is read from. -/
def VkCommandBuffer.slots : VkCommandBuffer → List Nat
  | .commandBuffers slot => [slot]
  | .computeCommandBuffers slot => [slot]
  | .singleTime _ => []

/-- The indices at which a call reads the per-slot vectors of `Application`
(`inFlightFences[i]`, `commandBuffers[i]`, ...), together with the frame number it hands
to a renderer. -/
def Call.slots : Call → List Nat
  | .vkWaitForFences fence => fence.slots
  | .vkResetFences fence => fence.slots
  | .vkAcquireNextImageKHR _ semaphore => semaphore.slots
  | .Renderer_update _ frameNum => [frameNum]
  | .Renderer_compute _ commandBuffer frameNum => commandBuffer.slots ++ [frameNum]
  | .Renderer_render _ commandBuffer frameNum => commandBuffer.slots ++ [frameNum]
  | .ImGui_ImplVulkan_RenderDrawData commandBuffer => commandBuffer.slots
  | .vkAllocateCommandBuffers commandBuffer => commandBuffer.slots
  | .vkFreeCommandBuffers commandBuffer => commandBuffer.slots
  | .vkResetCommandBuffer commandBuffer => commandBuffer.slots
  | .vkBeginCommandBuffer commandBuffer => commandBuffer.slots
  | .vkEndCommandBuffer commandBuffer => commandBuffer.slots
  | .vkCmdBeginRenderPass commandBuffer _ _ _ => commandBuffer.slots
  | .vkCmdEndRenderPass commandBuffer => commandBuffer.slots
  | .vkCmdPipelineBarrier commandBuffer _ _ _ => commandBuffer.slots
  | .vkQueueSubmit submitInfo fence =>
    (submitInfo.waitSemaphores.map VkSemaphore.slots).flatten ++
      (submitInfo.commandBuffers.map VkCommandBuffer.slots).flatten ++
      (submitInfo.signalSemaphores.map VkSemaphore.slots).flatten ++ fence.slots
  | .vkQueuePresentKHR presentInfo => (presentInfo.waitSemaphores.map VkSemaphore.slots).flatten
  | .vkCreateSemaphore _ semaphore => semaphore.slots
  | .vkCreateFence _ fence => fence.slots
  | _ => []

/-- The number of iterations of `mainLoop` in which the frame went past the acquire (it
returned success or suboptimal) and `drawFrame` returned; the count stops at the iteration
that does not return. -/
def presentedFrames : List LoopEnv → World → Nat
  | [], _ => 0
  | iteration :: rest, w =>
    match mainLoopBody iteration w with
    | (.ok _, after) =>
      (if acquireProceeds iteration.drawFrame then 1 else 0) + presentedFrames rest after
    | (.stop _, _) => 0

/-- The calls of a recreation other than the three that depend on the render pass: the
creation of a render pass, the rebuild of a pipeline and the creation of a framebuffer. -/
def Call.beforeRenderPass (c : Call) : Bool :=
  c.inRecreate &&
    match c with
    | .vkCreateRenderPass _ _ => false
    | .Renderer_createPipeline _ => false
    | .vkCreateFramebuffer _ _ => false
    | _ => true

/-- The frame index, the renderer selection, the swapchain with its format, extent and
images, and the render pass. -/
def swapChainKey (app : Application) :
    Nat × Nat × Nat × Handle × VkFormat × VkExtent2D × List Handle × Handle :=
  (app.currentFrame, app.rendererIndex, app.msaaSamples, app.swapChain,
    app.swapChainImageFormat, app.swapChainExtent, app.swapChainImages, app.renderPass)

/-- The frame index, the renderer selection, the sample count and the render pass. -/
def renderPassKey (app : Application) : Nat × Nat × Nat × Handle :=
  (app.currentFrame, app.rendererIndex, app.msaaSamples, app.renderPass)

/-- The calls that create an image or a framebuffer. -/
def Call.createsAttachment : Call → Bool
  | .vkCreateImage _ _ => true
  | .vkCreateFramebuffer _ _ => true
  | _ => false

/-- The handles of the objects that a call creates or allocates. -/
def Call.created : Call → List Handle
  | .vkCreateSwapchainKHR _ swapChain => [swapChain]
  | .vkCreateImage _ image => [image]
  | .vkAllocateMemory _ memory => [memory]
  | .vkCreateImageView _ imageView => [imageView]
  | .vkCreateRenderPass _ renderPass => [renderPass]
  | .vkCreateFramebuffer _ framebuffer => [framebuffer]
  | .vkAllocateCommandBuffers (.singleTime commandBuffer) => [commandBuffer]
  | _ => []

/-- The handles of the objects that a call destroys or frees. -/
def Call.destroyed : Call → List Handle
  | .vkDestroySwapchainKHR swapChain => [swapChain]
  | .vkDestroyImage image => [image]
  | .vkFreeMemory memory => [memory]
  | .vkDestroyImageView imageView => [imageView]
  | .vkDestroyRenderPass renderPass => [renderPass]
  | .vkDestroyFramebuffer framebuffer => [framebuffer]
  | .vkFreeCommandBuffers (.singleTime commandBuffer) => [commandBuffer]
  | _ => []

/-! ## The particle renderer's descriptor sets -/

/-- The conversion of a C++ `int` to `size_t` (64 bits). -/
def toSizeT (x : Int) : Nat := (x % 18446744073709551616).toNat

/-- The enum `VkDescriptorType`: the two values written by `ParticleRenderer`. -/
inductive VkDescriptorType where
  | VK_DESCRIPTOR_TYPE_UNIFORM_BUFFER
  | VK_DESCRIPTOR_TYPE_STORAGE_BUFFER
deriving DecidableEq, Repr

/-- The fields of `VkWriteDescriptorSet` that differ between the writes of
`ParticleRenderer::createDescriptorSets`, with the buffer of `pBufferInfo`. -/
structure VkWriteDescriptorSet where
  dstBinding : Nat
  dstSet : Handle
  descriptorType : VkDescriptorType
  buffer : Handle
deriving DecidableEq, Repr

/-- The vectors of `ParticleRenderer` that `createDescriptorSets`, `compute` and `render`
read or write. -/
structure ParticleRenderer where
  uniformBuffers : List Handle
  shaderStorageBuffers : List Handle
  computeDescriptorSets : List Handle
deriving DecidableEq, Repr

/-- The index `(i - 1 + computeDescriptorSets.size()) % app->MAX_FRAMES_IN_FLIGHT` of
`ParticleRenderer::createDescriptorSets`: `i - 1` is an `int`, converted to `size_t` for
the sum, which wraps at 2^64; `maxFramesInFlight` is the value of the `int` constant,
converted to `size_t` as well. -/
def ssboInIndex (i : Int) (size : Nat) (maxFramesInFlight : Int) : Nat :=
  (toSizeT (i - 1) + size) % 18446744073709551616 % toSizeT maxFramesInFlight

/-- The body of the loop of `ParticleRenderer::createDescriptorSets` for slot `i`: the
three writes given to `vkUpdateDescriptorSets` (uniform buffer at binding 0, `ssboIn` at
binding 1, `ssboOut` at binding 2); `none` when a vector is read out of range. -/
def ParticleRenderer.writeDescriptorSets (self : ParticleRenderer) (i : Nat) :
    Option (List VkWriteDescriptorSet) := do
  let uniformBuffer ← self.uniformBuffers[i]?
  let ssboIn ← self.shaderStorageBuffers[
    ssboInIndex i self.computeDescriptorSets.length MAX_FRAMES_IN_FLIGHT]?
  let ssboOut ← self.shaderStorageBuffers[i]?
  let dstSet ← self.computeDescriptorSets[i]?
  pure [⟨0, dstSet, .VK_DESCRIPTOR_TYPE_UNIFORM_BUFFER, uniformBuffer⟩,
    ⟨1, dstSet, .VK_DESCRIPTOR_TYPE_STORAGE_BUFFER, ssboIn⟩,
    ⟨2, dstSet, .VK_DESCRIPTOR_TYPE_STORAGE_BUFFER, ssboOut⟩]

/-- The loop of `ParticleRenderer::createDescriptorSets` over the slots: the writes of each
call of `vkUpdateDescriptorSets`, in order; `none` when a vector is read out of range. -/
def ParticleRenderer.updateDescriptorSets (self : ParticleRenderer) :
    List Nat → Option (List (List VkWriteDescriptorSet))
  | [] => some []
  | i :: rest => do
    let writeDescriptorSets ← self.writeDescriptorSets i
    let others ← self.updateDescriptorSets rest
    pure (writeDescriptorSets :: others)

/-- The function `ParticleRenderer::createDescriptorSets`; `allocated i` is the handle
that `vkAllocateDescriptorSets` leaves in entry `i` of the resized vector.  It returns the
renderer and the writes of the calls of `vkUpdateDescriptorSets`, in order. -/
def ParticleRenderer.createDescriptorSets (self : ParticleRenderer) (allocated : Nat → Handle) :
    Option (ParticleRenderer × List (List VkWriteDescriptorSet)) := do
  let self : ParticleRenderer :=
    { self with computeDescriptorSets := (List.range MAX_FRAMES_IN_FLIGHT).map allocated }
  let writes ← self.updateDescriptorSets (List.range self.computeDescriptorSets.length)
  pure (self, writes)

/-- The descriptor set `computeDescriptorSets[frameNum]` that `ParticleRenderer::compute`
binds. -/
def ParticleRenderer.compute (self : ParticleRenderer) (frameNum : Nat) : Option Handle :=
  self.computeDescriptorSets[frameNum]?

/-- The vertex buffer `shaderStorageBuffers[frameNum]` that `ParticleRenderer::render`
binds and draws. -/
def ParticleRenderer.render (self : ParticleRenderer) (frameNum : Nat) : Option Handle :=
  self.shaderStorageBuffers[frameNum]?

/-! ## The mesh renderer's vertex deduplication -/

/-- A C++ `float` as `operator==` sees it: a finite number (the two zeros are one number),
an infinity, or NaN. -/
inductive FloatValue where
  | finite (value : Rat)
  | infinite (negative : Bool)
  | nan
deriving DecidableEq

/-- The comparison `a == b` of two `float`s: NaN equals nothing, itself included. -/
def FloatValue.eq : FloatValue → FloatValue → Bool
  | .nan, _ => false
  | _, .nan => false
  | a, b => decide (a = b)

/-- The type `glm::vec2`. -/
structure vec2 where
  x : FloatValue
  y : FloatValue
deriving DecidableEq

/-- The type `glm::vec3`. -/
structure vec3 where
  x : FloatValue
  y : FloatValue
  z : FloatValue
deriving DecidableEq

/-- The comparison `a == b` of two `glm::vec2`: component by component. -/
def vec2.eq (a b : vec2) : Bool := a.x.eq b.x && a.y.eq b.y

/-- The comparison `a == b` of two `glm::vec3`: component by component. -/
def vec3.eq (a b : vec3) : Bool := a.x.eq b.x && a.y.eq b.y && a.z.eq b.z

/-- The struct `Vertex` of `MeshRenderer.h`. -/
structure Vertex where
  position : vec3
  color : vec3
  uv : vec2
deriving DecidableEq

/-- The operator `Vertex::operator==`. -/
def Vertex.eq (self other : Vertex) : Bool :=
  other.position.eq self.position && other.color.eq self.color && other.uv.eq self.uv

/-- The local `std::unordered_map<Vertex, uint32_t> uniqueVertices`: its entries, a lookup
comparing keys with `Vertex::operator==` (equal floats have equal hashes, so that a key is
found exactly when an entry compares equal to it). -/
abbrev UnorderedMap := List (Vertex × Nat)

/-- The value stored under a key that compares equal to `key`, if there is one. -/
def UnorderedMap.find : UnorderedMap → Vertex → Option Nat
  | [], _ => none
  | entry :: rest, key => if entry.1.eq key then some entry.2 else UnorderedMap.find rest key

/-- The member `count(key)`. -/
def UnorderedMap.count (map : UnorderedMap) (key : Vertex) : Nat :=
  match map.find key with
  | some _ => 1
  | none => 0

/-- The statement `map[key] = value`: `operator[]` inserts the key when no entry compares
equal to it, and the value is stored in the entry found or inserted. -/
def UnorderedMap.assign : UnorderedMap → Vertex → Nat → UnorderedMap
  | [], key, value => [(key, value)]
  | entry :: rest, key, value =>
    if entry.1.eq key then (entry.1, value) :: rest
    else entry :: UnorderedMap.assign rest key value

/-- The expression `map[key]` read as a value: `operator[]` inserts the key with the value
0 when no entry compares equal to it. -/
def UnorderedMap.subscript (map : UnorderedMap) (key : Vertex) : UnorderedMap × Nat :=
  match map.find key with
  | some value => (map, value)
  | none => (map ++ [(key, 0)], 0)

/-- The vectors `vertices` and `indices` of `MeshRenderer`. -/
structure MeshRenderer where
  vertices : List Vertex
  indices : List Nat
deriving DecidableEq

/-- The body of the inner loop of `MeshRenderer::loadModel` for one face corner, whose
vertex is `vertex`. -/
def loadModelStep (state : UnorderedMap × MeshRenderer) (vertex : Vertex) :
    UnorderedMap × MeshRenderer :=
  let (uniqueVertices, self) := state
  let (uniqueVertices, self) :=
    if uniqueVertices.count vertex = 0 then
      (uniqueVertices.assign vertex (self.vertices.length % 4294967296),
        { self with vertices := self.vertices ++ [vertex] })
    else
      (uniqueVertices, self)
  let (uniqueVertices, index) := uniqueVertices.subscript vertex
  (uniqueVertices, { self with indices := self.indices ++ [index] })

/-- The loops of `MeshRenderer::loadModel` over the face corners of all shapes, in order. -/
def loadModelLoop : List Vertex → UnorderedMap × MeshRenderer → UnorderedMap × MeshRenderer
  | [], state => state
  | vertex :: rest, state => loadModelLoop rest (loadModelStep state vertex)

/-- The function `MeshRenderer::loadModel`, from the vertices of the face corners on;
`vertices` and `indices` are empty when `init` calls it. -/
def MeshRenderer.loadModel (corners : List Vertex) : MeshRenderer :=
  (loadModelLoop corners ([], ⟨[], []⟩)).2

/-! ## A concrete run -/

/-- A state after start-up: slot 0 is current, the mesh renderer is selected and the
swapchain has three 800×600 images. -/
def startApp : Application :=
  { currentFrame := 0
    rendererIndex := 0
    framebufferResized := false
    msaaSamples := 1
    swapChain := 1
    swapChainImageFormat := VK_FORMAT_B8G8R8A8_SRGB
    swapChainExtent := ⟨800, 600⟩
    swapChainImages := [2, 3, 4]
    swapChainImageViews := [5, 6, 7]
    swapChainFramebuffers := [8, 9, 10]
    renderPass := 11
    colorImage := 12
    colorImageMemory := 13
    colorImageView := 14
    depthImage := 15
    depthImageMemory := 16
    depthImageView := 17 }

/-- The world at the first frame. -/
def startWorld : World := ⟨startApp, [], 100⟩

/-- A recreation in which every call succeeds: an 800×600 window, an sRGB surface format,
FIFO presentation and three swapchain images. -/
def calmRecreate : RecreateEnv :=
  { width := 800
    height := 600
    waitEvents := []
    supportDetails :=
      { capabilities := ⟨2, 0, ⟨800, 600⟩, ⟨1, 1⟩, ⟨4096, 4096⟩⟩
        formats := [⟨VK_FORMAT_B8G8R8A8_SRGB, VK_COLOR_SPACE_SRGB_NONLINEAR_KHR⟩]
        presentModes := [VK_PRESENT_MODE_FIFO_KHR] }
    extentWidth := 800
    extentHeight := 600
    vkCreateSwapchainKHR := VK_SUCCESS
    swapChainImageCount := 3
    vkCreateImageView := fun _ => VK_SUCCESS
    memoryTypes := [VK_MEMORY_PROPERTY_DEVICE_LOCAL_BIT]
    formatProperties := fun _ => ⟨0, VK_FORMAT_FEATURE_DEPTH_STENCIL_ATTACHMENT_BIT⟩
    colorImage := ⟨VK_SUCCESS, 1, VK_SUCCESS⟩
    colorImageView := VK_SUCCESS
    depthImage := ⟨VK_SUCCESS, 1, VK_SUCCESS⟩
    depthImageView := VK_SUCCESS
    vkAllocateCommandBuffers := VK_SUCCESS
    singleTimeSubmit := VK_SUCCESS
    vkCreateRenderPass := VK_SUCCESS
    createPipeline := none
    vkCreateFramebuffer := fun _ => VK_SUCCESS }

/-- A frame in which every call succeeds and the user selects nothing. -/
def calmFrame : DrawFrameEnv :=
  { vkAcquireNextImageKHR := VK_SUCCESS
    imageIndex := 1
    updateData := ⟨false, fun _ => false⟩
    computeEndCommandBuffer := VK_SUCCESS
    computeQueueSubmit := VK_SUCCESS
    vkBeginCommandBuffer := VK_SUCCESS
    vkEndCommandBuffer := VK_SUCCESS
    vkQueueSubmit := VK_SUCCESS
    vkQueuePresentKHR := VK_SUCCESS
    recreateSwapChain := calmRecreate }

/-- A recreation in which the device rejects the new swapchain. -/
def rejectedRecreate : RecreateEnv :=
  { calmRecreate with vkCreateSwapchainKHR := VK_ERROR_DEVICE_LOST }

/-- A recreation that finds the window minimised; GLFW then reports the restored size
800×600 and runs the resize callback. -/
def minimisedRecreate : RecreateEnv :=
  { calmRecreate with width := 0, height := 0, waitEvents := [⟨true, 800, 600⟩] }

/-- The world at the first frame when the particle renderer is selected. -/
def particleWorld : World := ⟨{ startApp with rendererIndex := 1 }, [], 100⟩

/-- Three iterations of the main loop in which every call succeeds: a plain frame, a frame
after a resize event, and a frame whose acquire finds the swapchain out of date. -/
def calmLoop : List LoopEnv :=
  [⟨false, calmFrame⟩, ⟨true, calmFrame⟩,
    ⟨false, { calmFrame with vkAcquireNextImageKHR := VK_ERROR_OUT_OF_DATE_KHR }⟩]

/-- A start-up in which every synchronisation object is created. -/
def calmSyncObjects : SyncObjectsEnv :=
  { imageAvailableSemaphores := fun _ => VK_SUCCESS
    renderFinishedSemaphores := fun _ => VK_SUCCESS
    inFlightFences := fun _ => VK_SUCCESS
    computeFinishedSemaphores := fun _ => VK_SUCCESS
    computeInFlightFences := fun _ => VK_SUCCESS }

/-- A recreation in which every call succeeds and the surface now offers only
B8G8R8A8_UNORM, so that the image format changes. -/
def changedFormatRecreate : RecreateEnv :=
  { calmRecreate with
    supportDetails :=
      { calmRecreate.supportDetails with
        formats := [⟨VK_FORMAT_B8G8R8A8_UNORM, VK_COLOR_SPACE_SRGB_NONLINEAR_KHR⟩] } }

/-- A frame in which every call succeeds and the user picks "Particle" in the combo. -/
def selectParticleFrame : DrawFrameEnv :=
  { calmFrame with updateData := ⟨true, fun n => n == 1⟩ }

/-- The `Application` object before `initVulkan`: no swapchain, empty vectors. -/
def bootApp : Application :=
  { currentFrame := 0
    rendererIndex := 0
    framebufferResized := false
    msaaSamples := 1
    swapChain := 0
    swapChainImageFormat := VK_FORMAT_UNDEFINED
    swapChainExtent := ⟨0, 0⟩
    swapChainImages := []
    swapChainImageViews := []
    swapChainFramebuffers := []
    renderPass := 0
    colorImage := 0
    colorImageMemory := 0
    colorImageView := 0
    depthImage := 0
    depthImageMemory := 0
    depthImageView := 0 }

/-- The world before `initVulkan`. -/
def bootWorld : World := ⟨bootApp, [], 1⟩

/-- A start-up in which every call succeeds, on a device with four samples. -/
def calmInit : InitVulkanEnv :=
  { createInstance := none
    setupDebugMessenger := none
    createSurface := none
    pickPhysicalDevice := none
    getMaxUsableSampleCount := 4
    createLogicalDevice := none
    swapChain := calmRecreate
    createCommandPool := none
    createCommandBuffer := none
    createSyncObjects := calmSyncObjects
    createDescriptorPool := none
    meshDrawerInit := none
    particleDrawerInit := none }

/-- A particle renderer after `createUniformBuffers` and `createShaderStorageBuffers`. -/
def particleBuffers : ParticleRenderer :=
  { uniformBuffers := [21, 22]
    shaderStorageBuffers := [31, 32]
    computeDescriptorSets := [] }

/-- A vertex at the origin, white, with texture coordinates (0, 1). -/
def originVertex : Vertex :=
  ⟨⟨.finite 0, .finite 0, .finite 0⟩, ⟨.finite 1, .finite 1, .finite 1⟩, ⟨.finite 0, .finite 1⟩⟩

/-- A vertex at (1, 2, 3). -/
def cornerVertex : Vertex :=
  { originVertex with position := ⟨.finite 1, .finite 2, .finite 3⟩ }

/-- A vertex whose first coordinate is NaN. -/
def nanVertex : Vertex :=
  { originVertex with position := ⟨.nan, .finite 2, .finite 3⟩ }

/-! ## Image count and extent selection -/

theorem clamp_eq_max_min (v lo hi : Nat) (h : lo ≤ hi) : clamp v lo hi = max lo (min v hi) := by
  unfold clamp
  split_ifs <;> omega

theorem toUint32_of_nonneg (x : Int) (h0 : 0 ≤ x) (h1 : x < 4294967296) :
    toUint32 x = x.toNat := by
  unfold toUint32
  rw [Int.emod_eq_of_lt h0 h1]

/-- C7: the image count requested by `createSwapChain` is `minImageCount + 1` (in 32-bit
unsigned arithmetic) when `maxImageCount` is 0, and the smaller of that and `maxImageCount`
otherwise; for `minImageCount = 2`, `maxImageCount = 0` it is 3. -/
theorem imageCount_spec (capabilities : VkSurfaceCapabilitiesKHR)
    (currentExtent minImageExtent maxImageExtent : VkExtent2D) :
    imageCount capabilities =
        (if capabilities.maxImageCount = 0 then
          (capabilities.minImageCount + 1) % 2 ^ 32
        else
          min ((capabilities.minImageCount + 1) % 2 ^ 32) capabilities.maxImageCount) ∧
      imageCount ⟨2, 0, currentExtent, minImageExtent, maxImageExtent⟩ = 3 := by
  refine ⟨?_, by simp [imageCount]⟩
  unfold imageCount
  simp only []
  split_ifs <;> omega

/-- C8, as stated, fails: for `minImageCount = 0xFFFFFFFF`, `maxImageCount = 0` the sum
wraps and the requested count is 0; for `minImageCount = 5`, `maxImageCount = 3` the
requested count is 3.  Both are below `minImageCount`. -/
theorem imageCount_below_minImageCount :
    imageCount ⟨4294967295, 0, ⟨800, 600⟩, ⟨1, 1⟩, ⟨4096, 4096⟩⟩ = 0 ∧
      ¬ (4294967295 ≤ imageCount ⟨4294967295, 0, ⟨800, 600⟩, ⟨1, 1⟩, ⟨4096, 4096⟩⟩) ∧
      imageCount ⟨5, 3, ⟨800, 600⟩, ⟨1, 1⟩, ⟨4096, 4096⟩⟩ = 3 ∧
      ¬ (5 ≤ imageCount ⟨5, 3, ⟨800, 600⟩, ⟨1, 1⟩, ⟨4096, 4096⟩⟩) := by
  simp [imageCount]

/-- C8, amended: when `minImageCount + 1` does not wrap and `minImageCount` does not exceed
a finite `maxImageCount`, the requested image count is at least `minImageCount`; and for
every record it is at most `maxImageCount` whenever `maxImageCount > 0`. -/
theorem imageCount_bounds (capabilities : VkSurfaceCapabilitiesKHR)
    (hmin : capabilities.minImageCount < UINT32_MAX)
    (hmax : capabilities.maxImageCount = 0 ∨
      capabilities.minImageCount ≤ capabilities.maxImageCount) :
    capabilities.minImageCount ≤ imageCount capabilities ∧
      ∀ other : VkSurfaceCapabilitiesKHR,
        other.maxImageCount > 0 → imageCount other ≤ other.maxImageCount := by
  constructor
  · unfold imageCount UINT32_MAX at *
    simp only []
    split_ifs <;> omega
  · intro other h
    unfold imageCount
    simp only []
    split_ifs <;> omega

theorem imageCount_bounds_witness :
    (2 : Nat) ≤ imageCount ⟨2, 8, ⟨800, 600⟩, ⟨1, 1⟩, ⟨4096, 4096⟩⟩ ∧
      ∀ other : VkSurfaceCapabilitiesKHR,
        other.maxImageCount > 0 → imageCount other ≤ other.maxImageCount :=
  imageCount_bounds ⟨2, 8, ⟨800, 600⟩, ⟨1, 1⟩, ⟨4096, 4096⟩⟩ (by decide) (by decide)

/-- C9: when `currentExtent` is the sentinel `(0xFFFFFFFF, 0xFFFFFFFF)`, the bounds satisfy
min ≤ max component-wise and the framebuffer size is a non-negative `int` pair,
`chooseSwapExtent` returns the framebuffer size with each component clamped to its
bounds; a 1024×768 framebuffer with bounds (1,1)–(4096,4096) gives (1024,768). -/
theorem chooseSwapExtent_sentinel (capabilities : VkSurfaceCapabilitiesKHR) (width height : Int)
    (hsentinel : capabilities.currentExtent = ⟨UINT32_MAX, UINT32_MAX⟩)
    (hw : capabilities.minImageExtent.width ≤ capabilities.maxImageExtent.width)
    (hh : capabilities.minImageExtent.height ≤ capabilities.maxImageExtent.height)
    (hwidth : 0 ≤ width ∧ width ≤ 2147483647) (hheight : 0 ≤ height ∧ height ≤ 2147483647) :
    chooseSwapExtent capabilities width height =
        ⟨max capabilities.minImageExtent.width
            (min width.toNat capabilities.maxImageExtent.width),
          max capabilities.minImageExtent.height
            (min height.toNat capabilities.maxImageExtent.height)⟩ ∧
      ∀ minImageCount maxImageCount : Nat,
        chooseSwapExtent
          ⟨minImageCount, maxImageCount, ⟨UINT32_MAX, UINT32_MAX⟩, ⟨1, 1⟩, ⟨4096, 4096⟩⟩
          1024 768 = ⟨1024, 768⟩ := by
  constructor
  · unfold chooseSwapExtent
    rw [hsentinel]
    simp only [ne_eq, not_true_eq_false, if_false]
    rw [clamp_eq_max_min _ _ _ hw, clamp_eq_max_min _ _ _ hh,
      toUint32_of_nonneg width hwidth.1 (by omega),
      toUint32_of_nonneg height hheight.1 (by omega)]
  · intro _ _
    simp [chooseSwapExtent, clamp, toUint32, UINT32_MAX]

theorem chooseSwapExtent_sentinel_witness :
    chooseSwapExtent ⟨2, 0, ⟨UINT32_MAX, UINT32_MAX⟩, ⟨640, 480⟩, ⟨1920, 1080⟩⟩ 3000 100 =
        ⟨max 640 (min (3000 : Int).toNat 1920), max 480 (min (100 : Int).toNat 1080)⟩ ∧
      ∀ minImageCount maxImageCount : Nat,
        chooseSwapExtent
          ⟨minImageCount, maxImageCount, ⟨UINT32_MAX, UINT32_MAX⟩, ⟨1, 1⟩, ⟨4096, 4096⟩⟩
          1024 768 = ⟨1024, 768⟩ :=
  chooseSwapExtent_sentinel ⟨2, 0, ⟨UINT32_MAX, UINT32_MAX⟩, ⟨640, 480⟩, ⟨1920, 1080⟩⟩ 3000 100
    rfl (by decide) (by decide) (by decide) (by decide)

/-- C10, as stated, fails: with `currentExtent = (0xFFFFFFFF, 600)`, which is not the
sentinel pair, `chooseSwapExtent` takes the clamping branch and returns the framebuffer
size (800, 480), not `currentExtent`. -/
theorem chooseSwapExtent_width_only :
    (⟨UINT32_MAX, 600⟩ : VkExtent2D) ≠ ⟨UINT32_MAX, UINT32_MAX⟩ ∧
      chooseSwapExtent ⟨2, 0, ⟨UINT32_MAX, 600⟩, ⟨1, 1⟩, ⟨4096, 4096⟩⟩ 800 480 = ⟨800, 480⟩ ∧
      chooseSwapExtent ⟨2, 0, ⟨UINT32_MAX, 600⟩, ⟨1, 1⟩, ⟨4096, 4096⟩⟩ 800 480 ≠
        ⟨UINT32_MAX, 600⟩ := by
  decide

/-- C10, amended: whenever `currentExtent.width` is not `0xFFFFFFFF`, whatever the height,
`chooseSwapExtent` returns `currentExtent` unchanged, independent of the framebuffer size
and of the extent bounds. -/
theorem chooseSwapExtent_fixed (capabilities : VkSurfaceCapabilitiesKHR) (width height : Int)
    (h : capabilities.currentExtent.width ≠ UINT32_MAX) :
    chooseSwapExtent capabilities width height = capabilities.currentExtent := by
  unfold chooseSwapExtent
  rw [if_pos h]

theorem chooseSwapExtent_fixed_witness :
    chooseSwapExtent ⟨2, 0, ⟨800, UINT32_MAX⟩, ⟨1, 1⟩, ⟨4096, 4096⟩⟩ 1024 768 =
      ⟨800, UINT32_MAX⟩ :=
  chooseSwapExtent_fixed ⟨2, 0, ⟨800, UINT32_MAX⟩, ⟨1, 1⟩, ⟨4096, 4096⟩⟩ 1024 768 (by decide)

/-- C11, as stated, fails: the bounds (1000,1000)–(4096,4096) satisfy min ≤ max, yet with
the fixed `currentExtent = (800, 600)` the function returns (800, 600) for a 1024×768
framebuffer, and 800 is below the minimum width 1000. -/
theorem chooseSwapExtent_fixed_outside_bounds :
    chooseSwapExtent ⟨2, 0, ⟨800, 600⟩, ⟨1000, 1000⟩, ⟨4096, 4096⟩⟩ 1024 768 = ⟨800, 600⟩ ∧
      ¬ (1000 ≤ (chooseSwapExtent ⟨2, 0, ⟨800, 600⟩, ⟨1000, 1000⟩, ⟨4096, 4096⟩⟩
        1024 768).width) := by
  decide

/-- C11, amended: when the bounds satisfy min ≤ max component-wise and either
`currentExtent.width` is `0xFFFFFFFF` (the framebuffer size is clamped) or `currentExtent`
itself lies within the bounds (it is returned unchanged), the extent returned for any
framebuffer size, negative sizes included, lies within the bounds component-wise. -/
theorem chooseSwapExtent_within_bounds (capabilities : VkSurfaceCapabilitiesKHR)
    (width height : Int)
    (hw : capabilities.minImageExtent.width ≤ capabilities.maxImageExtent.width)
    (hh : capabilities.minImageExtent.height ≤ capabilities.maxImageExtent.height)
    (hcurrent : capabilities.currentExtent.width = UINT32_MAX ∨
      (capabilities.minImageExtent.width ≤ capabilities.currentExtent.width ∧
        capabilities.currentExtent.width ≤ capabilities.maxImageExtent.width ∧
        capabilities.minImageExtent.height ≤ capabilities.currentExtent.height ∧
        capabilities.currentExtent.height ≤ capabilities.maxImageExtent.height)) :
    capabilities.minImageExtent.width ≤ (chooseSwapExtent capabilities width height).width ∧
      (chooseSwapExtent capabilities width height).width ≤ capabilities.maxImageExtent.width ∧
      capabilities.minImageExtent.height ≤
        (chooseSwapExtent capabilities width height).height ∧
      (chooseSwapExtent capabilities width height).height ≤
        capabilities.maxImageExtent.height := by
  unfold chooseSwapExtent
  by_cases hs : capabilities.currentExtent.width = UINT32_MAX
  · rw [if_neg (not_not.mpr hs)]
    simp only [clamp_eq_max_min _ _ _ hw, clamp_eq_max_min _ _ _ hh]
    omega
  · rw [if_pos hs]
    rcases hcurrent with h | h
    · exact absurd h hs
    · exact h

theorem chooseSwapExtent_within_bounds_witness :
    (640 : Nat) ≤
        (chooseSwapExtent ⟨2, 0, ⟨UINT32_MAX, UINT32_MAX⟩, ⟨640, 480⟩, ⟨1920, 1080⟩⟩
          (-5) 100000).width ∧
      (chooseSwapExtent ⟨2, 0, ⟨UINT32_MAX, UINT32_MAX⟩, ⟨640, 480⟩, ⟨1920, 1080⟩⟩
          (-5) 100000).width ≤ 1920 ∧
      (480 : Nat) ≤
        (chooseSwapExtent ⟨2, 0, ⟨UINT32_MAX, UINT32_MAX⟩, ⟨640, 480⟩, ⟨1920, 1080⟩⟩
          (-5) 100000).height ∧
      (chooseSwapExtent ⟨2, 0, ⟨UINT32_MAX, UINT32_MAX⟩, ⟨640, 480⟩, ⟨1920, 1080⟩⟩
          (-5) 100000).height ≤ 1080 :=
  chooseSwapExtent_within_bounds ⟨2, 0, ⟨UINT32_MAX, UINT32_MAX⟩, ⟨640, 480⟩, ⟨1920, 1080⟩⟩
    (-5) 100000 (by decide) (by decide) (Or.inl rfl)

/-! ## Format and present mode selection -/

/-- C12: for every non-empty list of surface formats, `chooseSwapChainSurfaceFormat`
returns a member of the list; if the list holds an entry with format B8G8R8A8_SRGB and
colour space SRGB_NONLINEAR the result is such an entry (the first one), and otherwise
the result is the first entry of the list. -/
theorem chooseSwapChainSurfaceFormat_spec (availableFormats : List VkSurfaceFormatKHR)
    (hne : availableFormats ≠ []) :
    ∃ chosen, chooseSwapChainSurfaceFormat availableFormats = some chosen ∧
      chosen ∈ availableFormats ∧
      ((∃ f ∈ availableFormats, f.format = VK_FORMAT_B8G8R8A8_SRGB ∧
            f.colorSpace = VK_COLOR_SPACE_SRGB_NONLINEAR_KHR) →
          chosen.format = VK_FORMAT_B8G8R8A8_SRGB ∧
            chosen.colorSpace = VK_COLOR_SPACE_SRGB_NONLINEAR_KHR ∧
            ∃ earlier later, availableFormats = earlier ++ chosen :: later ∧
              ∀ f ∈ earlier, ¬ (f.format = VK_FORMAT_B8G8R8A8_SRGB ∧
                f.colorSpace = VK_COLOR_SPACE_SRGB_NONLINEAR_KHR)) ∧
      ((¬ ∃ f ∈ availableFormats, f.format = VK_FORMAT_B8G8R8A8_SRGB ∧
            f.colorSpace = VK_COLOR_SPACE_SRGB_NONLINEAR_KHR) →
          some chosen = availableFormats.head?) := by
  unfold chooseSwapChainSurfaceFormat
  cases hfind : availableFormats.find? (fun availableFormat =>
      decide (availableFormat.format = VK_FORMAT_B8G8R8A8_SRGB ∧
        availableFormat.colorSpace = VK_COLOR_SPACE_SRGB_NONLINEAR_KHR)) with
  | some chosen =>
    refine ⟨chosen, rfl, List.mem_of_find?_eq_some hfind, ?_, ?_⟩
    · intro _
      have hp := List.find?_some hfind
      simp only [decide_eq_true_eq] at hp
      refine ⟨hp.1, hp.2, ?_⟩
      obtain ⟨_, earlier, later, heq, hnot⟩ := List.find?_eq_some.mp hfind
      refine ⟨earlier, later, heq, fun f hf hp => ?_⟩
      have := hnot f hf
      simp [hp] at this
    · intro hnone
      exact absurd ⟨chosen, List.mem_of_find?_eq_some hfind, by
        simpa using List.find?_some hfind⟩ hnone
  | none =>
    cases availableFormats with
    | nil => exact absurd rfl hne
    | cons first rest =>
      refine ⟨first, by simp, List.mem_cons_self _ _, ?_, fun _ => rfl⟩
      intro ⟨f, hf, hp⟩
      have := List.find?_eq_none.mp hfind f hf
      simp only [decide_eq_true_eq] at this
      exact absurd hp this

theorem chooseSwapChainSurfaceFormat_spec_witness :
    ∃ chosen, chooseSwapChainSurfaceFormat [⟨44, 0⟩, ⟨50, 0⟩, ⟨50, 0⟩] = some chosen ∧
      chosen ∈ ([⟨44, 0⟩, ⟨50, 0⟩, ⟨50, 0⟩] : List VkSurfaceFormatKHR) ∧
      ((∃ f ∈ ([⟨44, 0⟩, ⟨50, 0⟩, ⟨50, 0⟩] : List VkSurfaceFormatKHR),
            f.format = VK_FORMAT_B8G8R8A8_SRGB ∧
            f.colorSpace = VK_COLOR_SPACE_SRGB_NONLINEAR_KHR) →
          chosen.format = VK_FORMAT_B8G8R8A8_SRGB ∧
            chosen.colorSpace = VK_COLOR_SPACE_SRGB_NONLINEAR_KHR ∧
            ∃ earlier later, [⟨44, 0⟩, ⟨50, 0⟩, ⟨50, 0⟩] = earlier ++ chosen :: later ∧
              ∀ f ∈ earlier, ¬ (f.format = VK_FORMAT_B8G8R8A8_SRGB ∧
                f.colorSpace = VK_COLOR_SPACE_SRGB_NONLINEAR_KHR)) ∧
      ((¬ ∃ f ∈ ([⟨44, 0⟩, ⟨50, 0⟩, ⟨50, 0⟩] : List VkSurfaceFormatKHR),
            f.format = VK_FORMAT_B8G8R8A8_SRGB ∧
            f.colorSpace = VK_COLOR_SPACE_SRGB_NONLINEAR_KHR) →
          some chosen = ([⟨44, 0⟩, ⟨50, 0⟩, ⟨50, 0⟩] : List VkSurfaceFormatKHR).head?) :=
  chooseSwapChainSurfaceFormat_spec [⟨44, 0⟩, ⟨50, 0⟩, ⟨50, 0⟩] (by decide)

/-- C13: for every list of present modes, `chooseSwapChainPresentMode` returns MAILBOX if
MAILBOX occurs in the list and FIFO otherwise; hence the returned mode is a member of
every list that contains FIFO. -/
theorem chooseSwapChainPresentMode_spec (availablePresentModes : List VkPresentModeKHR) :
    chooseSwapChainPresentMode availablePresentModes =
        (if VK_PRESENT_MODE_MAILBOX_KHR ∈ availablePresentModes then
          VK_PRESENT_MODE_MAILBOX_KHR
        else
          VK_PRESENT_MODE_FIFO_KHR) ∧
      (VK_PRESENT_MODE_FIFO_KHR ∈ availablePresentModes →
        chooseSwapChainPresentMode availablePresentModes ∈ availablePresentModes) := by
  have key : chooseSwapChainPresentMode availablePresentModes =
      (if VK_PRESENT_MODE_MAILBOX_KHR ∈ availablePresentModes then
        VK_PRESENT_MODE_MAILBOX_KHR
      else
        VK_PRESENT_MODE_FIFO_KHR) := by
    unfold chooseSwapChainPresentMode
    cases hfind : availablePresentModes.find? (fun availablePresentMode =>
        decide (availablePresentMode = VK_PRESENT_MODE_MAILBOX_KHR)) with
    | some chosen =>
      have hp := List.find?_some hfind
      simp only [decide_eq_true_eq] at hp
      have hmem := List.mem_of_find?_eq_some hfind
      rw [hp] at hmem
      simp only [hmem, if_true, hp]
    | none =>
      have hnot : VK_PRESENT_MODE_MAILBOX_KHR ∉ availablePresentModes := by
        intro hmem
        have := List.find?_eq_none.mp hfind _ hmem
        simp at this
      simp only [hnot, if_false]
  refine ⟨key, fun hfifo => ?_⟩
  rw [key]
  split_ifs with h
  · exact h
  · exact hfifo

/-! ## Reasoning about executions -/

theorem bind_run {α β : Type} (m : Exec α) (f : α → Exec β) (w : World) :
    (m >>= f) w = match m w with
      | (.ok a, w') => f a w'
      | (.stop s, w') => (.stop s, w') := rfl

theorem pure_run {α : Type} (a : α) (w : World) : (pure a : Exec α) w = (.ok a, w) := rfl

section QuietRules

variable {α γ β ι : Type} {P : Call → Prop} {K : Application → β}

theorem Quiet.pure (a : α) : Quiet P K (pure a : Exec α) :=
  ⟨fun w => ⟨[], by simp [pure_run], by simp, rfl⟩⟩

theorem Quiet.bind {m : Exec α} {f : α → Exec γ} (hm : Quiet P K m)
    (hf : ∀ a, Quiet P K (f a)) : Quiet P K (m >>= f) := by
  constructor
  intro w
  obtain ⟨cs, h1, h2, h3⟩ := hm.run w
  rw [bind_run]
  cases hmw : m w with
  | mk o w' =>
    rw [hmw] at h1 h3
    cases o with
    | ok a =>
      obtain ⟨cs', h1', h2', h3'⟩ := (hf a).run w'
      refine ⟨cs ++ cs', ?_, ?_, ?_⟩
      · simp only [h1']
        simp only at h1
        rw [h1, List.append_assoc]
      · intro c hc
        rcases List.mem_append.1 hc with h | h
        · exact h2 c h
        · exact h2' c h
      · simp only [h3']
        exact h3
    | stop s => exact ⟨cs, h1, h2, h3⟩

theorem Quiet.bind_of {m : Exec α} {f : α → Exec γ} (R : α → Prop) (hm : Quiet P K m)
    (hR : ∀ w a w', m w = (.ok a, w') → R a) (hf : ∀ a, R a → Quiet P K (f a)) :
    Quiet P K (m >>= f) := by
  constructor
  intro w
  obtain ⟨cs, h1, h2, h3⟩ := hm.run w
  rw [bind_run]
  cases hmw : m w with
  | mk o w' =>
    rw [hmw] at h1 h3
    cases o with
    | ok a =>
      obtain ⟨cs', h1', h2', h3'⟩ := (hf a (hR w a w' hmw)).run w'
      refine ⟨cs ++ cs', ?_, ?_, ?_⟩
      · simp only [h1']
        simp only at h1
        rw [h1, List.append_assoc]
      · intro c hc
        rcases List.mem_append.1 hc with h | h
        · exact h2 c h
        · exact h2' c h
      · simp only [h3']
        exact h3
    | stop s => exact ⟨cs, h1, h2, h3⟩

theorem Quiet.call (c : Call) (h : P c) : Quiet P K (call c) :=
  ⟨fun w => ⟨[c], rfl, by simpa using h, rfl⟩⟩

theorem Quiet.runtime_error (what : String) : Quiet P K (runtime_error what : Exec α) :=
  ⟨fun w => ⟨[], by simp [VulkanTutorial.runtime_error], by simp, rfl⟩⟩

theorem Quiet.invalid_argument (what : String) : Quiet P K (invalid_argument what : Exec α) :=
  ⟨fun w => ⟨[], by simp [VulkanTutorial.invalid_argument], by simp, rfl⟩⟩

theorem Quiet.blockForever : Quiet P K (blockForever : Exec α) :=
  ⟨fun w => ⟨[], by simp [VulkanTutorial.blockForever], by simp, rfl⟩⟩

theorem Quiet.outOfRange : Quiet P K (outOfRange : Exec α) :=
  ⟨fun w => ⟨[], by simp [VulkanTutorial.outOfRange], by simp, rfl⟩⟩

theorem Quiet.getApp : Quiet P K getApp :=
  ⟨fun w => ⟨[], by simp [VulkanTutorial.getApp], by simp, rfl⟩⟩

theorem Quiet.modifyApp (f : Application → Application) (h : ∀ app, K (f app) = K app) :
    Quiet P K (modifyApp f) :=
  ⟨fun w => ⟨[], by simp [VulkanTutorial.modifyApp], by simp, h w.app⟩⟩

theorem Quiet.freshHandle : Quiet P K freshHandle :=
  ⟨fun w => ⟨[], by simp [VulkanTutorial.freshHandle], by simp, rfl⟩⟩

theorem Quiet.freshHandles (n : Nat) : Quiet P K (freshHandles n) :=
  ⟨fun w => ⟨[], by simp [VulkanTutorial.freshHandles], by simp, rfl⟩⟩

theorem Quiet.inRange (o : Option α) : Quiet P K (inRange o) := by
  cases o
  · exact Quiet.outOfRange
  · exact Quiet.pure _

theorem Quiet.index (v : List α) (i : Nat) : Quiet P K (index v i) := Quiet.inRange _

theorem Quiet.forEach (l : List ι) (body : ι → Exec Unit) (h : ∀ i, Quiet P K (body i)) :
    Quiet P K (forEach l body) := by
  induction l with
  | nil => exact Quiet.pure _
  | cons i rest ih => exact Quiet.bind (h i) (fun _ => ih)

theorem Quiet.weaken {δ : Type} {Q : Call → Prop} (g : β → δ) {m : Exec α}
    (h : Quiet P K m) (hPQ : ∀ c, P c → Q c) : Quiet Q (fun app => g (K app)) m :=
  ⟨fun w => by
    obtain ⟨cs, h1, h2, h3⟩ := h.run w
    exact ⟨cs, h1, fun c hc => hPQ c (h2 c hc), by simp only [h3]⟩⟩

end QuietRules

/-- The calls inside a recreation, as a property. -/
theorem cleanupSwapChain_quiet :
    Quiet (fun c => c.inRecreate = true) resizeKey cleanupSwapChain := by
  unfold cleanupSwapChain
  repeat' (first
    | apply Quiet.bind
    | apply Quiet.pure
    | apply Quiet.getApp
    | apply Quiet.freshHandle
    | apply Quiet.freshHandles
    | apply Quiet.inRange
    | apply Quiet.index
    | apply Quiet.forEach
    | apply Quiet.runtime_error
    | (apply Quiet.call; rfl)
    | (apply Quiet.modifyApp; intro _; rfl)
    | intro _
    | split)

theorem createSwapChain_quiet (env : RecreateEnv) (oldSwapChain : Handle) :
    Quiet (fun c => c.inRecreate = true) resizeKey (createSwapChain env oldSwapChain) := by
  unfold createSwapChain
  repeat' (first
    | apply Quiet.bind
    | apply Quiet.pure
    | apply Quiet.getApp
    | apply Quiet.freshHandle
    | apply Quiet.freshHandles
    | apply Quiet.inRange
    | apply Quiet.index
    | apply Quiet.forEach
    | apply Quiet.runtime_error
    | (apply Quiet.call; rfl)
    | (apply Quiet.modifyApp; intro _; rfl)
    | intro _
    | split)

theorem createImageView_quiet (result : VkResult) (image : Handle) (format : VkFormat)
    (aspectFlags mips : Nat) :
    Quiet (fun c => c.inRecreate = true) resizeKey
      (createImageView result image format aspectFlags mips) := by
  unfold createImageView
  repeat' (first
    | apply Quiet.bind
    | apply Quiet.pure
    | apply Quiet.getApp
    | apply Quiet.freshHandle
    | apply Quiet.freshHandles
    | apply Quiet.inRange
    | apply Quiet.index
    | apply Quiet.forEach
    | apply Quiet.runtime_error
    | (apply Quiet.call; rfl)
    | (apply Quiet.modifyApp; intro _; rfl)
    | intro _
    | split)

theorem createSwapChainImageViews_quiet (env : RecreateEnv) :
    Quiet (fun c => c.inRecreate = true) resizeKey (createSwapChainImageViews env) := by
  unfold createSwapChainImageViews
  repeat' (first
    | apply createImageView_quiet
    | apply Quiet.bind
    | apply Quiet.pure
    | apply Quiet.getApp
    | apply Quiet.freshHandle
    | apply Quiet.freshHandles
    | apply Quiet.inRange
    | apply Quiet.index
    | apply Quiet.forEach
    | apply Quiet.runtime_error
    | (apply Quiet.call; rfl)
    | (apply Quiet.modifyApp; intro _; rfl)
    | intro _
    | split)

theorem findMemoryTypeIndexFrom_quiet (typeBitsFilter propertyFlags : Nat)
    (memoryTypes : List Nat) (i : Nat) :
    Quiet (fun c => c.inRecreate = true) resizeKey
      (findMemoryTypeIndexFrom typeBitsFilter propertyFlags memoryTypes i) := by
  induction memoryTypes generalizing i with
  | nil => exact Quiet.runtime_error _
  | cons memoryType rest ih =>
    unfold findMemoryTypeIndexFrom
    split
    · exact Quiet.pure _
    · exact ih _

theorem createImage_quiet (memoryTypes : List Nat) (env : CreateImageEnv) (width height : Int)
    (mips numSamples : Nat) (format : VkFormat) (tiling : VkImageTiling)
    (usage memoryPropertyFlags : Nat) :
    Quiet (fun c => c.inRecreate = true) resizeKey
      (createImage memoryTypes env width height mips numSamples format tiling usage
        memoryPropertyFlags) := by
  unfold createImage findMemoryTypeIndex
  repeat' (first
    | apply findMemoryTypeIndexFrom_quiet
    | apply Quiet.bind
    | apply Quiet.pure
    | apply Quiet.getApp
    | apply Quiet.freshHandle
    | apply Quiet.freshHandles
    | apply Quiet.inRange
    | apply Quiet.index
    | apply Quiet.forEach
    | apply Quiet.runtime_error
    | (apply Quiet.call; rfl)
    | (apply Quiet.modifyApp; intro _; rfl)
    | intro _
    | split)

theorem createColorResources_quiet (env : RecreateEnv) :
    Quiet (fun c => c.inRecreate = true) resizeKey (createColorResources env) := by
  unfold createColorResources
  repeat' (first
    | apply createImage_quiet
    | apply createImageView_quiet
    | apply Quiet.bind
    | apply Quiet.pure
    | apply Quiet.getApp
    | apply Quiet.freshHandle
    | apply Quiet.freshHandles
    | apply Quiet.inRange
    | apply Quiet.index
    | apply Quiet.forEach
    | apply Quiet.runtime_error
    | (apply Quiet.call; rfl)
    | (apply Quiet.modifyApp; intro _; rfl)
    | intro _
    | split)

theorem findSupportedFormat_quiet (formatProperties : VkFormat → VkFormatProperties)
    (candidates : List VkFormat) (tiling : VkImageTiling) (features : Nat) :
    Quiet (fun c => c.inRecreate = true) resizeKey
      (findSupportedFormat formatProperties candidates tiling features) := by
  induction candidates with
  | nil => exact Quiet.runtime_error _
  | cons format rest ih =>
    unfold findSupportedFormat
    split
    · exact Quiet.pure _
    · split
      · exact Quiet.pure _
      · exact ih

theorem beginSingleTimeCommands_quiet (result : VkResult) :
    Quiet (fun c => c.inRecreate = true) resizeKey (beginSingleTimeCommands result) := by
  unfold beginSingleTimeCommands
  repeat' (first
    | apply Quiet.bind
    | apply Quiet.pure
    | apply Quiet.getApp
    | apply Quiet.freshHandle
    | apply Quiet.freshHandles
    | apply Quiet.inRange
    | apply Quiet.index
    | apply Quiet.forEach
    | apply Quiet.runtime_error
    | (apply Quiet.call; rfl)
    | (apply Quiet.modifyApp; intro _; rfl)
    | intro _
    | split)

theorem beginSingleTimeCommands_singleTime (result : VkResult) (w : World)
    (commandBuffer : VkCommandBuffer) (w' : World)
    (h : beginSingleTimeCommands result w = (.ok commandBuffer, w')) :
    ∃ handle, commandBuffer = .singleTime handle := by
  unfold beginSingleTimeCommands at h
  by_cases hr : result = VK_SUCCESS
  · simp [hr, bind_run, pure_run, freshHandle, call] at h
    exact ⟨_, h.1.symm⟩
  · simp [hr, bind_run, pure_run, freshHandle, call, runtime_error] at h

theorem endSingleTimeCommands_quiet (result : VkResult) (handle : Handle) :
    Quiet (fun c => c.inRecreate = true) resizeKey
      (endSingleTimeCommands result (.singleTime handle)) := by
  unfold endSingleTimeCommands
  repeat' (first
    | apply Quiet.bind
    | apply Quiet.pure
    | apply Quiet.getApp
    | apply Quiet.freshHandle
    | apply Quiet.freshHandles
    | apply Quiet.inRange
    | apply Quiet.index
    | apply Quiet.forEach
    | apply Quiet.runtime_error
    | (apply Quiet.call; rfl)
    | (apply Quiet.modifyApp; intro _; rfl)
    | intro _
    | split)

theorem transitionImageLayout_quiet (allocateResult submitResult : VkResult) (image : Handle)
    (format : VkFormat) (oldLayout newLayout : VkImageLayout) (mips : Nat) :
    Quiet (fun c => c.inRecreate = true) resizeKey
      (transitionImageLayout allocateResult submitResult image format oldLayout newLayout
        mips) := by
  unfold transitionImageLayout
  refine Quiet.bind_of (fun cb => ∃ handle, cb = .singleTime handle)
    (beginSingleTimeCommands_quiet _) (beginSingleTimeCommands_singleTime _) ?_
  rintro _ ⟨handle, rfl⟩
  split
  · exact Quiet.invalid_argument _
  · exact Quiet.bind (Quiet.call _ rfl) (fun _ => endSingleTimeCommands_quiet _ _)

theorem createDepthResources_quiet (env : RecreateEnv) :
    Quiet (fun c => c.inRecreate = true) resizeKey (createDepthResources env) := by
  unfold createDepthResources findDepthFormat
  repeat' (first
    | apply findSupportedFormat_quiet
    | apply createImage_quiet
    | apply createImageView_quiet
    | apply transitionImageLayout_quiet
    | apply Quiet.bind
    | apply Quiet.pure
    | apply Quiet.getApp
    | apply Quiet.freshHandle
    | apply Quiet.freshHandles
    | apply Quiet.inRange
    | apply Quiet.index
    | apply Quiet.forEach
    | apply Quiet.runtime_error
    | (apply Quiet.call; rfl)
    | (apply Quiet.modifyApp; intro _; rfl)
    | intro _
    | split)

theorem createRenderPass_quiet (env : RecreateEnv) :
    Quiet (fun c => c.inRecreate = true) resizeKey (createRenderPass env) := by
  unfold createRenderPass findDepthFormat
  repeat' (first
    | apply findSupportedFormat_quiet
    | apply Quiet.bind
    | apply Quiet.pure
    | apply Quiet.getApp
    | apply Quiet.freshHandle
    | apply Quiet.freshHandles
    | apply Quiet.inRange
    | apply Quiet.index
    | apply Quiet.forEach
    | apply Quiet.runtime_error
    | (apply Quiet.call; rfl)
    | (apply Quiet.modifyApp; intro _; rfl)
    | intro _
    | split)

theorem createPipeline_quiet (result : Option String) :
    Quiet (fun c => c.inRecreate = true) resizeKey (createPipeline result) := by
  unfold createPipeline
  repeat' (first
    | apply Quiet.bind
    | apply Quiet.pure
    | apply Quiet.getApp
    | apply Quiet.freshHandle
    | apply Quiet.freshHandles
    | apply Quiet.inRange
    | apply Quiet.index
    | apply Quiet.forEach
    | apply Quiet.runtime_error
    | (apply Quiet.call; rfl)
    | (apply Quiet.modifyApp; intro _; rfl)
    | intro _
    | split)

theorem createFramebuffers_quiet (env : RecreateEnv) :
    Quiet (fun c => c.inRecreate = true) resizeKey (createFramebuffers env) := by
  unfold createFramebuffers
  repeat' (first
    | apply Quiet.bind
    | apply Quiet.pure
    | apply Quiet.getApp
    | apply Quiet.freshHandle
    | apply Quiet.freshHandles
    | apply Quiet.inRange
    | apply Quiet.index
    | apply Quiet.forEach
    | apply Quiet.runtime_error
    | (apply Quiet.call; rfl)
    | (apply Quiet.modifyApp; intro _; rfl)
    | intro _
    | split)

theorem waitForFramebuffer_quiet (waitEvents : List WaitEvents) (width height : Int) :
    Quiet (fun c => c.inRecreate = true) frameKey
      (waitForFramebuffer waitEvents width height) := by
  induction waitEvents generalizing width height with
  | nil =>
    unfold waitForFramebuffer
    split
    · exact Quiet.bind (Quiet.call _ rfl) (fun _ => Quiet.blockForever)
    · exact Quiet.pure _
  | cons event rest ih =>
    unfold waitForFramebuffer
    repeat' (first
      | apply ih
      | apply Quiet.bind
      | apply Quiet.pure
      | (apply Quiet.call; rfl)
      | (apply Quiet.modifyApp; intro _; rfl)
      | intro _
      | split)

theorem waitForFramebuffer_quiet_resize (waitEvents : List WaitEvents) (width height : Int)
    (h : ∀ event ∈ waitEvents, event.framebufferResizeCallback = false) :
    Quiet (fun c => c.inRecreate = true) resizeKey
      (waitForFramebuffer waitEvents width height) := by
  induction waitEvents generalizing width height with
  | nil =>
    unfold waitForFramebuffer
    split
    · exact Quiet.bind (Quiet.call _ rfl) (fun _ => Quiet.blockForever)
    · exact Quiet.pure _
  | cons event rest ih =>
    have hevent := h event (List.mem_cons_self _ _)
    have hrest : ∀ e ∈ rest, e.framebufferResizeCallback = false :=
      fun e he => h e (List.mem_cons_of_mem _ he)
    unfold waitForFramebuffer
    simp only [hevent, Bool.false_eq_true, if_false]
    repeat' (first
      | apply ih _ _ hrest
      | apply Quiet.bind
      | apply Quiet.pure
      | (apply Quiet.call; rfl)
      | intro _
      | split)

theorem frameKey_of_resizeKey {α : Type} {P : Call → Prop} {m : Exec α}
    (h : Quiet P resizeKey m) : Quiet P frameKey m :=
  Quiet.weaken (fun k : Nat × Nat × Bool => (k.1, k.2.1)) h (fun _ hc => hc)

/-- The part of `recreateSwapChain` after the wait for a nonzero framebuffer. -/
theorem recreateSwapChain_body_quiet (env : RecreateEnv) :
    Quiet (fun c => c.inRecreate = true) resizeKey (do
      call .vkDeviceWaitIdle
      cleanupSwapChain
      let oldSwapChainImageFormat := (← getApp).swapChainImageFormat
      createSwapChain env
      createSwapChainImageViews env
      createColorResources env
      createDepthResources env
      if oldSwapChainImageFormat ≠ (← getApp).swapChainImageFormat then
        createRenderPass env
        createPipeline env.createPipeline
      createFramebuffers env) := by
  repeat' (first
    | apply cleanupSwapChain_quiet
    | apply createSwapChain_quiet
    | apply createSwapChainImageViews_quiet
    | apply createColorResources_quiet
    | apply createDepthResources_quiet
    | apply createRenderPass_quiet
    | apply createPipeline_quiet
    | apply createFramebuffers_quiet
    | apply Quiet.bind
    | apply Quiet.pure
    | apply Quiet.getApp
    | apply Quiet.freshHandle
    | apply Quiet.freshHandles
    | apply Quiet.inRange
    | apply Quiet.index
    | apply Quiet.forEach
    | apply Quiet.runtime_error
    | (apply Quiet.call; rfl)
    | (apply Quiet.modifyApp; intro _; rfl)
    | intro _
    | split)

/-- After its entry marker, `recreateSwapChain` makes only calls of a recreation, and it
keeps the frame index and the renderer selection. -/
theorem recreateSwapChain_quiet (env : RecreateEnv) :
    ∃ body : Exec Unit, Quiet (fun c => c.inRecreate = true) frameKey body ∧
      recreateSwapChain env = (call .recreateSwapChain >>= fun _ => body) := by
  refine ⟨_, ?_, rfl⟩
  exact Quiet.bind (Quiet.call _ rfl) (fun _ =>
    Quiet.bind (waitForFramebuffer_quiet _ _ _) (fun _ =>
      frameKey_of_resizeKey (recreateSwapChain_body_quiet env)))

/-- The same when GLFW runs no resize callback during the wait: the resize flag is kept
as well. -/
theorem recreateSwapChain_quiet_resize (env : RecreateEnv)
    (h : ∀ event ∈ env.waitEvents, event.framebufferResizeCallback = false) :
    ∃ body : Exec Unit, Quiet (fun c => c.inRecreate = true) resizeKey body ∧
      recreateSwapChain env = (call .recreateSwapChain >>= fun _ => body) := by
  refine ⟨_, ?_, rfl⟩
  exact Quiet.bind (Quiet.call _ rfl) (fun _ =>
    Quiet.bind (waitForFramebuffer_quiet_resize _ _ _ h) (fun _ =>
      recreateSwapChain_body_quiet env))

/-! ## The paths of `drawFrame` -/

theorem updateData_run (env : DrawFrameEnv) (w : World) :
    updateData env.updateData w = (.ok (),
      { w with app := updated env w.app, trace := w.trace ++ updateCalls (updated env w.app) }) := by
  simp [updateData, bind_run, pure_run, call, getApp, modifyApp, updated, updateCalls]

theorem updated_currentFrame (env : DrawFrameEnv) (app : Application) :
    (updated env app).currentFrame = app.currentFrame := rfl

theorem updated_swapChain (env : DrawFrameEnv) (app : Application) :
    (updated env app).swapChain = app.swapChain := rfl

theorem updated_renderPass (env : DrawFrameEnv) (app : Application) :
    (updated env app).renderPass = app.renderPass := rfl

theorem updated_swapChainExtent (env : DrawFrameEnv) (app : Application) :
    (updated env app).swapChainExtent = app.swapChainExtent := rfl

theorem updated_swapChainFramebuffers (env : DrawFrameEnv) (app : Application) :
    (updated env app).swapChainFramebuffers = app.swapChainFramebuffers := rfl

theorem updated_framebufferResized (env : DrawFrameEnv) (app : Application) :
    (updated env app).framebufferResized = app.framebufferResized := rfl

theorem VK_SUCCESS_ne_outOfDate : VK_SUCCESS ≠ VK_ERROR_OUT_OF_DATE_KHR := by decide

theorem VK_SUCCESS_ne_suboptimal : VK_SUCCESS ≠ VK_SUBOPTIMAL_KHR := by decide

theorem acquireProceeds_ne (env : DrawFrameEnv) (h : acquireProceeds env) :
    env.vkAcquireNextImageKHR ≠ VK_ERROR_OUT_OF_DATE_KHR ∧
      ¬ (env.vkAcquireNextImageKHR ≠ VK_SUCCESS ∧
        env.vkAcquireNextImageKHR ≠ VK_SUBOPTIMAL_KHR) := by
  rcases h with h | h <;> rw [h] <;> decide

/-- When the acquire returns out-of-date, `drawFrame` is the wait, the acquire and
`recreateSwapChain`. -/
theorem drawFrame_outOfDate (env : DrawFrameEnv) (w : World)
    (h : env.vkAcquireNextImageKHR = VK_ERROR_OUT_OF_DATE_KHR) :
    drawFrame env w = recreateSwapChain env.recreateSwapChain
      ⟨w.app, w.trace ++ acquireCalls w.app, w.nextHandle⟩ := by
  unfold drawFrame
  simp only [bind_run, pure_run, getApp, call, h, if_true, acquireCalls, List.append_assoc,
    List.singleton_append]
  generalize recreateSwapChain env.recreateSwapChain _ = r
  rcases r with ⟨_ | _, _⟩ <;> rfl

/-- When the acquire returns an error other than out-of-date, `drawFrame` throws after the
wait and the acquire. -/
theorem drawFrame_acquire_error (env : DrawFrameEnv) (w : World)
    (h1 : env.vkAcquireNextImageKHR ≠ VK_ERROR_OUT_OF_DATE_KHR)
    (h2 : env.vkAcquireNextImageKHR ≠ VK_SUCCESS)
    (h3 : env.vkAcquireNextImageKHR ≠ VK_SUBOPTIMAL_KHR) :
    drawFrame env w = (.stop (.threw "failed to acquire swap chain image!"),
      ⟨w.app, w.trace ++ acquireCalls w.app, w.nextHandle⟩) := by
  unfold drawFrame
  simp [bind_run, pure_run, getApp, call, runtime_error, h1, h2, h3, acquireCalls]


/-- When the acquire lets the frame go on and a call before the present fails, `drawFrame`
stops there, with an exception or an out-of-range read: the calls it has made are a prefix
of steps 1 to 5 and no present is issued. -/
theorem drawFrame_stops_early (env : DrawFrameEnv) (w : World) (hacq : acquireProceeds env)
    (hf : ¬ workSucceeds env w.app) :
    ∃ s cs, cs <+: workCalls (updated env w.app) (frameBuffer env w.app) ∧ s ≠ .blocked ∧
      drawFrame env w = (.stop s, ⟨updated env w.app, w.trace ++ cs, w.nextHandle⟩) := by
  obtain ⟨hne, hok⟩ := acquireProceeds_ne env hacq
  unfold drawFrame
  by_cases hn : (getRenderer (updated env w.app)).needCompute = true
  · by_cases h2 : env.computeEndCommandBuffer = VK_SUCCESS
    swap
    · simp only [bind_run, pure_run, getApp, call, modifyApp, runtime_error, recordCommandBuffer,
        recordComputeCommandBuffer, index, inRange, updateData_run, outOfRange, hne, hok, hn, h2,
        if_true, if_false, ne_eq, not_true_eq_false, not_false_eq_true, List.append_assoc,
      Bool.false_eq_true,
        updated_swapChainFramebuffers]
      refine ⟨_, _, ?_, ?_, rfl⟩
      · simp [workCalls, acquireCalls, updateCalls, computeCalls, graphicsCalls, computeSubmitInfo,
          graphicsSubmitInfo, frameBuffer, hn, h2, updated_currentFrame, updated_swapChain,
          updated_renderPass, updated_swapChainExtent]
      · simp
    by_cases h3 : env.computeQueueSubmit = VK_SUCCESS
    swap
    · simp only [bind_run, pure_run, getApp, call, modifyApp, runtime_error, recordCommandBuffer,
        recordComputeCommandBuffer, index, inRange, updateData_run, outOfRange, hne, hok, hn, h2, h3,
        if_true, if_false, ne_eq, not_true_eq_false, not_false_eq_true, List.append_assoc,
      Bool.false_eq_true,
        updated_swapChainFramebuffers]
      refine ⟨_, _, ?_, ?_, rfl⟩
      · simp [workCalls, acquireCalls, updateCalls, computeCalls, graphicsCalls, computeSubmitInfo,
          graphicsSubmitInfo, frameBuffer, hn, h2, h3, updated_currentFrame, updated_swapChain,
          updated_renderPass, updated_swapChainExtent]
      · simp
    by_cases h4 : env.vkBeginCommandBuffer = VK_SUCCESS
    swap
    · simp only [bind_run, pure_run, getApp, call, modifyApp, runtime_error, recordCommandBuffer,
        recordComputeCommandBuffer, index, inRange, updateData_run, outOfRange, hne, hok, hn, h2, h3, h4,
        if_true, if_false, ne_eq, not_true_eq_false, not_false_eq_true, List.append_assoc,
      Bool.false_eq_true,
        updated_swapChainFramebuffers]
      refine ⟨_, _, ?_, ?_, rfl⟩
      · simp [workCalls, acquireCalls, updateCalls, computeCalls, graphicsCalls, computeSubmitInfo,
          graphicsSubmitInfo, frameBuffer, hn, h2, h3, h4, updated_currentFrame, updated_swapChain,
          updated_renderPass, updated_swapChainExtent]
      · simp
    cases h5 : w.app.swapChainFramebuffers[env.imageIndex]? with
    | none =>
      simp only [bind_run, pure_run, getApp, call, modifyApp, runtime_error, recordCommandBuffer,
        recordComputeCommandBuffer, index, inRange, updateData_run, outOfRange, hne, hok, hn, h2, h3, h4, h5,
        if_true, if_false, ne_eq, not_true_eq_false, not_false_eq_true, List.append_assoc,
      Bool.false_eq_true,
        updated_swapChainFramebuffers]
      refine ⟨_, _, ?_, ?_, rfl⟩
      · simp [workCalls, acquireCalls, updateCalls, computeCalls, graphicsCalls, computeSubmitInfo,
          graphicsSubmitInfo, frameBuffer, hn, h2, h3, h4, h5, updated_currentFrame, updated_swapChain,
          updated_renderPass, updated_swapChainExtent]
      · simp
    | some framebuffer =>
      by_cases h6 : env.vkEndCommandBuffer = VK_SUCCESS
      swap
      · simp only [bind_run, pure_run, getApp, call, modifyApp, runtime_error, recordCommandBuffer,
          recordComputeCommandBuffer, index, inRange, updateData_run, outOfRange, hne, hok, hn, h2, h3, h4, h5, h6,
          if_true, if_false, ne_eq, not_true_eq_false, not_false_eq_true, List.append_assoc,
      Bool.false_eq_true,
          updated_swapChainFramebuffers]
        refine ⟨_, _, ?_, ?_, rfl⟩
        · simp [workCalls, acquireCalls, updateCalls, computeCalls, graphicsCalls, computeSubmitInfo,
            graphicsSubmitInfo, frameBuffer, hn, h2, h3, h4, h5, h6, updated_currentFrame, updated_swapChain,
            updated_renderPass, updated_swapChainExtent]
        · simp
      by_cases h7 : env.vkQueueSubmit = VK_SUCCESS
      swap
      · simp only [bind_run, pure_run, getApp, call, modifyApp, runtime_error, recordCommandBuffer,
          recordComputeCommandBuffer, index, inRange, updateData_run, outOfRange, hne, hok, hn, h2, h3, h4, h5, h6, h7,
          if_true, if_false, ne_eq, not_true_eq_false, not_false_eq_true, List.append_assoc,
      Bool.false_eq_true,
          updated_swapChainFramebuffers]
        refine ⟨_, _, ?_, ?_, rfl⟩
        · simp [workCalls, acquireCalls, updateCalls, computeCalls, graphicsCalls, computeSubmitInfo,
            graphicsSubmitInfo, frameBuffer, hn, h2, h3, h4, h5, h6, h7, updated_currentFrame, updated_swapChain,
            updated_renderPass, updated_swapChainExtent]
        · simp
      exfalso
      refine hf ⟨fun _ => ⟨h2, h3⟩, h4, ?_, h6, h7⟩
      by_contra hlt
      simp [List.getElem?_eq_none (Nat.le_of_not_lt hlt)] at h5
  · by_cases h4 : env.vkBeginCommandBuffer = VK_SUCCESS
    swap
    · simp only [bind_run, pure_run, getApp, call, modifyApp, runtime_error, recordCommandBuffer,
        recordComputeCommandBuffer, index, inRange, updateData_run, outOfRange, hne, hok, hn, h4,
        if_true, if_false, ne_eq, not_true_eq_false, not_false_eq_true, List.append_assoc,
      Bool.false_eq_true,
        updated_swapChainFramebuffers]
      refine ⟨_, _, ?_, ?_, rfl⟩
      · simp [workCalls, acquireCalls, updateCalls, computeCalls, graphicsCalls, computeSubmitInfo,
          graphicsSubmitInfo, frameBuffer, hn, h4, updated_currentFrame, updated_swapChain,
          updated_renderPass, updated_swapChainExtent]
      · simp
    cases h5 : w.app.swapChainFramebuffers[env.imageIndex]? with
    | none =>
      simp only [bind_run, pure_run, getApp, call, modifyApp, runtime_error, recordCommandBuffer,
        recordComputeCommandBuffer, index, inRange, updateData_run, outOfRange, hne, hok, hn, h4, h5,
        if_true, if_false, ne_eq, not_true_eq_false, not_false_eq_true, List.append_assoc,
      Bool.false_eq_true,
        updated_swapChainFramebuffers]
      refine ⟨_, _, ?_, ?_, rfl⟩
      · simp [workCalls, acquireCalls, updateCalls, computeCalls, graphicsCalls, computeSubmitInfo,
          graphicsSubmitInfo, frameBuffer, hn, h4, h5, updated_currentFrame, updated_swapChain,
          updated_renderPass, updated_swapChainExtent]
      · simp
    | some framebuffer =>
      by_cases h6 : env.vkEndCommandBuffer = VK_SUCCESS
      swap
      · simp only [bind_run, pure_run, getApp, call, modifyApp, runtime_error, recordCommandBuffer,
          recordComputeCommandBuffer, index, inRange, updateData_run, outOfRange, hne, hok, hn, h4, h5, h6,
          if_true, if_false, ne_eq, not_true_eq_false, not_false_eq_true, List.append_assoc,
      Bool.false_eq_true,
          updated_swapChainFramebuffers]
        refine ⟨_, _, ?_, ?_, rfl⟩
        · simp [workCalls, acquireCalls, updateCalls, computeCalls, graphicsCalls, computeSubmitInfo,
            graphicsSubmitInfo, frameBuffer, hn, h4, h5, h6, updated_currentFrame, updated_swapChain,
            updated_renderPass, updated_swapChainExtent]
        · simp
      by_cases h7 : env.vkQueueSubmit = VK_SUCCESS
      swap
      · simp only [bind_run, pure_run, getApp, call, modifyApp, runtime_error, recordCommandBuffer,
          recordComputeCommandBuffer, index, inRange, updateData_run, outOfRange, hne, hok, hn, h4, h5, h6, h7,
          if_true, if_false, ne_eq, not_true_eq_false, not_false_eq_true, List.append_assoc,
      Bool.false_eq_true,
          updated_swapChainFramebuffers]
        refine ⟨_, _, ?_, ?_, rfl⟩
        · simp [workCalls, acquireCalls, updateCalls, computeCalls, graphicsCalls, computeSubmitInfo,
            graphicsSubmitInfo, frameBuffer, hn, h4, h5, h6, h7, updated_currentFrame, updated_swapChain,
            updated_renderPass, updated_swapChainExtent]
        · simp
      exfalso
      refine hf ⟨fun h => absurd h hn, h4, ?_, h6, h7⟩
      by_contra hlt
      simp [List.getElem?_eq_none (Nat.le_of_not_lt hlt)] at h5

theorem workSucceeds_framebuffer (env : DrawFrameEnv) (app : Application)
    (hs : workSucceeds env app) :
    app.swapChainFramebuffers[env.imageIndex]? = some (frameBuffer env app) := by
  have hlt := hs.2.2.1
  simp [frameBuffer, List.getD, List.getElem?_eq_getElem hlt]

/-- When the acquire lets the frame go on and no call before the present fails, `drawFrame`
makes the calls of steps 1 to 6 and ends in one of three ways: recreation (when the present
returns out-of-date or suboptimal, or the resize flag is set) followed by the advance of the
frame index, an exception, or the advance alone. -/
theorem drawFrame_present (env : DrawFrameEnv) (w : World) (hacq : acquireProceeds env)
    (hs : workSucceeds env w.app) :
    drawFrame env w =
      if env.vkQueuePresentKHR = VK_ERROR_OUT_OF_DATE_KHR ∨
          env.vkQueuePresentKHR = VK_SUBOPTIMAL_KHR ∨ w.app.framebufferResized = true then
        thenAdvance (recreateSwapChain env.recreateSwapChain
          ⟨{ updated env w.app with framebufferResized := false },
            w.trace ++ frameCalls (updated env w.app) env.imageIndex (frameBuffer env w.app),
            w.nextHandle⟩)
      else if env.vkQueuePresentKHR ≠ VK_SUCCESS then
        (.stop (.threw "failed to present swap chain image!"),
          ⟨updated env w.app,
            w.trace ++ frameCalls (updated env w.app) env.imageIndex (frameBuffer env w.app),
            w.nextHandle⟩)
      else
        (.ok (),
          ⟨advance (updated env w.app),
            w.trace ++ frameCalls (updated env w.app) env.imageIndex (frameBuffer env w.app),
            w.nextHandle⟩) := by
  obtain ⟨hne, hok⟩ := acquireProceeds_ne env hacq
  have h5 := workSucceeds_framebuffer env w.app hs
  obtain ⟨hc, h4, -, h6, h7⟩ := hs
  unfold drawFrame
  by_cases hn : (getRenderer (updated env w.app)).needCompute = true
  · obtain ⟨h2, h3⟩ := hc hn
    by_cases hr : env.vkQueuePresentKHR = VK_ERROR_OUT_OF_DATE_KHR ∨
        env.vkQueuePresentKHR = VK_SUBOPTIMAL_KHR ∨ w.app.framebufferResized = true
    · simp only [bind_run, pure_run, getApp, call, modifyApp, runtime_error, recordCommandBuffer,
        recordComputeCommandBuffer, index, inRange, updateData_run, outOfRange, hne, hok, hn, h2, h3, h4, h5, h6, h7, hr,
        if_true, if_false, ne_eq, not_true_eq_false, not_false_eq_true, List.append_assoc,
        Bool.false_eq_true, updated_swapChainFramebuffers, updated_framebufferResized]
      simp [thenAdvance, advance, frameCalls, workCalls, acquireCalls, updateCalls, computeCalls,
        graphicsCalls, presentCall, computeSubmitInfo, graphicsSubmitInfo, hn, hr,
        updated_currentFrame, updated_swapChain, updated_renderPass, updated_swapChainExtent,
        updated_framebufferResized, updated_swapChainFramebuffers]
      generalize recreateSwapChain env.recreateSwapChain _ = r
      rcases r with ⟨_ | _, _⟩ <;> rfl
    have hflag : w.app.framebufferResized = false := by
      cases hfr : w.app.framebufferResized
      · rfl
      · exact absurd (Or.inr (Or.inr hfr)) hr
    by_cases hp : env.vkQueuePresentKHR = VK_SUCCESS
    · simp only [bind_run, pure_run, getApp, call, modifyApp, runtime_error, recordCommandBuffer,
        recordComputeCommandBuffer, index, inRange, updateData_run, outOfRange, hne, hok, hn, h2, h3, h4, h5, h6, h7, hp, hflag, VK_SUCCESS_ne_outOfDate, VK_SUCCESS_ne_suboptimal, or_self,
        if_true, if_false, ne_eq, not_true_eq_false, not_false_eq_true, List.append_assoc,
        Bool.false_eq_true, updated_swapChainFramebuffers, updated_framebufferResized]
      simp [thenAdvance, advance, frameCalls, workCalls, acquireCalls, updateCalls, computeCalls,
        graphicsCalls, presentCall, computeSubmitInfo, graphicsSubmitInfo, hn, hp, hflag, VK_SUCCESS_ne_outOfDate, VK_SUCCESS_ne_suboptimal, or_self,
        updated_currentFrame, updated_swapChain, updated_renderPass, updated_swapChainExtent,
        updated_framebufferResized, updated_swapChainFramebuffers]
    · simp only [bind_run, pure_run, getApp, call, modifyApp, runtime_error, recordCommandBuffer,
        recordComputeCommandBuffer, index, inRange, updateData_run, outOfRange, hne, hok, hn, h2, h3, h4, h5, h6, h7, hr, hp,
        if_true, if_false, ne_eq, not_true_eq_false, not_false_eq_true, List.append_assoc,
        Bool.false_eq_true, updated_swapChainFramebuffers, updated_framebufferResized]
      simp [thenAdvance, advance, frameCalls, workCalls, acquireCalls, updateCalls, computeCalls,
        graphicsCalls, presentCall, computeSubmitInfo, graphicsSubmitInfo, hn, hr, hp,
        updated_currentFrame, updated_swapChain, updated_renderPass, updated_swapChainExtent,
        updated_framebufferResized, updated_swapChainFramebuffers]
  · by_cases hr : env.vkQueuePresentKHR = VK_ERROR_OUT_OF_DATE_KHR ∨
        env.vkQueuePresentKHR = VK_SUBOPTIMAL_KHR ∨ w.app.framebufferResized = true
    · simp only [bind_run, pure_run, getApp, call, modifyApp, runtime_error, recordCommandBuffer,
        recordComputeCommandBuffer, index, inRange, updateData_run, outOfRange, hne, hok, hn, h4, h5, h6, h7, hr,
        if_true, if_false, ne_eq, not_true_eq_false, not_false_eq_true, List.append_assoc,
        Bool.false_eq_true, updated_swapChainFramebuffers, updated_framebufferResized]
      simp [thenAdvance, advance, frameCalls, workCalls, acquireCalls, updateCalls, computeCalls,
        graphicsCalls, presentCall, computeSubmitInfo, graphicsSubmitInfo, hn, hr,
        updated_currentFrame, updated_swapChain, updated_renderPass, updated_swapChainExtent,
        updated_framebufferResized, updated_swapChainFramebuffers]
      generalize recreateSwapChain env.recreateSwapChain _ = r
      rcases r with ⟨_ | _, _⟩ <;> rfl
    have hflag : w.app.framebufferResized = false := by
      cases hfr : w.app.framebufferResized
      · rfl
      · exact absurd (Or.inr (Or.inr hfr)) hr
    by_cases hp : env.vkQueuePresentKHR = VK_SUCCESS
    · simp only [bind_run, pure_run, getApp, call, modifyApp, runtime_error, recordCommandBuffer,
        recordComputeCommandBuffer, index, inRange, updateData_run, outOfRange, hne, hok, hn, h4, h5, h6, h7, hp, hflag, VK_SUCCESS_ne_outOfDate, VK_SUCCESS_ne_suboptimal, or_self,
        if_true, if_false, ne_eq, not_true_eq_false, not_false_eq_true, List.append_assoc,
        Bool.false_eq_true, updated_swapChainFramebuffers, updated_framebufferResized]
      simp [thenAdvance, advance, frameCalls, workCalls, acquireCalls, updateCalls, computeCalls,
        graphicsCalls, presentCall, computeSubmitInfo, graphicsSubmitInfo, hn, hp, hflag, VK_SUCCESS_ne_outOfDate, VK_SUCCESS_ne_suboptimal, or_self,
        updated_currentFrame, updated_swapChain, updated_renderPass, updated_swapChainExtent,
        updated_framebufferResized, updated_swapChainFramebuffers]
    · simp only [bind_run, pure_run, getApp, call, modifyApp, runtime_error, recordCommandBuffer,
        recordComputeCommandBuffer, index, inRange, updateData_run, outOfRange, hne, hok, hn, h4, h5, h6, h7, hr, hp,
        if_true, if_false, ne_eq, not_true_eq_false, not_false_eq_true, List.append_assoc,
        Bool.false_eq_true, updated_swapChainFramebuffers, updated_framebufferResized]
      simp [thenAdvance, advance, frameCalls, workCalls, acquireCalls, updateCalls, computeCalls,
        graphicsCalls, presentCall, computeSubmitInfo, graphicsSubmitInfo, hn, hr, hp,
        updated_currentFrame, updated_swapChain, updated_renderPass, updated_swapChainExtent,
        updated_framebufferResized, updated_swapChainFramebuffers]

/-! ## The calls of a tick -/

theorem recreateSwapChain_run (env : RecreateEnv) (w : World) :
    ∃ cs, (recreateSwapChain env w).2.trace = w.trace ++ .recreateSwapChain :: cs ∧
      (∀ c ∈ cs, c.inRecreate = true) ∧
      (recreateSwapChain env w).2.app.currentFrame = w.app.currentFrame ∧
      (recreateSwapChain env w).2.app.rendererIndex = w.app.rendererIndex := by
  obtain ⟨body, hq, heq⟩ := recreateSwapChain_quiet env
  obtain ⟨cs, h1, h2, h3⟩ := hq.run ⟨w.app, w.trace ++ [.recreateSwapChain], w.nextHandle⟩
  refine ⟨cs, ?_, h2, ?_, ?_⟩
  · rw [heq, bind_run]
    simp only [call]
    rw [h1]
    simp
  · rw [heq, bind_run]
    simp only [call]
    exact congrArg Prod.fst h3
  · rw [heq, bind_run]
    simp only [call]
    exact congrArg Prod.snd h3

theorem recreateSwapChain_run_resize (env : RecreateEnv) (w : World)
    (h : ∀ event ∈ env.waitEvents, event.framebufferResizeCallback = false) :
    (recreateSwapChain env w).2.app.framebufferResized = w.app.framebufferResized := by
  obtain ⟨body, hq, heq⟩ := recreateSwapChain_quiet_resize env h
  obtain ⟨cs, -, -, h3⟩ := hq.run ⟨w.app, w.trace ++ [.recreateSwapChain], w.nextHandle⟩
  rw [heq, bind_run]
  simp only [call]
  exact congrArg (fun k : Nat × Nat × Bool => k.2.2) h3

theorem thenAdvance_trace (r : Outcome Unit × World) : (thenAdvance r).2.trace = r.2.trace := by
  rcases r with ⟨_ | _, _⟩ <;> rfl

theorem eachAfter_spec (ok : List Call → Call → Prop) (l before : List Call)
    (h : EachAfter ok before l) (pre : List Call) (c : Call) (post : List Call)
    (hl : l = pre ++ c :: post) : ok (before ++ pre) c := by
  induction l generalizing before pre with
  | nil => cases pre <;> simp at hl
  | cons x rest ih =>
    cases pre with
    | nil =>
      simp only [List.nil_append, List.cons.injEq] at hl
      rw [List.append_nil, ← hl.1]
      exact h.1
    | cons y pre =>
      simp only [List.cons_append, List.cons.injEq] at hl
      have := ih (before ++ [x]) h.2 pre hl.2
      rw [hl.1] at this
      simpa using this

theorem eachAfter_initial (ok : List Call → Call → Prop) (l₁ l₂ before : List Call)
    (hp : l₁ <+: l₂) (h : EachAfter ok before l₂) : EachAfter ok before l₁ := by
  induction l₁ generalizing l₂ before with
  | nil => trivial
  | cons x rest ih =>
    obtain ⟨t, rfl⟩ := hp
    exact ⟨h.1, ih _ _ ⟨t, rfl⟩ h.2⟩

theorem eachAfter_of_forall (ok : List Call → Call → Prop) (l before : List Call)
    (h : ∀ c ∈ l, ∀ b, ok b c) : EachAfter ok before l := by
  induction l generalizing before with
  | nil => trivial
  | cons y rest ih =>
    exact ⟨h y (List.mem_cons_self _ _) _, ih _ (fun c hc => h c (List.mem_cons_of_mem _ hc))⟩

theorem eachAfter_append (ok : List Call → Call → Prop) (l₁ l₂ before : List Call)
    (h₁ : EachAfter ok before l₁) (h₂ : ∀ c ∈ l₂, ∀ b, ok b c) :
    EachAfter ok before (l₁ ++ l₂) := by
  induction l₁ generalizing before with
  | nil => exact eachAfter_of_forall ok _ _ h₂
  | cons x rest ih => exact ⟨h₁.1, ih _ h₁.2⟩

theorem workCalls_prefix_frameCalls (app : Application) (imageIndex : Nat) (framebuffer : Handle) :
    workCalls app framebuffer <+: frameCalls app imageIndex framebuffer :=
  List.prefix_append _ _

theorem acquireCalls_prefix_frameCalls (env : DrawFrameEnv) (app : Application)
    (imageIndex : Nat) (framebuffer : Handle) :
    acquireCalls app <+: frameCalls (updated env app) imageIndex framebuffer := by
  simp [frameCalls, workCalls, acquireCalls, updated_currentFrame, updated_swapChain]

/-- The calls of a tick have one of three shapes: the wait, the acquire and a recreation;
a prefix of steps 1 to 6; or steps 1 to 6 and a recreation. -/
theorem drawFrame_tick (env : DrawFrameEnv) (w : World) :
    ∃ tick, (drawFrame env w).2.trace = w.trace ++ tick ∧
      ((∃ cs, tick = acquireCalls w.app ++ .recreateSwapChain :: cs ∧
          ∀ c ∈ cs, c.inRecreate = true) ∨
        tick <+: frameCalls (updated env w.app) env.imageIndex (frameBuffer env w.app) ∨
        (∃ cs, tick = frameCalls (updated env w.app) env.imageIndex (frameBuffer env w.app) ++
            .recreateSwapChain :: cs ∧
          ∀ c ∈ cs, c.inRecreate = true)) := by
  by_cases h1 : env.vkAcquireNextImageKHR = VK_ERROR_OUT_OF_DATE_KHR
  · rw [drawFrame_outOfDate env w h1]
    obtain ⟨cs, ht, hc, -, -⟩ := recreateSwapChain_run env.recreateSwapChain
      ⟨w.app, w.trace ++ acquireCalls w.app, w.nextHandle⟩
    exact ⟨_, by rw [ht, List.append_assoc], Or.inl ⟨cs, rfl, hc⟩⟩
  by_cases hacq : acquireProceeds env
  swap
  · have h2 : env.vkAcquireNextImageKHR ≠ VK_SUCCESS := fun h => hacq (Or.inl h)
    have h3 : env.vkAcquireNextImageKHR ≠ VK_SUBOPTIMAL_KHR := fun h => hacq (Or.inr h)
    rw [drawFrame_acquire_error env w h1 h2 h3]
    exact ⟨_, rfl, Or.inr (Or.inl (acquireCalls_prefix_frameCalls env _ _ _))⟩
  by_cases hs : workSucceeds env w.app
  swap
  · obtain ⟨s, cs, hp, -, heq⟩ := drawFrame_stops_early env w hacq hs
    rw [heq]
    exact ⟨cs, rfl, Or.inr (Or.inl (hp.trans (workCalls_prefix_frameCalls _ _ _)))⟩
  rw [drawFrame_present env w hacq hs]
  split_ifs with hr hp
  · obtain ⟨cs, ht, hc, -, -⟩ := recreateSwapChain_run env.recreateSwapChain
      ⟨{ updated env w.app with framebufferResized := false },
        w.trace ++ frameCalls (updated env w.app) env.imageIndex (frameBuffer env w.app),
        w.nextHandle⟩
    refine ⟨_, ?_, Or.inr (Or.inr ⟨cs, rfl, hc⟩)⟩
    rw [thenAdvance_trace, ht, List.append_assoc]
  · exact ⟨_, rfl, Or.inr (Or.inl (List.prefix_refl _))⟩
  · exact ⟨_, rfl, Or.inr (Or.inl (List.prefix_refl _))⟩

/-- A property of each call and the calls before it in the tick holds throughout every
tick as soon as it holds along steps 1 to 6 and is indifferent to the calls of a
recreation. -/
theorem drawFrame_each (env : DrawFrameEnv) (w : World) (ok : List Call → Call → Prop)
    (hframe : EachAfter ok []
      (frameCalls (updated env w.app) env.imageIndex (frameBuffer env w.app)))
    (hrecreate : ∀ c b, c = .recreateSwapChain ∨ c.inRecreate = true → ok b c) :
    ∃ tick, (drawFrame env w).2.trace = w.trace ++ tick ∧
      ∀ pre c post, tick = pre ++ c :: post → ok pre c := by
  obtain ⟨tick, ht, hshape⟩ := drawFrame_tick env w
  refine ⟨tick, ht, ?_⟩
  have key : EachAfter ok [] tick := by
    rcases hshape with ⟨cs, rfl, hc⟩ | hp | ⟨cs, rfl, hc⟩
    · refine eachAfter_append ok _ _ _
        (eachAfter_initial ok _ _ _ (acquireCalls_prefix_frameCalls env _ _ _) hframe) ?_
      intro c hc' b
      rcases List.mem_cons.1 hc' with h | h
      · exact hrecreate c b (Or.inl h)
      · exact hrecreate c b (Or.inr (hc c h))
    · exact eachAfter_initial ok _ _ _ hp hframe
    · refine eachAfter_append ok _ _ _ hframe ?_
      intro c hc' b
      rcases List.mem_cons.1 hc' with h | h
      · exact hrecreate c b (Or.inl h)
      · exact hrecreate c b (Or.inr (hc c h))
  intro pre c post hl
  simpa using eachAfter_spec ok tick [] key pre c post hl

/-! ## The frame protocol -/

/-- C1: in every execution of `drawFrame`, whatever the renderer and whatever the acquire
and the present return, a reset or a re-recording (`vkBeginCommandBuffer`) of a graphics
command buffer concerns the slot `currentFrame` and comes after a wait on
`inFlightFences[currentFrame]` made earlier in the same tick; a reset or a re-recording of
a compute command buffer concerns the slot `currentFrame` and comes after a wait on
`computeInFlightFences[currentFrame]` made earlier in the same tick. -/
theorem drawFrame_records_after_fence_wait (env : DrawFrameEnv) (w : World) :
    ∃ tick, (drawFrame env w).2.trace = w.trace ++ tick ∧
      ∀ pre c post, tick = pre ++ c :: post → ∀ slot,
        ((c = .vkResetCommandBuffer (.commandBuffers slot) ∨
            c = .vkBeginCommandBuffer (.commandBuffers slot)) →
          slot = w.app.currentFrame ∧ .vkWaitForFences (.inFlightFences slot) ∈ pre) ∧
        ((c = .vkResetCommandBuffer (.computeCommandBuffers slot) ∨
            c = .vkBeginCommandBuffer (.computeCommandBuffers slot)) →
          slot = w.app.currentFrame ∧
            .vkWaitForFences (.computeInFlightFences slot) ∈ pre) := by
  apply drawFrame_each env w (fun pre c => ∀ slot,
    ((c = .vkResetCommandBuffer (.commandBuffers slot) ∨
        c = .vkBeginCommandBuffer (.commandBuffers slot)) →
      slot = w.app.currentFrame ∧ .vkWaitForFences (.inFlightFences slot) ∈ pre) ∧
    ((c = .vkResetCommandBuffer (.computeCommandBuffers slot) ∨
        c = .vkBeginCommandBuffer (.computeCommandBuffers slot)) →
      slot = w.app.currentFrame ∧ .vkWaitForFences (.computeInFlightFences slot) ∈ pre))
  · by_cases hn : (getRenderer (updated env w.app)).needCompute = true <;>
      simp [EachAfter, frameCalls, workCalls, acquireCalls, updateCalls, computeCalls,
        graphicsCalls, presentCall, hn, updated_currentFrame, eq_comm]
  · rintro c b (rfl | h) slot
    · simp
    · constructor <;> rintro (rfl | rfl) <;> simp [Call.inRecreate] at h

theorem inRecreate_vkQueueSubmit (submitInfo : VkSubmitInfo) (fence : VkFence)
    (h : (Call.vkQueueSubmit submitInfo fence).inRecreate = true) :
    ∃ handle, submitInfo.commandBuffers = [.singleTime handle] := by
  unfold Call.inRecreate at h
  split at h <;> simp_all

/-- C2: in every tick, the wait list of the graphics submission contains
`computeFinishedSemaphores[currentFrame]` if and only if a submission signalling that
semaphore was made earlier in the same tick; and when the renderer updated in this tick
has `needCompute` false, the wait list is exactly `[imageAvailableSemaphores[currentFrame]]`. -/
theorem drawFrame_waits_on_compute_iff_submitted (env : DrawFrameEnv) (w : World) :
    ∃ tick, (drawFrame env w).2.trace = w.trace ++ tick ∧
      ∀ pre c post, tick = pre ++ c :: post → ∀ submitInfo fence slot,
        c = .vkQueueSubmit submitInfo fence →
        submitInfo.commandBuffers = [.commandBuffers slot] →
          (.computeFinishedSemaphores w.app.currentFrame ∈ submitInfo.waitSemaphores ↔
            ∃ computeInfo computeFence, .vkQueueSubmit computeInfo computeFence ∈ pre ∧
              .computeFinishedSemaphores w.app.currentFrame ∈ computeInfo.signalSemaphores) ∧
          (∀ renderer frameNum, .Renderer_update renderer frameNum ∈ pre →
            renderer.needCompute = false →
            submitInfo.waitSemaphores = [.imageAvailableSemaphores w.app.currentFrame]) := by
  apply drawFrame_each env w (fun pre c => ∀ submitInfo fence slot,
    c = .vkQueueSubmit submitInfo fence →
    submitInfo.commandBuffers = [.commandBuffers slot] →
      (.computeFinishedSemaphores w.app.currentFrame ∈ submitInfo.waitSemaphores ↔
        ∃ computeInfo computeFence, .vkQueueSubmit computeInfo computeFence ∈ pre ∧
          .computeFinishedSemaphores w.app.currentFrame ∈ computeInfo.signalSemaphores) ∧
      (∀ renderer frameNum, .Renderer_update renderer frameNum ∈ pre →
        renderer.needCompute = false →
        submitInfo.waitSemaphores = [.imageAvailableSemaphores w.app.currentFrame]))
  · by_cases hn : (getRenderer (updated env w.app)).needCompute = true
    · simp [EachAfter, frameCalls, workCalls, acquireCalls, updateCalls, computeCalls,
        graphicsCalls, presentCall, computeSubmitInfo, graphicsSubmitInfo, hn,
        updated_currentFrame]
      refine ⟨?_, ?_⟩ <;> rintro _ _ _ rfl _ h <;> simp at h ⊢
    · simp [EachAfter, frameCalls, workCalls, acquireCalls, updateCalls, computeCalls,
        graphicsCalls, presentCall, computeSubmitInfo, graphicsSubmitInfo, hn,
        updated_currentFrame]
      rintro _ _ _ rfl _ _
      simp
  · rintro c b (rfl | h) submitInfo fence slot hc hcb
    · cases hc
    · subst hc
      obtain ⟨handle, hh⟩ := inRecreate_vkQueueSubmit _ _ h
      rw [hh] at hcb
      simp at hcb

theorem inRecreate_facts (c : Call) (h : c.inRecreate = true) :
    c ≠ .recreateSwapChain ∧ (∀ presentInfo, c ≠ .vkQueuePresentKHR presentInfo) ∧
      (∀ fence, c ≠ .vkResetFences fence) ∧
      (∀ semaphore swapchain, c ≠ .vkAcquireNextImageKHR swapchain semaphore) ∧
      ∀ submitInfo fence, c = .vkQueueSubmit submitInfo fence →
        ∃ handle, submitInfo.commandBuffers = [.singleTime handle] := by
  refine ⟨?_, ?_, ?_, ?_, ?_⟩
  · rintro rfl
    simp [Call.inRecreate] at h
  · rintro _ rfl
    simp [Call.inRecreate] at h
  · rintro _ rfl
    simp [Call.inRecreate] at h
  · rintro _ _ rfl
    simp [Call.inRecreate] at h
  · rintro _ _ rfl
    exact inRecreate_vkQueueSubmit _ _ h

/-- C3, as stated, fails.  With an out-of-date acquire and a device that rejects the new
swapchain, `drawFrame` raises the error of `createSwapChain`; and when the recreation goes
through, the tick contains a queue submission, the one-shot layout transition of the depth
image. -/
theorem drawFrame_outOfDate_raises_and_submits :
    (drawFrame { calmFrame with
        vkAcquireNextImageKHR := VK_ERROR_OUT_OF_DATE_KHR
        recreateSwapChain := rejectedRecreate } startWorld).1 =
        .stop (.threw "failed to create swap chain!") ∧
      Call.vkQueueSubmit ⟨[], [], [.singleTime 113], []⟩ .VK_NULL_HANDLE ∈
        (drawFrame { calmFrame with vkAcquireNextImageKHR := VK_ERROR_OUT_OF_DATE_KHR }
          startWorld).2.trace := by
  decide!

/-- C3, amended: when the acquire returns out-of-date, the tick consists of the fence wait,
the acquire and one call of `recreateSwapChain`; inside the recreation there is no present,
no fence reset, no second recreation and no submission other than that of a one-shot
command buffer, so neither the compute nor the graphics command buffer of any slot is
submitted; `currentFrame` is unchanged; and `drawFrame` returns or stops exactly as
`recreateSwapChain` does, so it returns without an error whenever the recreation
completes. -/
theorem drawFrame_outOfDate_recreates (env : DrawFrameEnv) (w : World)
    (h : env.vkAcquireNextImageKHR = VK_ERROR_OUT_OF_DATE_KHR) :
    ∃ cs, (drawFrame env w).2.trace = w.trace ++
          [.vkWaitForFences (.inFlightFences w.app.currentFrame),
            .vkAcquireNextImageKHR w.app.swapChain
              (.imageAvailableSemaphores w.app.currentFrame),
            .recreateSwapChain] ++ cs ∧
      (∀ c ∈ cs, c ≠ .recreateSwapChain ∧ (∀ presentInfo, c ≠ .vkQueuePresentKHR presentInfo) ∧
        (∀ fence, c ≠ .vkResetFences fence) ∧
        ∀ submitInfo fence, c = .vkQueueSubmit submitInfo fence →
          ∃ handle, submitInfo.commandBuffers = [.singleTime handle]) ∧
      (drawFrame env w).2.app.currentFrame = w.app.currentFrame ∧
      (drawFrame env w).1 = (recreateSwapChain env.recreateSwapChain
        ⟨w.app, w.trace ++ acquireCalls w.app, w.nextHandle⟩).1 := by
  rw [drawFrame_outOfDate env w h]
  obtain ⟨cs, ht, hc, hcf, -⟩ := recreateSwapChain_run env.recreateSwapChain
    ⟨w.app, w.trace ++ acquireCalls w.app, w.nextHandle⟩
  refine ⟨cs, ?_, ?_, hcf, rfl⟩
  · rw [ht]
    simp [acquireCalls]
  · intro c hcs
    obtain ⟨h1, h2, h3, -, h5⟩ := inRecreate_facts c (hc c hcs)
    exact ⟨h1, h2, h3, h5⟩

theorem drawFrame_outOfDate_recreates_witness :
    (drawFrame { calmFrame with vkAcquireNextImageKHR := VK_ERROR_OUT_OF_DATE_KHR }
        startWorld).2.app.currentFrame = 0 ∧
      (drawFrame { calmFrame with vkAcquireNextImageKHR := VK_ERROR_OUT_OF_DATE_KHR }
        startWorld).1 = .ok () := by
  obtain ⟨cs, -, -, hcf, hout⟩ := drawFrame_outOfDate_recreates
    { calmFrame with vkAcquireNextImageKHR := VK_ERROR_OUT_OF_DATE_KHR } startWorld rfl
  refine ⟨hcf, ?_⟩
  rw [hout]
  decide!

theorem workCalls_facts (app : Application) (framebuffer : Handle) :
    ∀ c ∈ workCalls app framebuffer,
      c ≠ .recreateSwapChain ∧ ∀ presentInfo, c ≠ .vkQueuePresentKHR presentInfo := by
  by_cases hn : (getRenderer app).needCompute = true <;>
    simp [workCalls, acquireCalls, updateCalls, computeCalls, graphicsCalls, hn]

theorem advance_currentFrame (app : Application) :
    (advance app).currentFrame = (app.currentFrame + 1) % 2 := by
  simp only [advance, MAX_FRAMES_IN_FLIGHT]
  omega

/-- C4, as stated, fails.  With a suboptimal present and a device that rejects the new
swapchain, `drawFrame` raises an error and `currentFrame` stays 0; with a suboptimal present
and a minimised window whose restoration runs the resize callback, `drawFrame` returns with
`framebufferResized` set. -/
theorem drawFrame_present_recreation_may_fail :
    (drawFrame { calmFrame with
        vkQueuePresentKHR := VK_SUBOPTIMAL_KHR
        recreateSwapChain := rejectedRecreate } startWorld).1 =
        .stop (.threw "failed to create swap chain!") ∧
      (drawFrame { calmFrame with
        vkQueuePresentKHR := VK_SUBOPTIMAL_KHR
        recreateSwapChain := rejectedRecreate } startWorld).2.app.currentFrame = 0 ∧
      (drawFrame { calmFrame with
        vkQueuePresentKHR := VK_SUBOPTIMAL_KHR
        recreateSwapChain := minimisedRecreate } startWorld).1 = .ok () ∧
      (drawFrame { calmFrame with
        vkQueuePresentKHR := VK_SUBOPTIMAL_KHR
        recreateSwapChain := minimisedRecreate } startWorld).2.app.framebufferResized = true := by
  decide!

/-- C4, amended: in a tick that reaches the present, if the present returns out-of-date or
suboptimal or `framebufferResized` is set (in any combination), then the present is issued,
`recreateSwapChain` is called exactly once, right after the present and with
`framebufferResized` already false; `drawFrame` returns or stops exactly as that recreation
does; when the recreation returns, no error is raised and `currentFrame` has advanced by
one modulo 2; and `framebufferResized` is false afterwards unless GLFW runs the resize
callback while the recreation waits for a nonzero framebuffer. -/
theorem drawFrame_present_recreates (env : DrawFrameEnv) (w : World)
    (hacq : acquireProceeds env) (hs : workSucceeds env w.app)
    (hr : env.vkQueuePresentKHR = VK_ERROR_OUT_OF_DATE_KHR ∨
      env.vkQueuePresentKHR = VK_SUBOPTIMAL_KHR ∨ w.app.framebufferResized = true) :
    (∃ cs, (drawFrame env w).2.trace =
          w.trace ++ workCalls (updated env w.app) (frameBuffer env w.app) ++
            presentCall (updated env w.app) env.imageIndex :: .recreateSwapChain :: cs ∧
        ∀ c ∈ workCalls (updated env w.app) (frameBuffer env w.app) ++ cs,
          c ≠ .recreateSwapChain ∧ ∀ presentInfo, c ≠ .vkQueuePresentKHR presentInfo) ∧
      drawFrame env w = thenAdvance (recreateSwapChain env.recreateSwapChain
        ⟨{ updated env w.app with framebufferResized := false },
          w.trace ++ frameCalls (updated env w.app) env.imageIndex (frameBuffer env w.app),
          w.nextHandle⟩) ∧
      ((recreateSwapChain env.recreateSwapChain
          ⟨{ updated env w.app with framebufferResized := false },
            w.trace ++ frameCalls (updated env w.app) env.imageIndex (frameBuffer env w.app),
            w.nextHandle⟩).1 = .ok () →
        (drawFrame env w).1 = .ok () ∧
          (drawFrame env w).2.app.currentFrame = (w.app.currentFrame + 1) % 2) ∧
      ((∀ event ∈ env.recreateSwapChain.waitEvents, event.framebufferResizeCallback = false) →
        (drawFrame env w).2.app.framebufferResized = false) := by
  have heq := drawFrame_present env w hacq hs
  rw [if_pos hr] at heq
  obtain ⟨cs, ht, hc, hcf, -⟩ := recreateSwapChain_run env.recreateSwapChain
    ⟨{ updated env w.app with framebufferResized := false },
      w.trace ++ frameCalls (updated env w.app) env.imageIndex (frameBuffer env w.app),
      w.nextHandle⟩
  refine ⟨⟨cs, ?_, ?_⟩, heq, ?_, ?_⟩
  · rw [heq, thenAdvance_trace, ht]
    simp [frameCalls]
  · intro c hcs
    rcases List.mem_append.1 hcs with h | h
    · exact workCalls_facts _ _ c h
    · obtain ⟨h1, h2, -⟩ := inRecreate_facts c (hc c h)
      exact ⟨h1, h2⟩
  · intro hok
    rw [heq]
    generalize recreateSwapChain env.recreateSwapChain _ = r at hcf hok
    rcases r with ⟨_ | _, w'⟩
    · refine ⟨rfl, ?_⟩
      simp only [thenAdvance]
      rw [advance_currentFrame, hcf]
      rfl
    · cases hok
  · intro hev
    have hflag := recreateSwapChain_run_resize env.recreateSwapChain
      ⟨{ updated env w.app with framebufferResized := false },
        w.trace ++ frameCalls (updated env w.app) env.imageIndex (frameBuffer env w.app),
        w.nextHandle⟩ hev
    rw [heq]
    generalize recreateSwapChain env.recreateSwapChain _ = r at hflag
    rcases r with ⟨_ | _, _⟩ <;> exact hflag

theorem drawFrame_present_recreates_witness :
    (drawFrame { calmFrame with vkQueuePresentKHR := VK_SUBOPTIMAL_KHR } startWorld).1 = .ok () ∧
      (drawFrame { calmFrame with vkQueuePresentKHR := VK_SUBOPTIMAL_KHR }
        startWorld).2.app.currentFrame = 1 ∧
      (drawFrame { calmFrame with vkQueuePresentKHR := VK_SUBOPTIMAL_KHR }
        startWorld).2.app.framebufferResized = false := by
  obtain ⟨-, -, hok, hflag⟩ := drawFrame_present_recreates
    { calmFrame with vkQueuePresentKHR := VK_SUBOPTIMAL_KHR } startWorld
    (by decide!) (by decide!) (Or.inr (Or.inl rfl))
  exact ⟨(hok (by decide!)).1, (hok (by decide!)).2, hflag (by decide!)⟩

/-- C5, as stated, fails: when the acquire returns suboptimal, the present returns success
and no resize is flagged, the tick ends with the present and `recreateSwapChain` is not
called. -/
theorem drawFrame_suboptimal_acquire_forgotten :
    (drawFrame { calmFrame with vkAcquireNextImageKHR := VK_SUBOPTIMAL_KHR } startWorld).1 =
        .ok () ∧
      (drawFrame { calmFrame with vkAcquireNextImageKHR := VK_SUBOPTIMAL_KHR }
        startWorld).2.trace.getLast? = some (presentCall startApp 1) ∧
      Call.recreateSwapChain ∉
        (drawFrame { calmFrame with vkAcquireNextImageKHR := VK_SUBOPTIMAL_KHR }
          startWorld).2.trace := by
  decide!

/-- C5, amended: when the acquire returns suboptimal and no call before the present fails,
`drawFrame` carries out the tick (update, submissions, present); a recreation follows the
present of that tick if the present returns out-of-date or suboptimal or a resize is
flagged, and otherwise the tick ends with the present, without a recreation. -/
theorem drawFrame_suboptimal_acquire (env : DrawFrameEnv) (w : World)
    (h : env.vkAcquireNextImageKHR = VK_SUBOPTIMAL_KHR) (hs : workSucceeds env w.app) :
    ∃ rest, (drawFrame env w).2.trace =
          w.trace ++ frameCalls (updated env w.app) env.imageIndex (frameBuffer env w.app) ++
            rest ∧
      ((env.vkQueuePresentKHR = VK_ERROR_OUT_OF_DATE_KHR ∨
          env.vkQueuePresentKHR = VK_SUBOPTIMAL_KHR ∨ w.app.framebufferResized = true) →
        ∃ cs, rest = .recreateSwapChain :: cs ∧ ∀ c ∈ cs, c.inRecreate = true) ∧
      (¬ (env.vkQueuePresentKHR = VK_ERROR_OUT_OF_DATE_KHR ∨
          env.vkQueuePresentKHR = VK_SUBOPTIMAL_KHR ∨ w.app.framebufferResized = true) →
        rest = []) := by
  have heq := drawFrame_present env w (Or.inr h) hs
  by_cases hr : env.vkQueuePresentKHR = VK_ERROR_OUT_OF_DATE_KHR ∨
      env.vkQueuePresentKHR = VK_SUBOPTIMAL_KHR ∨ w.app.framebufferResized = true
  · rw [if_pos hr] at heq
    obtain ⟨cs, ht, hc, -, -⟩ := recreateSwapChain_run env.recreateSwapChain
      ⟨{ updated env w.app with framebufferResized := false },
        w.trace ++ frameCalls (updated env w.app) env.imageIndex (frameBuffer env w.app),
        w.nextHandle⟩
    refine ⟨.recreateSwapChain :: cs, ?_, fun _ => ⟨cs, rfl, hc⟩, fun hn => absurd hr hn⟩
    rw [heq, thenAdvance_trace, ht]
  · rw [if_neg hr] at heq
    refine ⟨[], ?_, fun hp => absurd hp hr, fun _ => rfl⟩
    rw [heq]
    split_ifs <;> simp

theorem drawFrame_suboptimal_acquire_witness :
    ∃ rest, (drawFrame { calmFrame with vkAcquireNextImageKHR := VK_SUBOPTIMAL_KHR }
          startWorld).2.trace =
        startWorld.trace ++ frameCalls startApp 1 9 ++ rest ∧ rest = [] := by
  obtain ⟨rest, ht, -, hnil⟩ := drawFrame_suboptimal_acquire
    { calmFrame with vkAcquireNextImageKHR := VK_SUBOPTIMAL_KHR } startWorld rfl (by decide!)
  exact ⟨rest, ht, hnil (by decide!)⟩

/-- C6, as stated, fails: when the present returns device-lost while `framebufferResized` is
set, `drawFrame` raises no error, recreates the swapchain and advances `currentFrame`. -/
theorem drawFrame_present_error_with_resize :
    (drawFrame { calmFrame with vkQueuePresentKHR := VK_ERROR_DEVICE_LOST }
        { startWorld with app := { startApp with framebufferResized := true } }).1 = .ok () ∧
      Call.recreateSwapChain ∈
        (drawFrame { calmFrame with vkQueuePresentKHR := VK_ERROR_DEVICE_LOST }
          { startWorld with app := { startApp with framebufferResized := true } }).2.trace ∧
      (drawFrame { calmFrame with vkQueuePresentKHR := VK_ERROR_DEVICE_LOST }
        { startWorld with
          app := { startApp with framebufferResized := true } }).2.app.currentFrame = 1 := by
  decide!

/-- C6, amended: in a tick that reaches the present with `framebufferResized` not set, for
every result code of the present other than success, out-of-date and suboptimal,
`drawFrame` fails with the fatal error of the present: the tick ends with the present call,
`recreateSwapChain` is not called and `currentFrame` does not advance. -/
theorem drawFrame_present_fatal (env : DrawFrameEnv) (w : World)
    (hacq : acquireProceeds env) (hs : workSucceeds env w.app)
    (h1 : env.vkQueuePresentKHR ≠ VK_SUCCESS)
    (h2 : env.vkQueuePresentKHR ≠ VK_ERROR_OUT_OF_DATE_KHR)
    (h3 : env.vkQueuePresentKHR ≠ VK_SUBOPTIMAL_KHR)
    (hflag : w.app.framebufferResized = false) :
    (drawFrame env w).1 = .stop (.threw "failed to present swap chain image!") ∧
      (drawFrame env w).2.trace =
        w.trace ++ workCalls (updated env w.app) (frameBuffer env w.app) ++
          [presentCall (updated env w.app) env.imageIndex] ∧
      Call.recreateSwapChain ∉ workCalls (updated env w.app) (frameBuffer env w.app) ∧
      (drawFrame env w).2.app.currentFrame = w.app.currentFrame := by
  have heq := drawFrame_present env w hacq hs
  have hr : ¬ (env.vkQueuePresentKHR = VK_ERROR_OUT_OF_DATE_KHR ∨
      env.vkQueuePresentKHR = VK_SUBOPTIMAL_KHR ∨ w.app.framebufferResized = true) := by
    rw [hflag]
    simp [h2, h3]
  rw [if_neg hr, if_pos h1] at heq
  rw [heq]
  refine ⟨rfl, ?_, ?_, rfl⟩
  · simp [frameCalls]
  · intro hmem
    exact (workCalls_facts _ _ _ hmem).1 rfl

theorem drawFrame_present_fatal_witness :
    (drawFrame { calmFrame with vkQueuePresentKHR := VK_ERROR_DEVICE_LOST } startWorld).1 =
        .stop (.threw "failed to present swap chain image!") ∧
      (drawFrame { calmFrame with vkQueuePresentKHR := VK_ERROR_DEVICE_LOST }
        startWorld).2.app.currentFrame = 0 := by
  obtain ⟨hout, -, -, hcf⟩ := drawFrame_present_fatal
    { calmFrame with vkQueuePresentKHR := VK_ERROR_DEVICE_LOST } startWorld
    (by decide!) (by decide!) (by decide!) (by decide!) (by decide!) rfl
  exact ⟨hout, hcf⟩

/-- A tick issues the present call exactly when the acquire lets the frame go on and no call
before the present fails. -/
theorem drawFrame_present_issued_iff (env : DrawFrameEnv) (w : World) :
    (∃ tick presentInfo, (drawFrame env w).2.trace = w.trace ++ tick ∧
        Call.vkQueuePresentKHR presentInfo ∈ tick) ↔
      acquireProceeds env ∧ workSucceeds env w.app := by
  constructor
  · rintro ⟨tick, presentInfo, ht, hmem⟩
    by_cases h1 : env.vkAcquireNextImageKHR = VK_ERROR_OUT_OF_DATE_KHR
    · exfalso
      obtain ⟨cs, ht', hc, -, -⟩ := recreateSwapChain_run env.recreateSwapChain
        ⟨w.app, w.trace ++ acquireCalls w.app, w.nextHandle⟩
      rw [drawFrame_outOfDate env w h1, ht', List.append_assoc] at ht
      have := List.append_cancel_left ht
      rw [← this] at hmem
      simp only [acquireCalls, List.mem_append, List.mem_cons, List.mem_singleton,
        List.not_mem_nil, or_false, false_or, reduceCtorEq] at hmem
      exact (inRecreate_facts _ (hc _ hmem)).2.1 presentInfo rfl
    by_cases hacq : acquireProceeds env
    swap
    · exfalso
      have h2 : env.vkAcquireNextImageKHR ≠ VK_SUCCESS := fun h => hacq (Or.inl h)
      have h3 : env.vkAcquireNextImageKHR ≠ VK_SUBOPTIMAL_KHR := fun h => hacq (Or.inr h)
      rw [drawFrame_acquire_error env w h1 h2 h3] at ht
      have := List.append_cancel_left ht
      rw [← this] at hmem
      simp [acquireCalls] at hmem
    refine ⟨hacq, ?_⟩
    by_contra hs
    obtain ⟨s, cs, hp, -, heq⟩ := drawFrame_stops_early env w hacq hs
    rw [heq] at ht
    have := List.append_cancel_left ht
    rw [← this] at hmem
    exact (workCalls_facts _ _ _ (hp.subset hmem)).2 presentInfo rfl
  · rintro ⟨hacq, hs⟩
    obtain ⟨tick, ht, hshape⟩ := drawFrame_tick env w
    have heq := drawFrame_present env w hacq hs
    refine ⟨tick,
      { waitSemaphores := [.renderFinishedSemaphores (updated env w.app).currentFrame]
        swapchains := [(updated env w.app).swapChain]
        imageIndices := [env.imageIndex] }, ht, ?_⟩
    have htr : (drawFrame env w).2.trace = w.trace ++
        frameCalls (updated env w.app) env.imageIndex (frameBuffer env w.app) ∨
        ∃ cs, (drawFrame env w).2.trace = w.trace ++
          (frameCalls (updated env w.app) env.imageIndex (frameBuffer env w.app) ++ cs) := by
      rw [heq]
      split_ifs
      · obtain ⟨cs, hcs, -⟩ := recreateSwapChain_run env.recreateSwapChain
          ⟨{ updated env w.app with framebufferResized := false },
            w.trace ++ frameCalls (updated env w.app) env.imageIndex (frameBuffer env w.app),
            w.nextHandle⟩
        exact Or.inr ⟨_, by rw [thenAdvance_trace, hcs, List.append_assoc]⟩
      · exact Or.inl rfl
      · exact Or.inl rfl
    have hin : presentCall (updated env w.app) env.imageIndex ∈ tick := by
      rcases htr with h | ⟨cs, h⟩
      · rw [ht] at h
        rw [List.append_cancel_left h]
        simp [frameCalls]
      · rw [ht] at h
        rw [List.append_cancel_left h]
        simp [frameCalls]
    exact hin

/-! ## The order of a frame -/

/-- A tick that goes past the acquire and returns has made the calls of steps 1 to 6,
possibly followed by a recreation, with the frame index unchanged, and advances the frame
index last. -/
theorem drawFrame_returns (env : DrawFrameEnv) (w : World) (hacq : acquireProceeds env)
    (hok : (drawFrame env w).1 = .ok ()) :
    ∃ (before : World) (recreation : List Call),
      drawFrame env w = (.ok (), { before with app := advance before.app }) ∧
      before.trace = w.trace ++
        frameCalls (updated env w.app) env.imageIndex (frameBuffer env w.app) ++ recreation ∧
      (recreation = [] ∨
        ∃ cs, recreation = .recreateSwapChain :: cs ∧ ∀ c ∈ cs, c.inRecreate = true) ∧
      before.app.currentFrame = w.app.currentFrame ∧
      workSucceeds env w.app := by
  by_cases hs : workSucceeds env w.app
  swap
  · obtain ⟨s, cs, -, -, heq⟩ := drawFrame_stops_early env w hacq hs
    rw [heq] at hok
    cases hok
  rw [drawFrame_present env w hacq hs] at hok ⊢
  split_ifs at hok ⊢ with hr hp
  · obtain ⟨cs, ht, hc, hcf, -⟩ := recreateSwapChain_run env.recreateSwapChain
      ⟨{ updated env w.app with framebufferResized := false },
        w.trace ++ frameCalls (updated env w.app) env.imageIndex (frameBuffer env w.app),
        w.nextHandle⟩
    generalize recreateSwapChain env.recreateSwapChain _ = r at hok ht hcf
    rcases r with ⟨_ | s, after⟩
    · exact ⟨after, .recreateSwapChain :: cs, rfl, ht, Or.inr ⟨cs, rfl, hc⟩, hcf, hs⟩
    · cases hok
  · exact ⟨⟨updated env w.app, _, w.nextHandle⟩, [], rfl, by simp, Or.inl rfl, rfl, hs⟩

/-- C14: in every tick in which the acquire returns success or suboptimal and no call
fails (`drawFrame` returns), the calls made are exactly, in this order: the wait on
`inFlightFences[currentFrame]`, the acquire, the renderer update, the seven calls of the
compute phase if and only if the updated renderer has `needCompute`, the reset of
`inFlightFences[currentFrame]`, the recording of the graphics command buffer, the graphics
submission and the present, followed by nothing or by one recreation; the frame index is
unchanged while these calls are made and is advanced once at the very end. -/
theorem drawFrame_steps_in_order (env : DrawFrameEnv) (w : World) (hacq : acquireProceeds env)
    (hok : (drawFrame env w).1 = .ok ()) :
    ∃ (before : World) (recreation : List Call),
      before.trace = w.trace ++
        [.vkWaitForFences (.inFlightFences w.app.currentFrame),
          .vkAcquireNextImageKHR w.app.swapChain
            (.imageAvailableSemaphores w.app.currentFrame),
          .ImGui_NewFrame,
          .ImGui_Render,
          .Renderer_update (getRenderer (updated env w.app)) w.app.currentFrame] ++
        (if (getRenderer (updated env w.app)).needCompute then
          [.vkWaitForFences (.computeInFlightFences w.app.currentFrame),
            .vkResetFences (.computeInFlightFences w.app.currentFrame),
            .vkResetCommandBuffer (.computeCommandBuffers w.app.currentFrame),
            .vkBeginCommandBuffer (.computeCommandBuffers w.app.currentFrame),
            .Renderer_compute (getRenderer (updated env w.app))
              (.computeCommandBuffers w.app.currentFrame) w.app.currentFrame,
            .vkEndCommandBuffer (.computeCommandBuffers w.app.currentFrame),
            .vkQueueSubmit (computeSubmitInfo (updated env w.app))
              (.computeInFlightFences w.app.currentFrame)]
        else []) ++
        [.vkResetFences (.inFlightFences w.app.currentFrame),
          .vkResetCommandBuffer (.commandBuffers w.app.currentFrame),
          .vkBeginCommandBuffer (.commandBuffers w.app.currentFrame),
          .vkCmdBeginRenderPass (.commandBuffers w.app.currentFrame) w.app.renderPass
            (frameBuffer env w.app) w.app.swapChainExtent,
          .Renderer_render (getRenderer (updated env w.app))
            (.commandBuffers w.app.currentFrame) w.app.currentFrame,
          .ImGui_ImplVulkan_RenderDrawData (.commandBuffers w.app.currentFrame),
          .vkCmdEndRenderPass (.commandBuffers w.app.currentFrame),
          .vkEndCommandBuffer (.commandBuffers w.app.currentFrame),
          .vkQueueSubmit (graphicsSubmitInfo (updated env w.app))
            (.inFlightFences w.app.currentFrame),
          .vkQueuePresentKHR ⟨[.renderFinishedSemaphores w.app.currentFrame],
            [w.app.swapChain], [env.imageIndex]⟩] ++
        recreation ∧
      (recreation = [] ∨
        ∃ cs, recreation = .recreateSwapChain :: cs ∧ ∀ c ∈ cs, c.inRecreate = true) ∧
      before.app.currentFrame = w.app.currentFrame ∧
      drawFrame env w =
        (.ok (),
          { before with
            app :=
              { before.app with
                currentFrame :=
                  (before.app.currentFrame + 1) % 4294967296 % MAX_FRAMES_IN_FLIGHT } }) := by
  obtain ⟨before, recreation, heq, ht, hr, hcf, -⟩ := drawFrame_returns env w hacq hok
  refine ⟨before, recreation, ?_, hr, hcf, heq⟩
  rw [ht]
  by_cases hn : (getRenderer (updated env w.app)).needCompute = true <;>
    simp [frameCalls, workCalls, acquireCalls, updateCalls, computeCalls, graphicsCalls,
      presentCall, hn, updated_currentFrame, updated_swapChain, updated_renderPass,
      updated_swapChainExtent]

theorem drawFrame_steps_in_order_witness :
    ∃ (before : World) (recreation : List Call),
      before.trace = startWorld.trace ++
        [.vkWaitForFences (.inFlightFences startWorld.app.currentFrame),
          .vkAcquireNextImageKHR startWorld.app.swapChain
            (.imageAvailableSemaphores startWorld.app.currentFrame),
          .ImGui_NewFrame,
          .ImGui_Render,
          .Renderer_update (getRenderer (updated calmFrame startWorld.app))
            startWorld.app.currentFrame] ++
        (if (getRenderer (updated calmFrame startWorld.app)).needCompute then
          [.vkWaitForFences (.computeInFlightFences startWorld.app.currentFrame),
            .vkResetFences (.computeInFlightFences startWorld.app.currentFrame),
            .vkResetCommandBuffer (.computeCommandBuffers startWorld.app.currentFrame),
            .vkBeginCommandBuffer (.computeCommandBuffers startWorld.app.currentFrame),
            .Renderer_compute (getRenderer (updated calmFrame startWorld.app))
              (.computeCommandBuffers startWorld.app.currentFrame)
              startWorld.app.currentFrame,
            .vkEndCommandBuffer (.computeCommandBuffers startWorld.app.currentFrame),
            .vkQueueSubmit (computeSubmitInfo (updated calmFrame startWorld.app))
              (.computeInFlightFences startWorld.app.currentFrame)]
        else []) ++
        [.vkResetFences (.inFlightFences startWorld.app.currentFrame),
          .vkResetCommandBuffer (.commandBuffers startWorld.app.currentFrame),
          .vkBeginCommandBuffer (.commandBuffers startWorld.app.currentFrame),
          .vkCmdBeginRenderPass (.commandBuffers startWorld.app.currentFrame)
            startWorld.app.renderPass (frameBuffer calmFrame startWorld.app)
            startWorld.app.swapChainExtent,
          .Renderer_render (getRenderer (updated calmFrame startWorld.app))
            (.commandBuffers startWorld.app.currentFrame) startWorld.app.currentFrame,
          .ImGui_ImplVulkan_RenderDrawData (.commandBuffers startWorld.app.currentFrame),
          .vkCmdEndRenderPass (.commandBuffers startWorld.app.currentFrame),
          .vkEndCommandBuffer (.commandBuffers startWorld.app.currentFrame),
          .vkQueueSubmit (graphicsSubmitInfo (updated calmFrame startWorld.app))
            (.inFlightFences startWorld.app.currentFrame),
          .vkQueuePresentKHR ⟨[.renderFinishedSemaphores startWorld.app.currentFrame],
            [startWorld.app.swapChain], [calmFrame.imageIndex]⟩] ++
        recreation ∧
      (recreation = [] ∨
        ∃ cs, recreation = .recreateSwapChain :: cs ∧ ∀ c ∈ cs, c.inRecreate = true) ∧
      before.app.currentFrame = startWorld.app.currentFrame ∧
      drawFrame calmFrame startWorld =
        (.ok (),
          { before with
            app :=
              { before.app with
                currentFrame :=
                  (before.app.currentFrame + 1) % 4294967296 % MAX_FRAMES_IN_FLIGHT } }) :=
  drawFrame_steps_in_order calmFrame startWorld (Or.inl rfl) (by decide!)

/-- C15: in every tick, the submission of the graphics command buffer concerns the slot
`currentFrame`, comes after this tick's acquire on `imageAvailableSemaphores[currentFrame]`,
signals exactly `renderFinishedSemaphores[currentFrame]` and the fence
`inFlightFences[currentFrame]`, and waits on `imageAvailableSemaphores[currentFrame]` at the
colour-attachment-output stage, followed, exactly when a compute submission was made earlier
in the tick, by `computeFinishedSemaphores[currentFrame]` at the `graphicsWaitComputeStage`
of the renderer updated in this tick; the present comes after that submission, waits on
exactly that `renderFinished` semaphore and presents the image index returned by the
acquire on the swapchain the acquire was made on. -/
theorem drawFrame_graphics_submission (env : DrawFrameEnv) (w : World) :
    ∃ tick, (drawFrame env w).2.trace = w.trace ++ tick ∧
      ∀ pre c post, tick = pre ++ c :: post →
        (∀ submitInfo fence slot, c = .vkQueueSubmit submitInfo fence →
          submitInfo.commandBuffers = [.commandBuffers slot] →
            slot = w.app.currentFrame ∧
            .vkAcquireNextImageKHR w.app.swapChain
              (.imageAvailableSemaphores w.app.currentFrame) ∈ pre ∧
            submitInfo.signalSemaphores = [.renderFinishedSemaphores w.app.currentFrame] ∧
            fence = .inFlightFences w.app.currentFrame ∧
            ∃ renderer, .Renderer_update renderer w.app.currentFrame ∈ pre ∧
              ((∃ computeInfo computeFence, .vkQueueSubmit computeInfo computeFence ∈ pre) →
                submitInfo.waitSemaphores =
                    [.imageAvailableSemaphores w.app.currentFrame,
                      .computeFinishedSemaphores w.app.currentFrame] ∧
                  submitInfo.waitDstStageMask =
                    [.VK_PIPELINE_STAGE_COLOR_ATTACHMENT_OUTPUT_BIT,
                      renderer.graphicsWaitComputeStage]) ∧
              ((¬ ∃ computeInfo computeFence, .vkQueueSubmit computeInfo computeFence ∈ pre) →
                submitInfo.waitSemaphores = [.imageAvailableSemaphores w.app.currentFrame] ∧
                  submitInfo.waitDstStageMask =
                    [.VK_PIPELINE_STAGE_COLOR_ATTACHMENT_OUTPUT_BIT])) ∧
        (∀ presentInfo, c = .vkQueuePresentKHR presentInfo →
          presentInfo.waitSemaphores = [.renderFinishedSemaphores w.app.currentFrame] ∧
            presentInfo.swapchains = [w.app.swapChain] ∧
            presentInfo.imageIndices = [env.imageIndex] ∧
            ∃ submitInfo, .vkQueueSubmit submitInfo (.inFlightFences w.app.currentFrame) ∈ pre ∧
              submitInfo.signalSemaphores = presentInfo.waitSemaphores) := by
  apply drawFrame_each env w (fun pre c =>
    (∀ submitInfo fence slot, c = .vkQueueSubmit submitInfo fence →
      submitInfo.commandBuffers = [.commandBuffers slot] →
        slot = w.app.currentFrame ∧
        .vkAcquireNextImageKHR w.app.swapChain
          (.imageAvailableSemaphores w.app.currentFrame) ∈ pre ∧
        submitInfo.signalSemaphores = [.renderFinishedSemaphores w.app.currentFrame] ∧
        fence = .inFlightFences w.app.currentFrame ∧
        ∃ renderer, .Renderer_update renderer w.app.currentFrame ∈ pre ∧
          ((∃ computeInfo computeFence, .vkQueueSubmit computeInfo computeFence ∈ pre) →
            submitInfo.waitSemaphores =
                [.imageAvailableSemaphores w.app.currentFrame,
                  .computeFinishedSemaphores w.app.currentFrame] ∧
              submitInfo.waitDstStageMask =
                [.VK_PIPELINE_STAGE_COLOR_ATTACHMENT_OUTPUT_BIT,
                  renderer.graphicsWaitComputeStage]) ∧
          ((¬ ∃ computeInfo computeFence, .vkQueueSubmit computeInfo computeFence ∈ pre) →
            submitInfo.waitSemaphores = [.imageAvailableSemaphores w.app.currentFrame] ∧
              submitInfo.waitDstStageMask =
                [.VK_PIPELINE_STAGE_COLOR_ATTACHMENT_OUTPUT_BIT])) ∧
    (∀ presentInfo, c = .vkQueuePresentKHR presentInfo →
      presentInfo.waitSemaphores = [.renderFinishedSemaphores w.app.currentFrame] ∧
        presentInfo.swapchains = [w.app.swapChain] ∧
        presentInfo.imageIndices = [env.imageIndex] ∧
        ∃ submitInfo, .vkQueueSubmit submitInfo (.inFlightFences w.app.currentFrame) ∈ pre ∧
          submitInfo.signalSemaphores = presentInfo.waitSemaphores))
  · by_cases hn : (getRenderer (updated env w.app)).needCompute = true
    · simp [EachAfter, frameCalls, workCalls, acquireCalls, updateCalls, computeCalls,
        graphicsCalls, presentCall, computeSubmitInfo, graphicsSubmitInfo, hn,
        updated_currentFrame, updated_swapChain]
      refine ⟨?_, ?_⟩ <;> rintro _ _ _ rfl rfl h <;> simp at h ⊢
      simp [h]
    · simp [EachAfter, frameCalls, workCalls, acquireCalls, updateCalls, computeCalls,
        graphicsCalls, presentCall, computeSubmitInfo, graphicsSubmitInfo, hn,
        updated_currentFrame, updated_swapChain]
      rintro _ _ _ rfl rfl h
      simp at h ⊢
      simp [h]
  · rintro c b (rfl | h)
    · simp
    · refine ⟨?_, ?_⟩
      · rintro submitInfo fence slot rfl hcb
        obtain ⟨handle, hh⟩ := inRecreate_vkQueueSubmit _ _ h
        rw [hh] at hcb
        simp at hcb
      · rintro presentInfo rfl
        simp [Call.inRecreate] at h

/-- The calls of the graphics phase and the present are not calls on the compute objects
of a slot. -/
theorem graphicsCalls_facts (app : Application) (imageIndex : Nat) (framebuffer : Handle) :
    ∀ c ∈ graphicsCalls app framebuffer ++ [presentCall app imageIndex],
      (∀ slot, c ≠ .vkWaitForFences (.computeInFlightFences slot) ∧
        c ≠ .vkResetFences (.computeInFlightFences slot) ∧
        c ≠ .vkResetCommandBuffer (.computeCommandBuffers slot) ∧
        c ≠ .vkBeginCommandBuffer (.computeCommandBuffers slot) ∧
        c ≠ .vkEndCommandBuffer (.computeCommandBuffers slot)) ∧
      (∀ renderer commandBuffer frameNum,
        c ≠ .Renderer_compute renderer commandBuffer frameNum) ∧
      ∀ submitInfo fence slot, c = .vkQueueSubmit submitInfo fence →
        submitInfo.commandBuffers ≠ [.computeCommandBuffers slot] := by
  simp [graphicsCalls, presentCall, graphicsSubmitInfo]
  rintro _ _ _ rfl _
  simp

/-- When the acquire lets the frame go on and the selected renderer needs compute, the
tick makes the wait, the acquire, the renderer update and the first six calls of the
compute phase; it throws there when the recording fails, and otherwise submits the compute
command buffer and goes on with calls of steps 5 and 6 and of a recreation. -/
theorem drawFrame_compute_run (env : DrawFrameEnv) (w : World) (hacq : acquireProceeds env)
    (hn : (getRenderer (updated env w.app)).needCompute = true) :
    ∃ rest, (drawFrame env w).2.trace = w.trace ++
        (acquireCalls w.app ++ updateCalls (updated env w.app) ++
          (computeCalls (updated env w.app)).take 6) ++ rest ∧
      (env.computeEndCommandBuffer ≠ VK_SUCCESS →
        rest = [] ∧
          (drawFrame env w).1 = .stop (.threw "failed to record compute command buffer!")) ∧
      (env.computeEndCommandBuffer = VK_SUCCESS →
        ∃ later, rest = .vkQueueSubmit (computeSubmitInfo (updated env w.app))
            (.computeInFlightFences w.app.currentFrame) :: later ∧
          ∀ c ∈ later,
            c ∈ graphicsCalls (updated env w.app) (frameBuffer env w.app) ++
                [presentCall (updated env w.app) env.imageIndex] ∨
              c = .recreateSwapChain ∨ c.inRecreate = true) := by
  obtain ⟨hne, hok⟩ := acquireProceeds_ne env hacq
  by_cases h2 : env.computeEndCommandBuffer = VK_SUCCESS
  swap
  · unfold drawFrame
    simp only [bind_run, pure_run, getApp, call, modifyApp, runtime_error, recordCommandBuffer,
      recordComputeCommandBuffer, index, inRange, updateData_run, outOfRange, hne, hok, hn, h2,
      if_true, if_false, ne_eq, not_true_eq_false, not_false_eq_true, List.append_assoc,
      Bool.false_eq_true, updated_swapChainFramebuffers]
    simp [acquireCalls, updateCalls, computeCalls, updated_currentFrame, updated_swapChain]
  by_cases hs : workSucceeds env w.app
  · rw [drawFrame_present env w hacq hs]
    split_ifs with hr hp
    · obtain ⟨cs, ht, hc, -, -⟩ := recreateSwapChain_run env.recreateSwapChain
        ⟨{ updated env w.app with framebufferResized := false },
          w.trace ++ frameCalls (updated env w.app) env.imageIndex (frameBuffer env w.app),
          w.nextHandle⟩
      rw [thenAdvance_trace, ht]
      refine ⟨_ :: (graphicsCalls (updated env w.app) (frameBuffer env w.app) ++
        [presentCall (updated env w.app) env.imageIndex] ++ .recreateSwapChain :: cs), ?_,
        fun h => absurd h2 h, fun _ => ⟨_, rfl, ?_⟩⟩
      · simp [frameCalls, workCalls, acquireCalls, updateCalls, computeCalls, hn,
          updated_currentFrame, updated_swapChain]
      · intro c hc'
        rcases List.mem_append.1 hc' with h | h
        · exact Or.inl h
        · rcases List.mem_cons.1 h with h | h
          · exact Or.inr (Or.inl h)
          · exact Or.inr (Or.inr (hc c h))
    all_goals
      refine ⟨_ :: (graphicsCalls (updated env w.app) (frameBuffer env w.app) ++
        [presentCall (updated env w.app) env.imageIndex]), ?_,
        fun h => absurd h2 h, fun _ => ⟨_, rfl, fun c hc' => Or.inl hc'⟩⟩
      simp [frameCalls, workCalls, acquireCalls, updateCalls, computeCalls, hn,
        updated_currentFrame, updated_swapChain]
  · have key : ∃ later, (drawFrame env w).2.trace = w.trace ++
          (acquireCalls w.app ++ updateCalls (updated env w.app) ++
            computeCalls (updated env w.app)) ++ later ∧
        later <+: graphicsCalls (updated env w.app) (frameBuffer env w.app) := by
      unfold drawFrame
      by_cases h3 : env.computeQueueSubmit = VK_SUCCESS
      swap
      · simp only [bind_run, pure_run, getApp, call, modifyApp, runtime_error,
          recordCommandBuffer, recordComputeCommandBuffer, index, inRange, updateData_run,
          outOfRange, hne, hok, hn, h2, h3, if_true, if_false, ne_eq, not_true_eq_false,
          not_false_eq_true, List.append_assoc, Bool.false_eq_true,
          updated_swapChainFramebuffers]
        simp [acquireCalls, updateCalls, computeCalls, graphicsCalls, computeSubmitInfo,
          updated_currentFrame, updated_swapChain]
      by_cases h4 : env.vkBeginCommandBuffer = VK_SUCCESS
      swap
      · simp only [bind_run, pure_run, getApp, call, modifyApp, runtime_error,
          recordCommandBuffer, recordComputeCommandBuffer, index, inRange, updateData_run,
          outOfRange, hne, hok, hn, h2, h3, h4, if_true, if_false, ne_eq, not_true_eq_false,
          not_false_eq_true, List.append_assoc, Bool.false_eq_true,
          updated_swapChainFramebuffers]
        simp [acquireCalls, updateCalls, computeCalls, graphicsCalls, computeSubmitInfo,
          updated_currentFrame, updated_swapChain]
      cases h5 : w.app.swapChainFramebuffers[env.imageIndex]? with
      | none =>
        simp only [bind_run, pure_run, getApp, call, modifyApp, runtime_error,
          recordCommandBuffer, recordComputeCommandBuffer, index, inRange, updateData_run,
          outOfRange, hne, hok, hn, h2, h3, h4, h5, if_true, if_false, ne_eq,
          not_true_eq_false, not_false_eq_true, List.append_assoc, Bool.false_eq_true,
          updated_swapChainFramebuffers]
        simp [acquireCalls, updateCalls, computeCalls, graphicsCalls, computeSubmitInfo,
          updated_currentFrame, updated_swapChain]
      | some framebuffer =>
        by_cases h6 : env.vkEndCommandBuffer = VK_SUCCESS
        swap
        · simp only [bind_run, pure_run, getApp, call, modifyApp, runtime_error,
            recordCommandBuffer, recordComputeCommandBuffer, index, inRange, updateData_run,
            outOfRange, hne, hok, hn, h2, h3, h4, h5, h6, if_true, if_false, ne_eq,
            not_true_eq_false, not_false_eq_true, List.append_assoc, Bool.false_eq_true,
            updated_swapChainFramebuffers]
          simp [acquireCalls, updateCalls, computeCalls, graphicsCalls, computeSubmitInfo,
            frameBuffer, h5, updated_currentFrame, updated_swapChain, updated_renderPass,
            updated_swapChainExtent]
        by_cases h7 : env.vkQueueSubmit = VK_SUCCESS
        swap
        · simp only [bind_run, pure_run, getApp, call, modifyApp, runtime_error,
            recordCommandBuffer, recordComputeCommandBuffer, index, inRange, updateData_run,
            outOfRange, hne, hok, hn, h2, h3, h4, h5, h6, h7, if_true, if_false, ne_eq,
            not_true_eq_false, not_false_eq_true, List.append_assoc, Bool.false_eq_true,
            updated_swapChainFramebuffers]
          simp [acquireCalls, updateCalls, computeCalls, graphicsCalls, computeSubmitInfo,
            graphicsSubmitInfo, frameBuffer, hn, h5, updated_currentFrame, updated_swapChain,
            updated_renderPass, updated_swapChainExtent]
        exfalso
        refine hs ⟨fun _ => ⟨h2, h3⟩, h4, ?_, h6, h7⟩
        by_contra hlt
        simp [List.getElem?_eq_none (Nat.le_of_not_lt hlt)] at h5
    obtain ⟨later, ht, hp⟩ := key
    refine ⟨_ :: later, ?_, fun h => absurd h2 h, fun _ => ⟨_, rfl, fun c hc' =>
      Or.inl (List.mem_append_left _ (hp.subset hc'))⟩⟩
    rw [ht]
    simp [computeCalls, updated_currentFrame]

/-- A call of a recreation is not a call on the compute objects of a slot. -/
theorem inRecreate_compute_facts (c : Call)
    (h : c = .recreateSwapChain ∨ c.inRecreate = true) :
    (∀ slot, c ≠ .vkWaitForFences (.computeInFlightFences slot) ∧
        c ≠ .vkResetFences (.computeInFlightFences slot) ∧
        c ≠ .vkResetCommandBuffer (.computeCommandBuffers slot) ∧
        c ≠ .vkBeginCommandBuffer (.computeCommandBuffers slot) ∧
        c ≠ .vkEndCommandBuffer (.computeCommandBuffers slot)) ∧
      (∀ renderer commandBuffer frameNum,
        c ≠ .Renderer_compute renderer commandBuffer frameNum) ∧
      ∀ submitInfo fence slot, c = .vkQueueSubmit submitInfo fence →
        submitInfo.commandBuffers ≠ [.computeCommandBuffers slot] := by
  rcases h with rfl | h
  · simp
  · refine ⟨fun slot => ⟨?_, ?_, ?_, ?_, ?_⟩, ?_, ?_⟩
    · rintro rfl
      simp [Call.inRecreate] at h
    · rintro rfl
      simp [Call.inRecreate] at h
    · rintro rfl
      simp [Call.inRecreate] at h
    · rintro rfl
      simp [Call.inRecreate] at h
    · rintro rfl
      simp [Call.inRecreate] at h
    · rintro _ _ _ rfl
      simp [Call.inRecreate] at h
    · rintro submitInfo fence slot rfl hcb
      obtain ⟨handle, hh⟩ := inRecreate_vkQueueSubmit _ _ h
      rw [hh] at hcb
      simp at hcb

/-- C16: in every tick in which the compute phase runs (the acquire returns success or
suboptimal and the renderer updated in the tick has `needCompute`), the calls that follow
the renderer update are, in this order: the wait on `computeInFlightFences[currentFrame]`,
the reset of that fence, the reset and the re-recording of
`computeCommandBuffers[currentFrame]` through the renderer's compute callback; if ending
the recording fails the tick throws there, and otherwise the next call is the submission
of that command buffer with no wait semaphore, the one signal semaphore
`computeFinishedSemaphores[currentFrame]` and the fence
`computeInFlightFences[currentFrame]`, and no later call of the tick waits on or resets a
compute fence, records a compute command buffer or submits one. -/
theorem drawFrame_compute_phase (env : DrawFrameEnv) (w : World) (hacq : acquireProceeds env)
    (hn : (getRenderer (updated env w.app)).needCompute = true) :
    ∃ rest, (drawFrame env w).2.trace = w.trace ++
        [.vkWaitForFences (.inFlightFences w.app.currentFrame),
          .vkAcquireNextImageKHR w.app.swapChain
            (.imageAvailableSemaphores w.app.currentFrame),
          .ImGui_NewFrame,
          .ImGui_Render,
          .Renderer_update (getRenderer (updated env w.app)) w.app.currentFrame] ++
        [.vkWaitForFences (.computeInFlightFences w.app.currentFrame),
          .vkResetFences (.computeInFlightFences w.app.currentFrame),
          .vkResetCommandBuffer (.computeCommandBuffers w.app.currentFrame),
          .vkBeginCommandBuffer (.computeCommandBuffers w.app.currentFrame),
          .Renderer_compute (getRenderer (updated env w.app))
            (.computeCommandBuffers w.app.currentFrame) w.app.currentFrame,
          .vkEndCommandBuffer (.computeCommandBuffers w.app.currentFrame)] ++
        rest ∧
      (env.computeEndCommandBuffer ≠ VK_SUCCESS →
        rest = [] ∧
          (drawFrame env w).1 = .stop (.threw "failed to record compute command buffer!")) ∧
      (env.computeEndCommandBuffer = VK_SUCCESS →
        ∃ later,
          rest =
            .vkQueueSubmit
              { waitSemaphores := []
                waitDstStageMask := []
                commandBuffers := [.computeCommandBuffers w.app.currentFrame]
                signalSemaphores := [.computeFinishedSemaphores w.app.currentFrame] }
              (.computeInFlightFences w.app.currentFrame) :: later ∧
          ∀ c ∈ later,
            (∀ slot, c ≠ .vkWaitForFences (.computeInFlightFences slot) ∧
              c ≠ .vkResetFences (.computeInFlightFences slot) ∧
              c ≠ .vkResetCommandBuffer (.computeCommandBuffers slot) ∧
              c ≠ .vkBeginCommandBuffer (.computeCommandBuffers slot) ∧
              c ≠ .vkEndCommandBuffer (.computeCommandBuffers slot)) ∧
            (∀ renderer commandBuffer frameNum,
              c ≠ .Renderer_compute renderer commandBuffer frameNum) ∧
            ∀ submitInfo fence slot, c = .vkQueueSubmit submitInfo fence →
              submitInfo.commandBuffers ≠ [.computeCommandBuffers slot]) := by
  obtain ⟨rest, ht, hfail, hdone⟩ := drawFrame_compute_run env w hacq hn
  refine ⟨rest, ?_, hfail, fun h2 => ?_⟩
  · rw [ht]
    simp [acquireCalls, updateCalls, computeCalls, updated_currentFrame, updated_swapChain]
  · obtain ⟨later, hrest, hlater⟩ := hdone h2
    refine ⟨later, ?_, fun c hc => ?_⟩
    · rw [hrest]
      simp [computeSubmitInfo, updated_currentFrame]
    · rcases hlater c hc with h | h
      · exact graphicsCalls_facts _ _ _ c h
      · exact inRecreate_compute_facts c h

theorem drawFrame_compute_phase_witness :
    ∃ rest, (drawFrame calmFrame particleWorld).2.trace = particleWorld.trace ++
        [.vkWaitForFences (.inFlightFences particleWorld.app.currentFrame),
          .vkAcquireNextImageKHR particleWorld.app.swapChain
            (.imageAvailableSemaphores particleWorld.app.currentFrame),
          .ImGui_NewFrame,
          .ImGui_Render,
          .Renderer_update (getRenderer (updated calmFrame particleWorld.app))
            particleWorld.app.currentFrame] ++
        [.vkWaitForFences (.computeInFlightFences particleWorld.app.currentFrame),
          .vkResetFences (.computeInFlightFences particleWorld.app.currentFrame),
          .vkResetCommandBuffer (.computeCommandBuffers particleWorld.app.currentFrame),
          .vkBeginCommandBuffer (.computeCommandBuffers particleWorld.app.currentFrame),
          .Renderer_compute (getRenderer (updated calmFrame particleWorld.app))
            (.computeCommandBuffers particleWorld.app.currentFrame)
            particleWorld.app.currentFrame,
          .vkEndCommandBuffer (.computeCommandBuffers particleWorld.app.currentFrame)] ++
        rest ∧
      (calmFrame.computeEndCommandBuffer ≠ VK_SUCCESS →
        rest = [] ∧
          (drawFrame calmFrame particleWorld).1 =
            .stop (.threw "failed to record compute command buffer!")) ∧
      (calmFrame.computeEndCommandBuffer = VK_SUCCESS →
        ∃ later,
          rest =
            .vkQueueSubmit
              { waitSemaphores := []
                waitDstStageMask := []
                commandBuffers := [.computeCommandBuffers particleWorld.app.currentFrame]
                signalSemaphores :=
                  [.computeFinishedSemaphores particleWorld.app.currentFrame] }
              (.computeInFlightFences particleWorld.app.currentFrame) :: later ∧
          ∀ c ∈ later,
            (∀ slot, c ≠ .vkWaitForFences (.computeInFlightFences slot) ∧
              c ≠ .vkResetFences (.computeInFlightFences slot) ∧
              c ≠ .vkResetCommandBuffer (.computeCommandBuffers slot) ∧
              c ≠ .vkBeginCommandBuffer (.computeCommandBuffers slot) ∧
              c ≠ .vkEndCommandBuffer (.computeCommandBuffers slot)) ∧
            (∀ renderer commandBuffer frameNum,
              c ≠ .Renderer_compute renderer commandBuffer frameNum) ∧
            ∀ submitInfo fence slot, c = .vkQueueSubmit submitInfo fence →
              submitInfo.commandBuffers ≠ [.computeCommandBuffers slot]) :=
  drawFrame_compute_phase calmFrame particleWorld (Or.inl rfl) (by decide)

/-! ## The main loop -/

theorem mainLoopBody_run (env : LoopEnv) (w : World) :
    mainLoopBody env w = drawFrame env.drawFrame
      ⟨if env.framebufferResizeCallback = true then
          { w.app with framebufferResized := true }
        else w.app,
        w.trace ++ [.glfwPollEvents], w.nextHandle⟩ := by
  unfold mainLoopBody
  cases h : env.framebufferResizeCallback <;>
    simp only [bind_run, pure_run, call, framebufferResizeCallback, modifyApp, if_true,
      if_false, Bool.false_eq_true]

theorem mainLoop_cons (iteration : LoopEnv) (rest : List LoopEnv) (w : World) :
    mainLoop (iteration :: rest) w =
      match mainLoopBody iteration w with
      | (.ok _, after) => mainLoop rest after
      | (.stop s, after) => (.stop s, after) := by
  rw [mainLoop, bind_run]
  rcases mainLoopBody iteration w with ⟨_ | _, _⟩ <;> rfl

/-- The frame index after a tick: advanced once when the tick went past the acquire and
returned, and unchanged otherwise. -/
theorem drawFrame_currentFrame (env : DrawFrameEnv) (w : World) :
    (acquireProceeds env → (drawFrame env w).1 = .ok () →
        (drawFrame env w).2.app.currentFrame = (w.app.currentFrame + 1) % 2) ∧
      (¬ (acquireProceeds env ∧ (drawFrame env w).1 = .ok ()) →
        (drawFrame env w).2.app.currentFrame = w.app.currentFrame) := by
  constructor
  · intro hacq hok
    obtain ⟨before, recreation, heq, -, -, hcf, -⟩ := drawFrame_returns env w hacq hok
    rw [heq]
    show (advance before.app).currentFrame = _
    rw [advance_currentFrame, hcf]
  · intro hnot
    by_cases h1 : env.vkAcquireNextImageKHR = VK_ERROR_OUT_OF_DATE_KHR
    · rw [drawFrame_outOfDate env w h1]
      exact (recreateSwapChain_run env.recreateSwapChain _).choose_spec.2.2.1
    by_cases hacq : acquireProceeds env
    swap
    · have h2 : env.vkAcquireNextImageKHR ≠ VK_SUCCESS := fun h => hacq (Or.inl h)
      have h3 : env.vkAcquireNextImageKHR ≠ VK_SUBOPTIMAL_KHR := fun h => hacq (Or.inr h)
      rw [drawFrame_acquire_error env w h1 h2 h3]
    by_cases hs : workSucceeds env w.app
    swap
    · obtain ⟨s, cs, -, -, heq⟩ := drawFrame_stops_early env w hacq hs
      rw [heq]
      exact updated_currentFrame env w.app
    have hstop : (drawFrame env w).1 ≠ .ok () := fun h => hnot ⟨hacq, h⟩
    rw [drawFrame_present env w hacq hs] at hstop ⊢
    split_ifs at hstop ⊢ with hr hp
    · have hcf := (recreateSwapChain_run env.recreateSwapChain
        ⟨{ updated env w.app with framebufferResized := false },
          w.trace ++ frameCalls (updated env w.app) env.imageIndex (frameBuffer env w.app),
          w.nextHandle⟩).choose_spec.2.2.1
      generalize recreateSwapChain env.recreateSwapChain _ = r at hstop hcf
      rcases r with ⟨_ | s, after⟩
      · exact absurd rfl hstop
      · exact hcf
    · exact updated_currentFrame env w.app
    · exact absurd rfl hstop

theorem inRecreate_slots (c : Call) (h : c = .recreateSwapChain ∨ c.inRecreate = true) :
    c.slots = [] := by
  rcases h with rfl | h
  · rfl
  · unfold Call.inRecreate at h
    split at h <;> first | rfl | simp at h

theorem frameCalls_slots (app : Application) (imageIndex : Nat) (framebuffer : Handle) :
    ∀ c ∈ frameCalls app imageIndex framebuffer, ∀ slot ∈ c.slots,
      slot = app.currentFrame := by
  by_cases hn : (getRenderer app).needCompute = true <;>
    simp [frameCalls, workCalls, acquireCalls, updateCalls, computeCalls, graphicsCalls,
      presentCall, computeSubmitInfo, graphicsSubmitInfo, hn, Call.slots, VkFence.slots,
      VkSemaphore.slots, VkCommandBuffer.slots]

/-- Every per-slot lookup of a tick is at the index `currentFrame` the tick starts with. -/
theorem drawFrame_slots (env : DrawFrameEnv) (w : World) :
    ∃ tick, (drawFrame env w).2.trace = w.trace ++ tick ∧
      ∀ c ∈ tick, ∀ slot ∈ c.slots, slot = w.app.currentFrame := by
  obtain ⟨tick, ht, hshape⟩ := drawFrame_tick env w
  refine ⟨tick, ht, ?_⟩
  have hframe := frameCalls_slots (updated env w.app) env.imageIndex (frameBuffer env w.app)
  rw [updated_currentFrame] at hframe
  rcases hshape with ⟨cs, rfl, hc⟩ | hp | ⟨cs, rfl, hc⟩
  · intro c hmem slot hslot
    rcases List.mem_append.1 hmem with h | h
    · exact hframe c ((acquireCalls_prefix_frameCalls env _ _ _).subset h) slot hslot
    · rw [inRecreate_slots c ((List.mem_cons.1 h).imp id (hc c))] at hslot
      simp at hslot
  · exact fun c hmem => hframe c (hp.subset hmem)
  · intro c hmem slot hslot
    rcases List.mem_append.1 hmem with h | h
    · exact hframe c h slot hslot
    · rw [inRecreate_slots c ((List.mem_cons.1 h).imp id (hc c))] at hslot
      simp at hslot

/-- A property of each call and the calls before it that holds within two lists, and that
calls made earlier do not disturb, holds within their concatenation. -/
theorem each_append (ok : List Call → Call → Prop)
    (hmono : ∀ before pre c, ok pre c → ok (before ++ pre) c) (l₁ l₂ : List Call)
    (h₁ : ∀ pre c post, l₁ = pre ++ c :: post → ok pre c)
    (h₂ : ∀ pre c post, l₂ = pre ++ c :: post → ok pre c) :
    ∀ pre c post, l₁ ++ l₂ = pre ++ c :: post → ok pre c := by
  intro pre c post h
  rcases List.append_eq_append_iff.1 h with ⟨a, rfl, h'⟩ | ⟨a, h', h''⟩
  · exact hmono _ _ _ (h₂ a c post h')
  · cases a with
    | nil =>
      rw [List.append_nil] at h'
      have := hmono l₁ [] c (h₂ [] c post (by simpa using h''.symm))
      rw [List.append_nil, h'] at this
      exact this
    | cons x a =>
      simp only [List.cons_append, List.cons.injEq] at h''
      exact h₁ pre c a (by rw [h', h''.1])

/-- A property of each call and the calls before it holds throughout `mainLoop` as soon as
it holds within every tick that starts in a state satisfying an invariant of the ticks. -/
theorem mainLoop_each (ok : List Call → Call → Prop) (inv : Application → Prop)
    (hmono : ∀ before pre c, ok pre c → ok (before ++ pre) c)
    (hpoll : ok [] .glfwPollEvents) (hidle : ok [] .vkDeviceWaitIdle)
    (hresize : ∀ app, inv app → inv { app with framebufferResized := true })
    (hframe : ∀ env w, inv w.app → inv (drawFrame env w).2.app ∧
      ∃ tick, (drawFrame env w).2.trace = w.trace ++ tick ∧
        ∀ pre c post, tick = pre ++ c :: post → ok pre c)
    (iterations : List LoopEnv) (w : World) (hw : inv w.app) :
    inv (mainLoop iterations w).2.app ∧
      ∃ cs, (mainLoop iterations w).2.trace = w.trace ++ cs ∧
        ∀ pre c post, cs = pre ++ c :: post → ok pre c := by
  have single : ∀ x : Call, ok [] x → ∀ pre c post, [x] = pre ++ c :: post → ok pre c := by
    intro x hx pre c post h
    cases pre with
    | nil =>
      simp only [List.nil_append, List.cons.injEq] at h
      rw [← h.1]
      exact hx
    | cons y pre =>
      simp only [List.cons_append, List.cons.injEq] at h
      exact absurd h.2 (by simp)
  induction iterations generalizing w with
  | nil => exact ⟨hw, [.vkDeviceWaitIdle], rfl, single _ hidle⟩
  | cons iteration rest ih =>
    rw [mainLoop_cons, mainLoopBody_run]
    have hentry : inv (if iteration.framebufferResizeCallback = true then
        { w.app with framebufferResized := true } else w.app) := by
      split_ifs
      · exact hresize _ hw
      · exact hw
    obtain ⟨hinv, tick, ht, htick⟩ := hframe iteration.drawFrame
      ⟨if iteration.framebufferResizeCallback = true then
          { w.app with framebufferResized := true }
        else w.app,
        w.trace ++ [.glfwPollEvents], w.nextHandle⟩ hentry
    have hbody := each_append ok hmono _ _ (single _ hpoll) htick
    generalize drawFrame iteration.drawFrame _ = r at hinv ht
    rcases r with ⟨_ | s, after⟩
    · obtain ⟨hinv', cs, hcs, hrest⟩ := ih after hinv
      refine ⟨hinv', [.glfwPollEvents] ++ tick ++ cs, ?_, each_append ok hmono _ _ hbody hrest⟩
      show (mainLoop rest after).2.trace = _
      rw [hcs]
      simp only [] at ht
      rw [ht]
      simp
    · refine ⟨hinv, [.glfwPollEvents] ++ tick, ?_, hbody⟩
      show after.trace = _
      simp only [] at ht
      rw [ht]
      simp

/-- C17: in `mainLoop` started with `currentFrame = 0`, whatever the calls return and
however many iterations run, `currentFrame` ends as the number of frames that went past
the acquire and returned, modulo 2; it is below `MAX_FRAMES_IN_FLIGHT`, and every index at
which a call of the run reads a per-slot vector is below `MAX_FRAMES_IN_FLIGHT`.  For each
single tick: a tick that returns has issued the present exactly when its acquire returned
success or suboptimal; such a tick, with or without a recreation after the present,
advances `currentFrame` by one modulo 2, and every other tick (aborted at the acquire, or
ended by an error) leaves it unchanged. -/
theorem mainLoop_currentFrame (iterations : List LoopEnv) (w : World)
    (h0 : w.app.currentFrame = 0) :
    (mainLoop iterations w).2.app.currentFrame =
        presentedFrames iterations w % MAX_FRAMES_IN_FLIGHT ∧
      (mainLoop iterations w).2.app.currentFrame < MAX_FRAMES_IN_FLIGHT ∧
      (∃ cs, (mainLoop iterations w).2.trace = w.trace ++ cs ∧
        ∀ c ∈ cs, ∀ slot ∈ c.slots, slot < MAX_FRAMES_IN_FLIGHT) ∧
      ∀ (env : DrawFrameEnv) (entry : World),
        ((drawFrame env entry).1 = .ok () →
          (acquireProceeds env ↔
            ∃ tick presentInfo, (drawFrame env entry).2.trace = entry.trace ++ tick ∧
              Call.vkQueuePresentKHR presentInfo ∈ tick)) ∧
        (acquireProceeds env → (drawFrame env entry).1 = .ok () →
          (drawFrame env entry).2.app.currentFrame =
            (entry.app.currentFrame + 1) % MAX_FRAMES_IN_FLIGHT) ∧
        (¬ (acquireProceeds env ∧ (drawFrame env entry).1 = .ok ()) →
          (drawFrame env entry).2.app.currentFrame = entry.app.currentFrame) := by
  have hlt : ∀ (env : DrawFrameEnv) (entry : World), entry.app.currentFrame < 2 →
      (drawFrame env entry).2.app.currentFrame < 2 := by
    intro env entry h
    by_cases hc : acquireProceeds env ∧ (drawFrame env entry).1 = .ok ()
    · rw [(drawFrame_currentFrame env entry).1 hc.1 hc.2]
      omega
    · rw [(drawFrame_currentFrame env entry).2 hc]
      exact h
  have hcount : ∀ (iterations : List LoopEnv) (w : World), w.app.currentFrame < 2 →
      (mainLoop iterations w).2.app.currentFrame =
        (w.app.currentFrame + presentedFrames iterations w) % 2 := by
    intro iterations
    induction iterations with
    | nil =>
      intro w hw
      show w.app.currentFrame = _
      simp only [presentedFrames]
      omega
    | cons iteration rest ih =>
      intro w hw
      have hentry : (if iteration.framebufferResizeCallback = true then
          { w.app with framebufferResized := true } else w.app).currentFrame =
          w.app.currentFrame := by
        split_ifs <;> rfl
      have hstep := drawFrame_currentFrame iteration.drawFrame
        ⟨if iteration.framebufferResizeCallback = true then
            { w.app with framebufferResized := true }
          else w.app,
          w.trace ++ [.glfwPollEvents], w.nextHandle⟩
      have hbelow := hlt iteration.drawFrame
        ⟨if iteration.framebufferResizeCallback = true then
            { w.app with framebufferResized := true }
          else w.app,
          w.trace ++ [.glfwPollEvents], w.nextHandle⟩ (by rw [hentry]; exact hw)
      rw [← mainLoopBody_run] at hstep hbelow
      rw [mainLoop_cons]
      unfold presentedFrames
      simp only [hentry] at hstep
      generalize mainLoopBody iteration w = r at hstep hbelow
      rcases r with ⟨_ | s, after⟩
      · simp only [] at hstep hbelow ⊢
        rw [ih after hbelow]
        by_cases hacq : acquireProceeds iteration.drawFrame
        · rw [hstep.1 hacq trivial, if_pos hacq]
          omega
        · rw [hstep.2 (fun h => hacq h.1), if_neg hacq]
          omega
      · simp only [] at hstep ⊢
        rw [hstep.2 (fun h => by cases h.2)]
        omega
  have hw : w.app.currentFrame < 2 := by omega
  refine ⟨?_, ?_, ?_, fun env entry => ⟨fun hok => ⟨fun hacq => ?_, fun h => ?_⟩, ?_, ?_⟩⟩
  · rw [hcount iterations w hw, h0, Nat.zero_add]
    rfl
  · rw [hcount iterations w hw]
    exact Nat.mod_lt _ (by decide)
  · obtain ⟨-, cs, hcs, hall⟩ := mainLoop_each
      (fun _ c => ∀ slot ∈ c.slots, slot < MAX_FRAMES_IN_FLIGHT)
      (fun app => app.currentFrame < 2) (fun _ _ _ h => h) (by simp [Call.slots])
      (by simp [Call.slots]) (fun _ h => h)
      (fun env entry h => ⟨hlt env entry h, by
        obtain ⟨tick, ht, hslots⟩ := drawFrame_slots env entry
        refine ⟨tick, ht, fun pre c post hl slot hslot => ?_⟩
        rw [hslots c (by rw [hl]; simp) slot hslot]
        exact h⟩)
      iterations w hw
    refine ⟨cs, hcs, fun c hc => ?_⟩
    obtain ⟨pre, post, hl⟩ := List.append_of_mem hc
    exact hall pre c post hl
  · exact (drawFrame_present_issued_iff env entry).2
      ⟨hacq, (drawFrame_returns env entry hacq hok).choose_spec.choose_spec.2.2.2.2⟩
  · exact ((drawFrame_present_issued_iff env entry).1 h).1
  · intro hacq hok
    exact (drawFrame_currentFrame env entry).1 hacq hok
  · exact (drawFrame_currentFrame env entry).2

theorem mainLoop_currentFrame_witness :
    (mainLoop calmLoop startWorld).2.app.currentFrame =
        presentedFrames calmLoop startWorld % MAX_FRAMES_IN_FLIGHT ∧
      (mainLoop calmLoop startWorld).2.app.currentFrame < MAX_FRAMES_IN_FLIGHT ∧
      (∃ cs, (mainLoop calmLoop startWorld).2.trace = startWorld.trace ++ cs ∧
        ∀ c ∈ cs, ∀ slot ∈ c.slots, slot < MAX_FRAMES_IN_FLIGHT) ∧
      ∀ (env : DrawFrameEnv) (entry : World),
        ((drawFrame env entry).1 = .ok () →
          (acquireProceeds env ↔
            ∃ tick presentInfo, (drawFrame env entry).2.trace = entry.trace ++ tick ∧
              Call.vkQueuePresentKHR presentInfo ∈ tick)) ∧
        (acquireProceeds env → (drawFrame env entry).1 = .ok () →
          (drawFrame env entry).2.app.currentFrame =
            (entry.app.currentFrame + 1) % MAX_FRAMES_IN_FLIGHT) ∧
        (¬ (acquireProceeds env ∧ (drawFrame env entry).1 = .ok ()) →
          (drawFrame env entry).2.app.currentFrame = entry.app.currentFrame) :=
  mainLoop_currentFrame calmLoop startWorld rfl

/-! ## Synchronisation objects -/

/-- A `createSyncObjects` that returns has made its ten creation calls, slot by slot, and
has left the program state as it was. -/
theorem createSyncObjects_run (env : SyncObjectsEnv) (w : World) :
    (createSyncObjects env w).1 = .ok () →
      createSyncObjects env w =
        (.ok (),
          ⟨w.app,
            w.trace ++
              [.vkCreateSemaphore 0 (.imageAvailableSemaphores 0),
                .vkCreateSemaphore 0 (.renderFinishedSemaphores 0),
                .vkCreateFence VK_FENCE_CREATE_SIGNALED_BIT (.inFlightFences 0),
                .vkCreateSemaphore 0 (.computeFinishedSemaphores 0),
                .vkCreateFence VK_FENCE_CREATE_SIGNALED_BIT (.computeInFlightFences 0),
                .vkCreateSemaphore 0 (.imageAvailableSemaphores 1),
                .vkCreateSemaphore 0 (.renderFinishedSemaphores 1),
                .vkCreateFence VK_FENCE_CREATE_SIGNALED_BIT (.inFlightFences 1),
                .vkCreateSemaphore 0 (.computeFinishedSemaphores 1),
                .vkCreateFence VK_FENCE_CREATE_SIGNALED_BIT (.computeInFlightFences 1)],
            w.nextHandle⟩) := by
  have hrange : List.range MAX_FRAMES_IN_FLIGHT = [0, 1] := rfl
  unfold createSyncObjects
  simp only [hrange, forEach]
  by_cases a0 : env.imageAvailableSemaphores 0 = VK_SUCCESS
  swap
  · simp [bind_run, pure_run, call, runtime_error, a0]
  by_cases b0 : env.renderFinishedSemaphores 0 = VK_SUCCESS
  swap
  · simp [bind_run, pure_run, call, runtime_error, a0, b0]
  by_cases c0 : env.inFlightFences 0 = VK_SUCCESS
  swap
  · simp [bind_run, pure_run, call, runtime_error, a0, b0, c0]
  by_cases d0 : env.computeFinishedSemaphores 0 = VK_SUCCESS
  swap
  · simp [bind_run, pure_run, call, runtime_error, a0, b0, c0, d0]
  by_cases e0 : env.computeInFlightFences 0 = VK_SUCCESS
  swap
  · simp [bind_run, pure_run, call, runtime_error, a0, b0, c0, d0, e0]
  by_cases a1 : env.imageAvailableSemaphores 1 = VK_SUCCESS
  swap
  · simp [bind_run, pure_run, call, runtime_error, a0, b0, c0, d0, e0, a1]
  by_cases b1 : env.renderFinishedSemaphores 1 = VK_SUCCESS
  swap
  · simp [bind_run, pure_run, call, runtime_error, a0, b0, c0, d0, e0, a1, b1]
  by_cases c1 : env.inFlightFences 1 = VK_SUCCESS
  swap
  · simp [bind_run, pure_run, call, runtime_error, a0, b0, c0, d0, e0, a1, b1, c1]
  by_cases d1 : env.computeFinishedSemaphores 1 = VK_SUCCESS
  swap
  · simp [bind_run, pure_run, call, runtime_error, a0, b0, c0, d0, e0, a1, b1, c1, d1]
  by_cases e1 : env.computeInFlightFences 1 = VK_SUCCESS
  swap
  · simp [bind_run, pure_run, call, runtime_error, a0, b0, c0, d0, e0, a1, b1, c1, d1, e1]
  simp [bind_run, pure_run, call, runtime_error, a0, b0, c0, d0, e0, a1, b1, c1, d1, e1]

theorem inRecreate_fence (c : Call) (h : c = .recreateSwapChain ∨ c.inRecreate = true) :
    (∀ fence, c ≠ .vkResetFences fence) ∧
      ∀ submitInfo fence, c = .vkQueueSubmit submitInfo fence → fence = .VK_NULL_HANDLE := by
  rcases h with rfl | h
  · simp
  · refine ⟨fun fence => ?_, ?_⟩
    · rintro rfl
      simp [Call.inRecreate] at h
    · rintro submitInfo fence rfl
      unfold Call.inRecreate at h
      split at h <;> simp_all

/-- In every run of `mainLoop`, a fence of a slot is reset or handed to a submission only
after a wait on that fence made earlier in the run. -/
theorem mainLoop_fences (iterations : List LoopEnv) (w : World) :
    ∃ cs, (mainLoop iterations w).2.trace = w.trace ++ cs ∧
      ∀ pre c post, cs = pre ++ c :: post → ∀ fence, fence ≠ .VK_NULL_HANDLE →
        (c = .vkResetFences fence ∨ ∃ submitInfo, c = .vkQueueSubmit submitInfo fence) →
          .vkWaitForFences fence ∈ pre := by
  refine (mainLoop_each
    (fun pre c => ∀ fence, fence ≠ .VK_NULL_HANDLE →
      (c = .vkResetFences fence ∨ ∃ submitInfo, c = .vkQueueSubmit submitInfo fence) →
        .vkWaitForFences fence ∈ pre)
    (fun _ => True) ?_ ?_ ?_ (fun _ _ => trivial) ?_ iterations w trivial).2
  · intro before pre c h fence hf hc
    exact List.mem_append_right _ (h fence hf hc)
  · simp
  · simp
  · intro env entry _
    refine ⟨trivial, ?_⟩
    apply drawFrame_each env entry
    · by_cases hn : (getRenderer (updated env entry.app)).needCompute = true
      · simp [EachAfter, frameCalls, workCalls, acquireCalls, updateCalls, computeCalls,
          graphicsCalls, presentCall, computeSubmitInfo, graphicsSubmitInfo, hn,
          updated_currentFrame]
        refine ⟨?_, ?_⟩ <;> intro fence _ h <;> simp [← h]
      · simp [EachAfter, frameCalls, workCalls, acquireCalls, updateCalls, computeCalls,
          graphicsCalls, presentCall, computeSubmitInfo, graphicsSubmitInfo, hn,
          updated_currentFrame]
        intro fence _ h
        simp [← h]
    · intro c b h fence hf hc
      rcases hc with rfl | ⟨submitInfo, rfl⟩
      · exact absurd rfl ((inRecreate_fence _ h).1 fence)
      · exact absurd ((inRecreate_fence _ h).2 _ _ rfl) hf

/-- C18: when `createSyncObjects` returns, it has made exactly these creation calls: for
each of the `MAX_FRAMES_IN_FLIGHT = 2` slots, in order, the semaphores `imageAvailable` and
`renderFinished`, the fence `inFlight`, the semaphore `computeFinished` and the fence
`computeInFlight`; every fence is created with `VK_FENCE_CREATE_SIGNALED_BIT` and every
semaphore with a zero-initialised create info (a binary semaphore, created unsignaled).
In every run of `mainLoop` that follows, the first wait on the `inFlight` or
`computeInFlight` fence of a slot is preceded by no reset of that fence and by no
submission that would signal it: it finds the fence as it was created, signaled. -/
theorem createSyncObjects_spec (env : SyncObjectsEnv) (w : World)
    (hok : (createSyncObjects env w).1 = .ok ()) :
    MAX_FRAMES_IN_FLIGHT = 2 ∧
      (createSyncObjects env w).2.trace = w.trace ++
        ((List.range MAX_FRAMES_IN_FLIGHT).map fun i =>
          [Call.vkCreateSemaphore 0 (.imageAvailableSemaphores i),
            Call.vkCreateSemaphore 0 (.renderFinishedSemaphores i),
            Call.vkCreateFence VK_FENCE_CREATE_SIGNALED_BIT (.inFlightFences i),
            Call.vkCreateSemaphore 0 (.computeFinishedSemaphores i),
            Call.vkCreateFence VK_FENCE_CREATE_SIGNALED_BIT (.computeInFlightFences i)]).flatten ∧
      ∀ iterations : List LoopEnv,
        ∃ cs, (mainLoop iterations (createSyncObjects env w).2).2.trace =
            (createSyncObjects env w).2.trace ++ cs ∧
          ∀ pre c post slot fence, cs = pre ++ c :: post →
            fence = .inFlightFences slot ∨ fence = .computeInFlightFences slot →
            c = .vkWaitForFences fence → .vkWaitForFences fence ∉ pre →
              .vkResetFences fence ∉ pre ∧
                ∀ submitInfo, .vkQueueSubmit submitInfo fence ∉ pre := by
  refine ⟨rfl, ?_, fun iterations => ?_⟩
  · rw [createSyncObjects_run env w hok]
    rfl
  · obtain ⟨cs, hcs, hall⟩ := mainLoop_fences iterations (createSyncObjects env w).2
    refine ⟨cs, hcs, ?_⟩
    rintro pre c post slot fence rfl hfence - hfirst
    have hne : fence ≠ .VK_NULL_HANDLE := by
      rcases hfence with rfl | rfl <;> simp
    refine ⟨fun hmem => ?_, fun submitInfo hmem => ?_⟩
    · obtain ⟨p, q, rfl⟩ := List.append_of_mem hmem
      exact hfirst (List.mem_append_left _
        (hall p _ (q ++ c :: post) (by simp) fence hne (Or.inl rfl)))
    · obtain ⟨p, q, rfl⟩ := List.append_of_mem hmem
      exact hfirst (List.mem_append_left _
        (hall p _ (q ++ c :: post) (by simp) fence hne (Or.inr ⟨submitInfo, rfl⟩)))

theorem createSyncObjects_spec_witness :
    MAX_FRAMES_IN_FLIGHT = 2 ∧
      (createSyncObjects calmSyncObjects startWorld).2.trace = startWorld.trace ++
        ((List.range MAX_FRAMES_IN_FLIGHT).map fun i =>
          [Call.vkCreateSemaphore 0 (.imageAvailableSemaphores i),
            Call.vkCreateSemaphore 0 (.renderFinishedSemaphores i),
            Call.vkCreateFence VK_FENCE_CREATE_SIGNALED_BIT (.inFlightFences i),
            Call.vkCreateSemaphore 0 (.computeFinishedSemaphores i),
            Call.vkCreateFence VK_FENCE_CREATE_SIGNALED_BIT (.computeInFlightFences i)]).flatten ∧
      ∀ iterations : List LoopEnv,
        ∃ cs, (mainLoop iterations (createSyncObjects calmSyncObjects startWorld).2).2.trace =
            (createSyncObjects calmSyncObjects startWorld).2.trace ++ cs ∧
          ∀ pre c post slot fence, cs = pre ++ c :: post →
            fence = .inFlightFences slot ∨ fence = .computeInFlightFences slot →
            c = .vkWaitForFences fence → .vkWaitForFences fence ∉ pre →
              .vkResetFences fence ∉ pre ∧
                ∀ submitInfo, .vkQueueSubmit submitInfo fence ∉ pre :=
  createSyncObjects_spec calmSyncObjects startWorld (by decide!)

/-! ## The render pass in a recreation -/

theorem cleanupSwapChain_keeps :
    Quiet (fun c => c.beforeRenderPass = true) swapChainKey cleanupSwapChain := by
  unfold cleanupSwapChain
  repeat' (first
    | apply Quiet.bind
    | apply Quiet.pure
    | apply Quiet.getApp
    | apply Quiet.freshHandle
    | apply Quiet.freshHandles
    | apply Quiet.inRange
    | apply Quiet.index
    | apply Quiet.forEach
    | apply Quiet.runtime_error
    | (apply Quiet.call; rfl)
    | (apply Quiet.modifyApp; intro _; rfl)
    | intro _
    | split)

theorem createSwapChain_keeps (env : RecreateEnv) (oldSwapChain : Handle) :
    Quiet (fun c => c.beforeRenderPass = true) renderPassKey (createSwapChain env oldSwapChain) := by
  unfold createSwapChain
  repeat' (first
    | apply Quiet.bind
    | apply Quiet.pure
    | apply Quiet.getApp
    | apply Quiet.freshHandle
    | apply Quiet.freshHandles
    | apply Quiet.inRange
    | apply Quiet.index
    | apply Quiet.forEach
    | apply Quiet.runtime_error
    | (apply Quiet.call; rfl)
    | (apply Quiet.modifyApp; intro _; rfl)
    | intro _
    | split)

theorem createImageView_keeps (result : VkResult) (image : Handle) (format : VkFormat)
    (aspectFlags mips : Nat) :
    Quiet (fun c => c.beforeRenderPass = true) swapChainKey
      (createImageView result image format aspectFlags mips) := by
  unfold createImageView
  repeat' (first
    | apply Quiet.bind
    | apply Quiet.pure
    | apply Quiet.getApp
    | apply Quiet.freshHandle
    | apply Quiet.freshHandles
    | apply Quiet.inRange
    | apply Quiet.index
    | apply Quiet.forEach
    | apply Quiet.runtime_error
    | (apply Quiet.call; rfl)
    | (apply Quiet.modifyApp; intro _; rfl)
    | intro _
    | split)

theorem createSwapChainImageViews_keeps (env : RecreateEnv) :
    Quiet (fun c => c.beforeRenderPass = true) swapChainKey (createSwapChainImageViews env) := by
  unfold createSwapChainImageViews
  repeat' (first
    | apply createImageView_keeps
    | apply Quiet.bind
    | apply Quiet.pure
    | apply Quiet.getApp
    | apply Quiet.freshHandle
    | apply Quiet.freshHandles
    | apply Quiet.inRange
    | apply Quiet.index
    | apply Quiet.forEach
    | apply Quiet.runtime_error
    | (apply Quiet.call; rfl)
    | (apply Quiet.modifyApp; intro _; rfl)
    | intro _
    | split)

theorem findMemoryTypeIndexFrom_keeps (typeBitsFilter propertyFlags : Nat)
    (memoryTypes : List Nat) (i : Nat) :
    Quiet (fun c => c.beforeRenderPass = true) swapChainKey
      (findMemoryTypeIndexFrom typeBitsFilter propertyFlags memoryTypes i) := by
  induction memoryTypes generalizing i with
  | nil => exact Quiet.runtime_error _
  | cons memoryType rest ih =>
    unfold findMemoryTypeIndexFrom
    split
    · exact Quiet.pure _
    · exact ih _

theorem createImage_keeps (memoryTypes : List Nat) (env : CreateImageEnv) (width height : Int)
    (mips numSamples : Nat) (format : VkFormat) (tiling : VkImageTiling)
    (usage memoryPropertyFlags : Nat) :
    Quiet (fun c => c.beforeRenderPass = true) swapChainKey
      (createImage memoryTypes env width height mips numSamples format tiling usage
        memoryPropertyFlags) := by
  unfold createImage findMemoryTypeIndex
  repeat' (first
    | apply findMemoryTypeIndexFrom_keeps
    | apply Quiet.bind
    | apply Quiet.pure
    | apply Quiet.getApp
    | apply Quiet.freshHandle
    | apply Quiet.freshHandles
    | apply Quiet.inRange
    | apply Quiet.index
    | apply Quiet.forEach
    | apply Quiet.runtime_error
    | (apply Quiet.call; rfl)
    | (apply Quiet.modifyApp; intro _; rfl)
    | intro _
    | split)

theorem createColorResources_keeps (env : RecreateEnv) :
    Quiet (fun c => c.beforeRenderPass = true) swapChainKey (createColorResources env) := by
  unfold createColorResources
  repeat' (first
    | apply createImage_keeps
    | apply createImageView_keeps
    | apply Quiet.bind
    | apply Quiet.pure
    | apply Quiet.getApp
    | apply Quiet.freshHandle
    | apply Quiet.freshHandles
    | apply Quiet.inRange
    | apply Quiet.index
    | apply Quiet.forEach
    | apply Quiet.runtime_error
    | (apply Quiet.call; rfl)
    | (apply Quiet.modifyApp; intro _; rfl)
    | intro _
    | split)

theorem findSupportedFormat_keeps (formatProperties : VkFormat → VkFormatProperties)
    (candidates : List VkFormat) (tiling : VkImageTiling) (features : Nat) :
    Quiet (fun c => c.beforeRenderPass = true) swapChainKey
      (findSupportedFormat formatProperties candidates tiling features) := by
  induction candidates with
  | nil => exact Quiet.runtime_error _
  | cons format rest ih =>
    unfold findSupportedFormat
    split
    · exact Quiet.pure _
    · split
      · exact Quiet.pure _
      · exact ih

theorem beginSingleTimeCommands_keeps (result : VkResult) :
    Quiet (fun c => c.beforeRenderPass = true) swapChainKey (beginSingleTimeCommands result) := by
  unfold beginSingleTimeCommands
  repeat' (first
    | apply Quiet.bind
    | apply Quiet.pure
    | apply Quiet.getApp
    | apply Quiet.freshHandle
    | apply Quiet.freshHandles
    | apply Quiet.inRange
    | apply Quiet.index
    | apply Quiet.forEach
    | apply Quiet.runtime_error
    | (apply Quiet.call; rfl)
    | (apply Quiet.modifyApp; intro _; rfl)
    | intro _
    | split)

theorem endSingleTimeCommands_keeps (result : VkResult) (handle : Handle) :
    Quiet (fun c => c.beforeRenderPass = true) swapChainKey
      (endSingleTimeCommands result (.singleTime handle)) := by
  unfold endSingleTimeCommands
  repeat' (first
    | apply Quiet.bind
    | apply Quiet.pure
    | apply Quiet.getApp
    | apply Quiet.freshHandle
    | apply Quiet.freshHandles
    | apply Quiet.inRange
    | apply Quiet.index
    | apply Quiet.forEach
    | apply Quiet.runtime_error
    | (apply Quiet.call; rfl)
    | (apply Quiet.modifyApp; intro _; rfl)
    | intro _
    | split)

theorem transitionImageLayout_keeps (allocateResult submitResult : VkResult) (image : Handle)
    (format : VkFormat) (oldLayout newLayout : VkImageLayout) (mips : Nat) :
    Quiet (fun c => c.beforeRenderPass = true) swapChainKey
      (transitionImageLayout allocateResult submitResult image format oldLayout newLayout
        mips) := by
  unfold transitionImageLayout
  refine Quiet.bind_of (fun cb => ∃ handle, cb = .singleTime handle)
    (beginSingleTimeCommands_keeps _) (beginSingleTimeCommands_singleTime _) ?_
  rintro _ ⟨handle, rfl⟩
  split
  · exact Quiet.invalid_argument _
  · exact Quiet.bind (Quiet.call _ rfl) (fun _ => endSingleTimeCommands_keeps _ _)

theorem createDepthResources_keeps (env : RecreateEnv) :
    Quiet (fun c => c.beforeRenderPass = true) swapChainKey (createDepthResources env) := by
  unfold createDepthResources findDepthFormat
  repeat' (first
    | apply findSupportedFormat_keeps
    | apply createImage_keeps
    | apply createImageView_keeps
    | apply transitionImageLayout_keeps
    | apply Quiet.bind
    | apply Quiet.pure
    | apply Quiet.getApp
    | apply Quiet.freshHandle
    | apply Quiet.freshHandles
    | apply Quiet.inRange
    | apply Quiet.index
    | apply Quiet.forEach
    | apply Quiet.runtime_error
    | (apply Quiet.call; rfl)
    | (apply Quiet.modifyApp; intro _; rfl)
    | intro _
    | split)

theorem waitForFramebuffer_keeps (waitEvents : List WaitEvents) (width height : Int) :
    Quiet (fun c => c.beforeRenderPass = true) swapChainKey
      (waitForFramebuffer waitEvents width height) := by
  induction waitEvents generalizing width height with
  | nil =>
    unfold waitForFramebuffer
    split
    · exact Quiet.bind (Quiet.call _ rfl) (fun _ => Quiet.blockForever)
    · exact Quiet.pure _
  | cons event rest ih =>
    unfold waitForFramebuffer
    repeat' (first
      | apply ih
      | apply Quiet.bind
      | apply Quiet.pure
      | (apply Quiet.call; rfl)
      | (apply Quiet.modifyApp; intro _; rfl)
      | intro _
      | split)

theorem createFramebuffers_keeps (env : RecreateEnv) :
    Quiet (fun c => ∃ createInfo framebuffer, c = .vkCreateFramebuffer createInfo framebuffer)
      swapChainKey (createFramebuffers env) := by
  unfold createFramebuffers
  repeat' (first
    | apply Quiet.bind
    | apply Quiet.pure
    | apply Quiet.getApp
    | apply Quiet.freshHandle
    | apply Quiet.freshHandles
    | apply Quiet.inRange
    | apply Quiet.index
    | apply Quiet.forEach
    | apply Quiet.runtime_error
    | (apply Quiet.call; exact ⟨_, _, rfl⟩)
    | (apply Quiet.modifyApp; intro _; rfl)
    | intro _
    | split)

theorem createSwapChain_format (env : RecreateEnv) (oldSwapChain : Handle) (w after : World)
    (h : createSwapChain env oldSwapChain w = (.ok (), after)) :
    ∃ surfaceFormat,
      chooseSwapChainSurfaceFormat env.supportDetails.formats = some surfaceFormat ∧
      after.app.swapChainImageFormat = surfaceFormat.format := by
  unfold createSwapChain at h
  cases hc : chooseSwapChainSurfaceFormat env.supportDetails.formats with
  | none => simp [hc, inRange, outOfRange, bind_run] at h
  | some surfaceFormat =>
    refine ⟨surfaceFormat, rfl, ?_⟩
    by_cases hr : env.vkCreateSwapchainKHR = VK_SUCCESS
    · simp [hc, hr, inRange, bind_run, pure_run, freshHandle, freshHandles, call,
        modifyApp] at h
      rw [← h]
    · simp [hc, hr, inRange, bind_run, pure_run, runtime_error] at h

theorem findSupportedFormat_run (formatProperties : VkFormat → VkFormatProperties)
    (candidates : List VkFormat) (tiling : VkImageTiling) (features : Nat) (w : World) :
    (findSupportedFormat formatProperties candidates tiling features w).2 = w := by
  induction candidates with
  | nil => rfl
  | cons format rest ih =>
    unfold findSupportedFormat
    split
    · rfl
    · split
      · rfl
      · exact ih

/-- A `createRenderPass` that returns has created one render pass, for the current image
format, and stored it. -/
theorem createRenderPass_run (env : RecreateEnv) (w after : World)
    (h : createRenderPass env w = (.ok (), after)) :
    ∃ depthFormat,
      after = ⟨{ w.app with renderPass := w.nextHandle },
        w.trace ++ [.vkCreateRenderPass
          ⟨[w.app.swapChainImageFormat, depthFormat, w.app.swapChainImageFormat], 0, 1, 2⟩
          w.nextHandle],
        w.nextHandle + 1⟩ := by
  unfold createRenderPass at h
  simp only [bind_run, getApp] at h
  have hw := findSupportedFormat_run env.formatProperties
    [VK_FORMAT_D32_SFLOAT, VK_FORMAT_D32_SFLOAT_S8_UINT, VK_FORMAT_D24_UNORM_S8_UINT]
    .VK_IMAGE_TILING_OPTIMAL VK_FORMAT_FEATURE_DEPTH_STENCIL_ATTACHMENT_BIT w
  unfold findDepthFormat at h
  generalize findSupportedFormat env.formatProperties _ _ _ w = r at h hw
  rcases r with ⟨depthFormat | s, w'⟩
  · simp only [] at hw
    subst hw
    by_cases hr : env.vkCreateRenderPass = VK_SUCCESS
    · simp [hr, bind_run, pure_run, freshHandle, call, modifyApp] at h
      exact ⟨depthFormat, h.symm⟩
    · simp [hr, bind_run, pure_run, runtime_error] at h
  · simp at h

theorem createPipeline_run (result : Option String) (w after : World)
    (h : createPipeline result w = (.ok (), after)) :
    after = ⟨w.app, w.trace ++ [.Renderer_createPipeline (getRenderer w.app)],
      w.nextHandle⟩ := by
  unfold createPipeline at h
  cases result with
  | none =>
    simp [bind_run, pure_run, getApp, call] at h
    exact h.symm
  | some what => simp [bind_run, pure_run, getApp, call, runtime_error] at h

theorem Quiet.of_run {α β : Type} {P : Call → Prop} {K : Application → β} {m : Exec α}
    (hq : Quiet P K m) {w after : World} {o : Outcome α} (h : m w = (o, after)) :
    ∃ cs, after.trace = w.trace ++ cs ∧ (∀ c ∈ cs, P c) ∧ K after.app = K w.app := by
  have := hq.run w
  rw [h] at this
  exact this

/-- A recreation that returns has made its calls in three groups: calls that do not depend
on the render pass; then, exactly when the image format has changed, the creation of a
render pass for the new format and the rebuild of the selected renderer's pipeline; then
the creation of the framebuffers. -/
theorem recreateSwapChain_returns (env : RecreateEnv) (w : World)
    (hok : (recreateSwapChain env w).1 = .ok ()) :
    ∃ before middle after,
      (recreateSwapChain env w).2.trace = w.trace ++ before ++ middle ++ after ∧
      (∀ c ∈ before, c = .recreateSwapChain ∨ c.beforeRenderPass = true) ∧
      (∀ c ∈ after, ∃ createInfo framebuffer,
        c = .vkCreateFramebuffer createInfo framebuffer) ∧
      (∃ surfaceFormat,
        chooseSwapChainSurfaceFormat env.supportDetails.formats = some surfaceFormat ∧
        (recreateSwapChain env w).2.app.swapChainImageFormat = surfaceFormat.format) ∧
      (w.app.swapChainImageFormat ≠ (recreateSwapChain env w).2.app.swapChainImageFormat →
        ∃ depthFormat, middle =
          [.vkCreateRenderPass
              ⟨[(recreateSwapChain env w).2.app.swapChainImageFormat, depthFormat,
                (recreateSwapChain env w).2.app.swapChainImageFormat], 0, 1, 2⟩
              (recreateSwapChain env w).2.app.renderPass,
            .Renderer_createPipeline (getRenderer w.app)]) ∧
      (w.app.swapChainImageFormat = (recreateSwapChain env w).2.app.swapChainImageFormat →
        middle = [] ∧ (recreateSwapChain env w).2.app.renderPass = w.app.renderPass) := by
  unfold recreateSwapChain at hok ⊢
  simp only [bind_run, pure_run, getApp, call] at hok ⊢
  split at hok
  swap
  · cases hok
  rename_i w1 h1
  split at hok
  swap
  · cases hok
  rename_i w2 h2
  split at hok
  swap
  · cases hok
  rename_i w3 h3
  split at hok
  swap
  · cases hok
  rename_i w4 h4
  split at hok
  swap
  · cases hok
  rename_i w5 h5
  split at hok
  swap
  · cases hok
  rename_i w6 h6
  obtain ⟨cs1, t1, p1, k1⟩ := (waitForFramebuffer_keeps _ _ _).of_run h1
  obtain ⟨cs2, t2, p2, k2⟩ := cleanupSwapChain_keeps.of_run h2
  obtain ⟨cs3, t3, p3, k3⟩ := (createSwapChain_keeps _ _).of_run h3
  obtain ⟨cs4, t4, p4, k4⟩ := (createSwapChainImageViews_keeps _).of_run h4
  obtain ⟨cs5, t5, p5, k5⟩ := (createColorResources_keeps _).of_run h5
  obtain ⟨cs6, t6, p6, k6⟩ := (createDepthResources_keeps _).of_run h6
  obtain ⟨surfaceFormat, hchosen, hformat⟩ := createSwapChain_format env 0 _ _ h3
  simp only [swapChainKey, renderPassKey, Prod.mk.injEq] at k1 k2 k3 k4 k5 k6
  have hold : w2.app.swapChainImageFormat = w.app.swapChainImageFormat := by
    rw [k2.2.2.2.2.1, k1.2.2.2.2.1]
  have hnew : w6.app.swapChainImageFormat = surfaceFormat.format := by
    rw [k6.2.2.2.2.1, k5.2.2.2.2.1, k4.2.2.2.2.1, hformat]
  have hpass : w6.app.renderPass = w.app.renderPass := by
    rw [k6.2.2.2.2.2.2.2, k5.2.2.2.2.2.2.2, k4.2.2.2.2.2.2.2, k3.2.2.2, k2.2.2.2.2.2.2.2,
      k1.2.2.2.2.2.2.2]
  have hindex : w6.app.rendererIndex = w.app.rendererIndex := by
    rw [k6.2.1, k5.2.1, k4.2.1, k3.2.1, k2.2.1, k1.2.1]
  have htrace : w6.trace = w.trace ++
      ([.recreateSwapChain, .glfwGetFramebufferSize env.width env.height] ++ cs1 ++
        [.vkDeviceWaitIdle] ++ cs2 ++ cs3 ++ cs4 ++ cs5 ++ cs6) := by
    rw [t6, t5, t4, t3, t2, t1]
    simp
  have hbefore : ∀ c ∈ [Call.recreateSwapChain,
      .glfwGetFramebufferSize env.width env.height] ++ cs1 ++
        [.vkDeviceWaitIdle] ++ cs2 ++ cs3 ++ cs4 ++ cs5 ++ cs6,
      c = .recreateSwapChain ∨ c.beforeRenderPass = true := by
    intro c hc
    simp only [List.mem_append, List.mem_cons, List.mem_singleton, List.not_mem_nil,
      or_false] at hc
    rcases hc with (((((((rfl | rfl) | h) | rfl) | h) | h) | h) | h) | h
    · exact Or.inl rfl
    · exact Or.inr rfl
    · exact Or.inr (p1 c h)
    · exact Or.inr rfl
    · exact Or.inr (p2 c h)
    · exact Or.inr (p3 c h)
    · exact Or.inr (p4 c h)
    · exact Or.inr (p5 c h)
    · exact Or.inr (p6 c h)
  by_cases hc : w2.app.swapChainImageFormat = w6.app.swapChainImageFormat
  · simp only [hc, ne_eq, not_true_eq_false, if_false, bind_run, pure_run] at hok ⊢
    obtain ⟨cs7, t7, p7, k7⟩ := (createFramebuffers_keeps env).run w6
    simp only [swapChainKey, Prod.mk.injEq] at k7
    refine ⟨_, [], cs7, ?_, hbefore, p7, ⟨surfaceFormat, hchosen, ?_⟩, ?_, ?_⟩
    · rw [t7, htrace]
      simp
    · rw [k7.2.2.2.2.1, hnew]
    · intro hne
      rw [k7.2.2.2.2.1, ← hc, hold] at hne
      exact absurd rfl hne
    · intro _
      exact ⟨rfl, by rw [k7.2.2.2.2.2.2.2, hpass]⟩
  · simp only [hc, ne_eq, not_false_eq_true, if_true, bind_run, pure_run] at hok ⊢
    split at hok
    swap
    · cases hok
    rename_i w7 h7
    split at hok
    swap
    · cases hok
    rename_i w8 h8
    obtain ⟨depthFormat, rfl⟩ := createRenderPass_run env w6 w7 h7
    have h8' := createPipeline_run _ _ _ h8
    subst h8'
    obtain ⟨cs7, t7, p7, k7⟩ := (createFramebuffers_keeps env).run
      ⟨{ w6.app with renderPass := w6.nextHandle },
        w6.trace ++
            [.vkCreateRenderPass
              ⟨[w6.app.swapChainImageFormat, depthFormat, w6.app.swapChainImageFormat], 0, 1,
                2⟩
              w6.nextHandle] ++
          [.Renderer_createPipeline (getRenderer { w6.app with renderPass := w6.nextHandle })],
        w6.nextHandle + 1⟩
    simp only [swapChainKey, Prod.mk.injEq] at k7
    refine ⟨_, [.vkCreateRenderPass
        ⟨[w6.app.swapChainImageFormat, depthFormat, w6.app.swapChainImageFormat], 0, 1, 2⟩
        w6.nextHandle,
      .Renderer_createPipeline (getRenderer w.app)], cs7, ?_, hbefore, p7,
      ⟨surfaceFormat, hchosen, ?_⟩, ?_, ?_⟩
    · rw [t7, htrace]
      have : getRenderer { w6.app with renderPass := w6.nextHandle } = getRenderer w.app := by
        simp only [getRenderer, hindex]
      rw [this]
      simp
    · rw [k7.2.2.2.2.1, hnew]
    · intro _
      refine ⟨depthFormat, ?_⟩
      rw [k7.2.2.2.2.1, k7.2.2.2.2.2.2.2]
    · intro heq
      rw [k7.2.2.2.2.1] at heq
      exact absurd (hold.trans heq) hc

theorem beforeRenderPass_facts (c : Call)
    (h : c = .recreateSwapChain ∨ c.beforeRenderPass = true) :
    (∀ createInfo renderPass, c ≠ .vkCreateRenderPass createInfo renderPass) ∧
      (∀ renderer, c ≠ .Renderer_createPipeline renderer) ∧
      ∀ createInfo framebuffer, c ≠ .vkCreateFramebuffer createInfo framebuffer := by
  rcases h with rfl | h
  · simp
  · refine ⟨?_, ?_, ?_⟩
    · rintro _ _ rfl
      simp [Call.beforeRenderPass] at h
    · rintro _ rfl
      simp [Call.beforeRenderPass] at h
    · rintro _ _ rfl
      simp [Call.beforeRenderPass] at h

/-- C19: a recreation that returns has made its calls in three groups, in this order:
calls among which there is no creation of a render pass, no `createPipeline` and no
creation of a framebuffer; then, if the image format chosen by `createSwapChain` differs
from the format before the recreation, exactly one `vkCreateRenderPass` (for the new
format, stored in `renderPass`) followed by `createPipeline` of the selected renderer, and
if the format is the same, nothing, whatever happens to the extent; then only creations of
framebuffers. -/
theorem recreateSwapChain_render_pass (env : RecreateEnv) (w : World)
    (hok : (recreateSwapChain env w).1 = .ok ()) :
    ∃ before middle after,
      (recreateSwapChain env w).2.trace = w.trace ++ before ++ middle ++ after ∧
      (∀ c ∈ before,
        (∀ createInfo renderPass, c ≠ .vkCreateRenderPass createInfo renderPass) ∧
        (∀ renderer, c ≠ .Renderer_createPipeline renderer) ∧
        ∀ createInfo framebuffer, c ≠ .vkCreateFramebuffer createInfo framebuffer) ∧
      (∀ c ∈ after, ∃ createInfo framebuffer,
        c = .vkCreateFramebuffer createInfo framebuffer) ∧
      (∃ surfaceFormat,
        chooseSwapChainSurfaceFormat env.supportDetails.formats = some surfaceFormat ∧
        (recreateSwapChain env w).2.app.swapChainImageFormat = surfaceFormat.format) ∧
      (w.app.swapChainImageFormat ≠ (recreateSwapChain env w).2.app.swapChainImageFormat →
        ∃ depthFormat, middle =
          [.vkCreateRenderPass
              ⟨[(recreateSwapChain env w).2.app.swapChainImageFormat, depthFormat,
                (recreateSwapChain env w).2.app.swapChainImageFormat], 0, 1, 2⟩
              (recreateSwapChain env w).2.app.renderPass,
            .Renderer_createPipeline (getRenderer w.app)]) ∧
      (w.app.swapChainImageFormat = (recreateSwapChain env w).2.app.swapChainImageFormat →
        middle = [] ∧ (recreateSwapChain env w).2.app.renderPass = w.app.renderPass) := by
  obtain ⟨before, middle, after, ht, hb, ha, hf, hchanged, hsame⟩ :=
    recreateSwapChain_returns env w hok
  exact ⟨before, middle, after, ht, fun c hc => beforeRenderPass_facts c (hb c hc), ha, hf,
    hchanged, hsame⟩

theorem recreateSwapChain_render_pass_witness :
    ∃ before middle after,
      (recreateSwapChain changedFormatRecreate startWorld).2.trace =
        startWorld.trace ++ before ++ middle ++ after ∧
      (∀ c ∈ before,
        (∀ createInfo renderPass, c ≠ .vkCreateRenderPass createInfo renderPass) ∧
        (∀ renderer, c ≠ .Renderer_createPipeline renderer) ∧
        ∀ createInfo framebuffer, c ≠ .vkCreateFramebuffer createInfo framebuffer) ∧
      (∀ c ∈ after, ∃ createInfo framebuffer,
        c = .vkCreateFramebuffer createInfo framebuffer) ∧
      (∃ surfaceFormat,
        chooseSwapChainSurfaceFormat changedFormatRecreate.supportDetails.formats =
          some surfaceFormat ∧
        (recreateSwapChain changedFormatRecreate startWorld).2.app.swapChainImageFormat =
          surfaceFormat.format) ∧
      (startWorld.app.swapChainImageFormat ≠
          (recreateSwapChain changedFormatRecreate startWorld).2.app.swapChainImageFormat →
        ∃ depthFormat, middle =
          [.vkCreateRenderPass
              ⟨[(recreateSwapChain changedFormatRecreate startWorld).2.app.swapChainImageFormat,
                depthFormat,
                (recreateSwapChain changedFormatRecreate
                  startWorld).2.app.swapChainImageFormat], 0, 1, 2⟩
              (recreateSwapChain changedFormatRecreate startWorld).2.app.renderPass,
            .Renderer_createPipeline (getRenderer startWorld.app)]) ∧
      (startWorld.app.swapChainImageFormat =
          (recreateSwapChain changedFormatRecreate startWorld).2.app.swapChainImageFormat →
        middle = [] ∧
          (recreateSwapChain changedFormatRecreate startWorld).2.app.renderPass =
            startWorld.app.renderPass) :=
  recreateSwapChain_render_pass changedFormatRecreate startWorld (by decide!)

/-- C20 does not hold of the code.  With the mesh renderer selected, a recreation that
changes the image format from B8G8R8A8_SRGB to B8G8R8A8_UNORM returns after creating a new
render pass and calling `createPipeline` of the mesh renderer only.  When the user then
selects the particle renderer, the next frame begins the new render pass and lets the
particle renderer record into it, and `createPipeline` of the particle renderer has still
not been called. -/
theorem recreateSwapChain_rebuilds_selected_only :
    (recreateSwapChain changedFormatRecreate startWorld).1 = .ok () ∧
      startWorld.app.swapChainImageFormat = VK_FORMAT_B8G8R8A8_SRGB ∧
      (recreateSwapChain changedFormatRecreate startWorld).2.app.swapChainImageFormat =
        VK_FORMAT_B8G8R8A8_UNORM ∧
      (recreateSwapChain changedFormatRecreate startWorld).2.app.renderPass ≠
        startWorld.app.renderPass ∧
      .Renderer_createPipeline .meshDrawer ∈
        (recreateSwapChain changedFormatRecreate startWorld).2.trace ∧
      .Renderer_createPipeline .particleDrawer ∉
        (recreateSwapChain changedFormatRecreate startWorld).2.trace ∧
      (drawFrame selectParticleFrame
        (recreateSwapChain changedFormatRecreate startWorld).2).1 = .ok () ∧
      .vkCmdBeginRenderPass (.commandBuffers 0)
          (recreateSwapChain changedFormatRecreate startWorld).2.app.renderPass
          ((recreateSwapChain changedFormatRecreate
            startWorld).2.app.swapChainFramebuffers.getD 1 0)
          ⟨800, 600⟩ ∈
        (drawFrame selectParticleFrame
          (recreateSwapChain changedFormatRecreate startWorld).2).2.trace ∧
      .Renderer_render .particleDrawer (.commandBuffers 0) 0 ∈
        (drawFrame selectParticleFrame
          (recreateSwapChain changedFormatRecreate startWorld).2).2.trace ∧
      .Renderer_createPipeline .particleDrawer ∉
        (drawFrame selectParticleFrame
          (recreateSwapChain changedFormatRecreate startWorld).2).2.trace := by
  decide!

/-! ## What the steps of a recreation do -/

theorem findMemoryTypeIndexFrom_run (typeBitsFilter propertyFlags : Nat)
    (memoryTypes : List Nat) (i : Nat) (w : World) :
    (findMemoryTypeIndexFrom typeBitsFilter propertyFlags memoryTypes i w).2 = w := by
  induction memoryTypes generalizing i with
  | nil => rfl
  | cons memoryType rest ih =>
    unfold findMemoryTypeIndexFrom
    split
    · rfl
    · exact ih _

/-- A `createImageView` that returns has created one view, of the image and format it was
given. -/
theorem createImageView_run (result : VkResult) (image : Handle) (format : VkFormat)
    (aspectFlags mips : Nat) (w after : World) (imageView : Handle)
    (h : createImageView result image format aspectFlags mips w = (.ok imageView, after)) :
    imageView = w.nextHandle ∧
      after = ⟨w.app,
        w.trace ++ [.vkCreateImageView ⟨image, format, aspectFlags, mips⟩ w.nextHandle],
        w.nextHandle + 1⟩ := by
  unfold createImageView at h
  by_cases hr : result = VK_SUCCESS
  · simp [hr, bind_run, pure_run, freshHandle, call] at h
    exact ⟨h.1.symm, h.2.symm⟩
  · simp [hr, bind_run, pure_run, runtime_error] at h

/-- A `createImage` that returns has created one image of the size, format and sample
count it was given, allocated one memory and bound it. -/
theorem createImage_run (memoryTypes : List Nat) (env : CreateImageEnv) (width height : Int)
    (mips numSamples : Nat) (format : VkFormat) (tiling : VkImageTiling)
    (usage memoryPropertyFlags : Nat) (w after : World) (image imageMemory : Handle)
    (h : createImage memoryTypes env width height mips numSamples format tiling usage
      memoryPropertyFlags w = (.ok (image, imageMemory), after)) :
    image = w.nextHandle ∧ imageMemory = w.nextHandle + 1 ∧
      ∃ memoryTypeIndex,
        after = ⟨w.app,
          w.trace ++
            [.vkCreateImage
                ⟨toUint32 width, toUint32 height, mips, format, tiling, usage, numSamples⟩
                w.nextHandle,
              .vkAllocateMemory memoryTypeIndex (w.nextHandle + 1),
              .vkBindImageMemory w.nextHandle (w.nextHandle + 1)],
          w.nextHandle + 2⟩ := by
  unfold createImage at h
  by_cases h1 : env.vkCreateImage = VK_SUCCESS
  swap
  · simp [h1, bind_run, pure_run, runtime_error] at h
  simp only [h1, bind_run, pure_run, freshHandle, call, ne_eq, not_true_eq_false, if_false]
    at h
  have hw := findMemoryTypeIndexFrom_run env.memoryTypeBits memoryPropertyFlags memoryTypes 0
    ⟨w.app,
      w.trace ++
        [.vkCreateImage
          ⟨toUint32 width, toUint32 height, mips, format, tiling, usage, numSamples⟩
          w.nextHandle],
      w.nextHandle + 1⟩
  unfold findMemoryTypeIndex at h
  generalize findMemoryTypeIndexFrom env.memoryTypeBits memoryPropertyFlags memoryTypes 0 _ = r
    at h hw
  rcases r with ⟨memoryTypeIndex | s, w'⟩
  · simp only [] at hw
    subst hw
    by_cases h2 : env.vkAllocateMemory = VK_SUCCESS
    · simp [h2, bind_run, pure_run, freshHandle, call] at h
      exact ⟨h.1.1.symm, h.1.2.symm, memoryTypeIndex, h.2.symm⟩
    · simp [h2, bind_run, pure_run, runtime_error] at h
  · simp at h

/-- What `transitionImageLayout` does, case by case: the allocation of the one-shot command
buffer comes first and may throw; then an unsupported pair of layouts throws with no
barrier recorded; a supported pair records its barrier and the function returns when the
submission succeeds. -/
theorem transitionImageLayout_run (allocateResult submitResult : VkResult) (image : Handle)
    (format : VkFormat) (oldLayout newLayout : VkImageLayout) (mips : Nat) (w : World) :
    transitionImageLayout allocateResult submitResult image format oldLayout newLayout mips w =
      if allocateResult ≠ VK_SUCCESS then
        (.stop (.threw "failed to allocate command buffer!"), w)
      else
        match transitionStages oldLayout newLayout with
        | none =>
          (.stop (.threw "unsupported layout transition!"),
            ⟨w.app,
              w.trace ++
                [.vkAllocateCommandBuffers (.singleTime w.nextHandle),
                  .vkBeginCommandBuffer (.singleTime w.nextHandle)],
              w.nextHandle + 1⟩)
        | some (srcStageMask, dstStageMask) =>
          if submitResult ≠ VK_SUCCESS then
            (.stop (.threw "failed to submit singleTime command buffer!"),
              ⟨w.app,
                w.trace ++
                  [.vkAllocateCommandBuffers (.singleTime w.nextHandle),
                    .vkBeginCommandBuffer (.singleTime w.nextHandle),
                    .vkCmdPipelineBarrier (.singleTime w.nextHandle) srcStageMask dstStageMask
                      ⟨image, oldLayout, newLayout,
                        if newLayout = VK_IMAGE_LAYOUT_DEPTH_STENCIL_ATTACHMENT_OPTIMAL then
                          if hasStencilComponent format = true then
                            VK_IMAGE_ASPECT_DEPTH_BIT ||| VK_IMAGE_ASPECT_STENCIL_BIT
                          else
                            VK_IMAGE_ASPECT_DEPTH_BIT
                        else
                          VK_IMAGE_ASPECT_COLOR_BIT,
                        mips⟩,
                    .vkEndCommandBuffer (.singleTime w.nextHandle),
                    .vkQueueSubmit ⟨[], [], [.singleTime w.nextHandle], []⟩ .VK_NULL_HANDLE],
                w.nextHandle + 1⟩)
          else
            (.ok (),
              ⟨w.app,
                w.trace ++
                  [.vkAllocateCommandBuffers (.singleTime w.nextHandle),
                    .vkBeginCommandBuffer (.singleTime w.nextHandle),
                    .vkCmdPipelineBarrier (.singleTime w.nextHandle) srcStageMask dstStageMask
                      ⟨image, oldLayout, newLayout,
                        if newLayout = VK_IMAGE_LAYOUT_DEPTH_STENCIL_ATTACHMENT_OPTIMAL then
                          if hasStencilComponent format = true then
                            VK_IMAGE_ASPECT_DEPTH_BIT ||| VK_IMAGE_ASPECT_STENCIL_BIT
                          else
                            VK_IMAGE_ASPECT_DEPTH_BIT
                        else
                          VK_IMAGE_ASPECT_COLOR_BIT,
                        mips⟩,
                    .vkEndCommandBuffer (.singleTime w.nextHandle),
                    .vkQueueSubmit ⟨[], [], [.singleTime w.nextHandle], []⟩ .VK_NULL_HANDLE,
                    .vkDeviceWaitIdle,
                    .vkFreeCommandBuffers (.singleTime w.nextHandle)],
                w.nextHandle + 1⟩) := by
  unfold transitionImageLayout beginSingleTimeCommands
  by_cases ha : allocateResult = VK_SUCCESS
  swap
  · simp [ha, bind_run, pure_run, runtime_error]
  cases hst : transitionStages oldLayout newLayout with
  | none =>
    simp [ha, hst, bind_run, pure_run, freshHandle, call, invalid_argument]
  | some stages =>
    obtain ⟨srcStageMask, dstStageMask⟩ := stages
    by_cases hs : submitResult = VK_SUCCESS
    · simp [ha, hs, hst, bind_run, pure_run, freshHandle, call, endSingleTimeCommands]
    · simp [ha, hs, hst, bind_run, pure_run, freshHandle, call, endSingleTimeCommands,
        runtime_error]

/-- A `createColorResources` that returns has created the colour image with the size of
`swapChainExtent`, its memory and its view, and stored the three handles. -/
theorem createColorResources_run (env : RecreateEnv) (w after : World)
    (h : createColorResources env w = (.ok (), after)) :
    ∃ memoryTypeIndex,
      after = ⟨{ w.app with
          colorImage := w.nextHandle
          colorImageMemory := w.nextHandle + 1
          colorImageView := w.nextHandle + 2 },
        w.trace ++
          [.vkCreateImage
              ⟨toUint32 (toInt w.app.swapChainExtent.width),
                toUint32 (toInt w.app.swapChainExtent.height), 1, w.app.swapChainImageFormat,
                .VK_IMAGE_TILING_OPTIMAL,
                VK_IMAGE_USAGE_TRANSIENT_ATTACHMENT_BIT ||| VK_IMAGE_USAGE_COLOR_ATTACHMENT_BIT,
                w.app.msaaSamples⟩
              w.nextHandle,
            .vkAllocateMemory memoryTypeIndex (w.nextHandle + 1),
            .vkBindImageMemory w.nextHandle (w.nextHandle + 1),
            .vkCreateImageView
              ⟨w.nextHandle, w.app.swapChainImageFormat, VK_IMAGE_ASPECT_COLOR_BIT, 1⟩
              (w.nextHandle + 2)],
        w.nextHandle + 3⟩ := by
  unfold createColorResources at h
  simp only [bind_run, pure_run, getApp, modifyApp] at h
  split at h
  swap
  · cases h
  rename_i pair w1 h1
  obtain ⟨image, imageMemory⟩ := pair
  obtain ⟨rfl, rfl, memoryTypeIndex, rfl⟩ := createImage_run _ _ _ _ _ _ _ _ _ _ _ _ _ _ h1
  simp only [] at h
  split at h
  swap
  · cases h
  rename_i imageView w2 h2
  obtain ⟨rfl, rfl⟩ := createImageView_run _ _ _ _ _ _ _ _ h2
  refine ⟨memoryTypeIndex, ?_⟩
  simp only [Prod.mk.injEq, true_and] at h
  rw [← h]
  simp

/-- A `createDepthResources` that returns has created the depth image with the size of
`swapChainExtent`, its memory and its view, stored the three handles, and moved the image
to the depth-stencil layout with a one-shot command buffer. -/
theorem createDepthResources_run (env : RecreateEnv) (w after : World)
    (h : createDepthResources env w = (.ok (), after)) :
    ∃ depthFormat memoryTypeIndex,
      findDepthFormat env.formatProperties w = (.ok depthFormat, w) ∧
      after = ⟨{ w.app with
          depthImage := w.nextHandle
          depthImageMemory := w.nextHandle + 1
          depthImageView := w.nextHandle + 2 },
        w.trace ++
          [.vkCreateImage
              ⟨toUint32 (toInt w.app.swapChainExtent.width),
                toUint32 (toInt w.app.swapChainExtent.height), 1, depthFormat,
                .VK_IMAGE_TILING_OPTIMAL, VK_IMAGE_USAGE_DEPTH_STENCIL_ATTACHMENT_BIT,
                w.app.msaaSamples⟩
              w.nextHandle,
            .vkAllocateMemory memoryTypeIndex (w.nextHandle + 1),
            .vkBindImageMemory w.nextHandle (w.nextHandle + 1),
            .vkCreateImageView ⟨w.nextHandle, depthFormat, VK_IMAGE_ASPECT_DEPTH_BIT, 1⟩
              (w.nextHandle + 2),
            .vkAllocateCommandBuffers (.singleTime (w.nextHandle + 3)),
            .vkBeginCommandBuffer (.singleTime (w.nextHandle + 3)),
            .vkCmdPipelineBarrier (.singleTime (w.nextHandle + 3))
              .VK_PIPELINE_STAGE_TOP_OF_PIPE_BIT .VK_PIPELINE_STAGE_EARLY_FRAGMENT_TESTS_BIT
              ⟨w.nextHandle, VK_IMAGE_LAYOUT_UNDEFINED,
                VK_IMAGE_LAYOUT_DEPTH_STENCIL_ATTACHMENT_OPTIMAL,
                if hasStencilComponent depthFormat = true then
                  VK_IMAGE_ASPECT_DEPTH_BIT ||| VK_IMAGE_ASPECT_STENCIL_BIT
                else
                  VK_IMAGE_ASPECT_DEPTH_BIT,
                1⟩,
            .vkEndCommandBuffer (.singleTime (w.nextHandle + 3)),
            .vkQueueSubmit ⟨[], [], [.singleTime (w.nextHandle + 3)], []⟩ .VK_NULL_HANDLE,
            .vkDeviceWaitIdle,
            .vkFreeCommandBuffers (.singleTime (w.nextHandle + 3))],
        w.nextHandle + 4⟩ := by
  unfold createDepthResources at h
  simp only [bind_run, pure_run, getApp, modifyApp] at h
  have hw := findSupportedFormat_run env.formatProperties
    [VK_FORMAT_D32_SFLOAT, VK_FORMAT_D32_SFLOAT_S8_UINT, VK_FORMAT_D24_UNORM_S8_UINT]
    .VK_IMAGE_TILING_OPTIMAL VK_FORMAT_FEATURE_DEPTH_STENCIL_ATTACHMENT_BIT w
  have hfind : findDepthFormat env.formatProperties w =
      findSupportedFormat env.formatProperties
        [VK_FORMAT_D32_SFLOAT, VK_FORMAT_D32_SFLOAT_S8_UINT, VK_FORMAT_D24_UNORM_S8_UINT]
        .VK_IMAGE_TILING_OPTIMAL VK_FORMAT_FEATURE_DEPTH_STENCIL_ATTACHMENT_BIT w := rfl
  rw [hfind]
  unfold findDepthFormat at h
  generalize findSupportedFormat env.formatProperties _ _ _ w = r at h hw
  rcases r with ⟨depthFormat | s, w'⟩
  swap
  · simp at h
  simp only [] at hw
  subst hw
  simp only [] at h
  split at h
  swap
  · cases h
  rename_i pair w1 h1
  obtain ⟨image, imageMemory⟩ := pair
  obtain ⟨rfl, rfl, memoryTypeIndex, rfl⟩ := createImage_run _ _ _ _ _ _ _ _ _ _ _ _ _ _ h1
  simp only [] at h
  split at h
  swap
  · cases h
  rename_i imageView w2 h2
  obtain ⟨rfl, rfl⟩ := createImageView_run _ _ _ _ _ _ _ _ h2
  rw [transitionImageLayout_run] at h
  have hst : transitionStages VK_IMAGE_LAYOUT_UNDEFINED
      VK_IMAGE_LAYOUT_DEPTH_STENCIL_ATTACHMENT_OPTIMAL =
      some (.VK_PIPELINE_STAGE_TOP_OF_PIPE_BIT,
        .VK_PIPELINE_STAGE_EARLY_FRAGMENT_TESTS_BIT) := by decide
  refine ⟨depthFormat, memoryTypeIndex, rfl, ?_⟩
  by_cases ha : env.vkAllocateCommandBuffers = VK_SUCCESS
  swap
  · simp [ha] at h
  by_cases hs : env.singleTimeSubmit = VK_SUCCESS
  swap
  · simp [ha, hs, hst] at h
  simp only [ha, hs, hst, ne_eq, not_true_eq_false, if_false, if_true, Prod.mk.injEq,
    true_and] at h
  rw [← h]
  simp [Nat.add_assoc]

/-- A `createSwapChain` that returns has created one swapchain with the chosen format,
extent, present mode and image count, fetched its images, and stored swapchain, images,
format and extent. -/
theorem createSwapChain_run (env : RecreateEnv) (oldSwapChain : Handle) (w after : World)
    (h : createSwapChain env oldSwapChain w = (.ok (), after)) :
    ∃ surfaceFormat,
      chooseSwapChainSurfaceFormat env.supportDetails.formats = some surfaceFormat ∧
      after = ⟨{ w.app with
          swapChain := w.nextHandle
          swapChainImages :=
            (List.range env.swapChainImageCount).map fun i => w.nextHandle + 1 + i
          swapChainImageFormat := surfaceFormat.format
          swapChainExtent :=
            chooseSwapExtent env.supportDetails.capabilities env.extentWidth
              env.extentHeight },
        w.trace ++
          [.vkCreateSwapchainKHR
              ⟨imageCount env.supportDetails.capabilities, surfaceFormat.format,
                surfaceFormat.colorSpace,
                chooseSwapExtent env.supportDetails.capabilities env.extentWidth
                  env.extentHeight,
                chooseSwapChainPresentMode env.supportDetails.presentModes, oldSwapChain⟩
              w.nextHandle,
            .vkGetSwapchainImagesKHR w.nextHandle
              ((List.range env.swapChainImageCount).map fun i => w.nextHandle + 1 + i)],
        w.nextHandle + 1 + env.swapChainImageCount⟩ := by
  unfold createSwapChain at h
  cases hc : chooseSwapChainSurfaceFormat env.supportDetails.formats with
  | none => simp [hc, inRange, outOfRange, bind_run] at h
  | some surfaceFormat =>
    refine ⟨surfaceFormat, rfl, ?_⟩
    by_cases hr : env.vkCreateSwapchainKHR = VK_SUCCESS
    · simp [hc, hr, inRange, bind_run, pure_run, freshHandle, freshHandles, call,
        modifyApp] at h
      rw [← h]
    · simp [hc, hr, inRange, bind_run, pure_run, runtime_error] at h

/-- A loop whose body, when it returns, has done `step` leaves the world folded over
`step` when the loop returns. -/
theorem forEach_run {ι : Type} (l : List ι) (body : ι → Exec Unit) (step : ι → World → World)
    (hstep : ∀ i ∈ l, ∀ w after, body i w = (.ok (), after) → after = step i w)
    (w after : World) (h : forEach l body w = (.ok (), after)) :
    after = l.foldl (fun w i => step i w) w := by
  induction l generalizing w with
  | nil =>
    simp only [forEach, pure_run, Prod.mk.injEq, true_and] at h
    exact h.symm
  | cons i rest ih =>
    simp only [forEach, bind_run] at h
    split at h
    swap
    · cases h
    rename_i w1 h1
    have := hstep i (List.mem_cons_self _ _) w w1 h1
    subst this
    exact ih (fun j hj => hstep j (List.mem_cons_of_mem _ hj)) _ h

/-- A loop that only makes one call for each element. -/
theorem forEach_call {ι : Type} (l : List ι) (f : ι → Call) (w : World) :
    forEach l (fun i => call (f i)) w = (.ok (), ⟨w.app, w.trace ++ l.map f, w.nextHandle⟩) := by
  induction l generalizing w with
  | nil => simp [forEach, pure_run]
  | cons i rest ih =>
    simp only [forEach, bind_run, call]
    rw [ih]
    simp

/-- A loop that reads `v[i]` and makes one call with it returns exactly when every index
is in range. -/
theorem index_run {α : Type} (v : List α) (i : Nat) (x : α) (w : World) (h : v[i]? = some x) :
    index v i w = (.ok x, w) := by
  simp [index, inRange, h, pure_run]

theorem forEach_index_call (l : List Nat) (v : List Handle) (f : Handle → Call) (w : World) :
    ((∀ i ∈ l, i < v.length) →
        forEach l (fun i => do
            let x ← index v i
            call (f x)) w =
          (.ok (), ⟨w.app, w.trace ++ l.map (fun i => f (v.getD i 0)), w.nextHandle⟩)) ∧
      ((forEach l (fun i => do
            let x ← index v i
            call (f x)) w).1 = .ok () → ∀ i ∈ l, i < v.length) := by
  induction l generalizing w with
  | nil => simp [forEach, pure_run]
  | cons i rest ih =>
    by_cases hi : i < v.length
    · have hget : v[i]? = some (v.getD i 0) := by
        simp [List.getD, List.getElem?_eq_getElem hi]
      constructor
      · intro hall
        simp only [forEach, bind_run, index_run _ _ _ _ hget, call]
        rw [(ih _).1 (fun j hj => hall j (List.mem_cons_of_mem _ hj))]
        simp
      · intro hok j hj
        simp only [forEach, bind_run, index_run _ _ _ _ hget, call] at hok
        rcases List.mem_cons.1 hj with rfl | hj
        · exact hi
        · exact (ih _).2 hok j hj
    · have hget : v[i]? = none := List.getElem?_eq_none (Nat.le_of_not_lt hi)
      constructor
      · intro hall
        exact absurd (hall i (List.mem_cons_self _ _)) hi
      · intro hok
        simp [forEach, bind_run, index, inRange, hget, outOfRange] at hok

/-- Writing `f i` at every position `i` of a list, in order, gives the list of the
`f i`. -/
theorem foldl_set_range (f : Nat → Handle) (v : List Handle) (k : Nat) (hk : k ≤ v.length) :
    (List.range k).foldl (fun v i => v.set i (f i)) v = (List.range k).map f ++ v.drop k := by
  induction k with
  | zero => simp
  | succ k ih =>
    have hlt : k < v.length := hk
    rw [List.range_succ, List.foldl_append, List.map_append, ih (Nat.le_of_lt hlt)]
    simp only [List.foldl_cons, List.foldl_nil, List.map_cons, List.map_nil]
    rw [List.set_append_right _ _ (by simp)]
    simp only [List.length_map, List.length_range, Nat.sub_self]
    rw [List.drop_eq_getElem_cons hlt, List.set_cons_zero]
    simp only [List.append_assoc, List.singleton_append]

/-- A loop that creates one object for each index and stores its handle at that index. -/
theorem foldl_create (mk : Nat → Handle → Call)
    (store : Nat → Handle → Application → Application) (n : Nat) (w : World) :
    (List.range n).foldl
        (fun w i => ⟨store i w.nextHandle w.app, w.trace ++ [mk i w.nextHandle],
          w.nextHandle + 1⟩) w =
      ⟨(List.range n).foldl (fun app i => store i (w.nextHandle + i) app) w.app,
        w.trace ++ (List.range n).map (fun i => mk i (w.nextHandle + i)),
        w.nextHandle + n⟩ := by
  induction n with
  | zero => simp
  | succ n ih =>
    rw [List.range_succ, List.foldl_append, ih]
    simp [List.foldl_append, Nat.add_assoc]

theorem length_resize (v : List Handle) (n : Nat) : (resize v n).length = n := by
  simp only [resize, List.length_append, List.length_take, List.length_replicate]
  omega

theorem foldl_set_all (f : Nat → Handle) (v : List Handle) :
    (List.range v.length).foldl (fun v i => v.set i (f i)) v = (List.range v.length).map f := by
  rw [foldl_set_range f v v.length (Nat.le_refl _), List.drop_length, List.append_nil]

theorem foldl_swapChainImageViews (f : Nat → Handle) (n : Nat) (app : Application) :
    (List.range n).foldl
        (fun app i =>
          { app with swapChainImageViews := app.swapChainImageViews.set i (f i) }) app =
      { app with
        swapChainImageViews :=
          (List.range n).foldl (fun v i => v.set i (f i)) app.swapChainImageViews } := by
  induction n with
  | zero => rfl
  | succ n ih => rw [List.range_succ, List.foldl_append, List.foldl_append, ih]; rfl

theorem foldl_swapChainFramebuffers (f : Nat → Handle) (n : Nat) (app : Application) :
    (List.range n).foldl
        (fun app i =>
          { app with swapChainFramebuffers := app.swapChainFramebuffers.set i (f i) }) app =
      { app with
        swapChainFramebuffers :=
          (List.range n).foldl (fun v i => v.set i (f i)) app.swapChainFramebuffers } := by
  induction n with
  | zero => rfl
  | succ n ih => rw [List.range_succ, List.foldl_append, List.foldl_append, ih]; rfl

/-- A `createSwapChainImageViews` that returns has created one view for each swapchain
image, in order, and stored them as `swapChainImageViews`. -/
theorem createSwapChainImageViews_run (env : RecreateEnv) (w after : World)
    (h : createSwapChainImageViews env w = (.ok (), after)) :
    after = ⟨{ w.app with
        swapChainImageViews :=
          (List.range w.app.swapChainImages.length).map fun i => w.nextHandle + i },
      w.trace ++ (List.range w.app.swapChainImages.length).map (fun i =>
        .vkCreateImageView
          ⟨w.app.swapChainImages.getD i 0, w.app.swapChainImageFormat,
            VK_IMAGE_ASPECT_COLOR_BIT, 1⟩
          (w.nextHandle + i)),
      w.nextHandle + w.app.swapChainImages.length⟩ := by
  unfold createSwapChainImageViews at h
  simp only [bind_run, getApp, modifyApp] at h
  have := forEach_run _ _
    (fun i w' => ⟨{ w'.app with
        swapChainImageViews := w'.app.swapChainImageViews.set i w'.nextHandle },
      w'.trace ++ [.vkCreateImageView
        ⟨w.app.swapChainImages.getD i 0, w.app.swapChainImageFormat,
          VK_IMAGE_ASPECT_COLOR_BIT, 1⟩ w'.nextHandle],
      w'.nextHandle + 1⟩) ?_ _ _ h
  · rw [this, foldl_create
      (fun i handle => .vkCreateImageView
        ⟨w.app.swapChainImages.getD i 0, w.app.swapChainImageFormat,
          VK_IMAGE_ASPECT_COLOR_BIT, 1⟩ handle)
      (fun i handle app =>
        { app with swapChainImageViews := app.swapChainImageViews.set i handle }),
      foldl_swapChainImageViews]
    simp only []
    have hlen := length_resize w.app.swapChainImageViews w.app.swapChainImages.length
    have hset := foldl_set_all (fun i => w.nextHandle + i)
      (resize w.app.swapChainImageViews w.app.swapChainImages.length)
    rw [hlen] at hset
    rw [hset]
  · intro i hi w' after' hbody
    have hlt : i < w.app.swapChainImages.length := List.mem_range.1 hi
    have hget : w.app.swapChainImages[i]? = some (w.app.swapChainImages.getD i 0) := by
      simp [List.getD, List.getElem?_eq_getElem hlt]
    simp only [bind_run, index_run _ _ _ _ hget, modifyApp] at hbody
    split at hbody
    swap
    · cases hbody
    rename_i imageView w1 h1
    obtain ⟨rfl, rfl⟩ := createImageView_run _ _ _ _ _ _ _ _ h1
    simp only [Prod.mk.injEq, true_and] at hbody
    exact hbody.symm

/-- A `createFramebuffers` that returns has created one framebuffer for each swapchain
image view, in order, with the attachments (colour view, depth view, that swapchain view),
the current render pass and the size of `swapChainExtent`, and stored them as
`swapChainFramebuffers`. -/
theorem createFramebuffers_run (env : RecreateEnv) (w after : World)
    (h : createFramebuffers env w = (.ok (), after)) :
    after = ⟨{ w.app with
        swapChainFramebuffers :=
          (List.range w.app.swapChainImageViews.length).map fun i => w.nextHandle + i },
      w.trace ++ (List.range w.app.swapChainImageViews.length).map (fun i =>
        .vkCreateFramebuffer
          ⟨w.app.renderPass,
            [w.app.colorImageView, w.app.depthImageView, w.app.swapChainImageViews.getD i 0],
            w.app.swapChainExtent.width, w.app.swapChainExtent.height⟩
          (w.nextHandle + i)),
      w.nextHandle + w.app.swapChainImageViews.length⟩ := by
  unfold createFramebuffers at h
  simp only [bind_run, getApp, modifyApp] at h
  have := forEach_run _ _
    (fun i w' => ⟨{ w'.app with
        swapChainFramebuffers := w'.app.swapChainFramebuffers.set i w'.nextHandle },
      w'.trace ++ [.vkCreateFramebuffer
        ⟨w.app.renderPass,
          [w.app.colorImageView, w.app.depthImageView, w.app.swapChainImageViews.getD i 0],
          w.app.swapChainExtent.width, w.app.swapChainExtent.height⟩ w'.nextHandle],
      w'.nextHandle + 1⟩) ?_ _ _ h
  · rw [this, foldl_create
      (fun i handle => .vkCreateFramebuffer
        ⟨w.app.renderPass,
          [w.app.colorImageView, w.app.depthImageView, w.app.swapChainImageViews.getD i 0],
          w.app.swapChainExtent.width, w.app.swapChainExtent.height⟩ handle)
      (fun i handle app =>
        { app with swapChainFramebuffers := app.swapChainFramebuffers.set i handle }),
      foldl_swapChainFramebuffers]
    simp only []
    have hlen := length_resize w.app.swapChainFramebuffers w.app.swapChainImageViews.length
    have hset := foldl_set_all (fun i => w.nextHandle + i)
      (resize w.app.swapChainFramebuffers w.app.swapChainImageViews.length)
    rw [hlen] at hset
    rw [hset]
  · intro i hi w' after' hbody
    have hlt : i < w.app.swapChainImageViews.length := List.mem_range.1 hi
    have hget : w.app.swapChainImageViews[i]? =
        some (w.app.swapChainImageViews.getD i 0) := by
      simp [List.getD, List.getElem?_eq_getElem hlt]
    simp only [bind_run, index_run _ _ _ _ hget] at hbody
    by_cases hr : env.vkCreateFramebuffer i = VK_SUCCESS
    · simp only [hr, bind_run, pure_run, freshHandle, call, modifyApp, ne_eq,
        not_true_eq_false, if_false, Prod.mk.injEq, true_and] at hbody
      exact hbody.symm
    · simp [hr, bind_run, pure_run, runtime_error] at hbody

/-- What `cleanupSwapChain` does: it destroys the colour and depth attachments, every
framebuffer, the first `swapChainImages.size()` image views and the swapchain, and leaves
the fields as they are; it returns exactly when `swapChainImageViews` has an entry for
every swapchain image. -/
theorem cleanupSwapChain_run (w : World) :
    (w.app.swapChainImages.length ≤ w.app.swapChainImageViews.length →
        cleanupSwapChain w =
          (.ok (),
            ⟨w.app,
              w.trace ++
                ([.vkDestroyImageView w.app.colorImageView,
                    .vkDestroyImage w.app.colorImage,
                    .vkFreeMemory w.app.colorImageMemory,
                    .vkDestroyImageView w.app.depthImageView,
                    .vkDestroyImage w.app.depthImage,
                    .vkFreeMemory w.app.depthImageMemory] ++
                  w.app.swapChainFramebuffers.map Call.vkDestroyFramebuffer ++
                  (List.range w.app.swapChainImages.length).map (fun i =>
                    .vkDestroyImageView (w.app.swapChainImageViews.getD i 0)) ++
                  [.vkDestroySwapchainKHR w.app.swapChain]),
              w.nextHandle⟩)) ∧
      ((cleanupSwapChain w).1 = .ok () →
        w.app.swapChainImages.length ≤ w.app.swapChainImageViews.length) := by
  unfold cleanupSwapChain
  simp only [bind_run, getApp, call, forEach_call]
  constructor
  · intro hlen
    rw [(forEach_index_call _ _ _ _).1 (fun i hi => Nat.lt_of_lt_of_le (List.mem_range.1 hi) hlen)]
    simp
  · intro hok
    by_contra hlen
    have hlt : w.app.swapChainImageViews.length < w.app.swapChainImages.length :=
      Nat.lt_of_not_le hlen
    split at hok
    · rename_i w1 h1
      have := (forEach_index_call _ _ _ _).2 (by rw [h1]) _ (List.mem_range.2 hlt)
      exact Nat.lt_irrefl _ this
    · cases hok

/-- A recreation that returns has gone through its steps one after the other, each of them
returning: the wait for a framebuffer, the device wait and the teardown, the four
creations, the render pass and pipeline when the format has changed, the framebuffers. -/
theorem recreateSwapChain_steps (env : RecreateEnv) (w : World)
    (hok : (recreateSwapChain env w).1 = .ok ()) :
    ∃ w1 w2 w3 w4 w5 w6 w7 w8 : World,
      waitForFramebuffer env.waitEvents env.width env.height
          ⟨w.app,
            w.trace ++ [.recreateSwapChain] ++ [.glfwGetFramebufferSize env.width env.height],
            w.nextHandle⟩ = (.ok (), w1) ∧
        cleanupSwapChain ⟨w1.app, w1.trace ++ [.vkDeviceWaitIdle], w1.nextHandle⟩ =
          (.ok (), w2) ∧
        createSwapChain env 0 w2 = (.ok (), w3) ∧
        createSwapChainImageViews env w3 = (.ok (), w4) ∧
        createColorResources env w4 = (.ok (), w5) ∧
        createDepthResources env w5 = (.ok (), w6) ∧
        ((w2.app.swapChainImageFormat = w6.app.swapChainImageFormat ∧ w7 = w6) ∨
          (w2.app.swapChainImageFormat ≠ w6.app.swapChainImageFormat ∧
            ∃ created, createRenderPass env w6 = (.ok (), created) ∧
              createPipeline env.createPipeline created = (.ok (), w7))) ∧
        createFramebuffers env w7 = (.ok (), w8) ∧
        recreateSwapChain env w = (.ok (), w8) := by
  unfold recreateSwapChain at hok ⊢
  simp only [bind_run, pure_run, getApp, call] at hok ⊢
  split at hok
  swap
  · cases hok
  rename_i w1 h1
  split at hok
  swap
  · cases hok
  rename_i w2 h2
  split at hok
  swap
  · cases hok
  rename_i w3 h3
  split at hok
  swap
  · cases hok
  rename_i w4 h4
  split at hok
  swap
  · cases hok
  rename_i w5 h5
  split at hok
  swap
  · cases hok
  rename_i w6 h6
  by_cases hc : w2.app.swapChainImageFormat = w6.app.swapChainImageFormat
  · simp only [hc, ne_eq, not_true_eq_false, if_false, bind_run, pure_run] at hok ⊢
    refine ⟨w1, w2, w3, w4, w5, w6, w6, (createFramebuffers env w6).2, h1, h2, h3, h4, h5, h6,
      Or.inl ⟨hc, rfl⟩, ?_, ?_⟩
    · exact Prod.ext hok rfl
    · exact Prod.ext hok rfl
  · simp only [hc, ne_eq, not_false_eq_true, if_true, bind_run, pure_run] at hok ⊢
    split at hok
    swap
    · cases hok
    rename_i w7 h7
    split at hok
    swap
    · cases hok
    rename_i w8 h8
    refine ⟨w1, w2, w3, w4, w5, w6, w8, (createFramebuffers env w8).2, h1, h2, h3, h4, h5, h6,
      Or.inr ⟨hc, w7, h7, h8⟩, ?_, ?_⟩
    · exact Prod.ext hok rfl
    · exact Prod.ext hok rfl

/-- What the polling loop of a recreation does: it consumes returns of `glfwWaitEvents`
as long as the size last reported has a zero component, makes no other call than
`glfwWaitEvents` and `glfwGetFramebufferSize`, changes nothing but the resize flag, and
either returns after a size with both components nonzero or never returns because every
size reported is zero. -/
theorem waitForFramebuffer_run (waitEvents : List WaitEvents) (width height : Int)
    (w : World) :
    ∃ k, k ≤ waitEvents.length ∧
      (∀ s ∈ ((width, height) ::
          (waitEvents.take k).map (fun event => (event.width, event.height))).dropLast,
        s.1 = 0 ∨ s.2 = 0) ∧
      (waitForFramebuffer waitEvents width height w).2.nextHandle = w.nextHandle ∧
      (waitForFramebuffer waitEvents width height w).2.app =
        { w.app with
          framebufferResized :=
            (waitForFramebuffer waitEvents width height w).2.app.framebufferResized } ∧
      (((waitForFramebuffer waitEvents width height w).1 = .ok () ∧
          (waitForFramebuffer waitEvents width height w).2.trace = w.trace ++
            ((waitEvents.take k).map fun event =>
              [Call.glfwWaitEvents,
                Call.glfwGetFramebufferSize event.width event.height]).flatten ∧
          ∀ s, ((width, height) ::
              (waitEvents.take k).map (fun event => (event.width, event.height))).getLast? =
                some s →
            s.1 ≠ 0 ∧ s.2 ≠ 0) ∨
        ((waitForFramebuffer waitEvents width height w).1 = .stop .blocked ∧
          (waitForFramebuffer waitEvents width height w).2.trace = w.trace ++
            ((waitEvents.take k).map fun event =>
              [Call.glfwWaitEvents,
                Call.glfwGetFramebufferSize event.width event.height]).flatten ++
            [.glfwWaitEvents] ∧
          k = waitEvents.length ∧
          ∀ s ∈ (width, height) ::
              (waitEvents.take k).map (fun event => (event.width, event.height)),
            s.1 = 0 ∨ s.2 = 0)) := by
  induction waitEvents generalizing width height w with
  | nil =>
    unfold waitForFramebuffer
    by_cases hz : width = 0 ∨ height = 0
    · refine ⟨0, Nat.le_refl _, by simp, ?_, ?_, Or.inr ?_⟩ <;>
        simp [hz, bind_run, call, blockForever]
    · refine ⟨0, Nat.le_refl _, by simp, ?_, ?_, Or.inl ?_⟩ <;>
        simp [hz, pure_run]
      exact not_or.1 hz
  | cons event rest ih =>
    unfold waitForFramebuffer
    by_cases hz : width = 0 ∨ height = 0
    swap
    · refine ⟨0, Nat.zero_le _, by simp, ?_, ?_, Or.inl ?_⟩ <;>
        simp [hz, pure_run]
      exact not_or.1 hz
    obtain ⟨k, hk, hzero, hnh, happ, hend⟩ := ih event.width event.height
      ⟨if event.framebufferResizeCallback = true then
          { w.app with framebufferResized := true }
        else w.app,
        w.trace ++ [.glfwWaitEvents] ++ [.glfwGetFramebufferSize event.width event.height],
        w.nextHandle⟩
    have hrun : (do
          call .glfwWaitEvents
          if event.framebufferResizeCallback = true then
            modifyApp fun app => { app with framebufferResized := true }
          call (.glfwGetFramebufferSize event.width event.height)
          waitForFramebuffer rest event.width event.height : Exec Unit) w =
        waitForFramebuffer rest event.width event.height
          ⟨if event.framebufferResizeCallback = true then
              { w.app with framebufferResized := true }
            else w.app,
            w.trace ++ [.glfwWaitEvents] ++
              [.glfwGetFramebufferSize event.width event.height],
            w.nextHandle⟩ := by
      cases event.framebufferResizeCallback <;>
        simp only [bind_run, pure_run, call, modifyApp, if_true, if_false, Bool.false_eq_true]
    simp only [hz, if_true]
    rw [hrun]
    refine ⟨k + 1, Nat.succ_le_succ hk, ?_, hnh, ?_, ?_⟩
    · intro s hs
      simp only [List.take_succ_cons, List.map_cons] at hs
      rw [List.dropLast_cons₂] at hs
      rcases List.mem_cons.1 hs with rfl | hs
      · exact hz
      · exact hzero s hs
    · rw [happ]
      split_ifs <;> rfl
    · rcases hend with ⟨hok, ht, hlast⟩ | ⟨hblocked, ht, hlen, hall⟩
      · refine Or.inl ⟨hok, ?_, ?_⟩
        · rw [ht]
          simp
        · intro s hs
          simp only [List.take_succ_cons, List.map_cons, List.getLast?_cons_cons] at hs
          exact hlast s hs
      · refine Or.inr ⟨hblocked, ?_, by rw [hlen]; rfl, ?_⟩
        · rw [ht]
          simp
        · intro s hs
          simp only [List.take_succ_cons, List.map_cons] at hs
          rcases List.mem_cons.1 hs with rfl | hs
          · exact hz
          · exact hall s hs

/-- With optimal tiling, `findSupportedFormat` returns the first candidate whose optimal
tiling features include `features`, and throws when there is none; it makes no call. -/
theorem findSupportedFormat_optimal (formatProperties : VkFormat → VkFormatProperties)
    (candidates : List VkFormat) (features : Nat) (w : World) :
    findSupportedFormat formatProperties candidates .VK_IMAGE_TILING_OPTIMAL features w =
      match candidates.find? (fun format =>
          (formatProperties format).optimalTilingFeatures &&& features = features) with
      | some format => (.ok format, w)
      | none => (.stop (.threw "failed to find supported format!"), w) := by
  induction candidates with
  | nil => rfl
  | cons format rest ih =>
    unfold findSupportedFormat
    by_cases h : (formatProperties format).optimalTilingFeatures &&& features = features
    · simp [h, pure_run]
    · simp [h, ih]

/-- What `findDepthFormat` returns does not depend on the state in which it is called. -/
theorem findDepthFormat_anywhere (formatProperties : VkFormat → VkFormatProperties)
    (depthFormat : VkFormat) (w : World)
    (h : findDepthFormat formatProperties w = (.ok depthFormat, w)) (world : World) :
    findDepthFormat formatProperties world = (.ok depthFormat, world) := by
  unfold findDepthFormat at h ⊢
  rw [findSupportedFormat_optimal] at h ⊢
  generalize List.find? _ _ = found at h ⊢
  cases found with
  | none => simp at h
  | some format =>
    simp only [Prod.mk.injEq, Outcome.ok.injEq, and_true] at h
    rw [h]

/-- A `createRenderPass` that returns has created one render pass, whose attachments are
the image format, the depth format and the image format again. -/
theorem createRenderPass_depth (env : RecreateEnv) (depthFormat : VkFormat) (w after : World)
    (hdepth : findDepthFormat env.formatProperties w = (.ok depthFormat, w))
    (h : createRenderPass env w = (.ok (), after)) :
    after = ⟨{ w.app with renderPass := w.nextHandle },
      w.trace ++ [.vkCreateRenderPass
        ⟨[w.app.swapChainImageFormat, depthFormat, w.app.swapChainImageFormat], 0, 1, 2⟩
        w.nextHandle],
      w.nextHandle + 1⟩ := by
  unfold createRenderPass at h
  simp only [bind_run, getApp, hdepth] at h
  by_cases hr : env.vkCreateRenderPass = VK_SUCCESS
  · simp [hr, bind_run, pure_run, freshHandle, call, modifyApp] at h
    exact h.symm
  · simp [hr, bind_run, pure_run, runtime_error] at h

theorem getD_map_range (n : Nat) (g : Nat → Handle) (i : Nat) (h : i < n) :
    ((List.range n).map g).getD i 0 = g i := by
  simp [List.getD_eq_getElem?_getD, h]

theorem map_range_getD_map {β : Type} (n : Nat) (g : Nat → Handle) (f : Handle → Nat → β) :
    (List.range n).map (fun i => f (((List.range n).map g).getD i 0) i) =
      (List.range n).map fun i => f (g i) i :=
  List.map_congr_left fun i hi => by rw [getD_map_range _ _ _ (List.mem_range.1 hi)]

/-- The state and the calls of a recreation that returns, written out.  `polled` is the
state in which the polling loop has ended; `used` counts the handles taken by the render
pass step. -/
theorem recreateSwapChain_final (env : RecreateEnv) (w : World)
    (hok : (recreateSwapChain env w).1 = .ok ()) :
    ∃ (polled : World) (surfaceFormat : VkSurfaceFormatKHR) (depthFormat : VkFormat)
      (memoryC memoryD : Nat) (middle : List Call) (renderPass : Handle) (used : Nat),
      waitForFramebuffer env.waitEvents env.width env.height
        ⟨w.app, w.trace ++ [.recreateSwapChain] ++
          [.glfwGetFramebufferSize env.width env.height], w.nextHandle⟩ = (.ok (), polled) ∧
      polled.app.swapChainImages.length ≤ polled.app.swapChainImageViews.length ∧
      chooseSwapChainSurfaceFormat env.supportDetails.formats = some surfaceFormat ∧
      (∀ world, findDepthFormat env.formatProperties world = (.ok depthFormat, world)) ∧
      ((polled.app.swapChainImageFormat = surfaceFormat.format ∧ middle = [] ∧
          renderPass = polled.app.renderPass ∧ used = 0) ∨
        (polled.app.swapChainImageFormat ≠ surfaceFormat.format ∧
          middle = [.vkCreateRenderPass
              ⟨[surfaceFormat.format, depthFormat, surfaceFormat.format], 0, 1, 2⟩
              (polled.nextHandle + 1 + env.swapChainImageCount + env.swapChainImageCount + 3 + 4),
            .Renderer_createPipeline (getRenderer polled.app)] ∧
          renderPass = polled.nextHandle + 1 + env.swapChainImageCount + env.swapChainImageCount + 3 + 4 ∧ used = 1)) ∧
      recreateSwapChain env w = (.ok (),
        ⟨{ polled.app with
            swapChain := polled.nextHandle
            swapChainImageFormat := surfaceFormat.format
            swapChainExtent := (chooseSwapExtent env.supportDetails.capabilities env.extentWidth env.extentHeight)
            swapChainImages := (List.range env.swapChainImageCount).map fun i => polled.nextHandle + 1 + i
            swapChainImageViews := (List.range env.swapChainImageCount).map fun i => (polled.nextHandle + 1 + env.swapChainImageCount) + i
            swapChainFramebuffers := (List.range env.swapChainImageCount).map fun i => (polled.nextHandle + 1 + env.swapChainImageCount + env.swapChainImageCount + 3 + 4 + used) + i
            renderPass := renderPass
            colorImage := (polled.nextHandle + 1 + env.swapChainImageCount + env.swapChainImageCount)
            colorImageMemory := (polled.nextHandle + 1 + env.swapChainImageCount + env.swapChainImageCount) + 1
            colorImageView := (polled.nextHandle + 1 + env.swapChainImageCount + env.swapChainImageCount) + 2
            depthImage := (polled.nextHandle + 1 + env.swapChainImageCount + env.swapChainImageCount + 3)
            depthImageMemory := (polled.nextHandle + 1 + env.swapChainImageCount + env.swapChainImageCount + 3) + 1
            depthImageView := (polled.nextHandle + 1 + env.swapChainImageCount + env.swapChainImageCount + 3) + 2 },
          polled.trace ++ [.vkDeviceWaitIdle] ++
            ([.vkDestroyImageView polled.app.colorImageView,
                .vkDestroyImage polled.app.colorImage,
                .vkFreeMemory polled.app.colorImageMemory,
                .vkDestroyImageView polled.app.depthImageView,
                .vkDestroyImage polled.app.depthImage,
                .vkFreeMemory polled.app.depthImageMemory] ++
              polled.app.swapChainFramebuffers.map Call.vkDestroyFramebuffer ++
              (List.range polled.app.swapChainImages.length).map (fun i =>
                Call.vkDestroyImageView (polled.app.swapChainImageViews.getD i 0)) ++
              [.vkDestroySwapchainKHR polled.app.swapChain]) ++
            [.vkCreateSwapchainKHR
                ⟨imageCount env.supportDetails.capabilities, surfaceFormat.format,
                  surfaceFormat.colorSpace, (chooseSwapExtent env.supportDetails.capabilities env.extentWidth env.extentHeight),
                  chooseSwapChainPresentMode env.supportDetails.presentModes, 0⟩ polled.nextHandle,
              .vkGetSwapchainImagesKHR polled.nextHandle ((List.range env.swapChainImageCount).map fun i => polled.nextHandle + 1 + i)] ++
            (List.range env.swapChainImageCount).map (fun i => Call.vkCreateImageView
              ⟨polled.nextHandle + 1 + i, surfaceFormat.format,
                VK_IMAGE_ASPECT_COLOR_BIT, 1⟩ ((polled.nextHandle + 1 + env.swapChainImageCount) + i)) ++
            [.vkCreateImage
                ⟨toUint32 (toInt (chooseSwapExtent env.supportDetails.capabilities env.extentWidth env.extentHeight).width), toUint32 (toInt (chooseSwapExtent env.supportDetails.capabilities env.extentWidth env.extentHeight).height), 1,
                  surfaceFormat.format, .VK_IMAGE_TILING_OPTIMAL,
                  VK_IMAGE_USAGE_TRANSIENT_ATTACHMENT_BIT ||| VK_IMAGE_USAGE_COLOR_ATTACHMENT_BIT,
                  polled.app.msaaSamples⟩ (polled.nextHandle + 1 + env.swapChainImageCount + env.swapChainImageCount),
              .vkAllocateMemory memoryC ((polled.nextHandle + 1 + env.swapChainImageCount + env.swapChainImageCount) + 1),
              .vkBindImageMemory (polled.nextHandle + 1 + env.swapChainImageCount + env.swapChainImageCount) ((polled.nextHandle + 1 + env.swapChainImageCount + env.swapChainImageCount) + 1),
              .vkCreateImageView ⟨(polled.nextHandle + 1 + env.swapChainImageCount + env.swapChainImageCount), surfaceFormat.format, VK_IMAGE_ASPECT_COLOR_BIT, 1⟩
                ((polled.nextHandle + 1 + env.swapChainImageCount + env.swapChainImageCount) + 2)] ++
            [.vkCreateImage
                ⟨toUint32 (toInt (chooseSwapExtent env.supportDetails.capabilities env.extentWidth env.extentHeight).width), toUint32 (toInt (chooseSwapExtent env.supportDetails.capabilities env.extentWidth env.extentHeight).height), 1,
                  depthFormat, .VK_IMAGE_TILING_OPTIMAL,
                  VK_IMAGE_USAGE_DEPTH_STENCIL_ATTACHMENT_BIT, polled.app.msaaSamples⟩ (polled.nextHandle + 1 + env.swapChainImageCount + env.swapChainImageCount + 3),
              .vkAllocateMemory memoryD ((polled.nextHandle + 1 + env.swapChainImageCount + env.swapChainImageCount + 3) + 1),
              .vkBindImageMemory (polled.nextHandle + 1 + env.swapChainImageCount + env.swapChainImageCount + 3) ((polled.nextHandle + 1 + env.swapChainImageCount + env.swapChainImageCount + 3) + 1),
              .vkCreateImageView ⟨(polled.nextHandle + 1 + env.swapChainImageCount + env.swapChainImageCount + 3), depthFormat, VK_IMAGE_ASPECT_DEPTH_BIT, 1⟩ ((polled.nextHandle + 1 + env.swapChainImageCount + env.swapChainImageCount + 3) + 2),
              .vkAllocateCommandBuffers (VkCommandBuffer.singleTime (polled.nextHandle + 1 + env.swapChainImageCount + env.swapChainImageCount + 3 + 3)),
              .vkBeginCommandBuffer (VkCommandBuffer.singleTime (polled.nextHandle + 1 + env.swapChainImageCount + env.swapChainImageCount + 3 + 3)),
              .vkCmdPipelineBarrier (VkCommandBuffer.singleTime (polled.nextHandle + 1 + env.swapChainImageCount + env.swapChainImageCount + 3 + 3)) .VK_PIPELINE_STAGE_TOP_OF_PIPE_BIT
                .VK_PIPELINE_STAGE_EARLY_FRAGMENT_TESTS_BIT
                ⟨(polled.nextHandle + 1 + env.swapChainImageCount + env.swapChainImageCount + 3), VK_IMAGE_LAYOUT_UNDEFINED,
                  VK_IMAGE_LAYOUT_DEPTH_STENCIL_ATTACHMENT_OPTIMAL,
                  if hasStencilComponent depthFormat = true then
                    VK_IMAGE_ASPECT_DEPTH_BIT ||| VK_IMAGE_ASPECT_STENCIL_BIT
                  else VK_IMAGE_ASPECT_DEPTH_BIT, 1⟩,
              .vkEndCommandBuffer (VkCommandBuffer.singleTime (polled.nextHandle + 1 + env.swapChainImageCount + env.swapChainImageCount + 3 + 3)),
              .vkQueueSubmit ⟨[], [], [(VkCommandBuffer.singleTime (polled.nextHandle + 1 + env.swapChainImageCount + env.swapChainImageCount + 3 + 3))], []⟩ .VK_NULL_HANDLE,
              .vkDeviceWaitIdle,
              .vkFreeCommandBuffers (VkCommandBuffer.singleTime (polled.nextHandle + 1 + env.swapChainImageCount + env.swapChainImageCount + 3 + 3))] ++
            middle ++
            (List.range env.swapChainImageCount).map (fun i => Call.vkCreateFramebuffer
              ⟨renderPass,
                [(polled.nextHandle + 1 + env.swapChainImageCount + env.swapChainImageCount) + 2, (polled.nextHandle + 1 + env.swapChainImageCount + env.swapChainImageCount + 3) + 2, (polled.nextHandle + 1 + env.swapChainImageCount) + i],
                (chooseSwapExtent env.supportDetails.capabilities env.extentWidth env.extentHeight).width, (chooseSwapExtent env.supportDetails.capabilities env.extentWidth env.extentHeight).height⟩ ((polled.nextHandle + 1 + env.swapChainImageCount + env.swapChainImageCount + 3 + 4 + used) + i)),
          (polled.nextHandle + 1 + env.swapChainImageCount + env.swapChainImageCount + 3 + 4 + used) + env.swapChainImageCount⟩) := by
  obtain ⟨w1, w2, w3, w4, w5, w6, w7, w8, h1, h2, h3, h4, h5, h6, h7, h8, heq⟩ :=
    recreateSwapChain_steps env w hok
  have hlen := (cleanupSwapChain_run _).2 (by rw [h2])
  have h2' := (cleanupSwapChain_run _).1 hlen
  rw [h2'] at h2
  simp only [Prod.mk.injEq, true_and] at h2
  subst h2
  obtain ⟨surfaceFormat, hchosen, rfl⟩ := createSwapChain_run _ _ _ _ h3
  have := createSwapChainImageViews_run _ _ _ h4
  simp only [List.length_map, List.length_range] at this
  rw [map_range_getD_map _ _ (fun image i =>
    Call.vkCreateImageView ⟨image, _, _, _⟩ (_ + i))] at this
  subst this
  obtain ⟨memoryC, rfl⟩ := createColorResources_run _ _ _ h5
  obtain ⟨depthFormat, memoryD, hdepth, rfl⟩ := createDepthResources_run _ _ _ h6
  have hd := findDepthFormat_anywhere _ _ _ hdepth
  simp only [List.length_map, List.length_range] at h7 h8
  rcases h7 with ⟨hsame, rfl⟩ | ⟨hne, created, hc, hp⟩
  · have := createFramebuffers_run _ _ _ h8
    simp only [List.length_map, List.length_range] at this
    rw [map_range_getD_map _ _ (fun view i =>
      Call.vkCreateFramebuffer ⟨_, [_, _, view], _, _⟩ (_ + i))] at this
    refine ⟨w1, surfaceFormat, depthFormat, memoryC, memoryD, [], w1.app.renderPass, 0, h1,
      hlen, hchosen, hd, Or.inl ⟨hsame, rfl, rfl, rfl⟩, ?_⟩
    rw [heq, this]
    simp only [List.append_nil, Nat.add_zero]
  · have hc := createRenderPass_depth _ _ _ _ (hd _) hc
    subst hc
    have hp := createPipeline_run _ _ _ hp
    subst hp
    have := createFramebuffers_run _ _ _ h8
    simp only [List.length_map, List.length_range] at this
    rw [map_range_getD_map _ _ (fun view i =>
      Call.vkCreateFramebuffer ⟨_, [_, _, view], _, _⟩ (_ + i))] at this
    refine ⟨w1, surfaceFormat, depthFormat, memoryC, memoryD, _, _, 1, h1,
      hlen, hchosen, hd, Or.inr ⟨hne, rfl, rfl, rfl⟩, ?_⟩
    rw [heq, this]
    simp only [List.append_assoc, List.cons_append, List.nil_append, List.singleton_append,
      getRenderer]

/-! ## Framebuffers, depth format and layout transitions -/

theorem map_range_getD {α β : Type} (l : List α) (d : α) (f : Nat → α → β) :
    (List.range l.length).map (fun i => f i (l.getD i d)) = l.enum.map fun p => f p.1 p.2 := by
  apply List.ext_getElem
  · simp
  · intro i h1 h2
    simp only [List.length_map, List.length_range] at h1
    simp [List.getD_eq_getElem?_getD, List.getElem?_eq_getElem h1]

/-- A `createRenderPass` that returns has asked `findDepthFormat` for the depth format
and created one render pass with it. -/
theorem createRenderPass_returns (env : RecreateEnv) (w : World)
    (hok : (createRenderPass env w).1 = .ok ()) :
    ∃ depthFormat, findDepthFormat env.formatProperties w = (.ok depthFormat, w) ∧
      createRenderPass env w = (.ok (), ⟨{ w.app with renderPass := w.nextHandle },
        w.trace ++ [.vkCreateRenderPass
          ⟨[w.app.swapChainImageFormat, depthFormat, w.app.swapChainImageFormat], 0, 1, 2⟩
          w.nextHandle],
        w.nextHandle + 1⟩) := by
  have hd : ∃ r, findDepthFormat env.formatProperties w = (r, w) := by
    unfold findDepthFormat
    rw [findSupportedFormat_optimal]
    split
    · exact ⟨_, rfl⟩
    · exact ⟨_, rfl⟩
  obtain ⟨r, hd⟩ := hd
  cases r with
  | stop s =>
    unfold createRenderPass at hok
    simp [bind_run, getApp, hd] at hok
  | ok depthFormat =>
    refine ⟨depthFormat, hd, ?_⟩
    rcases hrun : createRenderPass env w with ⟨o, after⟩
    rw [hrun] at hok
    simp only at hok
    subst hok
    rw [createRenderPass_depth env depthFormat w after hd hrun]

/-- C24: a `createFramebuffers` that returns has created exactly one framebuffer per
swapchain image view, in order, the framebuffer of view `i` having the attachments
(colour view, depth view, view `i`), and has stored them as `swapChainFramebuffers`; and a
`createRenderPass` that returns has created a render pass whose attachment descriptions
are (colour, depth, resolve), for the image format, the depth format and the image format,
and whose subpass refers to index 0 as colour, 1 as depth-stencil and 2 as resolve
attachment, so that each framebuffer has the colour view, the depth view and the swapchain
view at the positions of these three references. -/
theorem createFramebuffers_matches_render_pass (env : RecreateEnv) (w : World)
    (hok : (createFramebuffers env w).1 = .ok ()) :
    (createFramebuffers env w).2.trace =
        w.trace ++ w.app.swapChainImageViews.enum.map (fun view =>
          Call.vkCreateFramebuffer
            ⟨w.app.renderPass, [w.app.colorImageView, w.app.depthImageView, view.2],
              w.app.swapChainExtent.width, w.app.swapChainExtent.height⟩
            (w.nextHandle + view.1)) ∧
      (createFramebuffers env w).2.app.swapChainFramebuffers =
        w.app.swapChainImageViews.enum.map (fun view => w.nextHandle + view.1) ∧
      (createFramebuffers env w).2.app.swapChainFramebuffers.length =
        w.app.swapChainImageViews.length ∧
      ∀ pass : World, (createRenderPass env pass).1 = .ok () →
        ∃ depthFormat createInfo,
          findDepthFormat env.formatProperties pass = (.ok depthFormat, pass) ∧
          (createRenderPass env pass).2.trace =
            pass.trace ++ [.vkCreateRenderPass createInfo pass.nextHandle] ∧
          createInfo.attachments =
            [pass.app.swapChainImageFormat, depthFormat, pass.app.swapChainImageFormat] ∧
          createInfo.colorAttachment = 0 ∧ createInfo.depthStencilAttachment = 1 ∧
          createInfo.resolveAttachment = 2 ∧
          ∀ framebufferInfo framebuffer,
            Call.vkCreateFramebuffer framebufferInfo framebuffer ∈
                (createFramebuffers env w).2.trace.drop w.trace.length →
              framebufferInfo.attachments.length = createInfo.attachments.length ∧
              framebufferInfo.attachments[createInfo.colorAttachment]? =
                some w.app.colorImageView ∧
              framebufferInfo.attachments[createInfo.depthStencilAttachment]? =
                some w.app.depthImageView ∧
              ∃ view ∈ w.app.swapChainImageViews,
                framebufferInfo.attachments[createInfo.resolveAttachment]? = some view := by
  rcases hrun : createFramebuffers env w with ⟨o, after⟩
  rw [hrun] at hok
  simp only at hok
  subst hok
  have h := createFramebuffers_run env w after hrun
  have htrace := map_range_getD w.app.swapChainImageViews 0 (fun i view =>
    Call.vkCreateFramebuffer
      ⟨w.app.renderPass, [w.app.colorImageView, w.app.depthImageView, view],
        w.app.swapChainExtent.width, w.app.swapChainExtent.height⟩ (w.nextHandle + i))
  have hstored := map_range_getD w.app.swapChainImageViews 0 (fun i _ => w.nextHandle + i)
  simp only at htrace hstored
  rw [htrace, hstored] at h
  subst h
  refine ⟨rfl, rfl, by simp, ?_⟩
  intro pass hpass
  obtain ⟨depthFormat, hd, hcreated⟩ := createRenderPass_returns env pass hpass
  refine ⟨depthFormat, _, hd, by rw [hcreated], rfl, rfl, rfl, rfl, ?_⟩
  intro framebufferInfo framebuffer hmem
  simp only [List.drop_left, List.mem_map] at hmem
  obtain ⟨view, hview, heq⟩ := hmem
  simp only [Call.vkCreateFramebuffer.injEq] at heq
  obtain ⟨rfl, -⟩ := heq
  refine ⟨rfl, rfl, rfl, view.2, ?_, rfl⟩
  exact (List.mem_enum hview).2 ▸ List.getElem_mem _

theorem createFramebuffers_matches_render_pass_witness :
    (createFramebuffers calmRecreate startWorld).1 = .ok () ∧
      (createFramebuffers calmRecreate startWorld).2.app.swapChainFramebuffers.length =
        startWorld.app.swapChainImageViews.length :=
  ⟨by decide!,
    (createFramebuffers_matches_render_pass calmRecreate startWorld (by decide!)).2.2.1⟩

/-- C25 (as stated, refuted): on a device on which all three candidates support
depth-stencil attachments, `findDepthFormat` returns D32_SFLOAT, its first candidate, which
has no stencil component, and not D32_SFLOAT_S8_UINT. -/
theorem findDepthFormat_first_has_no_stencil :
    findDepthFormat (fun _ => ⟨0, VK_FORMAT_FEATURE_DEPTH_STENCIL_ATTACHMENT_BIT⟩) startWorld =
        (.ok VK_FORMAT_D32_SFLOAT, startWorld) ∧
      hasStencilComponent VK_FORMAT_D32_SFLOAT = false ∧
      VK_FORMAT_D32_SFLOAT ≠ VK_FORMAT_D32_SFLOAT_S8_UINT := by
  decide!

/-- C25 (amended): `findDepthFormat` probes D32_SFLOAT, then D32_SFLOAT_S8_UINT, then
D24_UNORM_S8_UINT, and returns the first of them whose optimal tiling features include
the depth-stencil attachment bit, leaving the state as it is; it throws exactly when none
of the three has that bit. -/
theorem findDepthFormat_spec (formatProperties : VkFormat → VkFormatProperties) (w : World) :
    findDepthFormat formatProperties w =
        (match [VK_FORMAT_D32_SFLOAT, VK_FORMAT_D32_SFLOAT_S8_UINT,
            VK_FORMAT_D24_UNORM_S8_UINT].find? (fun format =>
              (formatProperties format).optimalTilingFeatures &&&
                  VK_FORMAT_FEATURE_DEPTH_STENCIL_ATTACHMENT_BIT =
                VK_FORMAT_FEATURE_DEPTH_STENCIL_ATTACHMENT_BIT) with
          | some format => (.ok format, w)
          | none => (.stop (.threw "failed to find supported format!"), w)) ∧
      ((∃ how, (findDepthFormat formatProperties w).1 = .stop how) ↔
        ∀ format ∈ [VK_FORMAT_D32_SFLOAT, VK_FORMAT_D32_SFLOAT_S8_UINT,
            VK_FORMAT_D24_UNORM_S8_UINT],
          (formatProperties format).optimalTilingFeatures &&&
              VK_FORMAT_FEATURE_DEPTH_STENCIL_ATTACHMENT_BIT ≠
            VK_FORMAT_FEATURE_DEPTH_STENCIL_ATTACHMENT_BIT) := by
  have h := findSupportedFormat_optimal formatProperties
    [VK_FORMAT_D32_SFLOAT, VK_FORMAT_D32_SFLOAT_S8_UINT, VK_FORMAT_D24_UNORM_S8_UINT]
    VK_FORMAT_FEATURE_DEPTH_STENCIL_ATTACHMENT_BIT w
  refine ⟨h, ?_⟩
  unfold findDepthFormat
  rw [h]
  cases hfound : List.find? _ _ with
  | none =>
    simp only [List.find?_eq_none, decide_eq_true_eq] at hfound
    exact ⟨fun _ => hfound, fun _ => ⟨_, rfl⟩⟩
  | some format =>
    have hmem := List.mem_of_find?_eq_some hfound
    have hsup := List.find?_some hfound
    simp only [decide_eq_true_eq] at hsup
    constructor
    · rintro ⟨how, h⟩
      cases h
    · intro hall
      exact absurd hsup (hall format hmem)

theorem transitionStages_eq_none (oldLayout newLayout : VkImageLayout) :
    transitionStages oldLayout newLayout = none ↔
      ¬((oldLayout = VK_IMAGE_LAYOUT_UNDEFINED ∧
          newLayout = VK_IMAGE_LAYOUT_TRANSFER_DST_OPTIMAL) ∨
        (oldLayout = VK_IMAGE_LAYOUT_TRANSFER_DST_OPTIMAL ∧
          newLayout = VK_IMAGE_LAYOUT_SHADER_READ_ONLY_OPTIMAL) ∨
        (oldLayout = VK_IMAGE_LAYOUT_UNDEFINED ∧
          newLayout = VK_IMAGE_LAYOUT_DEPTH_STENCIL_ATTACHMENT_OPTIMAL)) := by
  unfold transitionStages
  split_ifs <;> simp_all

/-! Rules for showing that a function never throws a given message. -/

theorem avoids_bind {α γ : Type} {what : String} {m : Exec α} {f : α → Exec γ}
    (hm : ∀ w, (m w).1 ≠ .stop (.threw what))
    (hf : ∀ a w, (f a w).1 ≠ .stop (.threw what)) :
    ∀ w, ((m >>= f) w).1 ≠ .stop (.threw what) := by
  intro w
  rw [bind_run]
  rcases hr : m w with ⟨a | s, w'⟩
  · exact hf a w'
  · have := hm w
    rw [hr] at this
    intro h
    exact this (by simpa using h)

theorem avoids_pure {α : Type} {what : String} (a : α) :
    ∀ w, ((pure a : Exec α) w).1 ≠ .stop (.threw what) := by
  intro w
  simp [pure_run]

theorem avoids_runtime_error {α : Type} {what other : String} (h : other ≠ what) :
    ∀ w, ((runtime_error other : Exec α) w).1 ≠ .stop (.threw what) := by
  intro w
  simp [runtime_error, h]

theorem findMemoryTypeIndexFrom_avoids (typeBitsFilter propertyFlags : Nat)
    (memoryTypes : List Nat) (i : Nat) :
    ∀ w, (findMemoryTypeIndexFrom typeBitsFilter propertyFlags memoryTypes i w).1 ≠
      .stop (.threw "unsupported layout transition!") := by
  induction memoryTypes generalizing i with
  | nil =>
    unfold findMemoryTypeIndexFrom
    exact avoids_runtime_error (by decide)
  | cons memoryType rest ih =>
    unfold findMemoryTypeIndexFrom
    split
    · exact avoids_pure _
    · exact ih _

theorem createImage_avoids (memoryTypes : List Nat) (env : CreateImageEnv)
    (width height : Int) (mips numSamples : Nat) (format : VkFormat) (tiling : VkImageTiling)
    (usage memoryPropertyFlags : Nat) :
    ∀ w, (createImage memoryTypes env width height mips numSamples format tiling usage
      memoryPropertyFlags w).1 ≠ .stop (.threw "unsupported layout transition!") := by
  unfold createImage findMemoryTypeIndex
  repeat' (first
    | apply findMemoryTypeIndexFrom_avoids
    | apply avoids_bind
    | apply avoids_pure
    | (apply avoids_runtime_error; decide)
    | (intro w; simp [freshHandle, call]; done)
    | split
    | dsimp only
    | intro _)

theorem createImageView_avoids (result : VkResult) (image : Handle) (format : VkFormat)
    (aspectFlags mips : Nat) :
    ∀ w, (createImageView result image format aspectFlags mips w).1 ≠
      .stop (.threw "unsupported layout transition!") := by
  unfold createImageView
  repeat' (first
    | apply avoids_bind
    | apply avoids_pure
    | (apply avoids_runtime_error; decide)
    | (intro w; simp [freshHandle, call]; done)
    | split
    | dsimp only
    | intro _)

theorem createDepthResources_avoids (env : RecreateEnv) :
    ∀ w, (createDepthResources env w).1 ≠ .stop (.threw "unsupported layout transition!") := by
  unfold createDepthResources
  apply avoids_bind
  · intro w
    simp [getApp]
  intro app
  apply avoids_bind
  · intro w
    unfold findDepthFormat
    rw [findSupportedFormat_optimal]
    split <;> simp
  intro depthFormat
  apply avoids_bind
  · exact createImage_avoids _ _ _ _ _ _ _ _ _ _
  rintro ⟨depthImage, depthImageMemory⟩
  apply avoids_bind
  · intro w
    simp [modifyApp]
  intro _
  apply avoids_bind
  · exact createImageView_avoids _ _ _ _ _
  intro depthImageView
  apply avoids_bind
  · intro w
    simp [modifyApp]
  intro _ w
  rw [transitionImageLayout_run]
  have hst : transitionStages VK_IMAGE_LAYOUT_UNDEFINED
      VK_IMAGE_LAYOUT_DEPTH_STENCIL_ATTACHMENT_OPTIMAL =
      some (.VK_PIPELINE_STAGE_TOP_OF_PIPE_BIT,
        .VK_PIPELINE_STAGE_EARLY_FRAGMENT_TESTS_BIT) := by decide
  rw [hst]
  split_ifs <;> simp

/-- C26 (as stated, refuted): when `vkAllocateCommandBuffers` fails, a transition between
an unsupported pair of layouts stops with the message of `beginSingleTimeCommands`, not
with the one of the invalid-argument branch; and when the submission fails, the transition
of a depth image from undefined to depth-stencil attachment does not succeed. -/
theorem transitionImageLayout_other_failures :
    transitionStages VK_IMAGE_LAYOUT_UNDEFINED VK_IMAGE_LAYOUT_PRESENT_SRC_KHR = none ∧
      (transitionImageLayout VK_ERROR_OUT_OF_HOST_MEMORY VK_SUCCESS 15 VK_FORMAT_D32_SFLOAT
        VK_IMAGE_LAYOUT_UNDEFINED VK_IMAGE_LAYOUT_PRESENT_SRC_KHR 1 startWorld).1 =
        .stop (.threw "failed to allocate command buffer!") ∧
      (transitionImageLayout VK_SUCCESS VK_ERROR_DEVICE_LOST 15 VK_FORMAT_D32_SFLOAT
        VK_IMAGE_LAYOUT_UNDEFINED VK_IMAGE_LAYOUT_DEPTH_STENCIL_ATTACHMENT_OPTIMAL 1
        startWorld).1 = .stop (.threw "failed to submit singleTime command buffer!") := by
  decide!

/-- C26 (amended): `transitionImageLayout` returns exactly when the allocation of its
command buffer and its submission succeed and the pair of layouts is undefined to
transfer destination, transfer destination to shader read-only, or undefined to
depth-stencil attachment; it stops in the invalid-argument branch exactly when the
allocation succeeds and the pair is none of these three, and has then recorded no barrier
(it has only allocated and begun the command buffer); and `createDepthResources` never
stops in that branch. -/
theorem transitionImageLayout_spec (allocateResult submitResult : VkResult) (image : Handle)
    (format : VkFormat) (oldLayout newLayout : VkImageLayout) (mips : Nat) (w : World) :
    ((transitionImageLayout allocateResult submitResult image format oldLayout newLayout
          mips w).1 = .ok () ↔
        allocateResult = VK_SUCCESS ∧ submitResult = VK_SUCCESS ∧
          ((oldLayout = VK_IMAGE_LAYOUT_UNDEFINED ∧
              newLayout = VK_IMAGE_LAYOUT_TRANSFER_DST_OPTIMAL) ∨
            (oldLayout = VK_IMAGE_LAYOUT_TRANSFER_DST_OPTIMAL ∧
              newLayout = VK_IMAGE_LAYOUT_SHADER_READ_ONLY_OPTIMAL) ∨
            (oldLayout = VK_IMAGE_LAYOUT_UNDEFINED ∧
              newLayout = VK_IMAGE_LAYOUT_DEPTH_STENCIL_ATTACHMENT_OPTIMAL))) ∧
      ((transitionImageLayout allocateResult submitResult image format oldLayout newLayout
          mips w).1 = .stop (.threw "unsupported layout transition!") ↔
        allocateResult = VK_SUCCESS ∧
          ¬((oldLayout = VK_IMAGE_LAYOUT_UNDEFINED ∧
              newLayout = VK_IMAGE_LAYOUT_TRANSFER_DST_OPTIMAL) ∨
            (oldLayout = VK_IMAGE_LAYOUT_TRANSFER_DST_OPTIMAL ∧
              newLayout = VK_IMAGE_LAYOUT_SHADER_READ_ONLY_OPTIMAL) ∨
            (oldLayout = VK_IMAGE_LAYOUT_UNDEFINED ∧
              newLayout = VK_IMAGE_LAYOUT_DEPTH_STENCIL_ATTACHMENT_OPTIMAL))) ∧
      ((transitionImageLayout allocateResult submitResult image format oldLayout newLayout
          mips w).1 = .stop (.threw "unsupported layout transition!") →
        (transitionImageLayout allocateResult submitResult image format oldLayout newLayout
          mips w).2.trace =
          w.trace ++ [.vkAllocateCommandBuffers (.singleTime w.nextHandle),
            .vkBeginCommandBuffer (.singleTime w.nextHandle)]) ∧
      ∀ (env : RecreateEnv) (world : World),
        (createDepthResources env world).1 ≠ .stop (.threw "unsupported layout transition!") := by
  have hnone := transitionStages_eq_none oldLayout newLayout
  rw [transitionImageLayout_run]
  refine ⟨?_, ?_, ?_, fun env world => createDepthResources_avoids env world⟩
  · by_cases ha : allocateResult = VK_SUCCESS
    · cases hst : transitionStages oldLayout newLayout with
      | none =>
        have := hnone.1 hst
        simp [ha, this]
      | some stages =>
        have : ¬¬_ := fun h => by rw [hnone.2 h] at hst; cases hst
        by_cases hs : submitResult = VK_SUCCESS
        · simp [ha, hs, not_not.1 this]
        · simp [ha, hs]
    · simp [ha]
  · by_cases ha : allocateResult = VK_SUCCESS
    · cases hst : transitionStages oldLayout newLayout with
      | none =>
        have := hnone.1 hst
        simp [ha, this]
      | some stages =>
        have : ¬¬_ := fun h => by rw [hnone.2 h] at hst; cases hst
        by_cases hs : submitResult = VK_SUCCESS
        · simp [ha, hs, not_not.1 this]
        · simp [ha, hs, not_not.1 this]
    · simp [ha]
  · by_cases ha : allocateResult = VK_SUCCESS
    · cases hst : transitionStages oldLayout newLayout with
      | none => simp [ha]
      | some stages =>
        by_cases hs : submitResult = VK_SUCCESS
        · simp [ha, hs]
        · simp [ha, hs]
    · simp [ha]

/-! ## The order of a recreation -/

theorem zipWith_map_map {α β γ δ : Type} (f : β → γ → δ) (g : α → β) (h : α → γ)
    (l : List α) :
    List.zipWith f (l.map g) (l.map h) = l.map fun i => f (g i) (h i) := by
  induction l with
  | nil => rfl
  | cons a l ih => simp [ih]

theorem map_range_getD_take {β : Type} (l : List Handle) (n : Nat) (h : n ≤ l.length)
    (f : Handle → β) :
    (List.range n).map (fun i => f (l.getD i 0)) = (l.take n).map f := by
  apply List.ext_getElem
  · simp [h]
  · intro i h1 h2
    simp only [List.length_map, List.length_range] at h1
    have : i < l.length := Nat.lt_of_lt_of_le h1 h
    simp [List.getD_eq_getElem?_getD, List.getElem?_eq_getElem this]

/-- The function `recreateSwapChain` runs its polling loop after two calls and then, when
the loop returns, a rest that makes only calls of a recreation. -/
theorem recreateSwapChain_split (env : RecreateEnv) :
    ∃ body : Exec Unit, Quiet (fun c => c.inRecreate = true) resizeKey body ∧
      ∀ w, recreateSwapChain env w =
        match waitForFramebuffer env.waitEvents env.width env.height
          ⟨w.app, w.trace ++ [.recreateSwapChain] ++
            [.glfwGetFramebufferSize env.width env.height], w.nextHandle⟩ with
        | (.ok _, polled) => body polled
        | (.stop s, polled) => (.stop s, polled) := by
  refine ⟨_, recreateSwapChain_body_quiet env, fun w => ?_⟩
  unfold recreateSwapChain
  rw [bind_run]
  simp only [call]
  rw [bind_run]
  simp only [call]
  rw [bind_run]
  rcases waitForFramebuffer env.waitEvents env.width env.height _ with ⟨_ | _, _⟩ <;> rfl

/-- C21: in every run of `recreateSwapChain`, whatever sizes GLFW reports, the calls are
the entry marker, the first size query, then rounds of `glfwWaitEvents` and size query,
one for each of the first `k` returns of `glfwWaitEvents`, then a rest.  Every size
observed before the last one has a zero component.  If the size last observed has a zero
component, the rest is the one `glfwWaitEvents` that never returns: no device wait,
teardown or creation is made.  If the recreation returns, the size last observed has both
components nonzero and the rest is, in this order: `vkDeviceWaitIdle`; the destruction of
the old colour and depth image, memory and view, of the old framebuffers, of the old
swapchain image views and of the old swapchain; the creation of the swapchain; of its
image views; of the colour resources; of the depth resources with the layout transition;
exactly when the format changed, of a render pass and the renderer pipeline; and of the
framebuffers. -/
theorem recreateSwapChain_waits_then_rebuilds (env : RecreateEnv) (w : World) :
    ∃ (k : Nat) (rest : List Call), k ≤ env.waitEvents.length ∧
      (recreateSwapChain env w).2.trace =
        w.trace ++ [.recreateSwapChain, .glfwGetFramebufferSize env.width env.height] ++
          ((env.waitEvents.take k).map fun event =>
            [Call.glfwWaitEvents,
              Call.glfwGetFramebufferSize event.width event.height]).flatten ++
          rest ∧
      (∀ s ∈ ((env.width, env.height) ::
            (env.waitEvents.take k).map fun event => (event.width, event.height)).dropLast,
        s.1 = 0 ∨ s.2 = 0) ∧
      (∀ s, ((env.width, env.height) ::
            (env.waitEvents.take k).map fun event => (event.width, event.height)).getLast? = some s →
        s.1 = 0 ∨ s.2 = 0 →
          rest = [.glfwWaitEvents] ∧ (recreateSwapChain env w).1 = .stop .blocked) ∧
      ∀ after, recreateSwapChain env w = (.ok (), after) →
        (∀ s, ((env.width, env.height) ::
            (env.waitEvents.take k).map fun event => (event.width, event.height)).getLast? = some s →
          s.1 ≠ 0 ∧ s.2 ≠ 0) ∧
        ∃ (swapchainInfo : VkSwapchainCreateInfoKHR) (colorInfo depthInfo : VkImageCreateInfo)
          (colorViewInfo depthViewInfo : VkImageViewCreateInfo) (colorMemory depthMemory : Nat)
          (commandBuffer : VkCommandBuffer) (barrier : VkImageMemoryBarrier)
          (middle : List Call),
          rest = [.vkDeviceWaitIdle] ++
            ([.vkDestroyImageView w.app.colorImageView,
                .vkDestroyImage w.app.colorImage,
                .vkFreeMemory w.app.colorImageMemory,
                .vkDestroyImageView w.app.depthImageView,
                .vkDestroyImage w.app.depthImage,
                .vkFreeMemory w.app.depthImageMemory] ++
              w.app.swapChainFramebuffers.map Call.vkDestroyFramebuffer ++
              (w.app.swapChainImageViews.take w.app.swapChainImages.length).map
                Call.vkDestroyImageView ++
              [.vkDestroySwapchainKHR w.app.swapChain]) ++
            [.vkCreateSwapchainKHR swapchainInfo after.app.swapChain,
              .vkGetSwapchainImagesKHR after.app.swapChain after.app.swapChainImages] ++
            List.zipWith (fun image view => Call.vkCreateImageView
                ⟨image, after.app.swapChainImageFormat, VK_IMAGE_ASPECT_COLOR_BIT, 1⟩ view)
              after.app.swapChainImages after.app.swapChainImageViews ++
            [.vkCreateImage colorInfo after.app.colorImage,
              .vkAllocateMemory colorMemory after.app.colorImageMemory,
              .vkBindImageMemory after.app.colorImage after.app.colorImageMemory,
              .vkCreateImageView colorViewInfo after.app.colorImageView] ++
            [.vkCreateImage depthInfo after.app.depthImage,
              .vkAllocateMemory depthMemory after.app.depthImageMemory,
              .vkBindImageMemory after.app.depthImage after.app.depthImageMemory,
              .vkCreateImageView depthViewInfo after.app.depthImageView,
              .vkAllocateCommandBuffers commandBuffer,
              .vkBeginCommandBuffer commandBuffer,
              .vkCmdPipelineBarrier commandBuffer .VK_PIPELINE_STAGE_TOP_OF_PIPE_BIT
                .VK_PIPELINE_STAGE_EARLY_FRAGMENT_TESTS_BIT barrier,
              .vkEndCommandBuffer commandBuffer,
              .vkQueueSubmit ⟨[], [], [commandBuffer], []⟩ .VK_NULL_HANDLE,
              .vkDeviceWaitIdle,
              .vkFreeCommandBuffers commandBuffer] ++
            middle ++
            List.zipWith (fun view framebuffer => Call.vkCreateFramebuffer
                ⟨after.app.renderPass,
                  [after.app.colorImageView, after.app.depthImageView, view],
                  after.app.swapChainExtent.width, after.app.swapChainExtent.height⟩
                framebuffer)
              after.app.swapChainImageViews after.app.swapChainFramebuffers ∧
          barrier.image = after.app.depthImage ∧
          barrier.oldLayout = VK_IMAGE_LAYOUT_UNDEFINED ∧
          barrier.newLayout = VK_IMAGE_LAYOUT_DEPTH_STENCIL_ATTACHMENT_OPTIMAL ∧
          ((w.app.swapChainImageFormat = after.app.swapChainImageFormat ∧ middle = []) ∨
            (w.app.swapChainImageFormat ≠ after.app.swapChainImageFormat ∧
              ∃ renderPassInfo, middle =
                [.vkCreateRenderPass renderPassInfo after.app.renderPass,
                  .Renderer_createPipeline (getRenderer w.app)])) := by
  obtain ⟨k, hk, hzero, hnh, happ, hend⟩ := waitForFramebuffer_run env.waitEvents env.width
    env.height ⟨w.app, w.trace ++ [.recreateSwapChain] ++
      [.glfwGetFramebufferSize env.width env.height], w.nextHandle⟩
  obtain ⟨body, hq, hsplit⟩ := recreateSwapChain_split env
  rcases hend with ⟨hwok, htrace, hlast⟩ | ⟨hblocked, htrace, -, hall⟩
  · rcases hw : waitForFramebuffer env.waitEvents env.width env.height
      ⟨w.app, w.trace ++ [.recreateSwapChain] ++
        [.glfwGetFramebufferSize env.width env.height], w.nextHandle⟩ with ⟨o, polled⟩
    rw [hw] at hwok htrace hnh happ
    simp only at hwok htrace hnh happ
    subst hwok
    have hrun := hsplit w
    rw [hw] at hrun
    simp only at hrun
    obtain ⟨cs, hcs, -, -⟩ := hq.run polled
    rw [← hrun] at hcs
    refine ⟨k, cs, hk, ?_, hzero, ?_, ?_⟩
    · rw [hcs, htrace]
      simp only [List.append_assoc, List.cons_append, List.nil_append, List.singleton_append]
    · intro s hs hz
      have := hlast s hs
      rcases hz with hz | hz
      · exact absurd hz this.1
      · exact absurd hz this.2
    · intro after hafter
      refine ⟨hlast, ?_⟩
      obtain ⟨polled', surfaceFormat, depthFormat, memoryC, memoryD, middle, renderPass, used,
        h1, hlen, -, -, hmiddle, hfinal⟩ := recreateSwapChain_final env w (by rw [hafter])
      rw [hw] at h1
      simp only [Prod.mk.injEq, true_and] at h1
      subst h1
      rw [hfinal] at hafter hcs
      simp only [Prod.mk.injEq, true_and] at hafter
      subst hafter
      simp only [List.append_assoc] at hcs
      have hcs := (List.append_cancel_left hcs).symm
      subst hcs
      obtain ⟨papp, ptrace, pnh⟩ := polled
      simp only at hnh happ hlen hmiddle ⊢
      subst hnh
      generalize papp.framebufferResized = resized at happ
      subst happ
      simp only at hlen hmiddle ⊢
      refine ⟨⟨imageCount env.supportDetails.capabilities, surfaceFormat.format,
          surfaceFormat.colorSpace, (chooseSwapExtent env.supportDetails.capabilities env.extentWidth env.extentHeight),
          chooseSwapChainPresentMode env.supportDetails.presentModes, 0⟩,
        ⟨toUint32 (toInt (chooseSwapExtent env.supportDetails.capabilities env.extentWidth env.extentHeight).width), toUint32 (toInt (chooseSwapExtent env.supportDetails.capabilities env.extentWidth env.extentHeight).height), 1,
          surfaceFormat.format, .VK_IMAGE_TILING_OPTIMAL,
          VK_IMAGE_USAGE_TRANSIENT_ATTACHMENT_BIT ||| VK_IMAGE_USAGE_COLOR_ATTACHMENT_BIT,
          w.app.msaaSamples⟩,
        ⟨toUint32 (toInt (chooseSwapExtent env.supportDetails.capabilities env.extentWidth env.extentHeight).width), toUint32 (toInt (chooseSwapExtent env.supportDetails.capabilities env.extentWidth env.extentHeight).height), 1,
          depthFormat, .VK_IMAGE_TILING_OPTIMAL,
          VK_IMAGE_USAGE_DEPTH_STENCIL_ATTACHMENT_BIT, w.app.msaaSamples⟩,
        ⟨(w.nextHandle + 1 + env.swapChainImageCount + env.swapChainImageCount), surfaceFormat.format, VK_IMAGE_ASPECT_COLOR_BIT, 1⟩,
        ⟨(w.nextHandle + 1 + env.swapChainImageCount + env.swapChainImageCount + 3), depthFormat, VK_IMAGE_ASPECT_DEPTH_BIT, 1⟩,
        memoryC, memoryD, (VkCommandBuffer.singleTime (w.nextHandle + 1 + env.swapChainImageCount + env.swapChainImageCount + 3 + 3)),
        ⟨(w.nextHandle + 1 + env.swapChainImageCount + env.swapChainImageCount + 3), VK_IMAGE_LAYOUT_UNDEFINED, VK_IMAGE_LAYOUT_DEPTH_STENCIL_ATTACHMENT_OPTIMAL,
          if hasStencilComponent depthFormat = true then
            VK_IMAGE_ASPECT_DEPTH_BIT ||| VK_IMAGE_ASPECT_STENCIL_BIT
          else VK_IMAGE_ASPECT_DEPTH_BIT, 1⟩,
        middle, ?_, rfl, rfl, rfl, ?_⟩
      · rw [zipWith_map_map, zipWith_map_map, ← map_range_getD_take _ _ hlen]
        simp only [List.append_assoc, List.cons_append, List.nil_append,
          List.singleton_append]
      · rcases hmiddle with ⟨hsame, rfl, -, -⟩ | ⟨hne, rfl, rfl, -⟩
        · exact Or.inl ⟨hsame, rfl⟩
        · exact Or.inr ⟨hne, _, rfl⟩
  · have hrun := hsplit w
    rcases hw : waitForFramebuffer env.waitEvents env.width env.height
      ⟨w.app, w.trace ++ [.recreateSwapChain] ++
        [.glfwGetFramebufferSize env.width env.height], w.nextHandle⟩ with ⟨o, polled⟩
    rw [hw] at hblocked htrace hrun
    simp only at hblocked htrace hrun
    subst hblocked
    simp only at hrun
    refine ⟨k, [.glfwWaitEvents], hk, ?_, hzero, ?_, ?_⟩
    · rw [hrun, htrace]
      simp only [List.append_assoc, List.cons_append, List.nil_append, List.singleton_append]
    · intro s _ _
      exact ⟨rfl, by rw [hrun]⟩
    · intro after hafter
      rw [hrun] at hafter
      cases hafter

/-! ## Start-up -/

theorem otherFunction_run (result : Option String) (w after : World)
    (h : otherFunction result w = (.ok (), after)) : w = after := by
  unfold otherFunction at h
  cases result with
  | none =>
    simp only [pure_run, Prod.mk.injEq, true_and] at h
    exact h
  | some what => simp [runtime_error] at h

theorem pickPhysicalDevice_run (env : InitVulkanEnv) (w after : World)
    (h : pickPhysicalDevice env w = (.ok (), after)) :
    after = ⟨{ w.app with msaaSamples := env.getMaxUsableSampleCount }, w.trace,
      w.nextHandle⟩ := by
  unfold pickPhysicalDevice otherFunction at h
  cases hr : env.pickPhysicalDevice with
  | none =>
    simp only [hr, bind_run, pure_run, modifyApp, Prod.mk.injEq, true_and] at h
    exact h.symm
  | some what => simp [hr, bind_run, runtime_error] at h

/-- The state and the calls of an `initVulkan` that returns, written out. -/
theorem initVulkan_final (env : InitVulkanEnv) (w : World)
    (hok : (initVulkan env w).1 = .ok ()) :
    ∃ (surfaceFormat : VkSurfaceFormatKHR) (depthFormat : VkFormat) (memoryC memoryD : Nat),
      chooseSwapChainSurfaceFormat env.swapChain.supportDetails.formats = some surfaceFormat ∧
      (∀ world, findDepthFormat env.swapChain.formatProperties world =
        (.ok depthFormat, world)) ∧
      initVulkan env w = (.ok (),
        ⟨{ w.app with
            msaaSamples := env.getMaxUsableSampleCount
            swapChain := w.nextHandle
            swapChainImageFormat := surfaceFormat.format
            swapChainExtent := (chooseSwapExtent env.swapChain.supportDetails.capabilities env.swapChain.extentWidth
              env.swapChain.extentHeight)
            swapChainImages := (List.range env.swapChain.swapChainImageCount).map fun i => w.nextHandle + 1 + i
            swapChainImageViews := (List.range env.swapChain.swapChainImageCount).map fun i => (w.nextHandle + 1 + env.swapChain.swapChainImageCount) + i
            swapChainFramebuffers := (List.range env.swapChain.swapChainImageCount).map fun i => (w.nextHandle + 1 + env.swapChain.swapChainImageCount + env.swapChain.swapChainImageCount + 1 + 3 + 4) + i
            renderPass := (w.nextHandle + 1 + env.swapChain.swapChainImageCount + env.swapChain.swapChainImageCount)
            colorImage := (w.nextHandle + 1 + env.swapChain.swapChainImageCount + env.swapChain.swapChainImageCount + 1)
            colorImageMemory := (w.nextHandle + 1 + env.swapChain.swapChainImageCount + env.swapChain.swapChainImageCount + 1) + 1
            colorImageView := (w.nextHandle + 1 + env.swapChain.swapChainImageCount + env.swapChain.swapChainImageCount + 1) + 2
            depthImage := (w.nextHandle + 1 + env.swapChain.swapChainImageCount + env.swapChain.swapChainImageCount + 1 + 3)
            depthImageMemory := (w.nextHandle + 1 + env.swapChain.swapChainImageCount + env.swapChain.swapChainImageCount + 1 + 3) + 1
            depthImageView := (w.nextHandle + 1 + env.swapChain.swapChainImageCount + env.swapChain.swapChainImageCount + 1 + 3) + 2 },
          w.trace ++
            [.vkCreateSwapchainKHR
                ⟨imageCount env.swapChain.supportDetails.capabilities, surfaceFormat.format,
                  surfaceFormat.colorSpace, (chooseSwapExtent env.swapChain.supportDetails.capabilities env.swapChain.extentWidth
              env.swapChain.extentHeight),
                  chooseSwapChainPresentMode env.swapChain.supportDetails.presentModes, 0⟩
                w.nextHandle,
              .vkGetSwapchainImagesKHR w.nextHandle ((List.range env.swapChain.swapChainImageCount).map fun i => w.nextHandle + 1 + i)] ++
            (List.range env.swapChain.swapChainImageCount).map (fun i => Call.vkCreateImageView
              ⟨w.nextHandle + 1 + i, surfaceFormat.format, VK_IMAGE_ASPECT_COLOR_BIT, 1⟩ ((w.nextHandle + 1 + env.swapChain.swapChainImageCount) + i)) ++
            [.vkCreateSemaphore 0 (.imageAvailableSemaphores 0),
              .vkCreateSemaphore 0 (.renderFinishedSemaphores 0),
              .vkCreateFence VK_FENCE_CREATE_SIGNALED_BIT (.inFlightFences 0),
              .vkCreateSemaphore 0 (.computeFinishedSemaphores 0),
              .vkCreateFence VK_FENCE_CREATE_SIGNALED_BIT (.computeInFlightFences 0),
              .vkCreateSemaphore 0 (.imageAvailableSemaphores 1),
              .vkCreateSemaphore 0 (.renderFinishedSemaphores 1),
              .vkCreateFence VK_FENCE_CREATE_SIGNALED_BIT (.inFlightFences 1),
              .vkCreateSemaphore 0 (.computeFinishedSemaphores 1),
              .vkCreateFence VK_FENCE_CREATE_SIGNALED_BIT (.computeInFlightFences 1)] ++
            [.vkCreateRenderPass
              ⟨[surfaceFormat.format, depthFormat, surfaceFormat.format], 0, 1, 2⟩ (w.nextHandle + 1 + env.swapChain.swapChainImageCount + env.swapChain.swapChainImageCount)] ++
            [.vkCreateImage
                ⟨toUint32 (toInt (chooseSwapExtent env.swapChain.supportDetails.capabilities env.swapChain.extentWidth
              env.swapChain.extentHeight).width),
                  toUint32 (toInt (chooseSwapExtent env.swapChain.supportDetails.capabilities env.swapChain.extentWidth
              env.swapChain.extentHeight).height), 1,
                  surfaceFormat.format, .VK_IMAGE_TILING_OPTIMAL,
                  VK_IMAGE_USAGE_TRANSIENT_ATTACHMENT_BIT ||| VK_IMAGE_USAGE_COLOR_ATTACHMENT_BIT,
                  env.getMaxUsableSampleCount⟩ (w.nextHandle + 1 + env.swapChain.swapChainImageCount + env.swapChain.swapChainImageCount + 1),
              .vkAllocateMemory memoryC ((w.nextHandle + 1 + env.swapChain.swapChainImageCount + env.swapChain.swapChainImageCount + 1) + 1),
              .vkBindImageMemory (w.nextHandle + 1 + env.swapChain.swapChainImageCount + env.swapChain.swapChainImageCount + 1) ((w.nextHandle + 1 + env.swapChain.swapChainImageCount + env.swapChain.swapChainImageCount + 1) + 1),
              .vkCreateImageView ⟨(w.nextHandle + 1 + env.swapChain.swapChainImageCount + env.swapChain.swapChainImageCount + 1), surfaceFormat.format, VK_IMAGE_ASPECT_COLOR_BIT, 1⟩
                ((w.nextHandle + 1 + env.swapChain.swapChainImageCount + env.swapChain.swapChainImageCount + 1) + 2)] ++
            [.vkCreateImage
                ⟨toUint32 (toInt (chooseSwapExtent env.swapChain.supportDetails.capabilities env.swapChain.extentWidth
              env.swapChain.extentHeight).width),
                  toUint32 (toInt (chooseSwapExtent env.swapChain.supportDetails.capabilities env.swapChain.extentWidth
              env.swapChain.extentHeight).height), 1,
                  depthFormat, .VK_IMAGE_TILING_OPTIMAL,
                  VK_IMAGE_USAGE_DEPTH_STENCIL_ATTACHMENT_BIT, env.getMaxUsableSampleCount⟩
                (w.nextHandle + 1 + env.swapChain.swapChainImageCount + env.swapChain.swapChainImageCount + 1 + 3),
              .vkAllocateMemory memoryD ((w.nextHandle + 1 + env.swapChain.swapChainImageCount + env.swapChain.swapChainImageCount + 1 + 3) + 1),
              .vkBindImageMemory (w.nextHandle + 1 + env.swapChain.swapChainImageCount + env.swapChain.swapChainImageCount + 1 + 3) ((w.nextHandle + 1 + env.swapChain.swapChainImageCount + env.swapChain.swapChainImageCount + 1 + 3) + 1),
              .vkCreateImageView ⟨(w.nextHandle + 1 + env.swapChain.swapChainImageCount + env.swapChain.swapChainImageCount + 1 + 3), depthFormat, VK_IMAGE_ASPECT_DEPTH_BIT, 1⟩ ((w.nextHandle + 1 + env.swapChain.swapChainImageCount + env.swapChain.swapChainImageCount + 1 + 3) + 2),
              .vkAllocateCommandBuffers (VkCommandBuffer.singleTime (w.nextHandle + 1 + env.swapChain.swapChainImageCount + env.swapChain.swapChainImageCount + 1 + 3 + 3)),
              .vkBeginCommandBuffer (VkCommandBuffer.singleTime (w.nextHandle + 1 + env.swapChain.swapChainImageCount + env.swapChain.swapChainImageCount + 1 + 3 + 3)),
              .vkCmdPipelineBarrier (VkCommandBuffer.singleTime (w.nextHandle + 1 + env.swapChain.swapChainImageCount + env.swapChain.swapChainImageCount + 1 + 3 + 3)) .VK_PIPELINE_STAGE_TOP_OF_PIPE_BIT
                .VK_PIPELINE_STAGE_EARLY_FRAGMENT_TESTS_BIT
                ⟨(w.nextHandle + 1 + env.swapChain.swapChainImageCount + env.swapChain.swapChainImageCount + 1 + 3), VK_IMAGE_LAYOUT_UNDEFINED,
                  VK_IMAGE_LAYOUT_DEPTH_STENCIL_ATTACHMENT_OPTIMAL,
                  if hasStencilComponent depthFormat = true then
                    VK_IMAGE_ASPECT_DEPTH_BIT ||| VK_IMAGE_ASPECT_STENCIL_BIT
                  else VK_IMAGE_ASPECT_DEPTH_BIT, 1⟩,
              .vkEndCommandBuffer (VkCommandBuffer.singleTime (w.nextHandle + 1 + env.swapChain.swapChainImageCount + env.swapChain.swapChainImageCount + 1 + 3 + 3)),
              .vkQueueSubmit ⟨[], [], [(VkCommandBuffer.singleTime (w.nextHandle + 1 + env.swapChain.swapChainImageCount + env.swapChain.swapChainImageCount + 1 + 3 + 3))], []⟩ .VK_NULL_HANDLE,
              .vkDeviceWaitIdle,
              .vkFreeCommandBuffers (VkCommandBuffer.singleTime (w.nextHandle + 1 + env.swapChain.swapChainImageCount + env.swapChain.swapChainImageCount + 1 + 3 + 3))] ++
            (List.range env.swapChain.swapChainImageCount).map (fun i => Call.vkCreateFramebuffer
              ⟨(w.nextHandle + 1 + env.swapChain.swapChainImageCount + env.swapChain.swapChainImageCount), [(w.nextHandle + 1 + env.swapChain.swapChainImageCount + env.swapChain.swapChainImageCount + 1) + 2, (w.nextHandle + 1 + env.swapChain.swapChainImageCount + env.swapChain.swapChainImageCount + 1 + 3) + 2, (w.nextHandle + 1 + env.swapChain.swapChainImageCount) + i],
                (chooseSwapExtent env.swapChain.supportDetails.capabilities env.swapChain.extentWidth
              env.swapChain.extentHeight).width,
                (chooseSwapExtent env.swapChain.supportDetails.capabilities env.swapChain.extentWidth
              env.swapChain.extentHeight).height⟩ ((w.nextHandle + 1 + env.swapChain.swapChainImageCount + env.swapChain.swapChainImageCount + 1 + 3 + 4) + i)),
          (w.nextHandle + 1 + env.swapChain.swapChainImageCount + env.swapChain.swapChainImageCount + 1 + 3 + 4) + env.swapChain.swapChainImageCount⟩) := by
  have heq : ∃ after, initVulkan env w = (.ok (), after) := by
    rcases h : initVulkan env w with ⟨o, after⟩
    rw [h] at hok
    exact ⟨after, by rw [show o = .ok () from hok]⟩
  obtain ⟨after, heq⟩ := heq
  rw [heq]
  unfold initVulkan at heq
  simp only [bind_run] at heq
  have hrun := heq
  split at hrun
  swap
  · cases hrun
  rename_i w1 h1
  split at hrun
  swap
  · cases hrun
  rename_i w2 h2
  split at hrun
  swap
  · cases hrun
  rename_i w3 h3
  split at hrun
  swap
  · cases hrun
  rename_i w4 h4
  split at hrun
  swap
  · cases hrun
  rename_i w5 h5
  split at hrun
  swap
  · cases hrun
  rename_i w6 h6
  split at hrun
  swap
  · cases hrun
  rename_i w7 h7
  split at hrun
  swap
  · cases hrun
  rename_i w8 h8
  split at hrun
  swap
  · cases hrun
  rename_i w9 h9
  split at hrun
  swap
  · cases hrun
  rename_i w10 h10
  split at hrun
  swap
  · cases hrun
  rename_i w11 h11
  split at hrun
  swap
  · cases hrun
  rename_i w12 h12
  split at hrun
  swap
  · cases hrun
  rename_i w13 h13
  split at hrun
  swap
  · cases hrun
  rename_i w14 h14
  split at hrun
  swap
  · cases hrun
  rename_i w15 h15
  split at hrun
  swap
  · cases hrun
  rename_i w16 h16
  have e1 := otherFunction_run _ _ _ h1
  subst e1
  have e2 := otherFunction_run _ _ _ h2
  subst e2
  have e3 := otherFunction_run _ _ _ h3
  subst e3
  have e4 := pickPhysicalDevice_run _ _ _ h4
  subst e4
  have e5 := otherFunction_run _ _ _ h5
  subst e5
  obtain ⟨surfaceFormat, hchosen, rfl⟩ := createSwapChain_run _ _ _ _ h6
  have e7 := createSwapChainImageViews_run _ _ _ h7
  simp only [List.length_map, List.length_range] at e7
  rw [map_range_getD_map _ _ (fun image i =>
    Call.vkCreateImageView ⟨image, _, _, _⟩ (_ + i))] at e7
  subst e7
  have e8 := otherFunction_run _ _ _ h8
  subst e8
  have e9 := otherFunction_run _ _ _ h9
  subst e9
  have e10 := createSyncObjects_run env.createSyncObjects _ (by rw [h10])
  rw [e10] at h10
  simp only [Prod.mk.injEq, true_and] at h10
  subst h10
  have e11 := otherFunction_run _ _ _ h11
  subst e11
  obtain ⟨depthFormat0, hd0, e12⟩ := createRenderPass_returns env.swapChain _ (by rw [h12])
  rw [e12] at h12
  simp only [Prod.mk.injEq, true_and] at h12
  subst h12
  obtain ⟨memoryC, rfl⟩ := createColorResources_run _ _ _ h13
  obtain ⟨depthFormat, memoryD, hdepth, rfl⟩ := createDepthResources_run _ _ _ h14
  have hd := findDepthFormat_anywhere _ _ _ hdepth
  have hsame : depthFormat = depthFormat0 := by
    have := (hd _).symm.trans hd0
    simpa using this
  subst hsame
  have e15 := createFramebuffers_run _ _ _ h15
  simp only [List.length_map, List.length_range] at e15
  rw [map_range_getD_map _ _ (fun view i =>
    Call.vkCreateFramebuffer ⟨_, [_, _, view], _, _⟩ (_ + i))] at e15
  subst e15
  have e16 := otherFunction_run _ _ _ h16
  subst e16
  -- the last step
  rcases h17 : otherFunction env.particleDrawerInit _ with ⟨o, last⟩
  rw [h17] at hrun
  simp only [Prod.mk.injEq] at hrun
  obtain ⟨rfl, rfl⟩ := hrun
  have e17 := otherFunction_run _ _ _ h17
  subst e17
  refine ⟨surfaceFormat, depthFormat, memoryC, memoryD, hchosen, hd, ?_⟩
  simp only [List.append_assoc, List.cons_append, List.nil_append, List.singleton_append]

/-! ## Attachments and the swapchain extent -/

theorem toUint32_toInt (x : Nat) (h : x < 4294967296) : toUint32 (toInt x) = x := by
  unfold toUint32 toInt
  split_ifs <;> omega

theorem clamp_lt (v lo hi bound : Nat) (hv : v < bound) (hlo : lo < bound) (hhi : hi < bound) :
    clamp v lo hi < bound := by
  unfold clamp
  split_ifs <;> assumption

theorem toUint32_lt (x : Int) : toUint32 x < 4294967296 := by
  unfold toUint32
  omega

/-- Surface capabilities whose extents are `uint32_t` values give a swap extent whose
components are `uint32_t` values. -/
theorem chooseSwapExtent_uint32 (capabilities : VkSurfaceCapabilitiesKHR) (width height : Int)
    (hcurrent : capabilities.currentExtent.width < 4294967296 ∧
      capabilities.currentExtent.height < 4294967296)
    (hmin : capabilities.minImageExtent.width < 4294967296 ∧
      capabilities.minImageExtent.height < 4294967296)
    (hmax : capabilities.maxImageExtent.width < 4294967296 ∧
      capabilities.maxImageExtent.height < 4294967296) :
    (chooseSwapExtent capabilities width height).width < 4294967296 ∧
      (chooseSwapExtent capabilities width height).height < 4294967296 := by
  unfold chooseSwapExtent
  split_ifs
  · exact hcurrent
  · exact ⟨clamp_lt _ _ _ _ (toUint32_lt _) hmin.1 hmax.1,
      clamp_lt _ _ _ _ (toUint32_lt _) hmin.2 hmax.2⟩

theorem mem_polls (events : List WaitEvents) (c : Call)
    (h : c ∈ (events.map fun event =>
      [Call.glfwWaitEvents, Call.glfwGetFramebufferSize event.width event.height]).flatten) :
    c = .glfwWaitEvents ∨ ∃ width height, c = .glfwGetFramebufferSize width height := by
  simp only [List.mem_flatten, List.mem_map] at h
  obtain ⟨l, ⟨event, -, rfl⟩, hc⟩ := h
  simp only [List.mem_cons, List.mem_singleton, List.not_mem_nil, or_false] at hc
  rcases hc with rfl | rfl
  · exact Or.inl rfl
  · exact Or.inr ⟨_, _, rfl⟩

/-- The polling loop of a recreation that returns: the state it leaves. -/
theorem waitForFramebuffer_polled (env : RecreateEnv) (w polled : World)
    (h : waitForFramebuffer env.waitEvents env.width env.height
      ⟨w.app, w.trace ++ [.recreateSwapChain] ++
        [.glfwGetFramebufferSize env.width env.height], w.nextHandle⟩ = (.ok (), polled)) :
    ∃ (resized : Bool) (polls : List Call),
      polled = ⟨{ w.app with framebufferResized := resized },
        w.trace ++ ([.recreateSwapChain, .glfwGetFramebufferSize env.width env.height] ++ polls),
        w.nextHandle⟩ ∧
      ∀ c ∈ polls, c = .glfwWaitEvents ∨ ∃ width height, c = .glfwGetFramebufferSize width height := by
  obtain ⟨k, -, -, hnh, happ, hend⟩ := waitForFramebuffer_run env.waitEvents env.width
    env.height ⟨w.app, w.trace ++ [.recreateSwapChain] ++
      [.glfwGetFramebufferSize env.width env.height], w.nextHandle⟩
  rw [h] at hnh happ hend
  simp only at hnh happ hend
  rcases hend with ⟨-, htrace, -⟩ | ⟨hblocked, -⟩
  swap
  · cases hblocked
  obtain ⟨papp, ptrace, pnh⟩ := polled
  simp only at hnh happ htrace
  subst hnh htrace
  refine ⟨papp.framebufferResized,
    ((env.waitEvents.take k).map fun event =>
      [Call.glfwWaitEvents, Call.glfwGetFramebufferSize event.width event.height]).flatten,
    ?_, fun c hc => mem_polls _ c hc⟩
  generalize papp.framebufferResized = resized at happ ⊢
  subst happ
  simp only [List.append_assoc, List.cons_append, List.nil_append, List.singleton_append]

/-- The begin of the render pass recorded by `recordCommandBuffer` names the framebuffer
`swapChainFramebuffers[imageIndex]`, the current render pass and, as render area, the
current `swapChainExtent`. -/
theorem recordCommandBuffer_renderArea (env : DrawFrameEnv) (currCommandBuffer : VkCommandBuffer)
    (imageIndex : Nat) (w : World) (commandBuffer : VkCommandBuffer)
    (renderPass framebuffer : Handle) (renderArea : VkExtent2D)
    (h : Call.vkCmdBeginRenderPass commandBuffer renderPass framebuffer renderArea ∈
      (recordCommandBuffer env currCommandBuffer imageIndex w).2.trace.drop w.trace.length) :
    renderArea = w.app.swapChainExtent ∧ renderPass = w.app.renderPass ∧
      w.app.swapChainFramebuffers[imageIndex]? = some framebuffer := by
  unfold recordCommandBuffer at h
  by_cases hb : env.vkBeginCommandBuffer = VK_SUCCESS
  swap
  · simp [hb, bind_run, call, runtime_error] at h
  cases hf : w.app.swapChainFramebuffers[imageIndex]? with
  | none =>
    simp [hb, hf, bind_run, pure_run, call, getApp, index, inRange, outOfRange] at h
  | some found =>
    by_cases he : env.vkEndCommandBuffer = VK_SUCCESS
    · simp [hb, he, hf, bind_run, pure_run, call, getApp, index, inRange] at h
      simp [h]
    · simp [hb, he, hf, bind_run, pure_run, call, getApp, index, inRange, runtime_error] at h
      simp [h]

/-- The image and framebuffer creations in a list of calls made of five groups: calls that
create neither, the creation of the colour image with the rest of its group, the same for
the depth image, again calls that create neither, and the framebuffer creations. -/
theorem creations_of_groups (pre colorRest depthRest mid : List Call)
    (colorInfo depthInfo : VkImageCreateInfo) (colorImage depthImage : Handle)
    (framebufferInfo : Nat → VkFramebufferCreateInfo) (first n : Nat)
    (hne : colorImage ≠ depthImage)
    (hother : ∀ c ∈ pre ++ colorRest ++ depthRest ++ mid,
      (∀ createInfo image, c ≠ .vkCreateImage createInfo image) ∧
        ∀ createInfo framebuffer, c ≠ .vkCreateFramebuffer createInfo framebuffer) :
    (∀ createInfo, Call.vkCreateImage createInfo colorImage ∈
        pre ++ (Call.vkCreateImage colorInfo colorImage :: colorRest) ++
          (Call.vkCreateImage depthInfo depthImage :: depthRest) ++ mid ++
          (List.range n).map (fun i => Call.vkCreateFramebuffer (framebufferInfo i) (first + i)) ↔
        createInfo = colorInfo) ∧
      (∀ createInfo, Call.vkCreateImage createInfo depthImage ∈
        pre ++ (Call.vkCreateImage colorInfo colorImage :: colorRest) ++
          (Call.vkCreateImage depthInfo depthImage :: depthRest) ++ mid ++
          (List.range n).map (fun i => Call.vkCreateFramebuffer (framebufferInfo i) (first + i)) ↔
        createInfo = depthInfo) ∧
      ∀ createInfo framebuffer, Call.vkCreateFramebuffer createInfo framebuffer ∈
        pre ++ (Call.vkCreateImage colorInfo colorImage :: colorRest) ++
          (Call.vkCreateImage depthInfo depthImage :: depthRest) ++ mid ++
          (List.range n).map (fun i => Call.vkCreateFramebuffer (framebufferInfo i) (first + i)) ↔
        ∃ i, i < n ∧ createInfo = framebufferInfo i ∧ framebuffer = first + i := by
  have hpre : ∀ c ∈ pre, _ := fun c hc => hother c (by simp [hc])
  have hcolor : ∀ c ∈ colorRest, _ := fun c hc => hother c (by simp [hc])
  have hdepth : ∀ c ∈ depthRest, _ := fun c hc => hother c (by simp [hc])
  have hmid : ∀ c ∈ mid, _ := fun c hc => hother c (by simp [hc])
  refine ⟨fun createInfo => ?_, fun createInfo => ?_, fun createInfo framebuffer => ?_⟩
  · constructor
    · intro h
      simp only [List.mem_append, List.mem_cons, List.mem_map, List.mem_range,
        Call.vkCreateImage.injEq, reduceCtorEq, and_false, exists_false, or_false] at h
      rcases h with (((h | h | h) | h | h) | h)
      · exact absurd rfl ((hpre _ h).1 _ _)
      · exact h.1
      · exact absurd rfl ((hcolor _ h).1 _ _)
      · exact absurd h.2 hne
      · exact absurd rfl ((hdepth _ h).1 _ _)
      · exact absurd rfl ((hmid _ h).1 _ _)
    · rintro rfl
      simp
  · constructor
    · intro h
      simp only [List.mem_append, List.mem_cons, List.mem_map, List.mem_range,
        Call.vkCreateImage.injEq, reduceCtorEq, and_false, exists_false, or_false] at h
      rcases h with (((h | h | h) | h | h) | h)
      · exact absurd rfl ((hpre _ h).1 _ _)
      · exact absurd h.2.symm hne
      · exact absurd rfl ((hcolor _ h).1 _ _)
      · exact h.1
      · exact absurd rfl ((hdepth _ h).1 _ _)
      · exact absurd rfl ((hmid _ h).1 _ _)
    · rintro rfl
      simp
  · constructor
    · intro h
      simp only [List.mem_append, List.mem_cons, List.mem_map, List.mem_range,
        Call.vkCreateFramebuffer.injEq, reduceCtorEq, false_or] at h
      rcases h with ((((h | h) | h) | h) | h)
      · exact absurd rfl ((hpre _ h).2 _ _)
      · exact absurd rfl ((hcolor _ h).2 _ _)
      · exact absurd rfl ((hdepth _ h).2 _ _)
      · exact absurd rfl ((hmid _ h).2 _ _)
      · obtain ⟨i, hi, h1, h2⟩ := h
        exact ⟨i, hi, h1.symm, h2.symm⟩
    · rintro ⟨i, hi, rfl, rfl⟩
      simp only [List.mem_append, List.mem_map, List.mem_range]
      exact Or.inr ⟨i, hi, rfl⟩

theorem createsAttachment_false (c : Call) (h : c.createsAttachment = false) :
    (∀ createInfo image, c ≠ .vkCreateImage createInfo image) ∧
      ∀ createInfo framebuffer, c ≠ .vkCreateFramebuffer createInfo framebuffer := by
  constructor <;> rintro _ _ rfl <;> simp [Call.createsAttachment] at h

/-- C23: after an `initVulkan` that returns and after a `recreateSwapChain` that returns
(the surface capabilities being `uint32_t` values), the colour image and the depth image
of the final state have each been created by exactly one call of the run, with the width
and height of the final `swapChainExtent`; the framebuffers of the final state are exactly
those created in the run, each with the width and height of that extent; and a
`recordCommandBuffer` in the final state begins its render pass with that extent as render
area. -/
theorem attachments_have_swapChainExtent (env : RecreateEnv) (m : Exec Unit)
    (hm : (∃ init : InitVulkanEnv, init.swapChain = env ∧ m = initVulkan init) ∨
      m = recreateSwapChain env)
    (hcurrent : env.supportDetails.capabilities.currentExtent.width < 4294967296 ∧
      env.supportDetails.capabilities.currentExtent.height < 4294967296)
    (hmin : env.supportDetails.capabilities.minImageExtent.width < 4294967296 ∧
      env.supportDetails.capabilities.minImageExtent.height < 4294967296)
    (hmax : env.supportDetails.capabilities.maxImageExtent.width < 4294967296 ∧
      env.supportDetails.capabilities.maxImageExtent.height < 4294967296)
    (w after : World) (hrun : m w = (.ok (), after)) :
    (∃ createInfo, ∀ other,
        Call.vkCreateImage other after.app.colorImage ∈ after.trace.drop w.trace.length ↔
          other = createInfo) ∧
      (∀ createInfo,
        Call.vkCreateImage createInfo after.app.colorImage ∈ after.trace.drop w.trace.length →
          createInfo.width = after.app.swapChainExtent.width ∧
            createInfo.height = after.app.swapChainExtent.height) ∧
      (∃ createInfo, ∀ other,
        Call.vkCreateImage other after.app.depthImage ∈ after.trace.drop w.trace.length ↔
          other = createInfo) ∧
      (∀ createInfo,
        Call.vkCreateImage createInfo after.app.depthImage ∈ after.trace.drop w.trace.length →
          createInfo.width = after.app.swapChainExtent.width ∧
            createInfo.height = after.app.swapChainExtent.height) ∧
      (∀ framebuffer, framebuffer ∈ after.app.swapChainFramebuffers ↔
        ∃ createInfo, Call.vkCreateFramebuffer createInfo framebuffer ∈
          after.trace.drop w.trace.length) ∧
      (∀ createInfo framebuffer,
        Call.vkCreateFramebuffer createInfo framebuffer ∈ after.trace.drop w.trace.length →
          createInfo.width = after.app.swapChainExtent.width ∧
            createInfo.height = after.app.swapChainExtent.height) ∧
      ∀ (frame : DrawFrameEnv) (currCommandBuffer commandBuffer : VkCommandBuffer)
        (imageIndex : Nat) (renderPass framebuffer : Handle) (renderArea : VkExtent2D),
        Call.vkCmdBeginRenderPass commandBuffer renderPass framebuffer renderArea ∈
            (recordCommandBuffer frame currCommandBuffer imageIndex after).2.trace.drop
              after.trace.length →
          renderArea = after.app.swapChainExtent := by
  have hext := chooseSwapExtent_uint32 env.supportDetails.capabilities env.extentWidth
    env.extentHeight hcurrent hmin hmax
  have hwidth := toUint32_toInt _ hext.1
  have hheight := toUint32_toInt _ hext.2
  have key : ∃ (pre colorRest depthRest mid : List Call)
      (colorInfo depthInfo : VkImageCreateInfo)
      (framebufferInfo : Nat → VkFramebufferCreateInfo) (first n : Nat),
      after.trace.drop w.trace.length =
        pre ++ (Call.vkCreateImage colorInfo after.app.colorImage :: colorRest) ++
          (Call.vkCreateImage depthInfo after.app.depthImage :: depthRest) ++ mid ++
          (List.range n).map (fun i =>
            Call.vkCreateFramebuffer (framebufferInfo i) (first + i)) ∧
      after.app.colorImage ≠ after.app.depthImage ∧
      (∀ c ∈ pre ++ colorRest ++ depthRest ++ mid,
        (∀ createInfo image, c ≠ .vkCreateImage createInfo image) ∧
          ∀ createInfo framebuffer, c ≠ .vkCreateFramebuffer createInfo framebuffer) ∧
      after.app.swapChainFramebuffers = (List.range n).map (fun i => first + i) ∧
      colorInfo.width = after.app.swapChainExtent.width ∧
      colorInfo.height = after.app.swapChainExtent.height ∧
      depthInfo.width = after.app.swapChainExtent.width ∧
      depthInfo.height = after.app.swapChainExtent.height ∧
      ∀ i, (framebufferInfo i).width = after.app.swapChainExtent.width ∧
        (framebufferInfo i).height = after.app.swapChainExtent.height := by
    rcases hm with ⟨init, rfl, rfl⟩ | rfl
    · obtain ⟨surfaceFormat, depthFormat, memoryC, memoryD, -, -, hfinal⟩ :=
        initVulkan_final init w (by rw [hrun])
      rw [hfinal] at hrun
      simp only [Prod.mk.injEq, true_and] at hrun
      subst hrun
      simp only [List.append_assoc, List.drop_left]
      refine ⟨([Call.vkCreateSwapchainKHR
            ⟨imageCount init.swapChain.supportDetails.capabilities, surfaceFormat.format,
              surfaceFormat.colorSpace, (chooseSwapExtent init.swapChain.supportDetails.capabilities init.swapChain.extentWidth
            init.swapChain.extentHeight),
              chooseSwapChainPresentMode init.swapChain.supportDetails.presentModes, 0⟩ w.nextHandle,
          Call.vkGetSwapchainImagesKHR w.nextHandle ((List.range init.swapChain.swapChainImageCount).map fun i => w.nextHandle + 1 + i)] ++
        (List.range init.swapChain.swapChainImageCount).map (fun i => Call.vkCreateImageView
          ⟨w.nextHandle + 1 + i, surfaceFormat.format, VK_IMAGE_ASPECT_COLOR_BIT, 1⟩ ((w.nextHandle + 1 + init.swapChain.swapChainImageCount) + i)) ++
        [Call.vkCreateSemaphore 0 (.imageAvailableSemaphores 0),
          Call.vkCreateSemaphore 0 (.renderFinishedSemaphores 0),
          Call.vkCreateFence VK_FENCE_CREATE_SIGNALED_BIT (.inFlightFences 0),
          Call.vkCreateSemaphore 0 (.computeFinishedSemaphores 0),
          Call.vkCreateFence VK_FENCE_CREATE_SIGNALED_BIT (.computeInFlightFences 0),
          Call.vkCreateSemaphore 0 (.imageAvailableSemaphores 1),
          Call.vkCreateSemaphore 0 (.renderFinishedSemaphores 1),
          Call.vkCreateFence VK_FENCE_CREATE_SIGNALED_BIT (.inFlightFences 1),
          Call.vkCreateSemaphore 0 (.computeFinishedSemaphores 1),
          Call.vkCreateFence VK_FENCE_CREATE_SIGNALED_BIT (.computeInFlightFences 1)] ++
        [Call.vkCreateRenderPass
          ⟨[surfaceFormat.format, depthFormat, surfaceFormat.format], 0, 1, 2⟩ (w.nextHandle + 1 + init.swapChain.swapChainImageCount + init.swapChain.swapChainImageCount)]),
        [Call.vkAllocateMemory memoryC ((w.nextHandle + 1 + init.swapChain.swapChainImageCount + init.swapChain.swapChainImageCount + 1) + 1),
          Call.vkBindImageMemory (w.nextHandle + 1 + init.swapChain.swapChainImageCount + init.swapChain.swapChainImageCount + 1) ((w.nextHandle + 1 + init.swapChain.swapChainImageCount + init.swapChain.swapChainImageCount + 1) + 1),
          Call.vkCreateImageView ⟨(w.nextHandle + 1 + init.swapChain.swapChainImageCount + init.swapChain.swapChainImageCount + 1), surfaceFormat.format, VK_IMAGE_ASPECT_COLOR_BIT, 1⟩
            ((w.nextHandle + 1 + init.swapChain.swapChainImageCount + init.swapChain.swapChainImageCount + 1) + 2)],
        [Call.vkAllocateMemory memoryD ((w.nextHandle + 1 + init.swapChain.swapChainImageCount + init.swapChain.swapChainImageCount + 1 + 3) + 1),
          Call.vkBindImageMemory (w.nextHandle + 1 + init.swapChain.swapChainImageCount + init.swapChain.swapChainImageCount + 1 + 3) ((w.nextHandle + 1 + init.swapChain.swapChainImageCount + init.swapChain.swapChainImageCount + 1 + 3) + 1),
          Call.vkCreateImageView ⟨(w.nextHandle + 1 + init.swapChain.swapChainImageCount + init.swapChain.swapChainImageCount + 1 + 3), depthFormat, VK_IMAGE_ASPECT_DEPTH_BIT, 1⟩ ((w.nextHandle + 1 + init.swapChain.swapChainImageCount + init.swapChain.swapChainImageCount + 1 + 3) + 2),
          Call.vkAllocateCommandBuffers (VkCommandBuffer.singleTime (w.nextHandle + 1 + init.swapChain.swapChainImageCount + init.swapChain.swapChainImageCount + 1 + 3 + 3)),
          Call.vkBeginCommandBuffer (VkCommandBuffer.singleTime (w.nextHandle + 1 + init.swapChain.swapChainImageCount + init.swapChain.swapChainImageCount + 1 + 3 + 3)),
          Call.vkCmdPipelineBarrier (VkCommandBuffer.singleTime (w.nextHandle + 1 + init.swapChain.swapChainImageCount + init.swapChain.swapChainImageCount + 1 + 3 + 3)) .VK_PIPELINE_STAGE_TOP_OF_PIPE_BIT
            .VK_PIPELINE_STAGE_EARLY_FRAGMENT_TESTS_BIT
            ⟨(w.nextHandle + 1 + init.swapChain.swapChainImageCount + init.swapChain.swapChainImageCount + 1 + 3), VK_IMAGE_LAYOUT_UNDEFINED,
              VK_IMAGE_LAYOUT_DEPTH_STENCIL_ATTACHMENT_OPTIMAL,
              if hasStencilComponent depthFormat = true then
                VK_IMAGE_ASPECT_DEPTH_BIT ||| VK_IMAGE_ASPECT_STENCIL_BIT
              else VK_IMAGE_ASPECT_DEPTH_BIT, 1⟩,
          Call.vkEndCommandBuffer (VkCommandBuffer.singleTime (w.nextHandle + 1 + init.swapChain.swapChainImageCount + init.swapChain.swapChainImageCount + 1 + 3 + 3)),
          Call.vkQueueSubmit ⟨[], [], [(VkCommandBuffer.singleTime (w.nextHandle + 1 + init.swapChain.swapChainImageCount + init.swapChain.swapChainImageCount + 1 + 3 + 3))], []⟩ .VK_NULL_HANDLE,
          Call.vkDeviceWaitIdle,
          Call.vkFreeCommandBuffers (VkCommandBuffer.singleTime (w.nextHandle + 1 + init.swapChain.swapChainImageCount + init.swapChain.swapChainImageCount + 1 + 3 + 3))],
        [],
        ⟨toUint32 (toInt (chooseSwapExtent init.swapChain.supportDetails.capabilities init.swapChain.extentWidth
            init.swapChain.extentHeight).width), toUint32 (toInt (chooseSwapExtent init.swapChain.supportDetails.capabilities init.swapChain.extentWidth
            init.swapChain.extentHeight).height), 1,
          surfaceFormat.format, .VK_IMAGE_TILING_OPTIMAL,
          VK_IMAGE_USAGE_TRANSIENT_ATTACHMENT_BIT ||| VK_IMAGE_USAGE_COLOR_ATTACHMENT_BIT,
          init.getMaxUsableSampleCount⟩,
        ⟨toUint32 (toInt (chooseSwapExtent init.swapChain.supportDetails.capabilities init.swapChain.extentWidth
            init.swapChain.extentHeight).width), toUint32 (toInt (chooseSwapExtent init.swapChain.supportDetails.capabilities init.swapChain.extentWidth
            init.swapChain.extentHeight).height), 1,
          depthFormat, .VK_IMAGE_TILING_OPTIMAL,
          VK_IMAGE_USAGE_DEPTH_STENCIL_ATTACHMENT_BIT, init.getMaxUsableSampleCount⟩,
        fun i => ⟨(w.nextHandle + 1 + init.swapChain.swapChainImageCount + init.swapChain.swapChainImageCount), [(w.nextHandle + 1 + init.swapChain.swapChainImageCount + init.swapChain.swapChainImageCount + 1) + 2, (w.nextHandle + 1 + init.swapChain.swapChainImageCount + init.swapChain.swapChainImageCount + 1 + 3) + 2, (w.nextHandle + 1 + init.swapChain.swapChainImageCount) + i],
          (chooseSwapExtent init.swapChain.supportDetails.capabilities init.swapChain.extentWidth
            init.swapChain.extentHeight).width, (chooseSwapExtent init.swapChain.supportDetails.capabilities init.swapChain.extentWidth
            init.swapChain.extentHeight).height⟩,
        w.nextHandle + 1 + init.swapChain.swapChainImageCount + init.swapChain.swapChainImageCount + 1 + 3 + 4, init.swapChain.swapChainImageCount, ?_, ?_, ?_, rfl,
        hwidth, hheight, hwidth, hheight, fun i => ⟨rfl, rfl⟩⟩
      · simp only [List.append_assoc, List.cons_append, List.nil_append, List.append_nil]
      · exact Nat.ne_of_lt (Nat.lt_add_of_pos_right (by decide))
      · intro c hc
        apply createsAttachment_false
        revert c hc
        simp only [List.forall_mem_append, List.forall_mem_cons, List.forall_mem_map,
          List.not_mem_nil, false_implies, implies_true, and_true, Call.createsAttachment]
    · obtain ⟨polled, surfaceFormat, depthFormat, memoryC, memoryD, middle, renderPass, used,
        h1, -, -, -, hmiddle, hfinal⟩ := recreateSwapChain_final env w (by rw [hrun])
      obtain ⟨resized, polls, rfl, hpolls⟩ := waitForFramebuffer_polled env w polled h1
      rw [hfinal] at hrun
      simp only [Prod.mk.injEq, true_and] at hrun
      subst hrun
      simp only [List.append_assoc, List.drop_left]
      have hp : ∀ c ∈ polls, c.createsAttachment = false := by
        intro c hc
        rcases hpolls c hc with rfl | ⟨_, _, rfl⟩ <;> rfl
      have hmid : ∀ c ∈ middle, c.createsAttachment = false := by
        rcases hmiddle with ⟨-, rfl, -, -⟩ | ⟨-, rfl, -, -⟩ <;> simp [Call.createsAttachment]
      refine ⟨([Call.recreateSwapChain, Call.glfwGetFramebufferSize env.width env.height] ++ polls ++
        [Call.vkDeviceWaitIdle] ++
        ([Call.vkDestroyImageView w.app.colorImageView,
            Call.vkDestroyImage w.app.colorImage,
            Call.vkFreeMemory w.app.colorImageMemory,
            Call.vkDestroyImageView w.app.depthImageView,
            Call.vkDestroyImage w.app.depthImage,
            Call.vkFreeMemory w.app.depthImageMemory] ++
          w.app.swapChainFramebuffers.map Call.vkDestroyFramebuffer ++
          (List.range w.app.swapChainImages.length).map (fun i =>
            Call.vkDestroyImageView (w.app.swapChainImageViews.getD i 0)) ++
          [Call.vkDestroySwapchainKHR w.app.swapChain]) ++
        [Call.vkCreateSwapchainKHR
            ⟨imageCount env.supportDetails.capabilities, surfaceFormat.format,
              surfaceFormat.colorSpace, (chooseSwapExtent env.supportDetails.capabilities env.extentWidth env.extentHeight),
              chooseSwapChainPresentMode env.supportDetails.presentModes, 0⟩ w.nextHandle,
          Call.vkGetSwapchainImagesKHR w.nextHandle ((List.range env.swapChainImageCount).map fun i => w.nextHandle + 1 + i)] ++
        (List.range env.swapChainImageCount).map (fun i => Call.vkCreateImageView
          ⟨w.nextHandle + 1 + i, surfaceFormat.format, VK_IMAGE_ASPECT_COLOR_BIT, 1⟩ ((w.nextHandle + 1 + env.swapChainImageCount) + i))),
        [Call.vkAllocateMemory memoryC ((w.nextHandle + 1 + env.swapChainImageCount + env.swapChainImageCount) + 1),
          Call.vkBindImageMemory (w.nextHandle + 1 + env.swapChainImageCount + env.swapChainImageCount) ((w.nextHandle + 1 + env.swapChainImageCount + env.swapChainImageCount) + 1),
          Call.vkCreateImageView ⟨(w.nextHandle + 1 + env.swapChainImageCount + env.swapChainImageCount), surfaceFormat.format, VK_IMAGE_ASPECT_COLOR_BIT, 1⟩
            ((w.nextHandle + 1 + env.swapChainImageCount + env.swapChainImageCount) + 2)],
        [Call.vkAllocateMemory memoryD ((w.nextHandle + 1 + env.swapChainImageCount + env.swapChainImageCount + 3) + 1),
          Call.vkBindImageMemory (w.nextHandle + 1 + env.swapChainImageCount + env.swapChainImageCount + 3) ((w.nextHandle + 1 + env.swapChainImageCount + env.swapChainImageCount + 3) + 1),
          Call.vkCreateImageView ⟨(w.nextHandle + 1 + env.swapChainImageCount + env.swapChainImageCount + 3), depthFormat, VK_IMAGE_ASPECT_DEPTH_BIT, 1⟩ ((w.nextHandle + 1 + env.swapChainImageCount + env.swapChainImageCount + 3) + 2),
          Call.vkAllocateCommandBuffers (VkCommandBuffer.singleTime (w.nextHandle + 1 + env.swapChainImageCount + env.swapChainImageCount + 3 + 3)),
          Call.vkBeginCommandBuffer (VkCommandBuffer.singleTime (w.nextHandle + 1 + env.swapChainImageCount + env.swapChainImageCount + 3 + 3)),
          Call.vkCmdPipelineBarrier (VkCommandBuffer.singleTime (w.nextHandle + 1 + env.swapChainImageCount + env.swapChainImageCount + 3 + 3)) .VK_PIPELINE_STAGE_TOP_OF_PIPE_BIT
            .VK_PIPELINE_STAGE_EARLY_FRAGMENT_TESTS_BIT
            ⟨(w.nextHandle + 1 + env.swapChainImageCount + env.swapChainImageCount + 3), VK_IMAGE_LAYOUT_UNDEFINED,
              VK_IMAGE_LAYOUT_DEPTH_STENCIL_ATTACHMENT_OPTIMAL,
              if hasStencilComponent depthFormat = true then
                VK_IMAGE_ASPECT_DEPTH_BIT ||| VK_IMAGE_ASPECT_STENCIL_BIT
              else VK_IMAGE_ASPECT_DEPTH_BIT, 1⟩,
          Call.vkEndCommandBuffer (VkCommandBuffer.singleTime (w.nextHandle + 1 + env.swapChainImageCount + env.swapChainImageCount + 3 + 3)),
          Call.vkQueueSubmit ⟨[], [], [(VkCommandBuffer.singleTime (w.nextHandle + 1 + env.swapChainImageCount + env.swapChainImageCount + 3 + 3))], []⟩ .VK_NULL_HANDLE,
          Call.vkDeviceWaitIdle,
          Call.vkFreeCommandBuffers (VkCommandBuffer.singleTime (w.nextHandle + 1 + env.swapChainImageCount + env.swapChainImageCount + 3 + 3))],
        middle,
        ⟨toUint32 (toInt (chooseSwapExtent env.supportDetails.capabilities env.extentWidth env.extentHeight).width), toUint32 (toInt (chooseSwapExtent env.supportDetails.capabilities env.extentWidth env.extentHeight).height), 1,
          surfaceFormat.format, .VK_IMAGE_TILING_OPTIMAL,
          VK_IMAGE_USAGE_TRANSIENT_ATTACHMENT_BIT ||| VK_IMAGE_USAGE_COLOR_ATTACHMENT_BIT,
          w.app.msaaSamples⟩,
        ⟨toUint32 (toInt (chooseSwapExtent env.supportDetails.capabilities env.extentWidth env.extentHeight).width), toUint32 (toInt (chooseSwapExtent env.supportDetails.capabilities env.extentWidth env.extentHeight).height), 1,
          depthFormat, .VK_IMAGE_TILING_OPTIMAL,
          VK_IMAGE_USAGE_DEPTH_STENCIL_ATTACHMENT_BIT, w.app.msaaSamples⟩,
        fun i => ⟨renderPass, [(w.nextHandle + 1 + env.swapChainImageCount + env.swapChainImageCount) + 2, (w.nextHandle + 1 + env.swapChainImageCount + env.swapChainImageCount + 3) + 2, (w.nextHandle + 1 + env.swapChainImageCount) + i],
          (chooseSwapExtent env.supportDetails.capabilities env.extentWidth env.extentHeight).width, (chooseSwapExtent env.supportDetails.capabilities env.extentWidth env.extentHeight).height⟩,
        w.nextHandle + 1 + env.swapChainImageCount + env.swapChainImageCount + 3 + 4 + used, env.swapChainImageCount, ?_, ?_, ?_, rfl,
        hwidth, hheight, hwidth, hheight, fun i => ⟨rfl, rfl⟩⟩
      · simp only [List.append_assoc, List.cons_append, List.nil_append, List.append_nil]
      · exact Nat.ne_of_lt (Nat.lt_add_of_pos_right (by decide))
      · intro c hc
        apply createsAttachment_false
        revert c hc
        simp only [List.forall_mem_append, List.forall_mem_cons, List.forall_mem_map,
          List.not_mem_nil, false_implies, implies_true, and_true, true_and,
          Call.createsAttachment]
        exact ⟨hp, hmid⟩
  obtain ⟨pre, colorRest, depthRest, mid, colorInfo, depthInfo, framebufferInfo, first, n,
    hnew, hne, hother, hstored, hcw, hch, hdw, hdh, hsize⟩ := key
  obtain ⟨hcolor, hdepth, hframe⟩ := creations_of_groups pre colorRest depthRest mid colorInfo
    depthInfo _ _ framebufferInfo first n hne hother
  rw [hnew]
  refine ⟨⟨colorInfo, hcolor⟩, fun createInfo h => ?_, ⟨depthInfo, hdepth⟩,
    fun createInfo h => ?_, fun framebuffer => ?_, fun createInfo framebuffer h => ?_,
    fun frame currCommandBuffer commandBuffer imageIndex renderPass framebuffer renderArea h =>
      (recordCommandBuffer_renderArea frame currCommandBuffer imageIndex after commandBuffer
        renderPass framebuffer renderArea h).1⟩
  · rw [(hcolor createInfo).1 h]
    exact ⟨hcw, hch⟩
  · rw [(hdepth createInfo).1 h]
    exact ⟨hdw, hdh⟩
  · rw [hstored]
    simp only [List.mem_map, List.mem_range]
    constructor
    · rintro ⟨i, hi, rfl⟩
      exact ⟨framebufferInfo i, (hframe _ _).2 ⟨i, hi, rfl, rfl⟩⟩
    · rintro ⟨createInfo, h⟩
      obtain ⟨i, hi, -, rfl⟩ := (hframe _ _).1 h
      exact ⟨i, hi, rfl⟩
  · obtain ⟨i, -, rfl, -⟩ := (hframe _ _).1 h
    exact hsize i

theorem returns_eq (r : Outcome Unit × World) (h : r.1 = .ok ()) : r = (.ok (), r.2) := by
  obtain ⟨o, after⟩ := r
  simp only at h
  rw [h]

theorem attachments_have_swapChainExtent_witness :
    initVulkan calmInit bootWorld = (.ok (), (initVulkan calmInit bootWorld).2) ∧
      ∀ createInfo framebuffer,
        Call.vkCreateFramebuffer createInfo framebuffer ∈
            (initVulkan calmInit bootWorld).2.trace.drop bootWorld.trace.length →
          createInfo.width = (initVulkan calmInit bootWorld).2.app.swapChainExtent.width ∧
            createInfo.height = (initVulkan calmInit bootWorld).2.app.swapChainExtent.height :=
  ⟨returns_eq _ (by decide!),
    (attachments_have_swapChainExtent calmRecreate (initVulkan calmInit)
      (Or.inl ⟨calmInit, rfl, rfl⟩) (by decide!) (by decide!) (by decide!) bootWorld _
      (returns_eq _ (by decide!))).2.2.2.2.2.1⟩

/-! ## The lengths of the swapchain vectors -/

theorem recreateSwapChain_lengths (env : RecreateEnv) (w after : World)
    (h : recreateSwapChain env w = (.ok (), after)) :
    after.app.swapChainImages.length = env.swapChainImageCount ∧
      after.app.swapChainImageViews.length = env.swapChainImageCount ∧
      after.app.swapChainFramebuffers.length = env.swapChainImageCount := by
  obtain ⟨polled, surfaceFormat, depthFormat, memoryC, memoryD, middle, renderPass, used,
    -, -, -, -, -, hfinal⟩ := recreateSwapChain_final env w (by rw [h])
  rw [hfinal] at h
  simp only [Prod.mk.injEq, true_and] at h
  subst h
  simp

theorem initVulkan_lengths (env : InitVulkanEnv) (w after : World)
    (h : initVulkan env w = (.ok (), after)) :
    after.app.swapChainImages.length = env.swapChain.swapChainImageCount ∧
      after.app.swapChainImageViews.length = env.swapChain.swapChainImageCount ∧
      after.app.swapChainFramebuffers.length = env.swapChain.swapChainImageCount := by
  obtain ⟨surfaceFormat, depthFormat, memoryC, memoryD, -, -, hfinal⟩ :=
    initVulkan_final env w (by rw [h])
  rw [hfinal] at h
  simp only [Prod.mk.injEq, true_and] at h
  subst h
  simp

/-- A `drawFrame` that returns keeps the three swapchain vectors at one length. -/
theorem drawFrame_lengths (env : DrawFrameEnv) (w : World)
    (hok : (drawFrame env w).1 = .ok ())
    (hinv : w.app.swapChainImages.length = w.app.swapChainImageViews.length ∧
      w.app.swapChainImageViews.length = w.app.swapChainFramebuffers.length) :
    (drawFrame env w).2.app.swapChainImages.length =
        (drawFrame env w).2.app.swapChainImageViews.length ∧
      (drawFrame env w).2.app.swapChainImageViews.length =
        (drawFrame env w).2.app.swapChainFramebuffers.length := by
  by_cases h1 : env.vkAcquireNextImageKHR = VK_ERROR_OUT_OF_DATE_KHR
  · rw [drawFrame_outOfDate env w h1] at hok ⊢
    obtain ⟨ha, hb, hc⟩ := recreateSwapChain_lengths _ _ _ (Prod.ext hok rfl)
    rw [ha, hb, hc]
    exact ⟨rfl, rfl⟩
  by_cases hacq : acquireProceeds env
  swap
  · unfold acquireProceeds at hacq
    rw [drawFrame_acquire_error env w h1 (fun h => hacq (Or.inl h))
      (fun h => hacq (Or.inr h))] at hok
    cases hok
  by_cases hs : workSucceeds env w.app
  swap
  · obtain ⟨s, cs, -, -, heq⟩ := drawFrame_stops_early env w hacq hs
    rw [heq] at hok
    cases hok
  rw [drawFrame_present env w hacq hs] at hok ⊢
  split_ifs at hok ⊢
  · rcases hr : recreateSwapChain env.recreateSwapChain _ with ⟨_ | s, after⟩
    · rw [hr] at hok
      obtain ⟨ha, hb, hc⟩ := recreateSwapChain_lengths _ _ _ hr
      simp only [thenAdvance, advance]
      rw [ha, hb, hc]
      exact ⟨rfl, rfl⟩
    · rw [hr] at hok
      cases hok
  · exact hinv

/-- The main loop keeps the three swapchain vectors at one length. -/
theorem mainLoop_lengths (iterations : List LoopEnv) (w : World)
    (hok : (mainLoop iterations w).1 = .ok ())
    (hinv : w.app.swapChainImages.length = w.app.swapChainImageViews.length ∧
      w.app.swapChainImageViews.length = w.app.swapChainFramebuffers.length) :
    (mainLoop iterations w).2.app.swapChainImages.length =
        (mainLoop iterations w).2.app.swapChainImageViews.length ∧
      (mainLoop iterations w).2.app.swapChainImageViews.length =
        (mainLoop iterations w).2.app.swapChainFramebuffers.length := by
  induction iterations generalizing w with
  | nil => exact hinv
  | cons iteration rest ih =>
    rw [mainLoop_cons] at hok ⊢
    rcases hb : mainLoopBody iteration w with ⟨_ | s, after⟩
    · rw [hb] at hok
      simp only at hok ⊢
      refine ih after hok ?_
      rw [mainLoopBody_run] at hb
      have := drawFrame_lengths iteration.drawFrame
        ⟨if iteration.framebufferResizeCallback = true then
            { w.app with framebufferResized := true }
          else w.app,
          w.trace ++ [.glfwPollEvents], w.nextHandle⟩ (by rw [hb]) (by
        simp only
        split_ifs
        · exact hinv
        · exact hinv)
      rw [hb] at this
      exact this
    · rw [hb] at hok
      cases hok

/-- C28: after an `initVulkan` that returns and after a `recreateSwapChain` that returns,
`swapChainImages`, `swapChainImageViews` and `swapChainFramebuffers` have the same length,
and the main loop keeps it so as long as its iterations return.  With these lengths, the
loop of `cleanupSwapChain` reads `swapChainImageViews` only in range (the function returns,
from the same program state with any calls made before), and for every `imageIndex` below
the number of swapchain images `swapChainFramebuffers[imageIndex]` exists, so that
`recordCommandBuffer` makes no out-of-range read. -/
theorem swapChain_vectors_same_length (env : RecreateEnv) (m : Exec Unit)
    (hm : (∃ init : InitVulkanEnv, init.swapChain = env ∧ m = initVulkan init) ∨
      m = recreateSwapChain env)
    (w after : World) (hrun : m w = (.ok (), after)) :
    after.app.swapChainImages.length = after.app.swapChainImageViews.length ∧
      after.app.swapChainImageViews.length = after.app.swapChainFramebuffers.length ∧
      (∀ iterations : List LoopEnv, (mainLoop iterations after).1 = .ok () →
        (mainLoop iterations after).2.app.swapChainImages.length =
            (mainLoop iterations after).2.app.swapChainImageViews.length ∧
          (mainLoop iterations after).2.app.swapChainImageViews.length =
            (mainLoop iterations after).2.app.swapChainFramebuffers.length) ∧
      (∀ i, i < after.app.swapChainImages.length →
        ∃ imageView, after.app.swapChainImageViews[i]? = some imageView) ∧
      (∀ (trace : List Call) (nextHandle : Handle),
        (cleanupSwapChain ⟨after.app, trace, nextHandle⟩).1 = .ok ()) ∧
      ∀ (frame : DrawFrameEnv) (currCommandBuffer : VkCommandBuffer) (imageIndex : Nat),
        imageIndex < after.app.swapChainImages.length →
          (∃ framebuffer, after.app.swapChainFramebuffers[imageIndex]? = some framebuffer) ∧
            (recordCommandBuffer frame currCommandBuffer imageIndex after).1 ≠
              .stop .undefined := by
  have hlen : after.app.swapChainImages.length = env.swapChainImageCount ∧
      after.app.swapChainImageViews.length = env.swapChainImageCount ∧
      after.app.swapChainFramebuffers.length = env.swapChainImageCount := by
    rcases hm with ⟨init, rfl, rfl⟩ | rfl
    · exact initVulkan_lengths init w after hrun
    · exact recreateSwapChain_lengths env w after hrun
  obtain ⟨ha, hb, hc⟩ := hlen
  have hinv : after.app.swapChainImages.length = after.app.swapChainImageViews.length ∧
      after.app.swapChainImageViews.length = after.app.swapChainFramebuffers.length :=
    ⟨ha.trans hb.symm, hb.trans hc.symm⟩
  refine ⟨hinv.1, hinv.2, fun iterations hok => mainLoop_lengths iterations after hok hinv,
    fun i hi => ?_, fun trace nextHandle => ?_,
    fun frame currCommandBuffer imageIndex hi => ?_⟩
  · exact ⟨_, List.getElem?_eq_getElem (by omega)⟩
  · rw [(cleanupSwapChain_run ⟨after.app, trace, nextHandle⟩).1 (by simp only; omega)]
  · have hlt : imageIndex < after.app.swapChainFramebuffers.length := by omega
    refine ⟨⟨_, List.getElem?_eq_getElem hlt⟩, ?_⟩
    unfold recordCommandBuffer
    by_cases hbegin : frame.vkBeginCommandBuffer = VK_SUCCESS
    · by_cases hend : frame.vkEndCommandBuffer = VK_SUCCESS
      · simp [hbegin, hend, bind_run, pure_run, call, getApp, index, inRange,
          List.getElem?_eq_getElem hlt]
      · simp [hbegin, hend, bind_run, pure_run, call, getApp, index, inRange, runtime_error,
          List.getElem?_eq_getElem hlt]
    · simp [hbegin, bind_run, call, runtime_error]

theorem swapChain_vectors_same_length_witness :
    recreateSwapChain minimisedRecreate startWorld =
        (.ok (), (recreateSwapChain minimisedRecreate startWorld).2) ∧
      (recreateSwapChain minimisedRecreate startWorld).2.app.swapChainImages.length =
        (recreateSwapChain minimisedRecreate startWorld).2.app.swapChainImageViews.length ∧
      (recreateSwapChain minimisedRecreate startWorld).2.app.swapChainImageViews.length =
        (recreateSwapChain minimisedRecreate startWorld).2.app.swapChainFramebuffers.length :=
  ⟨returns_eq _ (by decide!),
    (swapChain_vectors_same_length minimisedRecreate (recreateSwapChain minimisedRecreate)
      (Or.inr rfl) startWorld _ (returns_eq _ (by decide!))).1,
    (swapChain_vectors_same_length minimisedRecreate (recreateSwapChain minimisedRecreate)
      (Or.inr rfl) startWorld _ (returns_eq _ (by decide!))).2.1⟩

/-! ## Two recreations in a row -/

/-- The image format and the extent after a recreation that returns are the ones chosen
from the surface query. -/
theorem recreateSwapChain_format_extent (env : RecreateEnv) (w after : World)
    (h : recreateSwapChain env w = (.ok (), after)) :
    (∃ surfaceFormat,
        chooseSwapChainSurfaceFormat env.supportDetails.formats = some surfaceFormat ∧
        after.app.swapChainImageFormat = surfaceFormat.format) ∧
      after.app.swapChainExtent =
        chooseSwapExtent env.supportDetails.capabilities env.extentWidth env.extentHeight := by
  obtain ⟨polled, surfaceFormat, depthFormat, memoryC, memoryD, middle, renderPass, used,
    -, -, hchosen, -, -, hfinal⟩ := recreateSwapChain_final env w (by rw [h])
  rw [hfinal] at h
  simp only [Prod.mk.injEq, true_and] at h
  subst h
  exact ⟨⟨surfaceFormat, hchosen, rfl⟩, rfl⟩

/-- C22: when `recreateSwapChain` returns and is called again, with the same surface
capabilities, formats and present modes and the same framebuffer size, and returns again,
`swapChainImageFormat` and `swapChainExtent` after the second call are those after the
first; the second call creates no render pass and rebuilds no pipeline, and leaves
`renderPass` as it is. -/
theorem recreateSwapChain_twice (first second : RecreateEnv) (w once twice : World)
    (hsupport : second.supportDetails = first.supportDetails)
    (hwidth : second.extentWidth = first.extentWidth)
    (hheight : second.extentHeight = first.extentHeight)
    (hfirst : recreateSwapChain first w = (.ok (), once))
    (hsecond : recreateSwapChain second once = (.ok (), twice)) :
    twice.app.swapChainImageFormat = once.app.swapChainImageFormat ∧
      twice.app.swapChainExtent = once.app.swapChainExtent ∧
      twice.app.renderPass = once.app.renderPass ∧
      ∀ c ∈ twice.trace.drop once.trace.length,
        (∀ createInfo renderPass, c ≠ .vkCreateRenderPass createInfo renderPass) ∧
          ∀ renderer, c ≠ .Renderer_createPipeline renderer := by
  obtain ⟨⟨format1, hchosen1, hformat1⟩, hextent1⟩ :=
    recreateSwapChain_format_extent first w once hfirst
  obtain ⟨⟨format2, hchosen2, hformat2⟩, hextent2⟩ :=
    recreateSwapChain_format_extent second once twice hsecond
  rw [hsupport, hchosen1] at hchosen2
  simp only [Option.some.injEq] at hchosen2
  subst hchosen2
  have hformat : once.app.swapChainImageFormat = twice.app.swapChainImageFormat :=
    hformat1.trans hformat2.symm
  obtain ⟨before, middle, after, htrace, hbefore, hafter, -, -, hsame⟩ :=
    recreateSwapChain_returns second once (by rw [hsecond])
  rw [hsecond] at htrace hsame
  simp only at htrace hsame
  obtain ⟨rfl, hpass⟩ := hsame hformat
  refine ⟨hformat.symm, ?_, hpass, ?_⟩
  · rw [hextent2, hextent1, hsupport, hwidth, hheight]
  · rw [htrace]
    simp only [List.append_assoc, List.drop_left, List.nil_append]
    intro c hc
    rcases List.mem_append.1 hc with hc | hc
    · exact ⟨(beforeRenderPass_facts c (hbefore c hc)).1,
        (beforeRenderPass_facts c (hbefore c hc)).2.1⟩
    · obtain ⟨createInfo, framebuffer, rfl⟩ := hafter c hc
      simp

theorem recreateSwapChain_twice_witness :
    recreateSwapChain calmRecreate startWorld =
        (.ok (), (recreateSwapChain calmRecreate startWorld).2) ∧
      recreateSwapChain minimisedRecreate (recreateSwapChain calmRecreate startWorld).2 =
        (.ok (), (recreateSwapChain minimisedRecreate
          (recreateSwapChain calmRecreate startWorld).2).2) ∧
      (recreateSwapChain minimisedRecreate
          (recreateSwapChain calmRecreate startWorld).2).2.app.swapChainExtent =
        (recreateSwapChain calmRecreate startWorld).2.app.swapChainExtent :=
  ⟨returns_eq _ (by decide!), returns_eq _ (by decide!),
    (recreateSwapChain_twice calmRecreate minimisedRecreate startWorld _ _ rfl rfl rfl
      (returns_eq _ (by decide!)) (returns_eq _ (by decide!))).2.1⟩

/-! ## Resources across a recreation -/

/-- No call of a recreation destroys a render pass. -/
theorem recreateSwapChain_keeps_render_passes (env : RecreateEnv) (w : World) :
    ∀ c ∈ (recreateSwapChain env w).2.trace.drop w.trace.length,
      ∀ renderPass, c ≠ .vkDestroyRenderPass renderPass := by
  obtain ⟨cs, htrace, hcalls, -⟩ := recreateSwapChain_run env w
  rw [htrace]
  simp only [List.append_assoc, List.drop_left]
  intro c hc renderPass heq
  subst heq
  rcases List.mem_cons.1 hc with h | h
  · cases h
  · have := hcalls _ h
    simp [Call.inRecreate] at this

/-- C27 (refuted by the code): a recreation in which every call succeeds and the surface
format changes from B8G8R8A8_SRGB to B8G8R8A8_UNORM returns with a new render pass stored
in `renderPass`, in place of render pass 11, which no call of the recreation destroys; the
calls of the recreation create one object more than they destroy; and a `cleanup` after
it destroys the new render pass only, so that render pass 11 is never destroyed. -/
theorem recreateSwapChain_leaks_render_pass :
    (recreateSwapChain changedFormatRecreate startWorld).1 = .ok () ∧
      startWorld.app.renderPass = 11 ∧
      (recreateSwapChain changedFormatRecreate startWorld).2.app.renderPass = 114 ∧
      (∃ createInfo, Call.vkCreateRenderPass createInfo 114 ∈
        (recreateSwapChain changedFormatRecreate startWorld).2.trace) ∧
      (∀ c ∈ (recreateSwapChain changedFormatRecreate startWorld).2.trace,
        11 ∉ c.destroyed) ∧
      ((recreateSwapChain changedFormatRecreate startWorld).2.trace.map
          Call.created).flatten.length =
        ((recreateSwapChain changedFormatRecreate startWorld).2.trace.map
          Call.destroyed).flatten.length + 1 ∧
      (cleanup (recreateSwapChain changedFormatRecreate startWorld).2).1 = .ok () ∧
      ∀ c ∈ (cleanup (recreateSwapChain changedFormatRecreate startWorld).2).2.trace,
        11 ∉ c.destroyed := by
  refine ⟨by decide!, rfl, by decide!, ⟨⟨[VK_FORMAT_B8G8R8A8_UNORM, VK_FORMAT_D32_SFLOAT,
    VK_FORMAT_B8G8R8A8_UNORM], 0, 1, 2⟩, by decide!⟩, by decide!, by decide!, by decide!,
    by decide!⟩

/-! ## The particle renderer's descriptor sets -/

/-- For every number `N` of frames in flight that fits an `int`, the index computed for
slot `i < N` is `(i + N - 1) mod N`, and it is below `N`. -/
theorem ssboInIndex_eq (N i : Nat) (hN : 0 < N) (hint : N < 2147483648) (hi : i < N) :
    ssboInIndex i N N = (i + N - 1) % N ∧ ssboInIndex i N N < N := by
  have h1 : toSizeT (N : Int) = N := by
    unfold toSizeT
    omega
  have h2 : (toSizeT ((i : Int) - 1) + N) % 18446744073709551616 = i + N - 1 := by
    unfold toSizeT
    omega
  unfold ssboInIndex
  rw [h1, h2]
  exact ⟨rfl, Nat.mod_lt _ hN⟩

/-- C29: for every number `N` of frames in flight and every slot `i < N`, the index
expression of `createDescriptorSets` gives `(i + N - 1) mod N`, which is below `N`.  With
the two uniform buffers and the two storage buffers in place, `createDescriptorSets`
reads no vector out of range and writes, for each slot `i`, the set that `compute` binds
for frame `i`, with the uniform buffer `i` at binding 0, the storage buffer
`(i + N - 1) mod N` at binding 1 (input) and the storage buffer `i` at binding 2 (output).
With `N = 2` the input index differs from `i`, so input and output are distinct buffers
when the two storage buffers are, and the input of slot `i` is the output of the set of
the other slot and the vertex buffer that `render` draws for the other slot. -/
theorem createDescriptorSets_buffers (self : ParticleRenderer) (allocated : Nat → Handle)
    (huniform : self.uniformBuffers.length = MAX_FRAMES_IN_FLIGHT)
    (hstorage : self.shaderStorageBuffers.length = MAX_FRAMES_IN_FLIGHT) :
    (∀ N i : Nat, 0 < N → N < 2147483648 → i < N →
      ssboInIndex i N N = (i + N - 1) % N ∧ ssboInIndex i N N < N) ∧
    ∃ created writes, self.createDescriptorSets allocated = some (created, writes) ∧
      created.shaderStorageBuffers = self.shaderStorageBuffers ∧
      writes.length = MAX_FRAMES_IN_FLIGHT ∧
      ∀ i, i < MAX_FRAMES_IN_FLIGHT →
        ∃ dstSet uniformBuffer ssboIn ssboOut,
          created.compute i = some dstSet ∧
          writes[i]? = some
            [⟨0, dstSet, .VK_DESCRIPTOR_TYPE_UNIFORM_BUFFER, uniformBuffer⟩,
              ⟨1, dstSet, .VK_DESCRIPTOR_TYPE_STORAGE_BUFFER, ssboIn⟩,
              ⟨2, dstSet, .VK_DESCRIPTOR_TYPE_STORAGE_BUFFER, ssboOut⟩] ∧
          self.uniformBuffers[i]? = some uniformBuffer ∧
          self.shaderStorageBuffers[(i + MAX_FRAMES_IN_FLIGHT - 1) % MAX_FRAMES_IN_FLIGHT]? =
            some ssboIn ∧
          self.shaderStorageBuffers[i]? = some ssboOut ∧
          (i + MAX_FRAMES_IN_FLIGHT - 1) % MAX_FRAMES_IN_FLIGHT ≠ i ∧
          (self.shaderStorageBuffers.Nodup → ssboIn ≠ ssboOut) ∧
          ∀ j, j < MAX_FRAMES_IN_FLIGHT → j ≠ i →
            (i + MAX_FRAMES_IN_FLIGHT - 1) % MAX_FRAMES_IN_FLIGHT = j ∧
            created.render j = some ssboIn ∧
            ∃ otherSet otherUniform otherIn,
              writes[j]? = some
                [⟨0, otherSet, .VK_DESCRIPTOR_TYPE_UNIFORM_BUFFER, otherUniform⟩,
                  ⟨1, otherSet, .VK_DESCRIPTOR_TYPE_STORAGE_BUFFER, otherIn⟩,
                  ⟨2, otherSet, .VK_DESCRIPTOR_TYPE_STORAGE_BUFFER, ssboIn⟩] := by
  refine ⟨fun N i hN hint hi => ssboInIndex_eq N i hN hint hi, ?_⟩
  obtain ⟨uniformBuffers, shaderStorageBuffers, computeDescriptorSets⟩ := self
  simp only [MAX_FRAMES_IN_FLIGHT] at huniform hstorage
  match uniformBuffers, huniform with
  | [u0, u1], _ =>
    match shaderStorageBuffers, hstorage with
    | [s0, s1], _ =>
      refine ⟨⟨[u0, u1], [s0, s1], [allocated 0, allocated 1]⟩,
        [[⟨0, allocated 0, .VK_DESCRIPTOR_TYPE_UNIFORM_BUFFER, u0⟩,
            ⟨1, allocated 0, .VK_DESCRIPTOR_TYPE_STORAGE_BUFFER, s1⟩,
            ⟨2, allocated 0, .VK_DESCRIPTOR_TYPE_STORAGE_BUFFER, s0⟩],
          [⟨0, allocated 1, .VK_DESCRIPTOR_TYPE_UNIFORM_BUFFER, u1⟩,
            ⟨1, allocated 1, .VK_DESCRIPTOR_TYPE_STORAGE_BUFFER, s0⟩,
            ⟨2, allocated 1, .VK_DESCRIPTOR_TYPE_STORAGE_BUFFER, s1⟩]], ?_, rfl, rfl, ?_⟩
      · have hrange : List.range MAX_FRAMES_IN_FLIGHT = [0, 1] := rfl
        have h0 : ssboInIndex ((0 : Nat) : Int) 2 ((MAX_FRAMES_IN_FLIGHT : Nat) : Int) = 1 := by
          decide
        have h1 : ssboInIndex ((1 : Nat) : Int) 2 ((MAX_FRAMES_IN_FLIGHT : Nat) : Int) = 0 := by
          decide
        unfold ParticleRenderer.createDescriptorSets
        simp only [hrange, List.map, List.length, ParticleRenderer.updateDescriptorSets,
          ParticleRenderer.writeDescriptorSets, h0, h1]
        rfl
      · intro i hi
        simp only [MAX_FRAMES_IN_FLIGHT] at hi ⊢
        interval_cases i
        · refine ⟨allocated 0, u0, s1, s0, rfl, rfl, rfl, rfl, rfl, by decide, ?_, ?_⟩
          · intro hnodup heq
            simp [heq] at hnodup
          · intro j hj hne
            interval_cases j
            · exact absurd rfl hne
            · exact ⟨rfl, rfl, _, _, _, rfl⟩
        · refine ⟨allocated 1, u1, s0, s1, rfl, rfl, rfl, rfl, rfl, by decide, ?_, ?_⟩
          · intro hnodup heq
            simp [heq] at hnodup
          · intro j hj hne
            interval_cases j
            · exact ⟨rfl, rfl, _, _, _, rfl⟩
            · exact absurd rfl hne

theorem createDescriptorSets_buffers_witness :
    particleBuffers.uniformBuffers.length = MAX_FRAMES_IN_FLIGHT ∧
      particleBuffers.shaderStorageBuffers.length = MAX_FRAMES_IN_FLIGHT ∧
      ∃ created writes,
        particleBuffers.createDescriptorSets (fun i => 41 + i) = some (created, writes) ∧
        created.shaderStorageBuffers = particleBuffers.shaderStorageBuffers ∧
        writes.length = MAX_FRAMES_IN_FLIGHT := by
  obtain ⟨created, writes, h1, h2, h3, -⟩ :=
    (createDescriptorSets_buffers particleBuffers (fun i => 41 + i) rfl rfl).2
  exact ⟨rfl, rfl, created, writes, h1, h2, h3⟩

/-! ## The mesh renderer's vertex deduplication -/

theorem floatValue_eq_iff (a b : FloatValue) (hb : b.eq b = true) :
    a.eq b = true ↔ a = b := by
  cases a <;> cases b <;> simp_all [FloatValue.eq]

theorem vec2_eq_iff (a b : vec2) (hb : b.eq b = true) : a.eq b = true ↔ a = b := by
  obtain ⟨ax, ay⟩ := a
  obtain ⟨bx, b_y⟩ := b
  simp only [vec2.eq, Bool.and_eq_true] at hb ⊢
  rw [floatValue_eq_iff _ _ hb.1, floatValue_eq_iff _ _ hb.2]
  simp

theorem vec3_eq_iff (a b : vec3) (hb : b.eq b = true) : a.eq b = true ↔ a = b := by
  obtain ⟨ax, ay, az⟩ := a
  obtain ⟨bx, b_y, bz⟩ := b
  simp only [vec3.eq, Bool.and_eq_true] at hb ⊢
  rw [floatValue_eq_iff _ _ hb.1.1, floatValue_eq_iff _ _ hb.1.2, floatValue_eq_iff _ _ hb.2]
  simp [and_assoc]

/-- For a vertex without NaN component, `operator==` is equality. -/
theorem vertex_eq_iff (u v : Vertex) (hv : v.eq v = true) : u.eq v = true ↔ u = v := by
  obtain ⟨up, uc, uu⟩ := u
  obtain ⟨vp, vc, vu⟩ := v
  simp only [Vertex.eq, Bool.and_eq_true] at hv ⊢
  have h1 : ∀ a b : vec3, b.eq b = true → (b.eq a = true ↔ a = b) := by
    intro a b hb
    constructor
    · intro h
      have ha : a.eq a = true := by
        obtain ⟨ax, ay, az⟩ := a
        obtain ⟨bx, b_y, bz⟩ := b
        simp only [vec3.eq, Bool.and_eq_true] at h hb ⊢
        refine ⟨⟨?_, ?_⟩, ?_⟩
        · cases ax <;> cases bx <;> simp_all [FloatValue.eq]
        · cases ay <;> cases b_y <;> simp_all [FloatValue.eq]
        · cases az <;> cases bz <;> simp_all [FloatValue.eq]
      exact ((vec3_eq_iff b a ha).1 h).symm
    · rintro rfl
      exact hb
  have h2 : ∀ a b : vec2, b.eq b = true → (b.eq a = true ↔ a = b) := by
    intro a b hb
    constructor
    · intro h
      have ha : a.eq a = true := by
        obtain ⟨ax, ay⟩ := a
        obtain ⟨bx, b_y⟩ := b
        simp only [vec2.eq, Bool.and_eq_true] at h hb ⊢
        refine ⟨?_, ?_⟩
        · cases ax <;> cases bx <;> simp_all [FloatValue.eq]
        · cases ay <;> cases b_y <;> simp_all [FloatValue.eq]
      exact ((vec2_eq_iff b a ha).1 h).symm
    · rintro rfl
      exact hb
  rw [h1 up vp hv.1.1, h1 uc vc hv.1.2, h2 uu vu hv.2]
  simp [and_assoc]

theorem unorderedMap_find_append (map : UnorderedMap) (key : Vertex) (value : Nat)
    (u : Vertex) :
    UnorderedMap.find (map ++ [(key, value)]) u =
      match UnorderedMap.find map u with
      | some found => some found
      | none => if key.eq u then some value else none := by
  induction map with
  | nil => simp [UnorderedMap.find]
  | cons entry rest ih =>
    by_cases h : entry.1.eq u = true
    · simp [UnorderedMap.find, h]
    · simp only [List.cons_append, UnorderedMap.find, h, Bool.false_eq_true, if_false]
      exact ih

theorem unorderedMap_assign_of_find_none (map : UnorderedMap) (key : Vertex) (value : Nat)
    (h : UnorderedMap.find map key = none) :
    UnorderedMap.assign map key value = map ++ [(key, value)] := by
  induction map with
  | nil => rfl
  | cons entry rest ih =>
    simp only [UnorderedMap.find] at h
    split_ifs at h with he
    simp only [UnorderedMap.assign, he, List.cons_append]
    rw [ih h]
    simp

/-- One step of the loop on a vertex without NaN component, when the map holds the index
of every vertex stored so far: the vertex is appended unless it is stored already, and the
index pushed is its position in `vertices`. -/
theorem loadModelStep_spec (map : UnorderedMap) (self : MeshRenderer) (v : Vertex)
    (hv : v.eq v = true) (hlen : self.vertices.length < 4294967296)
    (hfind : ∀ u, u.eq u = true → UnorderedMap.find map u =
      if u ∈ self.vertices then some (self.vertices.indexOf u) else none) :
    ∃ map', loadModelStep (map, self) v =
        (map', ⟨if v ∈ self.vertices then self.vertices else self.vertices ++ [v],
          self.indices ++
            [(if v ∈ self.vertices then self.vertices else self.vertices ++ [v]).indexOf v]⟩) ∧
      ∀ u, u.eq u = true → UnorderedMap.find map' u =
        if u ∈ (if v ∈ self.vertices then self.vertices else self.vertices ++ [v]) then
          some ((if v ∈ self.vertices then self.vertices else self.vertices ++ [v]).indexOf u)
        else none := by
  have hkey := hfind v hv
  by_cases hmem : v ∈ self.vertices
  · simp only [hmem, if_true] at hkey ⊢
    refine ⟨map, ?_, hfind⟩
    simp [loadModelStep, UnorderedMap.count, UnorderedMap.subscript, hkey]
  · simp only [hmem, if_false] at hkey ⊢
    have hnew : ∀ u, u.eq u = true →
        UnorderedMap.find (map ++ [(v, self.vertices.length % 4294967296)]) u =
          if u ∈ self.vertices ++ [v] then some ((self.vertices ++ [v]).indexOf u)
          else none := by
      intro u hu
      rw [unorderedMap_find_append, hfind u hu, Nat.mod_eq_of_lt hlen]
      by_cases hum : u ∈ self.vertices
      · simp [hum, List.indexOf_append_of_mem hum]
      · by_cases huv : u = v
        · subst huv
          simp [hum, hu, List.indexOf_append_of_not_mem hum]
        · have hne : ¬ v.eq u = true := fun h => huv ((vertex_eq_iff v u hu).1 h).symm
          simp [hum, huv, hne]
    refine ⟨map ++ [(v, self.vertices.length % 4294967296)], ?_, hnew⟩
    have hsub := hnew v hv
    simp only [List.mem_append, List.mem_singleton, or_true, if_true] at hsub
    simp [loadModelStep, UnorderedMap.count, UnorderedMap.subscript, hkey,
      unorderedMap_assign_of_find_none map v _ hkey, hsub]

/-- The loop from a state in which `p` has been processed: `vertices` holds the vertices of
`p` without repetition in the order of their first occurrence, the map holds their
positions, and `indices` holds the position of each vertex of `p`. -/
theorem loadModelLoop_spec (rest p : List Vertex) (map : UnorderedMap) (self : MeshRenderer)
    (hnan : ∀ v ∈ rest, v.eq v = true)
    (hlen : p.length + rest.length ≤ 4294967296)
    (hfind : ∀ u, u.eq u = true → UnorderedMap.find map u =
      if u ∈ self.vertices then some (self.vertices.indexOf u) else none)
    (hnodup : self.vertices.Nodup)
    (hmem : ∀ v, v ∈ self.vertices ↔ v ∈ p)
    (hsmall : self.vertices.length ≤ p.length)
    (horder : (self.vertices.map fun v => p.indexOf v).Pairwise (· < ·))
    (hind : self.indices = p.map fun v => self.vertices.indexOf v) :
    (loadModelLoop rest (map, self)).2.vertices.Nodup ∧
      (∀ v, v ∈ (loadModelLoop rest (map, self)).2.vertices ↔ v ∈ p ++ rest) ∧
      ((loadModelLoop rest (map, self)).2.vertices.map fun v =>
        (p ++ rest).indexOf v).Pairwise (· < ·) ∧
      (loadModelLoop rest (map, self)).2.indices =
        (p ++ rest).map fun v => (loadModelLoop rest (map, self)).2.vertices.indexOf v := by
  induction rest generalizing p map self with
  | nil =>
    simp only [loadModelLoop, List.append_nil]
    exact ⟨hnodup, hmem, horder, hind⟩
  | cons v rest ih =>
    have hv := hnan v (List.mem_cons_self _ _)
    simp only [List.length_cons] at hlen
    obtain ⟨map', hstep, hfind'⟩ := loadModelStep_spec map self v hv (by omega) hfind
    simp only [loadModelLoop]
    rw [hstep]
    have happ : p ++ v :: rest = (p ++ [v]) ++ rest := by simp
    rw [happ]
    apply ih (p ++ [v]) map' _ (fun u hu => hnan u (List.mem_cons_of_mem _ hu))
      (by simp only [List.length_append, List.length_singleton]; omega) hfind'
    · -- no repetition
      by_cases hm : v ∈ self.vertices
      · simpa [hm] using hnodup
      · simp only [hm, if_false]
        exact List.Nodup.append hnodup (List.nodup_singleton v) (by simpa using hm)
    · -- the vertices stored are those processed
      intro u
      by_cases hm : v ∈ self.vertices
      · simp only [hm, if_true, List.mem_append, List.mem_singleton, hmem]
        constructor
        · exact Or.inl
        · rintro (h | rfl)
          · exact h
          · exact (hmem _).1 hm
      · simp only [hm, if_false, List.mem_append, List.mem_singleton, hmem]
    · -- at most one vertex per corner
      by_cases hm : v ∈ self.vertices
      · simp only [hm, if_true, List.length_append, List.length_singleton]
        omega
      · simp only [hm, if_false, List.length_append, List.length_singleton]
        omega
    · -- the order of first occurrence
      have hold : (self.vertices.map fun u => (p ++ [v]).indexOf u) =
          self.vertices.map fun u => p.indexOf u :=
        List.map_congr_left fun u hu => List.indexOf_append_of_mem ((hmem u).1 hu)
      by_cases hm : v ∈ self.vertices
      · simp only [hm, if_true]
        rw [hold]
        exact horder
      · simp only [hm, if_false, List.map_append, List.map_singleton]
        rw [hold, List.pairwise_append]
        refine ⟨horder, List.pairwise_singleton _ _, ?_⟩
        intro a ha b hb
        simp only [List.mem_map] at ha
        obtain ⟨u, hu, rfl⟩ := ha
        simp only [List.mem_singleton] at hb
        subst hb
        have hvp : v ∉ p := fun h => hm ((hmem v).2 h)
        rw [List.indexOf_append_of_not_mem hvp]
        have := List.indexOf_lt_length.2 ((hmem u).1 hu)
        omega
    · -- the indices
      simp only [List.map_append, List.map_singleton]
      rw [hind]
      congr 1
      apply List.map_congr_left
      intro u hu
      by_cases hm : v ∈ self.vertices
      · simp only [hm, if_true]
      · simp only [hm, if_false]
        exact (List.indexOf_append_of_mem ((hmem u).2 hu)).symm

/-- C30 (as stated, refuted): with the face corners `cornerVertex` and then `nanVertex`,
whose first coordinate is NaN, `loadModel` stores both vertices and pushes the index 0 for
both corners, so that `vertices[indices[1]]` is `cornerVertex`, which is not the vertex of
corner 1 and does not compare equal to it. -/
theorem loadModel_nan_vertex :
    (MeshRenderer.loadModel [cornerVertex, nanVertex]).vertices = [cornerVertex, nanVertex] ∧
      (MeshRenderer.loadModel [cornerVertex, nanVertex]).indices = [0, 0] ∧
      cornerVertex ≠ nanVertex ∧
      cornerVertex.eq nanVertex = false := by
  decide

/-- C30 (amended): for every sequence of at most 2^32 face-corner vertices without NaN
component, `loadModel` leaves in `vertices` the vertices of the corners without
repetition (no two entries are equal, nor compare equal with `operator==`), in the order
of their first occurrence among the corners, and in `indices` one entry for each corner,
in order, each smaller than the length of `vertices`, with `vertices[indices[k]]` equal
to the vertex of corner `k`. -/
theorem loadModel_deduplicates (corners : List Vertex)
    (hnan : ∀ v ∈ corners, v.eq v = true) (hlen : corners.length ≤ 4294967296) :
    (MeshRenderer.loadModel corners).vertices.Nodup ∧
      (MeshRenderer.loadModel corners).vertices.Pairwise (fun a b => a.eq b = false) ∧
      (∀ v, v ∈ (MeshRenderer.loadModel corners).vertices ↔ v ∈ corners) ∧
      ((MeshRenderer.loadModel corners).vertices.map fun v =>
        corners.indexOf v).Pairwise (· < ·) ∧
      (MeshRenderer.loadModel corners).indices.length = corners.length ∧
      ∀ k (hk : k < corners.length),
        ∃ index, (MeshRenderer.loadModel corners).indices[k]? = some index ∧
          index < (MeshRenderer.loadModel corners).vertices.length ∧
          (MeshRenderer.loadModel corners).vertices[index]? = some corners[k] := by
  obtain ⟨hnodup, hmem, horder, hind⟩ := loadModelLoop_spec corners [] [] ⟨[], []⟩ hnan
    (by simpa using hlen) (by intro u _; simp [UnorderedMap.find]) List.nodup_nil
    (by simp) (by simp) (by simp) (by simp)
  simp only [List.nil_append] at hmem horder hind
  unfold MeshRenderer.loadModel
  refine ⟨hnodup, ?_, hmem, horder, by rw [hind, List.length_map], ?_⟩
  · refine hnodup.imp_of_mem ?_
    intro a b ha hb hne
    have hbb : b.eq b = true := hnan b ((hmem b).1 hb)
    cases h : a.eq b with
    | false => rfl
    | true => exact absurd ((vertex_eq_iff a b hbb).1 h) hne
  · intro k hk
    have hin : corners[k] ∈ (loadModelLoop corners ([], ⟨[], []⟩)).2.vertices :=
      (hmem _).2 (List.getElem_mem _)
    have hlt := List.indexOf_lt_length.2 hin
    refine ⟨_, ?_, hlt, ?_⟩
    · rw [hind, List.getElem?_map, List.getElem?_eq_getElem hk]
      rfl
    · rw [List.getElem?_eq_getElem hlt, List.getElem_indexOf]

theorem loadModel_deduplicates_witness :
    (∀ v ∈ [cornerVertex, originVertex, cornerVertex], v.eq v = true) ∧
      (MeshRenderer.loadModel [cornerVertex, originVertex, cornerVertex]).vertices.Nodup ∧
      (MeshRenderer.loadModel [cornerVertex, originVertex, cornerVertex]).indices.length = 3 :=
  ⟨by decide,
    (loadModel_deduplicates [cornerVertex, originVertex, cornerVertex] (by decide)
      (by decide)).1,
    (loadModel_deduplicates [cornerVertex, originVertex, cornerVertex] (by decide)
      (by decide)).2.2.2.2.1⟩

end VulkanTutorial
